import Mathlib

/-!
Verification development for the PyNIfTI `NiftiFile` wrapper
(`src/nifti/niftifile.py`).

The Python code is shallowly embedded:
* header float fields become `Rat`, integer fields `Int`, text fields `String`;
* the dynamically typed header dictionary becomes an association list of
  `String × HVal`, where `HVal` is a small universe of the value shapes the
  code actually stores (ints, floats, strings, int lists, float lists, and
  2-d float matrices);
* in-place mutation with exceptions becomes a function returning the
  (possibly partially updated) header together with an optional error, so
  that the state visible to the caller after a raised exception is exactly
  represented;
* the external `clibs` routines (libniftiio) are not part of the source tree;
  where a claim needs them they are modelled from the spec and marked as such.
-/

/-- Python exception kinds that the embedded code can raise.  `valueError`
carries the message of the corresponding `raise ValueError` line;
`indexError` models an out-of-range list subscript; `typeError` models
applying a length/indexing operation to a value of the wrong shape;
`nameError` models the reference to the undefined `nifti_filetype_ids`
in `save`; `runtimeError` models `raise RuntimeError`. -/
inductive PyError where
  | valueError (msg : String)
  | indexError
  | typeError
  | nameError
  | runtimeError (msg : String)
  deriving DecidableEq, Repr

instance {ε α : Type} [DecidableEq ε] [DecidableEq α] : DecidableEq (Except ε α) := fun x y =>
  match x, y with
  | .ok a, .ok b =>
    if h : a = b then isTrue (by rw [h]) else isFalse (by intro hc; cases hc; exact h rfl)
  | .error a, .error b =>
    if h : a = b then isTrue (by rw [h]) else isFalse (by intro hc; cases hc; exact h rfl)
  | .ok _, .error _ => isFalse (by intro hc; cases hc)
  | .error _, .ok _ => isFalse (by intro hc; cases hc)

/-- The table of file type identifiers (`NiftiFile.filetypes`). -/
def filetypes : List String :=
  ["ANALYZE", "NIFTI", "NIFTI_PAIR", "ANALYZE_GZ", "NIFTI_GZ", "NIFTI_PAIR_GZ"]

/-- Python `s.split('.')` on the character list of `s`: splits at every dot
and keeps empty components, so the result is always non-empty.  (A structural
implementation is used instead of `String.splitOn` so that concrete inputs
reduce inside the kernel.) -/
def splitDotChars : List Char → List (List Char)
  | [] => [[]]
  | c :: rest =>
    match splitDotChars rest with
    | [] => [[]]
    | h :: t => if c = '.' then [] :: h :: t else (c :: h) :: t

/-- Python `filename.split('.')`. -/
def pySplitDot (s : String) : List String :=
  (splitDotChars s.data).map String.mk

/-- Python `'.'.join(parts)`. -/
def pyJoinDot (parts : List String) : String :=
  String.mk (joinDotChars (parts.map String.data))
where
  joinDotChars : List (List Char) → List Char
    | [] => []
    | [l] => l
    | l :: rest => l ++ '.' :: joinDotChars rest

/-- Embedding of `NiftiFile.splitFilename`.  The Python subscript
`parts[-2]` raises `IndexError` when only one component is present, which
the `parts.length < 2` branch models. -/
def splitFilename (filename : String) : Except PyError (String × String) :=
  let parts := pySplitDot filename
  if parts.getLastD "" = "gz" then
    if parts.length < 2 then
      .error .indexError
    else if parts.getD (parts.length - 2) "" ≠ "nii" ∧
            parts.getD (parts.length - 2) "" ≠ "hdr" then
      .ok (filename, "")
    else
      .ok (pyJoinDot (parts.take (parts.length - 2)),
           pyJoinDot (parts.drop (parts.length - 2)))
  else
    if parts.getLastD "" ≠ "nii" ∧ parts.getLastD "" ≠ "hdr" then
      .ok (filename, "")
    else
      .ok (pyJoinDot parts.dropLast, parts.getLastD "")

/-- Modelled from the spec: the three `clibs.NIFTI_FTYPE_*` container-kind
constants used by `save` (the `clibs` module is not under `src/`). -/
inductive NiftiFType where
  | analyze
  | nifti1_1
  | nifti1_2
  deriving DecidableEq, Repr

/-- Python `filetype.startswith('NIFTI')` (structural, for kernel
reduction). -/
def pyStartsWithNIFTI (s : String) : Bool :=
  s.data.take 5 = "NIFTI".data

/-- Embedding of the filename/filetype resolution performed by `save`
(lines 449–485) on a first save with an explicit filename: it returns the
header path, the image path and the container kind assigned to
`self.__nimg`.  The actual write, the forced data load and the
`cal_min`/`cal_max` refresh are external `clibs` I/O and are not part of the
resolution.  An invalid `filetype` raises `NameError` in the source because
the error message references the undefined `nifti_filetype_ids`. -/
def save (filename : String) (filetype : String) :
    Except PyError (String × String × NiftiFType) :=
  if filetype ∈ filetypes then
    match splitFilename filename with
    | .error e => .error e
    | .ok (base, ext₀) =>
      let ext := if ext₀ = "" then "nii" else ext₀
      if ext = "nii.gz" ∨ ext = "nii" then
        .ok (base ++ "." ++ ext, base ++ "." ++ ext, .nifti1_1)
      else if ext = "hdr" then
        .ok (base ++ ".hdr", base ++ ".img",
             if pyStartsWithNIFTI filetype then .nifti1_2 else .analyze)
      else if ext = "hdr.gz" then
        .ok (base ++ ".hdr.gz", base ++ ".img.gz",
             if pyStartsWithNIFTI filetype then .nifti1_2 else .analyze)
      else
        .error (.runtimeError "Unhandled filetype.")
  else
    .error .nameError

/-- The NIfTI-1 header record (`nifti_1_header`), with the fields the Python
code reads or writes.  Float fields are embedded as `Rat`, the four-element
`srow_*` rows and the eight-element `dim`/`pixdim` arrays as lists. -/
structure NiftiHeader where
  sizeof_hdr : Int
  data_type : String
  db_name : String
  extents : Int
  session_error : Int
  regular : String
  dim_info : String
  dim : List Int
  intent_p1 : Rat
  intent_p2 : Rat
  intent_p3 : Rat
  intent_code : Int
  datatype : Int
  bitpix : Int
  slice_start : Int
  pixdim : List Rat
  vox_offset : Rat
  scl_slope : Rat
  scl_inter : Rat
  slice_end : Int
  slice_code : Int
  xyzt_units : Int
  cal_max : Rat
  cal_min : Rat
  slice_duration : Rat
  toffset : Rat
  glmax : Int
  glmin : Int
  descrip : String
  aux_file : String
  qform_code : Int
  sform_code : Int
  quatern_b : Rat
  quatern_c : Rat
  quatern_d : Rat
  qoffset_x : Rat
  qoffset_y : Rat
  qoffset_z : Rat
  srow_x : List Rat
  srow_y : List Rat
  srow_z : List Rat
  intent_name : String
  magic : String
  deriving DecidableEq

/-- Modelled from the spec: the template header produced by
`clibs.nifti_simple_init_nim` followed by `clibs.nifti_convert_nim2nhdr`
(§3: `sizeof_hdr = 348`, a minimal one-dimensional shape, unit spacings,
`magic` one of the two literals, zeroed orientation).  The `clibs` module is
not under `src/`; the concrete default values only have to satisfy the §3
invariants, no claim depends on more. -/
def defaultNhdr : NiftiHeader where
  sizeof_hdr := 348
  data_type := ""
  db_name := ""
  extents := 0
  session_error := 0
  regular := "r"
  dim_info := ""
  dim := [1, 1, 1, 1, 1, 1, 1, 1]
  intent_p1 := 0
  intent_p2 := 0
  intent_p3 := 0
  intent_code := 0
  datatype := 2
  bitpix := 8
  slice_start := 0
  pixdim := [1, 1, 1, 1, 1, 1, 1, 1]
  vox_offset := 352
  scl_slope := 1
  scl_inter := 0
  slice_end := 0
  slice_code := 0
  xyzt_units := 0
  cal_max := 0
  cal_min := 0
  slice_duration := 0
  toffset := 0
  glmax := 0
  glmin := 0
  descrip := ""
  aux_file := ""
  qform_code := 0
  sform_code := 0
  quatern_b := 0
  quatern_c := 0
  quatern_d := 0
  qoffset_x := 0
  qoffset_y := 0
  qoffset_z := 0
  srow_x := [0, 0, 0, 0]
  srow_y := [0, 0, 0, 0]
  srow_z := [0, 0, 0, 0]
  intent_name := ""
  magic := "n+1"


/-- The value shapes a header dictionary entry can take: Python ints,
floats (embedded as rationals), strings, lists of ints, lists of floats,
and 2-d float arrays (a list of rows). -/
inductive HVal where
  | i (n : Int)
  | f (q : Rat)
  | s (v : String)
  | il (l : List Int)
  | fl (l : List Rat)
  | m (rows : List (List Rat))
  deriving DecidableEq

/-- A header dictionary: a string-keyed association list (Python `dict`
with the keys this code uses; keys are assumed unique). -/
abbrev HDict := List (String × HVal)

/-- Python `d[k]` / `d.has_key(k)`: first entry with the given key. -/
def dictGet (d : HDict) (k : String) : Option HVal :=
  match d with
  | [] => none
  | (k', v) :: rest => if k' = k then some v else dictGet rest k

/-- One `if hdrdict.has_key(...)` block of `updateNiftiHeaderFromDict`:
the dictionary key it reads and the effect of the block body on the header,
returning the header as left by the block together with the exception it
raised, if any.  SWIG type checks on assignment of a wrongly shaped value
are modelled as `typeError`. -/
structure StepSpec where
  key : String
  exec : HVal → NiftiHeader → NiftiHeader × Option PyError

/-- Lines 163-166: `data_type`, at most 9 characters. -/
def uDataType : StepSpec where
  key := "data_type"
  exec := fun v h =>
    match v with
    | .s s =>
      if s.length > 9 then
        (h, some (.valueError "Nifti header property data_type must not be longer than 9 characters."))
      else ({ h with data_type := s }, none)
    | _ => (h, some .typeError)

/-- Lines 167-170: `db_name`, at most 79 characters (the message in the
source mistakenly says 17). -/
def uDbName : StepSpec where
  key := "db_name"
  exec := fun v h =>
    match v with
    | .s s =>
      if s.length > 79 then
        (h, some (.valueError "Nifti header property db_name must not be longer than 17 characters."))
      else ({ h with db_name := s }, none)
    | _ => (h, some .typeError)

/-- Lines 172-173: `extents`, unchecked assignment. -/
def uExtents : StepSpec where
  key := "extents"
  exec := fun v h =>
    match v with
    | .i n => ({ h with extents := n }, none)
    | _ => (h, some .typeError)

/-- Lines 174-175: `session_error`, unchecked assignment. -/
def uSessionError : StepSpec where
  key := "session_error"
  exec := fun v h =>
    match v with
    | .i n => ({ h with session_error := n }, none)
    | _ => (h, some .typeError)

/-- Lines 177-180: `regular`, rejected only when longer than one
character. -/
def uRegular : StepSpec where
  key := "regular"
  exec := fun v h =>
    match v with
    | .s s =>
      if s.length > 1 then
        (h, some (.valueError "Nifti header property regular has to be a single character."))
      else ({ h with regular := s }, none)
    | _ => (h, some .typeError)

/-- Lines 181-184: `dim_info`, rejected only when longer than one
character. -/
def uDimInfo : StepSpec where
  key := "dim_info"
  exec := fun v h =>
    match v with
    | .s s =>
      if s.length > 1 then
        (h, some (.valueError "Nifti header property dim_info has to be a single character."))
      else ({ h with dim_info := s }, none)
    | _ => (h, some .typeError)

/-- Lines 186-188: `for i in range(8): dim[i] = hdrdict['dim'][i]`.
When the supplied list is shorter than 8 the Python loop writes the
existing entries and then raises `IndexError`; the header returned here
carries exactly those partial writes. -/
def uDim : StepSpec where
  key := "dim"
  exec := fun v h =>
    match v with
    | .il l =>
      ({ h with dim := (List.range 8).map fun i =>
            if i < l.length then l.getD i 0 else h.dim.getD i 0 },
       if l.length < 8 then some .indexError else none)
    | _ => (h, some .typeError)

/-- Lines 189-190: `intent_p1`. -/
def uIntentP1 : StepSpec where
  key := "intent_p1"
  exec := fun v h =>
    match v with
    | .f q => ({ h with intent_p1 := q }, none)
    | _ => (h, some .typeError)

/-- Lines 191-192: `intent_p2`. -/
def uIntentP2 : StepSpec where
  key := "intent_p2"
  exec := fun v h =>
    match v with
    | .f q => ({ h with intent_p2 := q }, none)
    | _ => (h, some .typeError)

/-- Lines 193-194: `intent_p3`. -/
def uIntentP3 : StepSpec where
  key := "intent_p3"
  exec := fun v h =>
    match v with
    | .f q => ({ h with intent_p3 := q }, none)
    | _ => (h, some .typeError)

/-- Lines 195-196: `intent_code`. -/
def uIntentCode : StepSpec where
  key := "intent_code"
  exec := fun v h =>
    match v with
    | .i n => ({ h with intent_code := n }, none)
    | _ => (h, some .typeError)

/-- Lines 197-198: `datatype`. -/
def uDatatype : StepSpec where
  key := "datatype"
  exec := fun v h =>
    match v with
    | .i n => ({ h with datatype := n }, none)
    | _ => (h, some .typeError)

/-- Lines 199-200: `bitpix`. -/
def uBitpix : StepSpec where
  key := "bitpix"
  exec := fun v h =>
    match v with
    | .i n => ({ h with bitpix := n }, none)
    | _ => (h, some .typeError)

/-- Lines 201-202: `slice_start`. -/
def uSliceStart : StepSpec where
  key := "slice_start"
  exec := fun v h =>
    match v with
    | .i n => ({ h with slice_start := n }, none)
    | _ => (h, some .typeError)

/-- Lines 203-205: `pixdim`, element-wise like `dim`. -/
def uPixdim : StepSpec where
  key := "pixdim"
  exec := fun v h =>
    match v with
    | .fl l =>
      ({ h with pixdim := (List.range 8).map fun i =>
            if i < l.length then l.getD i 0 else h.pixdim.getD i 0 },
       if l.length < 8 then some .indexError else none)
    | _ => (h, some .typeError)

/-- Lines 206-207: `vox_offset`. -/
def uVoxOffset : StepSpec where
  key := "vox_offset"
  exec := fun v h =>
    match v with
    | .f q => ({ h with vox_offset := q }, none)
    | _ => (h, some .typeError)

/-- Lines 208-209: `scl_slope`. -/
def uSclSlope : StepSpec where
  key := "scl_slope"
  exec := fun v h =>
    match v with
    | .f q => ({ h with scl_slope := q }, none)
    | _ => (h, some .typeError)

/-- Lines 210-211: `scl_inter`. -/
def uSclInter : StepSpec where
  key := "scl_inter"
  exec := fun v h =>
    match v with
    | .f q => ({ h with scl_inter := q }, none)
    | _ => (h, some .typeError)

/-- Lines 212-213: `slice_end`. -/
def uSliceEnd : StepSpec where
  key := "slice_end"
  exec := fun v h =>
    match v with
    | .i n => ({ h with slice_end := n }, none)
    | _ => (h, some .typeError)

/-- Lines 214-215: `slice_code`. -/
def uSliceCode : StepSpec where
  key := "slice_code"
  exec := fun v h =>
    match v with
    | .i n => ({ h with slice_code := n }, none)
    | _ => (h, some .typeError)

/-- Lines 216-217: `xyzt_units`. -/
def uXyztUnits : StepSpec where
  key := "xyzt_units"
  exec := fun v h =>
    match v with
    | .i n => ({ h with xyzt_units := n }, none)
    | _ => (h, some .typeError)

/-- Lines 218-219: `cal_max`. -/
def uCalMax : StepSpec where
  key := "cal_max"
  exec := fun v h =>
    match v with
    | .f q => ({ h with cal_max := q }, none)
    | _ => (h, some .typeError)

/-- Lines 220-221: `cal_min`. -/
def uCalMin : StepSpec where
  key := "cal_min"
  exec := fun v h =>
    match v with
    | .f q => ({ h with cal_min := q }, none)
    | _ => (h, some .typeError)

/-- Lines 222-223: `slice_duration`. -/
def uSliceDuration : StepSpec where
  key := "slice_duration"
  exec := fun v h =>
    match v with
    | .f q => ({ h with slice_duration := q }, none)
    | _ => (h, some .typeError)

/-- Lines 224-225: `toffset`. -/
def uToffset : StepSpec where
  key := "toffset"
  exec := fun v h =>
    match v with
    | .f q => ({ h with toffset := q }, none)
    | _ => (h, some .typeError)

/-- Lines 226-227: `glmax`. -/
def uGlmax : StepSpec where
  key := "glmax"
  exec := fun v h =>
    match v with
    | .i n => ({ h with glmax := n }, none)
    | _ => (h, some .typeError)

/-- Lines 228-229: `glmin`. -/
def uGlmin : StepSpec where
  key := "glmin"
  exec := fun v h =>
    match v with
    | .i n => ({ h with glmin := n }, none)
    | _ => (h, some .typeError)

/-- Lines 231-234: `descrip`, at most 79 characters. -/
def uDescrip : StepSpec where
  key := "descrip"
  exec := fun v h =>
    match v with
    | .s s =>
      if s.length > 79 then
        (h, some (.valueError "Nifti header property descrip must not be longer than 79 characters."))
      else ({ h with descrip := s }, none)
    | _ => (h, some .typeError)

/-- Lines 235-238: `aux_file`, at most 23 characters. -/
def uAuxFile : StepSpec where
  key := "aux_file"
  exec := fun v h =>
    match v with
    | .s s =>
      if s.length > 23 then
        (h, some (.valueError "Nifti header property aux_file must not be longer than 23 characters."))
      else ({ h with aux_file := s }, none)
    | _ => (h, some .typeError)

/-- Lines 240-241: `qform_code`. -/
def uQformCode : StepSpec where
  key := "qform_code"
  exec := fun v h =>
    match v with
    | .i n => ({ h with qform_code := n }, none)
    | _ => (h, some .typeError)

/-- Lines 243-244: `sform_code`. -/
def uSformCode : StepSpec where
  key := "sform_code"
  exec := fun v h =>
    match v with
    | .i n => ({ h with sform_code := n }, none)
    | _ => (h, some .typeError)

/-- Lines 246-252: `quatern`, must have exactly 3 elements; they become
`quatern_b`, `quatern_c`, `quatern_d`. -/
def uQuatern : StepSpec where
  key := "quatern"
  exec := fun v h =>
    match v with
    | .fl l =>
      if l.length ≠ 3 then
        (h, some (.valueError "Nifti header property quatern must be 3-tuple of floats."))
      else
        ({ h with quatern_b := l.getD 0 0, quatern_c := l.getD 1 0,
                  quatern_d := l.getD 2 0 }, none)
    | _ => (h, some .typeError)

/-- Lines 254-260: `qoffset`, must have exactly 3 elements; they become
`qoffset_x`, `qoffset_y`, `qoffset_z`. -/
def uQoffset : StepSpec where
  key := "qoffset"
  exec := fun v h =>
    match v with
    | .fl l =>
      if l.length ≠ 3 then
        (h, some (.valueError "Nifti header property qoffset must be 3-tuple of floats."))
      else
        ({ h with qoffset_x := l.getD 0 0, qoffset_y := l.getD 1 0,
                  qoffset_z := l.getD 2 0 }, none)
    | _ => (h, some .typeError)

/-- Lines 262-271: `sform`, must have numpy shape `(4,4)` (for a
rectangular 2-d array: 4 rows of 4 entries); rows 0-2 are written to
`srow_x`, `srow_y`, `srow_z` by the three `range(4)` loops. -/
def uSform : StepSpec where
  key := "sform"
  exec := fun v h =>
    match v with
    | .m rows =>
      if rows.length = 4 ∧ (rows.all fun r => r.length = 4) then
        ({ h with
            srow_x := (List.range 4).map fun i => (rows.getD 0 []).getD i 0,
            srow_y := (List.range 4).map fun i => (rows.getD 1 []).getD i 0,
            srow_z := (List.range 4).map fun i => (rows.getD 2 []).getD i 0 },
         none)
      else
        (h, some (.valueError "Nifti header property sform must be 4x4 matrix."))
    | _ => (h, some .typeError)

/-- Lines 273-276: `intent_name`, at most 15 characters. -/
def uIntentName : StepSpec where
  key := "intent_name"
  exec := fun v h =>
    match v with
    | .s s =>
      if s.length > 15 then
        (h, some (.valueError "Nifti header property intent_name must not be longer than 15 characters."))
      else ({ h with intent_name := s }, none)
    | _ => (h, some .typeError)

/-- Lines 278-281: `magic`, must be exactly `ni1` or `n+1`. -/
def uMagic : StepSpec where
  key := "magic"
  exec := fun v h =>
    match v with
    | .s s =>
      if s ≠ "ni1" ∧ s ≠ "n+1" then
        (h, some (.valueError "Nifti header property magic must be ni1 or n+1."))
      else ({ h with magic := s }, none)
    | _ => (h, some .typeError)

/-- Runs the `has_key` blocks in order.  A block whose key is absent is
skipped; the first exception stops the run, and the header accumulated up
to (and inside) the failing block is returned alongside the error —
mirroring in-place mutation of the `nhdr` struct with a raised Python
exception. -/
def runSteps : List StepSpec → HDict → NiftiHeader → NiftiHeader × Option PyError
  | [], _, h => (h, none)
  | u :: rest, d, h =>
    match dictGet d u.key with
    | none => runSteps rest d h
    | some v =>
      match (u.exec v h).2 with
      | none => runSteps rest d (u.exec v h).1
      | some e => ((u.exec v h).1, some e)

/-- The `has_key` blocks of `updateNiftiHeaderFromDict` (lines 150-281) in
source order. -/
def niftiHeaderSteps : List StepSpec :=
  [uDataType, uDbName, uExtents, uSessionError, uRegular, uDimInfo, uDim,
   uIntentP1, uIntentP2, uIntentP3, uIntentCode, uDatatype, uBitpix,
   uSliceStart, uPixdim, uVoxOffset, uSclSlope, uSclInter, uSliceEnd,
   uSliceCode, uXyztUnits, uCalMax, uCalMin, uSliceDuration, uToffset,
   uGlmax, uGlmin, uDescrip, uAuxFile, uQformCode, uSformCode, uQuatern,
   uQoffset, uSform, uIntentName, uMagic]

/-- Embedding of `NiftiFile.updateNiftiHeaderFromDict` (lines 150-281). -/
def updateNiftiHeaderFromDict (nhdr : NiftiHeader) (hdrdict : HDict) :
    NiftiHeader × Option PyError :=
  runSteps niftiHeaderSteps hdrdict nhdr

/-- Embedding of `NiftiFile.nhdr2dict` (lines 97-147): the `auto_convert`
fields in source order, then `pixdim`, `dim`, `sform`, `quatern`,
`qoffset`.  Line 140 of the source builds row 2 of `sform` from `srow_y`
(not `srow_z`); that is reproduced here verbatim. -/
def nhdr2dict (nhdr : NiftiHeader) : HDict :=
  [("session_error", .i nhdr.session_error),
   ("extents", .i nhdr.extents),
   ("sizeof_hdr", .i nhdr.sizeof_hdr),
   ("slice_duration", .f nhdr.slice_duration),
   ("slice_start", .i nhdr.slice_start),
   ("xyzt_units", .i nhdr.xyzt_units),
   ("cal_max", .f nhdr.cal_max),
   ("intent_p1", .f nhdr.intent_p1),
   ("intent_p2", .f nhdr.intent_p2),
   ("intent_p3", .f nhdr.intent_p3),
   ("intent_code", .i nhdr.intent_code),
   ("sform_code", .i nhdr.sform_code),
   ("cal_min", .f nhdr.cal_min),
   ("scl_slope", .f nhdr.scl_slope),
   ("slice_code", .i nhdr.slice_code),
   ("bitpix", .i nhdr.bitpix),
   ("descrip", .s nhdr.descrip),
   ("glmin", .i nhdr.glmin),
   ("dim_info", .s nhdr.dim_info),
   ("glmax", .i nhdr.glmax),
   ("data_type", .s nhdr.data_type),
   ("aux_file", .s nhdr.aux_file),
   ("intent_name", .s nhdr.intent_name),
   ("vox_offset", .f nhdr.vox_offset),
   ("db_name", .s nhdr.db_name),
   ("scl_inter", .f nhdr.scl_inter),
   ("magic", .s nhdr.magic),
   ("datatype", .i nhdr.datatype),
   ("regular", .s nhdr.regular),
   ("slice_end", .i nhdr.slice_end),
   ("qform_code", .i nhdr.qform_code),
   ("toffset", .f nhdr.toffset),
   ("pixdim", .fl ((List.range 8).map fun i => nhdr.pixdim.getD i 0)),
   ("dim", .il ((List.range 8).map fun i => nhdr.dim.getD i 0)),
   ("sform", .m [(List.range 4).map fun i => nhdr.srow_x.getD i 0,
                 (List.range 4).map fun i => nhdr.srow_y.getD i 0,
                 (List.range 4).map fun i => nhdr.srow_y.getD i 0,
                 [0, 0, 0, 1]]),
   ("quatern", .fl [nhdr.quatern_b, nhdr.quatern_c, nhdr.quatern_d]),
   ("qoffset", .fl [nhdr.qoffset_x, nhdr.qoffset_y, nhdr.qoffset_z])]


/-- The header produced by a successful run: each present key's block body
applied in order (used to characterise `runSteps` on its success path). -/
def applySteps : List StepSpec → HDict → NiftiHeader → NiftiHeader
  | [], _, h => h
  | u :: rest, d, h =>
    match dictGet d u.key with
    | none => applySteps rest d h
    | some v => applySteps rest d (u.exec v h).1

theorem runSteps_cons_absent (u : StepSpec) (rest : List StepSpec) (d : HDict)
    (h : NiftiHeader) (hg : dictGet d u.key = none) :
    runSteps (u :: rest) d h = runSteps rest d h := by
  simp [runSteps, hg]

theorem runSteps_cons_ok (u : StepSpec) (rest : List StepSpec) (d : HDict)
    (h : NiftiHeader) (v : HVal) (hg : dictGet d u.key = some v)
    (he : (u.exec v h).2 = none) :
    runSteps (u :: rest) d h = runSteps rest d (u.exec v h).1 := by
  simp [runSteps, hg, he]

theorem runSteps_cons_err (u : StepSpec) (rest : List StepSpec) (d : HDict)
    (h : NiftiHeader) (v : HVal) (e : PyError) (hg : dictGet d u.key = some v)
    (he : (u.exec v h).2 = some e) :
    runSteps (u :: rest) d h = ((u.exec v h).1, some e) := by
  simp [runSteps, hg, he]

theorem applySteps_cons_absent (u : StepSpec) (rest : List StepSpec) (d : HDict)
    (h : NiftiHeader) (hg : dictGet d u.key = none) :
    applySteps (u :: rest) d h = applySteps rest d h := by
  simp [applySteps, hg]

theorem applySteps_cons_present (u : StepSpec) (rest : List StepSpec) (d : HDict)
    (h : NiftiHeader) (v : HVal) (hg : dictGet d u.key = some v) :
    applySteps (u :: rest) d h = applySteps rest d (u.exec v h).1 := by
  simp [applySteps, hg]

theorem runSteps_append (L₁ L₂ : List StepSpec) (d : HDict) (h : NiftiHeader) :
    runSteps (L₁ ++ L₂) d h =
      match (runSteps L₁ d h).2 with
      | none => runSteps L₂ d (runSteps L₁ d h).1
      | some e => ((runSteps L₁ d h).1, some e) := by
  induction L₁ generalizing h with
  | nil => simp [runSteps]
  | cons u rest ih =>
    rw [List.cons_append]
    cases hg : dictGet d u.key with
    | none => rw [runSteps_cons_absent u _ d h hg, runSteps_cons_absent u rest d h hg, ih h]
    | some v =>
      cases he : (u.exec v h).2 with
      | none =>
        rw [runSteps_cons_ok u _ d h v hg he, runSteps_cons_ok u rest d h v hg he,
          ih (u.exec v h).1]
      | some e =>
        rw [runSteps_cons_err u _ d h v e hg he, runSteps_cons_err u rest d h v e hg he]

theorem applySteps_append (L₁ L₂ : List StepSpec) (d : HDict) (h : NiftiHeader) :
    applySteps (L₁ ++ L₂) d h = applySteps L₂ d (applySteps L₁ d h) := by
  induction L₁ generalizing h with
  | nil => rfl
  | cons u rest ih =>
    rw [List.cons_append]
    cases hg : dictGet d u.key with
    | none => rw [applySteps_cons_absent u _ d h hg, applySteps_cons_absent u rest d h hg, ih h]
    | some v =>
      rw [applySteps_cons_present u _ d h v hg, applySteps_cons_present u rest d h v hg,
        ih (u.exec v h).1]

theorem runSteps_fst_frame {α : Type} (π : NiftiHeader → α) (L : List StepSpec) (d : HDict)
    (hp : ∀ u ∈ L, ∀ v h, dictGet d u.key = some v → π (u.exec v h).1 = π h) :
    ∀ h, π (runSteps L d h).1 = π h := by
  induction L with
  | nil => intro h; rfl
  | cons u rest ih =>
    intro h
    have hrest : ∀ w ∈ rest, ∀ v h', dictGet d w.key = some v → π (w.exec v h').1 = π h' :=
      fun w hw => hp w (List.mem_cons_of_mem _ hw)
    cases hg : dictGet d u.key with
    | none => rw [runSteps_cons_absent u rest d h hg]; exact ih hrest h
    | some v =>
      have hstep : π (u.exec v h).1 = π h := hp u (List.mem_cons_self _ _) v h hg
      cases he : (u.exec v h).2 with
      | none => rw [runSteps_cons_ok u rest d h v hg he, ih hrest (u.exec v h).1]; exact hstep
      | some e => rw [runSteps_cons_err u rest d h v e hg he]; exact hstep

theorem applySteps_frame {α : Type} (π : NiftiHeader → α) (L : List StepSpec) (d : HDict)
    (hp : ∀ u ∈ L, ∀ v h, dictGet d u.key = some v → π (u.exec v h).1 = π h) :
    ∀ h, π (applySteps L d h) = π h := by
  induction L with
  | nil => intro h; rfl
  | cons u rest ih =>
    intro h
    have hrest : ∀ w ∈ rest, ∀ v h', dictGet d w.key = some v → π (w.exec v h').1 = π h' :=
      fun w hw => hp w (List.mem_cons_of_mem _ hw)
    cases hg : dictGet d u.key with
    | none => rw [applySteps_cons_absent u rest d h hg]; exact ih hrest h
    | some v =>
      rw [applySteps_cons_present u rest d h v hg, ih hrest (u.exec v h).1]
      exact hp u (List.mem_cons_self _ _) v h hg

theorem runSteps_ok_fst (L : List StepSpec) (d : HDict) (h : NiftiHeader)
    (hok : (runSteps L d h).2 = none) : (runSteps L d h).1 = applySteps L d h := by
  induction L generalizing h with
  | nil => rfl
  | cons u rest ih =>
    cases hg : dictGet d u.key with
    | none =>
      rw [runSteps_cons_absent u rest d h hg] at hok ⊢
      rw [applySteps_cons_absent u rest d h hg]
      exact ih h hok
    | some v =>
      cases he : (u.exec v h).2 with
      | none =>
        rw [runSteps_cons_ok u rest d h v hg he] at hok ⊢
        rw [applySteps_cons_present u rest d h v hg]
        exact ih (u.exec v h).1 hok
      | some e =>
        rw [runSteps_cons_err u rest d h v e hg he] at hok
        exact absurd hok (by simp)

theorem runSteps_ok_of_valid (L : List StepSpec) (d : HDict)
    (hv : ∀ u ∈ L, ∀ v, dictGet d u.key = some v → ∀ h, (u.exec v h).2 = none) :
    ∀ h, runSteps L d h = (applySteps L d h, none) := by
  induction L with
  | nil => intro h; rfl
  | cons u rest ih =>
    intro h
    have hrest : ∀ w ∈ rest, ∀ v, dictGet d w.key = some v → ∀ h', (w.exec v h').2 = none :=
      fun w hw => hv w (List.mem_cons_of_mem _ hw)
    cases hg : dictGet d u.key with
    | none =>
      rw [runSteps_cons_absent u rest d h hg, applySteps_cons_absent u rest d h hg]
      exact ih hrest h
    | some v =>
      have hstep := hv u (List.mem_cons_self _ _) v hg h
      rw [runSteps_cons_ok u rest d h v hg hstep, applySteps_cons_present u rest d h v hg]
      exact ih hrest (u.exec v h).1

theorem runSteps_ok_checks (L : List StepSpec) (d : HDict) (h : NiftiHeader)
    (hok : (runSteps L d h).2 = none) :
    ∀ u ∈ L, ∀ v, dictGet d u.key = some v → ∃ h', (u.exec v h').2 = none := by
  induction L generalizing h with
  | nil => intro u hu; cases hu
  | cons w rest ih =>
    intro u hu v hv
    rcases List.mem_cons.mp hu with rfl | hmem
    · cases he : (u.exec v h).2 with
      | none => exact ⟨h, he⟩
      | some e =>
        rw [runSteps_cons_err u rest d h v e hv he] at hok
        exact absurd hok (by simp)
    · cases hg : dictGet d w.key with
      | none =>
        rw [runSteps_cons_absent w rest d h hg] at hok
        exact ih h hok u hmem v hv
      | some v' =>
        cases he : (w.exec v' h).2 with
        | none =>
          rw [runSteps_cons_ok w rest d h v' hg he] at hok
          exact ih (w.exec v' h).1 hok u hmem v hv
        | some e =>
          rw [runSteps_cons_err w rest d h v' e hg he] at hok
          exact absurd hok (by simp)

theorem runSteps_stuck (L₁ L₂ : List StepSpec) (u : StepSpec) (d : HDict) (v : HVal)
    (hget : dictGet d u.key = some v) (herr : ∀ h, (u.exec v h).2 ≠ none) :
    ∀ h, (runSteps (L₁ ++ u :: L₂) d h).2 ≠ none := by
  intro h
  rw [runSteps_append]
  cases hr : (runSteps L₁ d h).2 with
  | none =>
    cases he : (u.exec v (runSteps L₁ d h).1).2 with
    | none => exact absurd he (herr (runSteps L₁ d h).1)
    | some e =>
      rw [runSteps_cons_err u L₂ d (runSteps L₁ d h).1 v e hget he]
      simp
  | some e => simp

theorem applySteps_field {α : Type} (π : NiftiHeader → α) (L₁ L₂ : List StepSpec)
    (u : StepSpec) (d : HDict) (v : HVal) (x : α)
    (hget : dictGet d u.key = some v)
    (hx : ∀ h, π (u.exec v h).1 = x)
    (hp : ∀ w ∈ L₂, ∀ v' h, dictGet d w.key = some v' → π (w.exec v' h).1 = π h) :
    ∀ h, π (applySteps (L₁ ++ u :: L₂) d h) = x := by
  intro h
  rw [applySteps_append, applySteps_cons_present u L₂ d (applySteps L₁ d h) v hget,
    applySteps_frame π L₂ d hp]
  exact hx (applySteps L₁ d h)

/-!
Shape lemmas: each `has_key` block of the update writes only the header
fields belonging to its own dictionary key, whatever the supplied value
and whatever the outcome of its validity check.
-/

theorem uDataType_shape (v : HVal) (h : NiftiHeader) :
    ∃ x, (uDataType.exec v h).1 = { h with data_type := x } := by
  cases v <;> first
    | exact ⟨_, rfl⟩
    | (simp only [uDataType]; split <;> exact ⟨_, rfl⟩)

theorem uDbName_shape (v : HVal) (h : NiftiHeader) :
    ∃ x, (uDbName.exec v h).1 = { h with db_name := x } := by
  cases v <;> first
    | exact ⟨_, rfl⟩
    | (simp only [uDbName]; split <;> exact ⟨_, rfl⟩)

theorem uExtents_shape (v : HVal) (h : NiftiHeader) :
    ∃ x, (uExtents.exec v h).1 = { h with extents := x } := by
  cases v <;> exact ⟨_, rfl⟩

theorem uSessionError_shape (v : HVal) (h : NiftiHeader) :
    ∃ x, (uSessionError.exec v h).1 = { h with session_error := x } := by
  cases v <;> exact ⟨_, rfl⟩

theorem uRegular_shape (v : HVal) (h : NiftiHeader) :
    ∃ x, (uRegular.exec v h).1 = { h with regular := x } := by
  cases v <;> first
    | exact ⟨_, rfl⟩
    | (simp only [uRegular]; split <;> exact ⟨_, rfl⟩)

theorem uDimInfo_shape (v : HVal) (h : NiftiHeader) :
    ∃ x, (uDimInfo.exec v h).1 = { h with dim_info := x } := by
  cases v <;> first
    | exact ⟨_, rfl⟩
    | (simp only [uDimInfo]; split <;> exact ⟨_, rfl⟩)

theorem uDim_shape (v : HVal) (h : NiftiHeader) :
    ∃ x, (uDim.exec v h).1 = { h with dim := x } := by
  cases v <;> exact ⟨_, rfl⟩

theorem uIntentP1_shape (v : HVal) (h : NiftiHeader) :
    ∃ x, (uIntentP1.exec v h).1 = { h with intent_p1 := x } := by
  cases v <;> exact ⟨_, rfl⟩

theorem uIntentP2_shape (v : HVal) (h : NiftiHeader) :
    ∃ x, (uIntentP2.exec v h).1 = { h with intent_p2 := x } := by
  cases v <;> exact ⟨_, rfl⟩

theorem uIntentP3_shape (v : HVal) (h : NiftiHeader) :
    ∃ x, (uIntentP3.exec v h).1 = { h with intent_p3 := x } := by
  cases v <;> exact ⟨_, rfl⟩

theorem uIntentCode_shape (v : HVal) (h : NiftiHeader) :
    ∃ x, (uIntentCode.exec v h).1 = { h with intent_code := x } := by
  cases v <;> exact ⟨_, rfl⟩

theorem uDatatype_shape (v : HVal) (h : NiftiHeader) :
    ∃ x, (uDatatype.exec v h).1 = { h with datatype := x } := by
  cases v <;> exact ⟨_, rfl⟩

theorem uBitpix_shape (v : HVal) (h : NiftiHeader) :
    ∃ x, (uBitpix.exec v h).1 = { h with bitpix := x } := by
  cases v <;> exact ⟨_, rfl⟩

theorem uSliceStart_shape (v : HVal) (h : NiftiHeader) :
    ∃ x, (uSliceStart.exec v h).1 = { h with slice_start := x } := by
  cases v <;> exact ⟨_, rfl⟩

theorem uPixdim_shape (v : HVal) (h : NiftiHeader) :
    ∃ x, (uPixdim.exec v h).1 = { h with pixdim := x } := by
  cases v <;> exact ⟨_, rfl⟩

theorem uVoxOffset_shape (v : HVal) (h : NiftiHeader) :
    ∃ x, (uVoxOffset.exec v h).1 = { h with vox_offset := x } := by
  cases v <;> exact ⟨_, rfl⟩

theorem uSclSlope_shape (v : HVal) (h : NiftiHeader) :
    ∃ x, (uSclSlope.exec v h).1 = { h with scl_slope := x } := by
  cases v <;> exact ⟨_, rfl⟩

theorem uSclInter_shape (v : HVal) (h : NiftiHeader) :
    ∃ x, (uSclInter.exec v h).1 = { h with scl_inter := x } := by
  cases v <;> exact ⟨_, rfl⟩

theorem uSliceEnd_shape (v : HVal) (h : NiftiHeader) :
    ∃ x, (uSliceEnd.exec v h).1 = { h with slice_end := x } := by
  cases v <;> exact ⟨_, rfl⟩

theorem uSliceCode_shape (v : HVal) (h : NiftiHeader) :
    ∃ x, (uSliceCode.exec v h).1 = { h with slice_code := x } := by
  cases v <;> exact ⟨_, rfl⟩

theorem uXyztUnits_shape (v : HVal) (h : NiftiHeader) :
    ∃ x, (uXyztUnits.exec v h).1 = { h with xyzt_units := x } := by
  cases v <;> exact ⟨_, rfl⟩

theorem uCalMax_shape (v : HVal) (h : NiftiHeader) :
    ∃ x, (uCalMax.exec v h).1 = { h with cal_max := x } := by
  cases v <;> exact ⟨_, rfl⟩

theorem uCalMin_shape (v : HVal) (h : NiftiHeader) :
    ∃ x, (uCalMin.exec v h).1 = { h with cal_min := x } := by
  cases v <;> exact ⟨_, rfl⟩

theorem uSliceDuration_shape (v : HVal) (h : NiftiHeader) :
    ∃ x, (uSliceDuration.exec v h).1 = { h with slice_duration := x } := by
  cases v <;> exact ⟨_, rfl⟩

theorem uToffset_shape (v : HVal) (h : NiftiHeader) :
    ∃ x, (uToffset.exec v h).1 = { h with toffset := x } := by
  cases v <;> exact ⟨_, rfl⟩

theorem uGlmax_shape (v : HVal) (h : NiftiHeader) :
    ∃ x, (uGlmax.exec v h).1 = { h with glmax := x } := by
  cases v <;> exact ⟨_, rfl⟩

theorem uGlmin_shape (v : HVal) (h : NiftiHeader) :
    ∃ x, (uGlmin.exec v h).1 = { h with glmin := x } := by
  cases v <;> exact ⟨_, rfl⟩

theorem uDescrip_shape (v : HVal) (h : NiftiHeader) :
    ∃ x, (uDescrip.exec v h).1 = { h with descrip := x } := by
  cases v <;> first
    | exact ⟨_, rfl⟩
    | (simp only [uDescrip]; split <;> exact ⟨_, rfl⟩)

theorem uAuxFile_shape (v : HVal) (h : NiftiHeader) :
    ∃ x, (uAuxFile.exec v h).1 = { h with aux_file := x } := by
  cases v <;> first
    | exact ⟨_, rfl⟩
    | (simp only [uAuxFile]; split <;> exact ⟨_, rfl⟩)

theorem uQformCode_shape (v : HVal) (h : NiftiHeader) :
    ∃ x, (uQformCode.exec v h).1 = { h with qform_code := x } := by
  cases v <;> exact ⟨_, rfl⟩

theorem uSformCode_shape (v : HVal) (h : NiftiHeader) :
    ∃ x, (uSformCode.exec v h).1 = { h with sform_code := x } := by
  cases v <;> exact ⟨_, rfl⟩

theorem uQuatern_shape (v : HVal) (h : NiftiHeader) :
    ∃ a b c, (uQuatern.exec v h).1 = { h with quatern_b := a, quatern_c := b, quatern_d := c } := by
  cases v <;> first
    | exact ⟨_, _, _, rfl⟩
    | (simp only [uQuatern]; split <;> exact ⟨_, _, _, rfl⟩)

theorem uQoffset_shape (v : HVal) (h : NiftiHeader) :
    ∃ a b c, (uQoffset.exec v h).1 = { h with qoffset_x := a, qoffset_y := b, qoffset_z := c } := by
  cases v <;> first
    | exact ⟨_, _, _, rfl⟩
    | (simp only [uQoffset]; split <;> exact ⟨_, _, _, rfl⟩)

theorem uSform_shape (v : HVal) (h : NiftiHeader) :
    ∃ a b c, (uSform.exec v h).1 = { h with srow_x := a, srow_y := b, srow_z := c } := by
  cases v <;> first
    | exact ⟨_, _, _, rfl⟩
    | (simp only [uSform]; split <;> exact ⟨_, _, _, rfl⟩)

theorem uIntentName_shape (v : HVal) (h : NiftiHeader) :
    ∃ x, (uIntentName.exec v h).1 = { h with intent_name := x } := by
  cases v <;> first
    | exact ⟨_, rfl⟩
    | (simp only [uIntentName]; split <;> exact ⟨_, rfl⟩)

theorem uMagic_shape (v : HVal) (h : NiftiHeader) :
    ∃ x, (uMagic.exec v h).1 = { h with magic := x } := by
  cases v <;> first
    | exact ⟨_, rfl⟩
    | (simp only [uMagic]; split <;> exact ⟨_, rfl⟩)


/-!
Per-field preservation over the whole step list: a block whose key is not
the one owning a header field leaves that field untouched.
-/

theorem presAll_sizeof_hdr : ∀ w ∈ niftiHeaderSteps, w.key ≠ "sizeof_hdr" →
    ∀ (v : HVal) (h : NiftiHeader), (w.exec v h).1.sizeof_hdr = h.sizeof_hdr := by
  simp only [niftiHeaderSteps, List.forall_mem_cons]
  refine ⟨?_, ?_, ?_, ?_, ?_, ?_, ?_, ?_, ?_, ?_, ?_, ?_, ?_, ?_, ?_, ?_, ?_, ?_, ?_, ?_, ?_, ?_, ?_, ?_, ?_, ?_, ?_, ?_, ?_, ?_, ?_, ?_, ?_, ?_, ?_, ?_, fun x hx => nomatch hx⟩
  · exact fun _ v h => by obtain ⟨x0, hx⟩ := uDataType_shape v h; rw [hx]
  · exact fun _ v h => by obtain ⟨x0, hx⟩ := uDbName_shape v h; rw [hx]
  · exact fun _ v h => by obtain ⟨x0, hx⟩ := uExtents_shape v h; rw [hx]
  · exact fun _ v h => by obtain ⟨x0, hx⟩ := uSessionError_shape v h; rw [hx]
  · exact fun _ v h => by obtain ⟨x0, hx⟩ := uRegular_shape v h; rw [hx]
  · exact fun _ v h => by obtain ⟨x0, hx⟩ := uDimInfo_shape v h; rw [hx]
  · exact fun _ v h => by obtain ⟨x0, hx⟩ := uDim_shape v h; rw [hx]
  · exact fun _ v h => by obtain ⟨x0, hx⟩ := uIntentP1_shape v h; rw [hx]
  · exact fun _ v h => by obtain ⟨x0, hx⟩ := uIntentP2_shape v h; rw [hx]
  · exact fun _ v h => by obtain ⟨x0, hx⟩ := uIntentP3_shape v h; rw [hx]
  · exact fun _ v h => by obtain ⟨x0, hx⟩ := uIntentCode_shape v h; rw [hx]
  · exact fun _ v h => by obtain ⟨x0, hx⟩ := uDatatype_shape v h; rw [hx]
  · exact fun _ v h => by obtain ⟨x0, hx⟩ := uBitpix_shape v h; rw [hx]
  · exact fun _ v h => by obtain ⟨x0, hx⟩ := uSliceStart_shape v h; rw [hx]
  · exact fun _ v h => by obtain ⟨x0, hx⟩ := uPixdim_shape v h; rw [hx]
  · exact fun _ v h => by obtain ⟨x0, hx⟩ := uVoxOffset_shape v h; rw [hx]
  · exact fun _ v h => by obtain ⟨x0, hx⟩ := uSclSlope_shape v h; rw [hx]
  · exact fun _ v h => by obtain ⟨x0, hx⟩ := uSclInter_shape v h; rw [hx]
  · exact fun _ v h => by obtain ⟨x0, hx⟩ := uSliceEnd_shape v h; rw [hx]
  · exact fun _ v h => by obtain ⟨x0, hx⟩ := uSliceCode_shape v h; rw [hx]
  · exact fun _ v h => by obtain ⟨x0, hx⟩ := uXyztUnits_shape v h; rw [hx]
  · exact fun _ v h => by obtain ⟨x0, hx⟩ := uCalMax_shape v h; rw [hx]
  · exact fun _ v h => by obtain ⟨x0, hx⟩ := uCalMin_shape v h; rw [hx]
  · exact fun _ v h => by obtain ⟨x0, hx⟩ := uSliceDuration_shape v h; rw [hx]
  · exact fun _ v h => by obtain ⟨x0, hx⟩ := uToffset_shape v h; rw [hx]
  · exact fun _ v h => by obtain ⟨x0, hx⟩ := uGlmax_shape v h; rw [hx]
  · exact fun _ v h => by obtain ⟨x0, hx⟩ := uGlmin_shape v h; rw [hx]
  · exact fun _ v h => by obtain ⟨x0, hx⟩ := uDescrip_shape v h; rw [hx]
  · exact fun _ v h => by obtain ⟨x0, hx⟩ := uAuxFile_shape v h; rw [hx]
  · exact fun _ v h => by obtain ⟨x0, hx⟩ := uQformCode_shape v h; rw [hx]
  · exact fun _ v h => by obtain ⟨x0, hx⟩ := uSformCode_shape v h; rw [hx]
  · exact fun _ v h => by obtain ⟨x0, x1, x2, hx⟩ := uQuatern_shape v h; rw [hx]
  · exact fun _ v h => by obtain ⟨x0, x1, x2, hx⟩ := uQoffset_shape v h; rw [hx]
  · exact fun _ v h => by obtain ⟨x0, x1, x2, hx⟩ := uSform_shape v h; rw [hx]
  · exact fun _ v h => by obtain ⟨x0, hx⟩ := uIntentName_shape v h; rw [hx]
  · exact fun _ v h => by obtain ⟨x0, hx⟩ := uMagic_shape v h; rw [hx]

theorem presAll_data_type : ∀ w ∈ niftiHeaderSteps, w.key ≠ "data_type" →
    ∀ (v : HVal) (h : NiftiHeader), (w.exec v h).1.data_type = h.data_type := by
  simp only [niftiHeaderSteps, List.forall_mem_cons]
  refine ⟨?_, ?_, ?_, ?_, ?_, ?_, ?_, ?_, ?_, ?_, ?_, ?_, ?_, ?_, ?_, ?_, ?_, ?_, ?_, ?_, ?_, ?_, ?_, ?_, ?_, ?_, ?_, ?_, ?_, ?_, ?_, ?_, ?_, ?_, ?_, ?_, fun x hx => nomatch hx⟩
  · exact fun hk => absurd rfl hk
  · exact fun _ v h => by obtain ⟨x0, hx⟩ := uDbName_shape v h; rw [hx]
  · exact fun _ v h => by obtain ⟨x0, hx⟩ := uExtents_shape v h; rw [hx]
  · exact fun _ v h => by obtain ⟨x0, hx⟩ := uSessionError_shape v h; rw [hx]
  · exact fun _ v h => by obtain ⟨x0, hx⟩ := uRegular_shape v h; rw [hx]
  · exact fun _ v h => by obtain ⟨x0, hx⟩ := uDimInfo_shape v h; rw [hx]
  · exact fun _ v h => by obtain ⟨x0, hx⟩ := uDim_shape v h; rw [hx]
  · exact fun _ v h => by obtain ⟨x0, hx⟩ := uIntentP1_shape v h; rw [hx]
  · exact fun _ v h => by obtain ⟨x0, hx⟩ := uIntentP2_shape v h; rw [hx]
  · exact fun _ v h => by obtain ⟨x0, hx⟩ := uIntentP3_shape v h; rw [hx]
  · exact fun _ v h => by obtain ⟨x0, hx⟩ := uIntentCode_shape v h; rw [hx]
  · exact fun _ v h => by obtain ⟨x0, hx⟩ := uDatatype_shape v h; rw [hx]
  · exact fun _ v h => by obtain ⟨x0, hx⟩ := uBitpix_shape v h; rw [hx]
  · exact fun _ v h => by obtain ⟨x0, hx⟩ := uSliceStart_shape v h; rw [hx]
  · exact fun _ v h => by obtain ⟨x0, hx⟩ := uPixdim_shape v h; rw [hx]
  · exact fun _ v h => by obtain ⟨x0, hx⟩ := uVoxOffset_shape v h; rw [hx]
  · exact fun _ v h => by obtain ⟨x0, hx⟩ := uSclSlope_shape v h; rw [hx]
  · exact fun _ v h => by obtain ⟨x0, hx⟩ := uSclInter_shape v h; rw [hx]
  · exact fun _ v h => by obtain ⟨x0, hx⟩ := uSliceEnd_shape v h; rw [hx]
  · exact fun _ v h => by obtain ⟨x0, hx⟩ := uSliceCode_shape v h; rw [hx]
  · exact fun _ v h => by obtain ⟨x0, hx⟩ := uXyztUnits_shape v h; rw [hx]
  · exact fun _ v h => by obtain ⟨x0, hx⟩ := uCalMax_shape v h; rw [hx]
  · exact fun _ v h => by obtain ⟨x0, hx⟩ := uCalMin_shape v h; rw [hx]
  · exact fun _ v h => by obtain ⟨x0, hx⟩ := uSliceDuration_shape v h; rw [hx]
  · exact fun _ v h => by obtain ⟨x0, hx⟩ := uToffset_shape v h; rw [hx]
  · exact fun _ v h => by obtain ⟨x0, hx⟩ := uGlmax_shape v h; rw [hx]
  · exact fun _ v h => by obtain ⟨x0, hx⟩ := uGlmin_shape v h; rw [hx]
  · exact fun _ v h => by obtain ⟨x0, hx⟩ := uDescrip_shape v h; rw [hx]
  · exact fun _ v h => by obtain ⟨x0, hx⟩ := uAuxFile_shape v h; rw [hx]
  · exact fun _ v h => by obtain ⟨x0, hx⟩ := uQformCode_shape v h; rw [hx]
  · exact fun _ v h => by obtain ⟨x0, hx⟩ := uSformCode_shape v h; rw [hx]
  · exact fun _ v h => by obtain ⟨x0, x1, x2, hx⟩ := uQuatern_shape v h; rw [hx]
  · exact fun _ v h => by obtain ⟨x0, x1, x2, hx⟩ := uQoffset_shape v h; rw [hx]
  · exact fun _ v h => by obtain ⟨x0, x1, x2, hx⟩ := uSform_shape v h; rw [hx]
  · exact fun _ v h => by obtain ⟨x0, hx⟩ := uIntentName_shape v h; rw [hx]
  · exact fun _ v h => by obtain ⟨x0, hx⟩ := uMagic_shape v h; rw [hx]

theorem presAll_db_name : ∀ w ∈ niftiHeaderSteps, w.key ≠ "db_name" →
    ∀ (v : HVal) (h : NiftiHeader), (w.exec v h).1.db_name = h.db_name := by
  simp only [niftiHeaderSteps, List.forall_mem_cons]
  refine ⟨?_, ?_, ?_, ?_, ?_, ?_, ?_, ?_, ?_, ?_, ?_, ?_, ?_, ?_, ?_, ?_, ?_, ?_, ?_, ?_, ?_, ?_, ?_, ?_, ?_, ?_, ?_, ?_, ?_, ?_, ?_, ?_, ?_, ?_, ?_, ?_, fun x hx => nomatch hx⟩
  · exact fun _ v h => by obtain ⟨x0, hx⟩ := uDataType_shape v h; rw [hx]
  · exact fun hk => absurd rfl hk
  · exact fun _ v h => by obtain ⟨x0, hx⟩ := uExtents_shape v h; rw [hx]
  · exact fun _ v h => by obtain ⟨x0, hx⟩ := uSessionError_shape v h; rw [hx]
  · exact fun _ v h => by obtain ⟨x0, hx⟩ := uRegular_shape v h; rw [hx]
  · exact fun _ v h => by obtain ⟨x0, hx⟩ := uDimInfo_shape v h; rw [hx]
  · exact fun _ v h => by obtain ⟨x0, hx⟩ := uDim_shape v h; rw [hx]
  · exact fun _ v h => by obtain ⟨x0, hx⟩ := uIntentP1_shape v h; rw [hx]
  · exact fun _ v h => by obtain ⟨x0, hx⟩ := uIntentP2_shape v h; rw [hx]
  · exact fun _ v h => by obtain ⟨x0, hx⟩ := uIntentP3_shape v h; rw [hx]
  · exact fun _ v h => by obtain ⟨x0, hx⟩ := uIntentCode_shape v h; rw [hx]
  · exact fun _ v h => by obtain ⟨x0, hx⟩ := uDatatype_shape v h; rw [hx]
  · exact fun _ v h => by obtain ⟨x0, hx⟩ := uBitpix_shape v h; rw [hx]
  · exact fun _ v h => by obtain ⟨x0, hx⟩ := uSliceStart_shape v h; rw [hx]
  · exact fun _ v h => by obtain ⟨x0, hx⟩ := uPixdim_shape v h; rw [hx]
  · exact fun _ v h => by obtain ⟨x0, hx⟩ := uVoxOffset_shape v h; rw [hx]
  · exact fun _ v h => by obtain ⟨x0, hx⟩ := uSclSlope_shape v h; rw [hx]
  · exact fun _ v h => by obtain ⟨x0, hx⟩ := uSclInter_shape v h; rw [hx]
  · exact fun _ v h => by obtain ⟨x0, hx⟩ := uSliceEnd_shape v h; rw [hx]
  · exact fun _ v h => by obtain ⟨x0, hx⟩ := uSliceCode_shape v h; rw [hx]
  · exact fun _ v h => by obtain ⟨x0, hx⟩ := uXyztUnits_shape v h; rw [hx]
  · exact fun _ v h => by obtain ⟨x0, hx⟩ := uCalMax_shape v h; rw [hx]
  · exact fun _ v h => by obtain ⟨x0, hx⟩ := uCalMin_shape v h; rw [hx]
  · exact fun _ v h => by obtain ⟨x0, hx⟩ := uSliceDuration_shape v h; rw [hx]
  · exact fun _ v h => by obtain ⟨x0, hx⟩ := uToffset_shape v h; rw [hx]
  · exact fun _ v h => by obtain ⟨x0, hx⟩ := uGlmax_shape v h; rw [hx]
  · exact fun _ v h => by obtain ⟨x0, hx⟩ := uGlmin_shape v h; rw [hx]
  · exact fun _ v h => by obtain ⟨x0, hx⟩ := uDescrip_shape v h; rw [hx]
  · exact fun _ v h => by obtain ⟨x0, hx⟩ := uAuxFile_shape v h; rw [hx]
  · exact fun _ v h => by obtain ⟨x0, hx⟩ := uQformCode_shape v h; rw [hx]
  · exact fun _ v h => by obtain ⟨x0, hx⟩ := uSformCode_shape v h; rw [hx]
  · exact fun _ v h => by obtain ⟨x0, x1, x2, hx⟩ := uQuatern_shape v h; rw [hx]
  · exact fun _ v h => by obtain ⟨x0, x1, x2, hx⟩ := uQoffset_shape v h; rw [hx]
  · exact fun _ v h => by obtain ⟨x0, x1, x2, hx⟩ := uSform_shape v h; rw [hx]
  · exact fun _ v h => by obtain ⟨x0, hx⟩ := uIntentName_shape v h; rw [hx]
  · exact fun _ v h => by obtain ⟨x0, hx⟩ := uMagic_shape v h; rw [hx]

theorem presAll_extents : ∀ w ∈ niftiHeaderSteps, w.key ≠ "extents" →
    ∀ (v : HVal) (h : NiftiHeader), (w.exec v h).1.extents = h.extents := by
  simp only [niftiHeaderSteps, List.forall_mem_cons]
  refine ⟨?_, ?_, ?_, ?_, ?_, ?_, ?_, ?_, ?_, ?_, ?_, ?_, ?_, ?_, ?_, ?_, ?_, ?_, ?_, ?_, ?_, ?_, ?_, ?_, ?_, ?_, ?_, ?_, ?_, ?_, ?_, ?_, ?_, ?_, ?_, ?_, fun x hx => nomatch hx⟩
  · exact fun _ v h => by obtain ⟨x0, hx⟩ := uDataType_shape v h; rw [hx]
  · exact fun _ v h => by obtain ⟨x0, hx⟩ := uDbName_shape v h; rw [hx]
  · exact fun hk => absurd rfl hk
  · exact fun _ v h => by obtain ⟨x0, hx⟩ := uSessionError_shape v h; rw [hx]
  · exact fun _ v h => by obtain ⟨x0, hx⟩ := uRegular_shape v h; rw [hx]
  · exact fun _ v h => by obtain ⟨x0, hx⟩ := uDimInfo_shape v h; rw [hx]
  · exact fun _ v h => by obtain ⟨x0, hx⟩ := uDim_shape v h; rw [hx]
  · exact fun _ v h => by obtain ⟨x0, hx⟩ := uIntentP1_shape v h; rw [hx]
  · exact fun _ v h => by obtain ⟨x0, hx⟩ := uIntentP2_shape v h; rw [hx]
  · exact fun _ v h => by obtain ⟨x0, hx⟩ := uIntentP3_shape v h; rw [hx]
  · exact fun _ v h => by obtain ⟨x0, hx⟩ := uIntentCode_shape v h; rw [hx]
  · exact fun _ v h => by obtain ⟨x0, hx⟩ := uDatatype_shape v h; rw [hx]
  · exact fun _ v h => by obtain ⟨x0, hx⟩ := uBitpix_shape v h; rw [hx]
  · exact fun _ v h => by obtain ⟨x0, hx⟩ := uSliceStart_shape v h; rw [hx]
  · exact fun _ v h => by obtain ⟨x0, hx⟩ := uPixdim_shape v h; rw [hx]
  · exact fun _ v h => by obtain ⟨x0, hx⟩ := uVoxOffset_shape v h; rw [hx]
  · exact fun _ v h => by obtain ⟨x0, hx⟩ := uSclSlope_shape v h; rw [hx]
  · exact fun _ v h => by obtain ⟨x0, hx⟩ := uSclInter_shape v h; rw [hx]
  · exact fun _ v h => by obtain ⟨x0, hx⟩ := uSliceEnd_shape v h; rw [hx]
  · exact fun _ v h => by obtain ⟨x0, hx⟩ := uSliceCode_shape v h; rw [hx]
  · exact fun _ v h => by obtain ⟨x0, hx⟩ := uXyztUnits_shape v h; rw [hx]
  · exact fun _ v h => by obtain ⟨x0, hx⟩ := uCalMax_shape v h; rw [hx]
  · exact fun _ v h => by obtain ⟨x0, hx⟩ := uCalMin_shape v h; rw [hx]
  · exact fun _ v h => by obtain ⟨x0, hx⟩ := uSliceDuration_shape v h; rw [hx]
  · exact fun _ v h => by obtain ⟨x0, hx⟩ := uToffset_shape v h; rw [hx]
  · exact fun _ v h => by obtain ⟨x0, hx⟩ := uGlmax_shape v h; rw [hx]
  · exact fun _ v h => by obtain ⟨x0, hx⟩ := uGlmin_shape v h; rw [hx]
  · exact fun _ v h => by obtain ⟨x0, hx⟩ := uDescrip_shape v h; rw [hx]
  · exact fun _ v h => by obtain ⟨x0, hx⟩ := uAuxFile_shape v h; rw [hx]
  · exact fun _ v h => by obtain ⟨x0, hx⟩ := uQformCode_shape v h; rw [hx]
  · exact fun _ v h => by obtain ⟨x0, hx⟩ := uSformCode_shape v h; rw [hx]
  · exact fun _ v h => by obtain ⟨x0, x1, x2, hx⟩ := uQuatern_shape v h; rw [hx]
  · exact fun _ v h => by obtain ⟨x0, x1, x2, hx⟩ := uQoffset_shape v h; rw [hx]
  · exact fun _ v h => by obtain ⟨x0, x1, x2, hx⟩ := uSform_shape v h; rw [hx]
  · exact fun _ v h => by obtain ⟨x0, hx⟩ := uIntentName_shape v h; rw [hx]
  · exact fun _ v h => by obtain ⟨x0, hx⟩ := uMagic_shape v h; rw [hx]

theorem presAll_session_error : ∀ w ∈ niftiHeaderSteps, w.key ≠ "session_error" →
    ∀ (v : HVal) (h : NiftiHeader), (w.exec v h).1.session_error = h.session_error := by
  simp only [niftiHeaderSteps, List.forall_mem_cons]
  refine ⟨?_, ?_, ?_, ?_, ?_, ?_, ?_, ?_, ?_, ?_, ?_, ?_, ?_, ?_, ?_, ?_, ?_, ?_, ?_, ?_, ?_, ?_, ?_, ?_, ?_, ?_, ?_, ?_, ?_, ?_, ?_, ?_, ?_, ?_, ?_, ?_, fun x hx => nomatch hx⟩
  · exact fun _ v h => by obtain ⟨x0, hx⟩ := uDataType_shape v h; rw [hx]
  · exact fun _ v h => by obtain ⟨x0, hx⟩ := uDbName_shape v h; rw [hx]
  · exact fun _ v h => by obtain ⟨x0, hx⟩ := uExtents_shape v h; rw [hx]
  · exact fun hk => absurd rfl hk
  · exact fun _ v h => by obtain ⟨x0, hx⟩ := uRegular_shape v h; rw [hx]
  · exact fun _ v h => by obtain ⟨x0, hx⟩ := uDimInfo_shape v h; rw [hx]
  · exact fun _ v h => by obtain ⟨x0, hx⟩ := uDim_shape v h; rw [hx]
  · exact fun _ v h => by obtain ⟨x0, hx⟩ := uIntentP1_shape v h; rw [hx]
  · exact fun _ v h => by obtain ⟨x0, hx⟩ := uIntentP2_shape v h; rw [hx]
  · exact fun _ v h => by obtain ⟨x0, hx⟩ := uIntentP3_shape v h; rw [hx]
  · exact fun _ v h => by obtain ⟨x0, hx⟩ := uIntentCode_shape v h; rw [hx]
  · exact fun _ v h => by obtain ⟨x0, hx⟩ := uDatatype_shape v h; rw [hx]
  · exact fun _ v h => by obtain ⟨x0, hx⟩ := uBitpix_shape v h; rw [hx]
  · exact fun _ v h => by obtain ⟨x0, hx⟩ := uSliceStart_shape v h; rw [hx]
  · exact fun _ v h => by obtain ⟨x0, hx⟩ := uPixdim_shape v h; rw [hx]
  · exact fun _ v h => by obtain ⟨x0, hx⟩ := uVoxOffset_shape v h; rw [hx]
  · exact fun _ v h => by obtain ⟨x0, hx⟩ := uSclSlope_shape v h; rw [hx]
  · exact fun _ v h => by obtain ⟨x0, hx⟩ := uSclInter_shape v h; rw [hx]
  · exact fun _ v h => by obtain ⟨x0, hx⟩ := uSliceEnd_shape v h; rw [hx]
  · exact fun _ v h => by obtain ⟨x0, hx⟩ := uSliceCode_shape v h; rw [hx]
  · exact fun _ v h => by obtain ⟨x0, hx⟩ := uXyztUnits_shape v h; rw [hx]
  · exact fun _ v h => by obtain ⟨x0, hx⟩ := uCalMax_shape v h; rw [hx]
  · exact fun _ v h => by obtain ⟨x0, hx⟩ := uCalMin_shape v h; rw [hx]
  · exact fun _ v h => by obtain ⟨x0, hx⟩ := uSliceDuration_shape v h; rw [hx]
  · exact fun _ v h => by obtain ⟨x0, hx⟩ := uToffset_shape v h; rw [hx]
  · exact fun _ v h => by obtain ⟨x0, hx⟩ := uGlmax_shape v h; rw [hx]
  · exact fun _ v h => by obtain ⟨x0, hx⟩ := uGlmin_shape v h; rw [hx]
  · exact fun _ v h => by obtain ⟨x0, hx⟩ := uDescrip_shape v h; rw [hx]
  · exact fun _ v h => by obtain ⟨x0, hx⟩ := uAuxFile_shape v h; rw [hx]
  · exact fun _ v h => by obtain ⟨x0, hx⟩ := uQformCode_shape v h; rw [hx]
  · exact fun _ v h => by obtain ⟨x0, hx⟩ := uSformCode_shape v h; rw [hx]
  · exact fun _ v h => by obtain ⟨x0, x1, x2, hx⟩ := uQuatern_shape v h; rw [hx]
  · exact fun _ v h => by obtain ⟨x0, x1, x2, hx⟩ := uQoffset_shape v h; rw [hx]
  · exact fun _ v h => by obtain ⟨x0, x1, x2, hx⟩ := uSform_shape v h; rw [hx]
  · exact fun _ v h => by obtain ⟨x0, hx⟩ := uIntentName_shape v h; rw [hx]
  · exact fun _ v h => by obtain ⟨x0, hx⟩ := uMagic_shape v h; rw [hx]

theorem presAll_regular : ∀ w ∈ niftiHeaderSteps, w.key ≠ "regular" →
    ∀ (v : HVal) (h : NiftiHeader), (w.exec v h).1.regular = h.regular := by
  simp only [niftiHeaderSteps, List.forall_mem_cons]
  refine ⟨?_, ?_, ?_, ?_, ?_, ?_, ?_, ?_, ?_, ?_, ?_, ?_, ?_, ?_, ?_, ?_, ?_, ?_, ?_, ?_, ?_, ?_, ?_, ?_, ?_, ?_, ?_, ?_, ?_, ?_, ?_, ?_, ?_, ?_, ?_, ?_, fun x hx => nomatch hx⟩
  · exact fun _ v h => by obtain ⟨x0, hx⟩ := uDataType_shape v h; rw [hx]
  · exact fun _ v h => by obtain ⟨x0, hx⟩ := uDbName_shape v h; rw [hx]
  · exact fun _ v h => by obtain ⟨x0, hx⟩ := uExtents_shape v h; rw [hx]
  · exact fun _ v h => by obtain ⟨x0, hx⟩ := uSessionError_shape v h; rw [hx]
  · exact fun hk => absurd rfl hk
  · exact fun _ v h => by obtain ⟨x0, hx⟩ := uDimInfo_shape v h; rw [hx]
  · exact fun _ v h => by obtain ⟨x0, hx⟩ := uDim_shape v h; rw [hx]
  · exact fun _ v h => by obtain ⟨x0, hx⟩ := uIntentP1_shape v h; rw [hx]
  · exact fun _ v h => by obtain ⟨x0, hx⟩ := uIntentP2_shape v h; rw [hx]
  · exact fun _ v h => by obtain ⟨x0, hx⟩ := uIntentP3_shape v h; rw [hx]
  · exact fun _ v h => by obtain ⟨x0, hx⟩ := uIntentCode_shape v h; rw [hx]
  · exact fun _ v h => by obtain ⟨x0, hx⟩ := uDatatype_shape v h; rw [hx]
  · exact fun _ v h => by obtain ⟨x0, hx⟩ := uBitpix_shape v h; rw [hx]
  · exact fun _ v h => by obtain ⟨x0, hx⟩ := uSliceStart_shape v h; rw [hx]
  · exact fun _ v h => by obtain ⟨x0, hx⟩ := uPixdim_shape v h; rw [hx]
  · exact fun _ v h => by obtain ⟨x0, hx⟩ := uVoxOffset_shape v h; rw [hx]
  · exact fun _ v h => by obtain ⟨x0, hx⟩ := uSclSlope_shape v h; rw [hx]
  · exact fun _ v h => by obtain ⟨x0, hx⟩ := uSclInter_shape v h; rw [hx]
  · exact fun _ v h => by obtain ⟨x0, hx⟩ := uSliceEnd_shape v h; rw [hx]
  · exact fun _ v h => by obtain ⟨x0, hx⟩ := uSliceCode_shape v h; rw [hx]
  · exact fun _ v h => by obtain ⟨x0, hx⟩ := uXyztUnits_shape v h; rw [hx]
  · exact fun _ v h => by obtain ⟨x0, hx⟩ := uCalMax_shape v h; rw [hx]
  · exact fun _ v h => by obtain ⟨x0, hx⟩ := uCalMin_shape v h; rw [hx]
  · exact fun _ v h => by obtain ⟨x0, hx⟩ := uSliceDuration_shape v h; rw [hx]
  · exact fun _ v h => by obtain ⟨x0, hx⟩ := uToffset_shape v h; rw [hx]
  · exact fun _ v h => by obtain ⟨x0, hx⟩ := uGlmax_shape v h; rw [hx]
  · exact fun _ v h => by obtain ⟨x0, hx⟩ := uGlmin_shape v h; rw [hx]
  · exact fun _ v h => by obtain ⟨x0, hx⟩ := uDescrip_shape v h; rw [hx]
  · exact fun _ v h => by obtain ⟨x0, hx⟩ := uAuxFile_shape v h; rw [hx]
  · exact fun _ v h => by obtain ⟨x0, hx⟩ := uQformCode_shape v h; rw [hx]
  · exact fun _ v h => by obtain ⟨x0, hx⟩ := uSformCode_shape v h; rw [hx]
  · exact fun _ v h => by obtain ⟨x0, x1, x2, hx⟩ := uQuatern_shape v h; rw [hx]
  · exact fun _ v h => by obtain ⟨x0, x1, x2, hx⟩ := uQoffset_shape v h; rw [hx]
  · exact fun _ v h => by obtain ⟨x0, x1, x2, hx⟩ := uSform_shape v h; rw [hx]
  · exact fun _ v h => by obtain ⟨x0, hx⟩ := uIntentName_shape v h; rw [hx]
  · exact fun _ v h => by obtain ⟨x0, hx⟩ := uMagic_shape v h; rw [hx]

theorem presAll_dim_info : ∀ w ∈ niftiHeaderSteps, w.key ≠ "dim_info" →
    ∀ (v : HVal) (h : NiftiHeader), (w.exec v h).1.dim_info = h.dim_info := by
  simp only [niftiHeaderSteps, List.forall_mem_cons]
  refine ⟨?_, ?_, ?_, ?_, ?_, ?_, ?_, ?_, ?_, ?_, ?_, ?_, ?_, ?_, ?_, ?_, ?_, ?_, ?_, ?_, ?_, ?_, ?_, ?_, ?_, ?_, ?_, ?_, ?_, ?_, ?_, ?_, ?_, ?_, ?_, ?_, fun x hx => nomatch hx⟩
  · exact fun _ v h => by obtain ⟨x0, hx⟩ := uDataType_shape v h; rw [hx]
  · exact fun _ v h => by obtain ⟨x0, hx⟩ := uDbName_shape v h; rw [hx]
  · exact fun _ v h => by obtain ⟨x0, hx⟩ := uExtents_shape v h; rw [hx]
  · exact fun _ v h => by obtain ⟨x0, hx⟩ := uSessionError_shape v h; rw [hx]
  · exact fun _ v h => by obtain ⟨x0, hx⟩ := uRegular_shape v h; rw [hx]
  · exact fun hk => absurd rfl hk
  · exact fun _ v h => by obtain ⟨x0, hx⟩ := uDim_shape v h; rw [hx]
  · exact fun _ v h => by obtain ⟨x0, hx⟩ := uIntentP1_shape v h; rw [hx]
  · exact fun _ v h => by obtain ⟨x0, hx⟩ := uIntentP2_shape v h; rw [hx]
  · exact fun _ v h => by obtain ⟨x0, hx⟩ := uIntentP3_shape v h; rw [hx]
  · exact fun _ v h => by obtain ⟨x0, hx⟩ := uIntentCode_shape v h; rw [hx]
  · exact fun _ v h => by obtain ⟨x0, hx⟩ := uDatatype_shape v h; rw [hx]
  · exact fun _ v h => by obtain ⟨x0, hx⟩ := uBitpix_shape v h; rw [hx]
  · exact fun _ v h => by obtain ⟨x0, hx⟩ := uSliceStart_shape v h; rw [hx]
  · exact fun _ v h => by obtain ⟨x0, hx⟩ := uPixdim_shape v h; rw [hx]
  · exact fun _ v h => by obtain ⟨x0, hx⟩ := uVoxOffset_shape v h; rw [hx]
  · exact fun _ v h => by obtain ⟨x0, hx⟩ := uSclSlope_shape v h; rw [hx]
  · exact fun _ v h => by obtain ⟨x0, hx⟩ := uSclInter_shape v h; rw [hx]
  · exact fun _ v h => by obtain ⟨x0, hx⟩ := uSliceEnd_shape v h; rw [hx]
  · exact fun _ v h => by obtain ⟨x0, hx⟩ := uSliceCode_shape v h; rw [hx]
  · exact fun _ v h => by obtain ⟨x0, hx⟩ := uXyztUnits_shape v h; rw [hx]
  · exact fun _ v h => by obtain ⟨x0, hx⟩ := uCalMax_shape v h; rw [hx]
  · exact fun _ v h => by obtain ⟨x0, hx⟩ := uCalMin_shape v h; rw [hx]
  · exact fun _ v h => by obtain ⟨x0, hx⟩ := uSliceDuration_shape v h; rw [hx]
  · exact fun _ v h => by obtain ⟨x0, hx⟩ := uToffset_shape v h; rw [hx]
  · exact fun _ v h => by obtain ⟨x0, hx⟩ := uGlmax_shape v h; rw [hx]
  · exact fun _ v h => by obtain ⟨x0, hx⟩ := uGlmin_shape v h; rw [hx]
  · exact fun _ v h => by obtain ⟨x0, hx⟩ := uDescrip_shape v h; rw [hx]
  · exact fun _ v h => by obtain ⟨x0, hx⟩ := uAuxFile_shape v h; rw [hx]
  · exact fun _ v h => by obtain ⟨x0, hx⟩ := uQformCode_shape v h; rw [hx]
  · exact fun _ v h => by obtain ⟨x0, hx⟩ := uSformCode_shape v h; rw [hx]
  · exact fun _ v h => by obtain ⟨x0, x1, x2, hx⟩ := uQuatern_shape v h; rw [hx]
  · exact fun _ v h => by obtain ⟨x0, x1, x2, hx⟩ := uQoffset_shape v h; rw [hx]
  · exact fun _ v h => by obtain ⟨x0, x1, x2, hx⟩ := uSform_shape v h; rw [hx]
  · exact fun _ v h => by obtain ⟨x0, hx⟩ := uIntentName_shape v h; rw [hx]
  · exact fun _ v h => by obtain ⟨x0, hx⟩ := uMagic_shape v h; rw [hx]

theorem presAll_dim : ∀ w ∈ niftiHeaderSteps, w.key ≠ "dim" →
    ∀ (v : HVal) (h : NiftiHeader), (w.exec v h).1.dim = h.dim := by
  simp only [niftiHeaderSteps, List.forall_mem_cons]
  refine ⟨?_, ?_, ?_, ?_, ?_, ?_, ?_, ?_, ?_, ?_, ?_, ?_, ?_, ?_, ?_, ?_, ?_, ?_, ?_, ?_, ?_, ?_, ?_, ?_, ?_, ?_, ?_, ?_, ?_, ?_, ?_, ?_, ?_, ?_, ?_, ?_, fun x hx => nomatch hx⟩
  · exact fun _ v h => by obtain ⟨x0, hx⟩ := uDataType_shape v h; rw [hx]
  · exact fun _ v h => by obtain ⟨x0, hx⟩ := uDbName_shape v h; rw [hx]
  · exact fun _ v h => by obtain ⟨x0, hx⟩ := uExtents_shape v h; rw [hx]
  · exact fun _ v h => by obtain ⟨x0, hx⟩ := uSessionError_shape v h; rw [hx]
  · exact fun _ v h => by obtain ⟨x0, hx⟩ := uRegular_shape v h; rw [hx]
  · exact fun _ v h => by obtain ⟨x0, hx⟩ := uDimInfo_shape v h; rw [hx]
  · exact fun hk => absurd rfl hk
  · exact fun _ v h => by obtain ⟨x0, hx⟩ := uIntentP1_shape v h; rw [hx]
  · exact fun _ v h => by obtain ⟨x0, hx⟩ := uIntentP2_shape v h; rw [hx]
  · exact fun _ v h => by obtain ⟨x0, hx⟩ := uIntentP3_shape v h; rw [hx]
  · exact fun _ v h => by obtain ⟨x0, hx⟩ := uIntentCode_shape v h; rw [hx]
  · exact fun _ v h => by obtain ⟨x0, hx⟩ := uDatatype_shape v h; rw [hx]
  · exact fun _ v h => by obtain ⟨x0, hx⟩ := uBitpix_shape v h; rw [hx]
  · exact fun _ v h => by obtain ⟨x0, hx⟩ := uSliceStart_shape v h; rw [hx]
  · exact fun _ v h => by obtain ⟨x0, hx⟩ := uPixdim_shape v h; rw [hx]
  · exact fun _ v h => by obtain ⟨x0, hx⟩ := uVoxOffset_shape v h; rw [hx]
  · exact fun _ v h => by obtain ⟨x0, hx⟩ := uSclSlope_shape v h; rw [hx]
  · exact fun _ v h => by obtain ⟨x0, hx⟩ := uSclInter_shape v h; rw [hx]
  · exact fun _ v h => by obtain ⟨x0, hx⟩ := uSliceEnd_shape v h; rw [hx]
  · exact fun _ v h => by obtain ⟨x0, hx⟩ := uSliceCode_shape v h; rw [hx]
  · exact fun _ v h => by obtain ⟨x0, hx⟩ := uXyztUnits_shape v h; rw [hx]
  · exact fun _ v h => by obtain ⟨x0, hx⟩ := uCalMax_shape v h; rw [hx]
  · exact fun _ v h => by obtain ⟨x0, hx⟩ := uCalMin_shape v h; rw [hx]
  · exact fun _ v h => by obtain ⟨x0, hx⟩ := uSliceDuration_shape v h; rw [hx]
  · exact fun _ v h => by obtain ⟨x0, hx⟩ := uToffset_shape v h; rw [hx]
  · exact fun _ v h => by obtain ⟨x0, hx⟩ := uGlmax_shape v h; rw [hx]
  · exact fun _ v h => by obtain ⟨x0, hx⟩ := uGlmin_shape v h; rw [hx]
  · exact fun _ v h => by obtain ⟨x0, hx⟩ := uDescrip_shape v h; rw [hx]
  · exact fun _ v h => by obtain ⟨x0, hx⟩ := uAuxFile_shape v h; rw [hx]
  · exact fun _ v h => by obtain ⟨x0, hx⟩ := uQformCode_shape v h; rw [hx]
  · exact fun _ v h => by obtain ⟨x0, hx⟩ := uSformCode_shape v h; rw [hx]
  · exact fun _ v h => by obtain ⟨x0, x1, x2, hx⟩ := uQuatern_shape v h; rw [hx]
  · exact fun _ v h => by obtain ⟨x0, x1, x2, hx⟩ := uQoffset_shape v h; rw [hx]
  · exact fun _ v h => by obtain ⟨x0, x1, x2, hx⟩ := uSform_shape v h; rw [hx]
  · exact fun _ v h => by obtain ⟨x0, hx⟩ := uIntentName_shape v h; rw [hx]
  · exact fun _ v h => by obtain ⟨x0, hx⟩ := uMagic_shape v h; rw [hx]

theorem presAll_intent_p1 : ∀ w ∈ niftiHeaderSteps, w.key ≠ "intent_p1" →
    ∀ (v : HVal) (h : NiftiHeader), (w.exec v h).1.intent_p1 = h.intent_p1 := by
  simp only [niftiHeaderSteps, List.forall_mem_cons]
  refine ⟨?_, ?_, ?_, ?_, ?_, ?_, ?_, ?_, ?_, ?_, ?_, ?_, ?_, ?_, ?_, ?_, ?_, ?_, ?_, ?_, ?_, ?_, ?_, ?_, ?_, ?_, ?_, ?_, ?_, ?_, ?_, ?_, ?_, ?_, ?_, ?_, fun x hx => nomatch hx⟩
  · exact fun _ v h => by obtain ⟨x0, hx⟩ := uDataType_shape v h; rw [hx]
  · exact fun _ v h => by obtain ⟨x0, hx⟩ := uDbName_shape v h; rw [hx]
  · exact fun _ v h => by obtain ⟨x0, hx⟩ := uExtents_shape v h; rw [hx]
  · exact fun _ v h => by obtain ⟨x0, hx⟩ := uSessionError_shape v h; rw [hx]
  · exact fun _ v h => by obtain ⟨x0, hx⟩ := uRegular_shape v h; rw [hx]
  · exact fun _ v h => by obtain ⟨x0, hx⟩ := uDimInfo_shape v h; rw [hx]
  · exact fun _ v h => by obtain ⟨x0, hx⟩ := uDim_shape v h; rw [hx]
  · exact fun hk => absurd rfl hk
  · exact fun _ v h => by obtain ⟨x0, hx⟩ := uIntentP2_shape v h; rw [hx]
  · exact fun _ v h => by obtain ⟨x0, hx⟩ := uIntentP3_shape v h; rw [hx]
  · exact fun _ v h => by obtain ⟨x0, hx⟩ := uIntentCode_shape v h; rw [hx]
  · exact fun _ v h => by obtain ⟨x0, hx⟩ := uDatatype_shape v h; rw [hx]
  · exact fun _ v h => by obtain ⟨x0, hx⟩ := uBitpix_shape v h; rw [hx]
  · exact fun _ v h => by obtain ⟨x0, hx⟩ := uSliceStart_shape v h; rw [hx]
  · exact fun _ v h => by obtain ⟨x0, hx⟩ := uPixdim_shape v h; rw [hx]
  · exact fun _ v h => by obtain ⟨x0, hx⟩ := uVoxOffset_shape v h; rw [hx]
  · exact fun _ v h => by obtain ⟨x0, hx⟩ := uSclSlope_shape v h; rw [hx]
  · exact fun _ v h => by obtain ⟨x0, hx⟩ := uSclInter_shape v h; rw [hx]
  · exact fun _ v h => by obtain ⟨x0, hx⟩ := uSliceEnd_shape v h; rw [hx]
  · exact fun _ v h => by obtain ⟨x0, hx⟩ := uSliceCode_shape v h; rw [hx]
  · exact fun _ v h => by obtain ⟨x0, hx⟩ := uXyztUnits_shape v h; rw [hx]
  · exact fun _ v h => by obtain ⟨x0, hx⟩ := uCalMax_shape v h; rw [hx]
  · exact fun _ v h => by obtain ⟨x0, hx⟩ := uCalMin_shape v h; rw [hx]
  · exact fun _ v h => by obtain ⟨x0, hx⟩ := uSliceDuration_shape v h; rw [hx]
  · exact fun _ v h => by obtain ⟨x0, hx⟩ := uToffset_shape v h; rw [hx]
  · exact fun _ v h => by obtain ⟨x0, hx⟩ := uGlmax_shape v h; rw [hx]
  · exact fun _ v h => by obtain ⟨x0, hx⟩ := uGlmin_shape v h; rw [hx]
  · exact fun _ v h => by obtain ⟨x0, hx⟩ := uDescrip_shape v h; rw [hx]
  · exact fun _ v h => by obtain ⟨x0, hx⟩ := uAuxFile_shape v h; rw [hx]
  · exact fun _ v h => by obtain ⟨x0, hx⟩ := uQformCode_shape v h; rw [hx]
  · exact fun _ v h => by obtain ⟨x0, hx⟩ := uSformCode_shape v h; rw [hx]
  · exact fun _ v h => by obtain ⟨x0, x1, x2, hx⟩ := uQuatern_shape v h; rw [hx]
  · exact fun _ v h => by obtain ⟨x0, x1, x2, hx⟩ := uQoffset_shape v h; rw [hx]
  · exact fun _ v h => by obtain ⟨x0, x1, x2, hx⟩ := uSform_shape v h; rw [hx]
  · exact fun _ v h => by obtain ⟨x0, hx⟩ := uIntentName_shape v h; rw [hx]
  · exact fun _ v h => by obtain ⟨x0, hx⟩ := uMagic_shape v h; rw [hx]

theorem presAll_intent_p2 : ∀ w ∈ niftiHeaderSteps, w.key ≠ "intent_p2" →
    ∀ (v : HVal) (h : NiftiHeader), (w.exec v h).1.intent_p2 = h.intent_p2 := by
  simp only [niftiHeaderSteps, List.forall_mem_cons]
  refine ⟨?_, ?_, ?_, ?_, ?_, ?_, ?_, ?_, ?_, ?_, ?_, ?_, ?_, ?_, ?_, ?_, ?_, ?_, ?_, ?_, ?_, ?_, ?_, ?_, ?_, ?_, ?_, ?_, ?_, ?_, ?_, ?_, ?_, ?_, ?_, ?_, fun x hx => nomatch hx⟩
  · exact fun _ v h => by obtain ⟨x0, hx⟩ := uDataType_shape v h; rw [hx]
  · exact fun _ v h => by obtain ⟨x0, hx⟩ := uDbName_shape v h; rw [hx]
  · exact fun _ v h => by obtain ⟨x0, hx⟩ := uExtents_shape v h; rw [hx]
  · exact fun _ v h => by obtain ⟨x0, hx⟩ := uSessionError_shape v h; rw [hx]
  · exact fun _ v h => by obtain ⟨x0, hx⟩ := uRegular_shape v h; rw [hx]
  · exact fun _ v h => by obtain ⟨x0, hx⟩ := uDimInfo_shape v h; rw [hx]
  · exact fun _ v h => by obtain ⟨x0, hx⟩ := uDim_shape v h; rw [hx]
  · exact fun _ v h => by obtain ⟨x0, hx⟩ := uIntentP1_shape v h; rw [hx]
  · exact fun hk => absurd rfl hk
  · exact fun _ v h => by obtain ⟨x0, hx⟩ := uIntentP3_shape v h; rw [hx]
  · exact fun _ v h => by obtain ⟨x0, hx⟩ := uIntentCode_shape v h; rw [hx]
  · exact fun _ v h => by obtain ⟨x0, hx⟩ := uDatatype_shape v h; rw [hx]
  · exact fun _ v h => by obtain ⟨x0, hx⟩ := uBitpix_shape v h; rw [hx]
  · exact fun _ v h => by obtain ⟨x0, hx⟩ := uSliceStart_shape v h; rw [hx]
  · exact fun _ v h => by obtain ⟨x0, hx⟩ := uPixdim_shape v h; rw [hx]
  · exact fun _ v h => by obtain ⟨x0, hx⟩ := uVoxOffset_shape v h; rw [hx]
  · exact fun _ v h => by obtain ⟨x0, hx⟩ := uSclSlope_shape v h; rw [hx]
  · exact fun _ v h => by obtain ⟨x0, hx⟩ := uSclInter_shape v h; rw [hx]
  · exact fun _ v h => by obtain ⟨x0, hx⟩ := uSliceEnd_shape v h; rw [hx]
  · exact fun _ v h => by obtain ⟨x0, hx⟩ := uSliceCode_shape v h; rw [hx]
  · exact fun _ v h => by obtain ⟨x0, hx⟩ := uXyztUnits_shape v h; rw [hx]
  · exact fun _ v h => by obtain ⟨x0, hx⟩ := uCalMax_shape v h; rw [hx]
  · exact fun _ v h => by obtain ⟨x0, hx⟩ := uCalMin_shape v h; rw [hx]
  · exact fun _ v h => by obtain ⟨x0, hx⟩ := uSliceDuration_shape v h; rw [hx]
  · exact fun _ v h => by obtain ⟨x0, hx⟩ := uToffset_shape v h; rw [hx]
  · exact fun _ v h => by obtain ⟨x0, hx⟩ := uGlmax_shape v h; rw [hx]
  · exact fun _ v h => by obtain ⟨x0, hx⟩ := uGlmin_shape v h; rw [hx]
  · exact fun _ v h => by obtain ⟨x0, hx⟩ := uDescrip_shape v h; rw [hx]
  · exact fun _ v h => by obtain ⟨x0, hx⟩ := uAuxFile_shape v h; rw [hx]
  · exact fun _ v h => by obtain ⟨x0, hx⟩ := uQformCode_shape v h; rw [hx]
  · exact fun _ v h => by obtain ⟨x0, hx⟩ := uSformCode_shape v h; rw [hx]
  · exact fun _ v h => by obtain ⟨x0, x1, x2, hx⟩ := uQuatern_shape v h; rw [hx]
  · exact fun _ v h => by obtain ⟨x0, x1, x2, hx⟩ := uQoffset_shape v h; rw [hx]
  · exact fun _ v h => by obtain ⟨x0, x1, x2, hx⟩ := uSform_shape v h; rw [hx]
  · exact fun _ v h => by obtain ⟨x0, hx⟩ := uIntentName_shape v h; rw [hx]
  · exact fun _ v h => by obtain ⟨x0, hx⟩ := uMagic_shape v h; rw [hx]

theorem presAll_intent_p3 : ∀ w ∈ niftiHeaderSteps, w.key ≠ "intent_p3" →
    ∀ (v : HVal) (h : NiftiHeader), (w.exec v h).1.intent_p3 = h.intent_p3 := by
  simp only [niftiHeaderSteps, List.forall_mem_cons]
  refine ⟨?_, ?_, ?_, ?_, ?_, ?_, ?_, ?_, ?_, ?_, ?_, ?_, ?_, ?_, ?_, ?_, ?_, ?_, ?_, ?_, ?_, ?_, ?_, ?_, ?_, ?_, ?_, ?_, ?_, ?_, ?_, ?_, ?_, ?_, ?_, ?_, fun x hx => nomatch hx⟩
  · exact fun _ v h => by obtain ⟨x0, hx⟩ := uDataType_shape v h; rw [hx]
  · exact fun _ v h => by obtain ⟨x0, hx⟩ := uDbName_shape v h; rw [hx]
  · exact fun _ v h => by obtain ⟨x0, hx⟩ := uExtents_shape v h; rw [hx]
  · exact fun _ v h => by obtain ⟨x0, hx⟩ := uSessionError_shape v h; rw [hx]
  · exact fun _ v h => by obtain ⟨x0, hx⟩ := uRegular_shape v h; rw [hx]
  · exact fun _ v h => by obtain ⟨x0, hx⟩ := uDimInfo_shape v h; rw [hx]
  · exact fun _ v h => by obtain ⟨x0, hx⟩ := uDim_shape v h; rw [hx]
  · exact fun _ v h => by obtain ⟨x0, hx⟩ := uIntentP1_shape v h; rw [hx]
  · exact fun _ v h => by obtain ⟨x0, hx⟩ := uIntentP2_shape v h; rw [hx]
  · exact fun hk => absurd rfl hk
  · exact fun _ v h => by obtain ⟨x0, hx⟩ := uIntentCode_shape v h; rw [hx]
  · exact fun _ v h => by obtain ⟨x0, hx⟩ := uDatatype_shape v h; rw [hx]
  · exact fun _ v h => by obtain ⟨x0, hx⟩ := uBitpix_shape v h; rw [hx]
  · exact fun _ v h => by obtain ⟨x0, hx⟩ := uSliceStart_shape v h; rw [hx]
  · exact fun _ v h => by obtain ⟨x0, hx⟩ := uPixdim_shape v h; rw [hx]
  · exact fun _ v h => by obtain ⟨x0, hx⟩ := uVoxOffset_shape v h; rw [hx]
  · exact fun _ v h => by obtain ⟨x0, hx⟩ := uSclSlope_shape v h; rw [hx]
  · exact fun _ v h => by obtain ⟨x0, hx⟩ := uSclInter_shape v h; rw [hx]
  · exact fun _ v h => by obtain ⟨x0, hx⟩ := uSliceEnd_shape v h; rw [hx]
  · exact fun _ v h => by obtain ⟨x0, hx⟩ := uSliceCode_shape v h; rw [hx]
  · exact fun _ v h => by obtain ⟨x0, hx⟩ := uXyztUnits_shape v h; rw [hx]
  · exact fun _ v h => by obtain ⟨x0, hx⟩ := uCalMax_shape v h; rw [hx]
  · exact fun _ v h => by obtain ⟨x0, hx⟩ := uCalMin_shape v h; rw [hx]
  · exact fun _ v h => by obtain ⟨x0, hx⟩ := uSliceDuration_shape v h; rw [hx]
  · exact fun _ v h => by obtain ⟨x0, hx⟩ := uToffset_shape v h; rw [hx]
  · exact fun _ v h => by obtain ⟨x0, hx⟩ := uGlmax_shape v h; rw [hx]
  · exact fun _ v h => by obtain ⟨x0, hx⟩ := uGlmin_shape v h; rw [hx]
  · exact fun _ v h => by obtain ⟨x0, hx⟩ := uDescrip_shape v h; rw [hx]
  · exact fun _ v h => by obtain ⟨x0, hx⟩ := uAuxFile_shape v h; rw [hx]
  · exact fun _ v h => by obtain ⟨x0, hx⟩ := uQformCode_shape v h; rw [hx]
  · exact fun _ v h => by obtain ⟨x0, hx⟩ := uSformCode_shape v h; rw [hx]
  · exact fun _ v h => by obtain ⟨x0, x1, x2, hx⟩ := uQuatern_shape v h; rw [hx]
  · exact fun _ v h => by obtain ⟨x0, x1, x2, hx⟩ := uQoffset_shape v h; rw [hx]
  · exact fun _ v h => by obtain ⟨x0, x1, x2, hx⟩ := uSform_shape v h; rw [hx]
  · exact fun _ v h => by obtain ⟨x0, hx⟩ := uIntentName_shape v h; rw [hx]
  · exact fun _ v h => by obtain ⟨x0, hx⟩ := uMagic_shape v h; rw [hx]

theorem presAll_intent_code : ∀ w ∈ niftiHeaderSteps, w.key ≠ "intent_code" →
    ∀ (v : HVal) (h : NiftiHeader), (w.exec v h).1.intent_code = h.intent_code := by
  simp only [niftiHeaderSteps, List.forall_mem_cons]
  refine ⟨?_, ?_, ?_, ?_, ?_, ?_, ?_, ?_, ?_, ?_, ?_, ?_, ?_, ?_, ?_, ?_, ?_, ?_, ?_, ?_, ?_, ?_, ?_, ?_, ?_, ?_, ?_, ?_, ?_, ?_, ?_, ?_, ?_, ?_, ?_, ?_, fun x hx => nomatch hx⟩
  · exact fun _ v h => by obtain ⟨x0, hx⟩ := uDataType_shape v h; rw [hx]
  · exact fun _ v h => by obtain ⟨x0, hx⟩ := uDbName_shape v h; rw [hx]
  · exact fun _ v h => by obtain ⟨x0, hx⟩ := uExtents_shape v h; rw [hx]
  · exact fun _ v h => by obtain ⟨x0, hx⟩ := uSessionError_shape v h; rw [hx]
  · exact fun _ v h => by obtain ⟨x0, hx⟩ := uRegular_shape v h; rw [hx]
  · exact fun _ v h => by obtain ⟨x0, hx⟩ := uDimInfo_shape v h; rw [hx]
  · exact fun _ v h => by obtain ⟨x0, hx⟩ := uDim_shape v h; rw [hx]
  · exact fun _ v h => by obtain ⟨x0, hx⟩ := uIntentP1_shape v h; rw [hx]
  · exact fun _ v h => by obtain ⟨x0, hx⟩ := uIntentP2_shape v h; rw [hx]
  · exact fun _ v h => by obtain ⟨x0, hx⟩ := uIntentP3_shape v h; rw [hx]
  · exact fun hk => absurd rfl hk
  · exact fun _ v h => by obtain ⟨x0, hx⟩ := uDatatype_shape v h; rw [hx]
  · exact fun _ v h => by obtain ⟨x0, hx⟩ := uBitpix_shape v h; rw [hx]
  · exact fun _ v h => by obtain ⟨x0, hx⟩ := uSliceStart_shape v h; rw [hx]
  · exact fun _ v h => by obtain ⟨x0, hx⟩ := uPixdim_shape v h; rw [hx]
  · exact fun _ v h => by obtain ⟨x0, hx⟩ := uVoxOffset_shape v h; rw [hx]
  · exact fun _ v h => by obtain ⟨x0, hx⟩ := uSclSlope_shape v h; rw [hx]
  · exact fun _ v h => by obtain ⟨x0, hx⟩ := uSclInter_shape v h; rw [hx]
  · exact fun _ v h => by obtain ⟨x0, hx⟩ := uSliceEnd_shape v h; rw [hx]
  · exact fun _ v h => by obtain ⟨x0, hx⟩ := uSliceCode_shape v h; rw [hx]
  · exact fun _ v h => by obtain ⟨x0, hx⟩ := uXyztUnits_shape v h; rw [hx]
  · exact fun _ v h => by obtain ⟨x0, hx⟩ := uCalMax_shape v h; rw [hx]
  · exact fun _ v h => by obtain ⟨x0, hx⟩ := uCalMin_shape v h; rw [hx]
  · exact fun _ v h => by obtain ⟨x0, hx⟩ := uSliceDuration_shape v h; rw [hx]
  · exact fun _ v h => by obtain ⟨x0, hx⟩ := uToffset_shape v h; rw [hx]
  · exact fun _ v h => by obtain ⟨x0, hx⟩ := uGlmax_shape v h; rw [hx]
  · exact fun _ v h => by obtain ⟨x0, hx⟩ := uGlmin_shape v h; rw [hx]
  · exact fun _ v h => by obtain ⟨x0, hx⟩ := uDescrip_shape v h; rw [hx]
  · exact fun _ v h => by obtain ⟨x0, hx⟩ := uAuxFile_shape v h; rw [hx]
  · exact fun _ v h => by obtain ⟨x0, hx⟩ := uQformCode_shape v h; rw [hx]
  · exact fun _ v h => by obtain ⟨x0, hx⟩ := uSformCode_shape v h; rw [hx]
  · exact fun _ v h => by obtain ⟨x0, x1, x2, hx⟩ := uQuatern_shape v h; rw [hx]
  · exact fun _ v h => by obtain ⟨x0, x1, x2, hx⟩ := uQoffset_shape v h; rw [hx]
  · exact fun _ v h => by obtain ⟨x0, x1, x2, hx⟩ := uSform_shape v h; rw [hx]
  · exact fun _ v h => by obtain ⟨x0, hx⟩ := uIntentName_shape v h; rw [hx]
  · exact fun _ v h => by obtain ⟨x0, hx⟩ := uMagic_shape v h; rw [hx]

theorem presAll_datatype : ∀ w ∈ niftiHeaderSteps, w.key ≠ "datatype" →
    ∀ (v : HVal) (h : NiftiHeader), (w.exec v h).1.datatype = h.datatype := by
  simp only [niftiHeaderSteps, List.forall_mem_cons]
  refine ⟨?_, ?_, ?_, ?_, ?_, ?_, ?_, ?_, ?_, ?_, ?_, ?_, ?_, ?_, ?_, ?_, ?_, ?_, ?_, ?_, ?_, ?_, ?_, ?_, ?_, ?_, ?_, ?_, ?_, ?_, ?_, ?_, ?_, ?_, ?_, ?_, fun x hx => nomatch hx⟩
  · exact fun _ v h => by obtain ⟨x0, hx⟩ := uDataType_shape v h; rw [hx]
  · exact fun _ v h => by obtain ⟨x0, hx⟩ := uDbName_shape v h; rw [hx]
  · exact fun _ v h => by obtain ⟨x0, hx⟩ := uExtents_shape v h; rw [hx]
  · exact fun _ v h => by obtain ⟨x0, hx⟩ := uSessionError_shape v h; rw [hx]
  · exact fun _ v h => by obtain ⟨x0, hx⟩ := uRegular_shape v h; rw [hx]
  · exact fun _ v h => by obtain ⟨x0, hx⟩ := uDimInfo_shape v h; rw [hx]
  · exact fun _ v h => by obtain ⟨x0, hx⟩ := uDim_shape v h; rw [hx]
  · exact fun _ v h => by obtain ⟨x0, hx⟩ := uIntentP1_shape v h; rw [hx]
  · exact fun _ v h => by obtain ⟨x0, hx⟩ := uIntentP2_shape v h; rw [hx]
  · exact fun _ v h => by obtain ⟨x0, hx⟩ := uIntentP3_shape v h; rw [hx]
  · exact fun _ v h => by obtain ⟨x0, hx⟩ := uIntentCode_shape v h; rw [hx]
  · exact fun hk => absurd rfl hk
  · exact fun _ v h => by obtain ⟨x0, hx⟩ := uBitpix_shape v h; rw [hx]
  · exact fun _ v h => by obtain ⟨x0, hx⟩ := uSliceStart_shape v h; rw [hx]
  · exact fun _ v h => by obtain ⟨x0, hx⟩ := uPixdim_shape v h; rw [hx]
  · exact fun _ v h => by obtain ⟨x0, hx⟩ := uVoxOffset_shape v h; rw [hx]
  · exact fun _ v h => by obtain ⟨x0, hx⟩ := uSclSlope_shape v h; rw [hx]
  · exact fun _ v h => by obtain ⟨x0, hx⟩ := uSclInter_shape v h; rw [hx]
  · exact fun _ v h => by obtain ⟨x0, hx⟩ := uSliceEnd_shape v h; rw [hx]
  · exact fun _ v h => by obtain ⟨x0, hx⟩ := uSliceCode_shape v h; rw [hx]
  · exact fun _ v h => by obtain ⟨x0, hx⟩ := uXyztUnits_shape v h; rw [hx]
  · exact fun _ v h => by obtain ⟨x0, hx⟩ := uCalMax_shape v h; rw [hx]
  · exact fun _ v h => by obtain ⟨x0, hx⟩ := uCalMin_shape v h; rw [hx]
  · exact fun _ v h => by obtain ⟨x0, hx⟩ := uSliceDuration_shape v h; rw [hx]
  · exact fun _ v h => by obtain ⟨x0, hx⟩ := uToffset_shape v h; rw [hx]
  · exact fun _ v h => by obtain ⟨x0, hx⟩ := uGlmax_shape v h; rw [hx]
  · exact fun _ v h => by obtain ⟨x0, hx⟩ := uGlmin_shape v h; rw [hx]
  · exact fun _ v h => by obtain ⟨x0, hx⟩ := uDescrip_shape v h; rw [hx]
  · exact fun _ v h => by obtain ⟨x0, hx⟩ := uAuxFile_shape v h; rw [hx]
  · exact fun _ v h => by obtain ⟨x0, hx⟩ := uQformCode_shape v h; rw [hx]
  · exact fun _ v h => by obtain ⟨x0, hx⟩ := uSformCode_shape v h; rw [hx]
  · exact fun _ v h => by obtain ⟨x0, x1, x2, hx⟩ := uQuatern_shape v h; rw [hx]
  · exact fun _ v h => by obtain ⟨x0, x1, x2, hx⟩ := uQoffset_shape v h; rw [hx]
  · exact fun _ v h => by obtain ⟨x0, x1, x2, hx⟩ := uSform_shape v h; rw [hx]
  · exact fun _ v h => by obtain ⟨x0, hx⟩ := uIntentName_shape v h; rw [hx]
  · exact fun _ v h => by obtain ⟨x0, hx⟩ := uMagic_shape v h; rw [hx]

theorem presAll_bitpix : ∀ w ∈ niftiHeaderSteps, w.key ≠ "bitpix" →
    ∀ (v : HVal) (h : NiftiHeader), (w.exec v h).1.bitpix = h.bitpix := by
  simp only [niftiHeaderSteps, List.forall_mem_cons]
  refine ⟨?_, ?_, ?_, ?_, ?_, ?_, ?_, ?_, ?_, ?_, ?_, ?_, ?_, ?_, ?_, ?_, ?_, ?_, ?_, ?_, ?_, ?_, ?_, ?_, ?_, ?_, ?_, ?_, ?_, ?_, ?_, ?_, ?_, ?_, ?_, ?_, fun x hx => nomatch hx⟩
  · exact fun _ v h => by obtain ⟨x0, hx⟩ := uDataType_shape v h; rw [hx]
  · exact fun _ v h => by obtain ⟨x0, hx⟩ := uDbName_shape v h; rw [hx]
  · exact fun _ v h => by obtain ⟨x0, hx⟩ := uExtents_shape v h; rw [hx]
  · exact fun _ v h => by obtain ⟨x0, hx⟩ := uSessionError_shape v h; rw [hx]
  · exact fun _ v h => by obtain ⟨x0, hx⟩ := uRegular_shape v h; rw [hx]
  · exact fun _ v h => by obtain ⟨x0, hx⟩ := uDimInfo_shape v h; rw [hx]
  · exact fun _ v h => by obtain ⟨x0, hx⟩ := uDim_shape v h; rw [hx]
  · exact fun _ v h => by obtain ⟨x0, hx⟩ := uIntentP1_shape v h; rw [hx]
  · exact fun _ v h => by obtain ⟨x0, hx⟩ := uIntentP2_shape v h; rw [hx]
  · exact fun _ v h => by obtain ⟨x0, hx⟩ := uIntentP3_shape v h; rw [hx]
  · exact fun _ v h => by obtain ⟨x0, hx⟩ := uIntentCode_shape v h; rw [hx]
  · exact fun _ v h => by obtain ⟨x0, hx⟩ := uDatatype_shape v h; rw [hx]
  · exact fun hk => absurd rfl hk
  · exact fun _ v h => by obtain ⟨x0, hx⟩ := uSliceStart_shape v h; rw [hx]
  · exact fun _ v h => by obtain ⟨x0, hx⟩ := uPixdim_shape v h; rw [hx]
  · exact fun _ v h => by obtain ⟨x0, hx⟩ := uVoxOffset_shape v h; rw [hx]
  · exact fun _ v h => by obtain ⟨x0, hx⟩ := uSclSlope_shape v h; rw [hx]
  · exact fun _ v h => by obtain ⟨x0, hx⟩ := uSclInter_shape v h; rw [hx]
  · exact fun _ v h => by obtain ⟨x0, hx⟩ := uSliceEnd_shape v h; rw [hx]
  · exact fun _ v h => by obtain ⟨x0, hx⟩ := uSliceCode_shape v h; rw [hx]
  · exact fun _ v h => by obtain ⟨x0, hx⟩ := uXyztUnits_shape v h; rw [hx]
  · exact fun _ v h => by obtain ⟨x0, hx⟩ := uCalMax_shape v h; rw [hx]
  · exact fun _ v h => by obtain ⟨x0, hx⟩ := uCalMin_shape v h; rw [hx]
  · exact fun _ v h => by obtain ⟨x0, hx⟩ := uSliceDuration_shape v h; rw [hx]
  · exact fun _ v h => by obtain ⟨x0, hx⟩ := uToffset_shape v h; rw [hx]
  · exact fun _ v h => by obtain ⟨x0, hx⟩ := uGlmax_shape v h; rw [hx]
  · exact fun _ v h => by obtain ⟨x0, hx⟩ := uGlmin_shape v h; rw [hx]
  · exact fun _ v h => by obtain ⟨x0, hx⟩ := uDescrip_shape v h; rw [hx]
  · exact fun _ v h => by obtain ⟨x0, hx⟩ := uAuxFile_shape v h; rw [hx]
  · exact fun _ v h => by obtain ⟨x0, hx⟩ := uQformCode_shape v h; rw [hx]
  · exact fun _ v h => by obtain ⟨x0, hx⟩ := uSformCode_shape v h; rw [hx]
  · exact fun _ v h => by obtain ⟨x0, x1, x2, hx⟩ := uQuatern_shape v h; rw [hx]
  · exact fun _ v h => by obtain ⟨x0, x1, x2, hx⟩ := uQoffset_shape v h; rw [hx]
  · exact fun _ v h => by obtain ⟨x0, x1, x2, hx⟩ := uSform_shape v h; rw [hx]
  · exact fun _ v h => by obtain ⟨x0, hx⟩ := uIntentName_shape v h; rw [hx]
  · exact fun _ v h => by obtain ⟨x0, hx⟩ := uMagic_shape v h; rw [hx]

theorem presAll_slice_start : ∀ w ∈ niftiHeaderSteps, w.key ≠ "slice_start" →
    ∀ (v : HVal) (h : NiftiHeader), (w.exec v h).1.slice_start = h.slice_start := by
  simp only [niftiHeaderSteps, List.forall_mem_cons]
  refine ⟨?_, ?_, ?_, ?_, ?_, ?_, ?_, ?_, ?_, ?_, ?_, ?_, ?_, ?_, ?_, ?_, ?_, ?_, ?_, ?_, ?_, ?_, ?_, ?_, ?_, ?_, ?_, ?_, ?_, ?_, ?_, ?_, ?_, ?_, ?_, ?_, fun x hx => nomatch hx⟩
  · exact fun _ v h => by obtain ⟨x0, hx⟩ := uDataType_shape v h; rw [hx]
  · exact fun _ v h => by obtain ⟨x0, hx⟩ := uDbName_shape v h; rw [hx]
  · exact fun _ v h => by obtain ⟨x0, hx⟩ := uExtents_shape v h; rw [hx]
  · exact fun _ v h => by obtain ⟨x0, hx⟩ := uSessionError_shape v h; rw [hx]
  · exact fun _ v h => by obtain ⟨x0, hx⟩ := uRegular_shape v h; rw [hx]
  · exact fun _ v h => by obtain ⟨x0, hx⟩ := uDimInfo_shape v h; rw [hx]
  · exact fun _ v h => by obtain ⟨x0, hx⟩ := uDim_shape v h; rw [hx]
  · exact fun _ v h => by obtain ⟨x0, hx⟩ := uIntentP1_shape v h; rw [hx]
  · exact fun _ v h => by obtain ⟨x0, hx⟩ := uIntentP2_shape v h; rw [hx]
  · exact fun _ v h => by obtain ⟨x0, hx⟩ := uIntentP3_shape v h; rw [hx]
  · exact fun _ v h => by obtain ⟨x0, hx⟩ := uIntentCode_shape v h; rw [hx]
  · exact fun _ v h => by obtain ⟨x0, hx⟩ := uDatatype_shape v h; rw [hx]
  · exact fun _ v h => by obtain ⟨x0, hx⟩ := uBitpix_shape v h; rw [hx]
  · exact fun hk => absurd rfl hk
  · exact fun _ v h => by obtain ⟨x0, hx⟩ := uPixdim_shape v h; rw [hx]
  · exact fun _ v h => by obtain ⟨x0, hx⟩ := uVoxOffset_shape v h; rw [hx]
  · exact fun _ v h => by obtain ⟨x0, hx⟩ := uSclSlope_shape v h; rw [hx]
  · exact fun _ v h => by obtain ⟨x0, hx⟩ := uSclInter_shape v h; rw [hx]
  · exact fun _ v h => by obtain ⟨x0, hx⟩ := uSliceEnd_shape v h; rw [hx]
  · exact fun _ v h => by obtain ⟨x0, hx⟩ := uSliceCode_shape v h; rw [hx]
  · exact fun _ v h => by obtain ⟨x0, hx⟩ := uXyztUnits_shape v h; rw [hx]
  · exact fun _ v h => by obtain ⟨x0, hx⟩ := uCalMax_shape v h; rw [hx]
  · exact fun _ v h => by obtain ⟨x0, hx⟩ := uCalMin_shape v h; rw [hx]
  · exact fun _ v h => by obtain ⟨x0, hx⟩ := uSliceDuration_shape v h; rw [hx]
  · exact fun _ v h => by obtain ⟨x0, hx⟩ := uToffset_shape v h; rw [hx]
  · exact fun _ v h => by obtain ⟨x0, hx⟩ := uGlmax_shape v h; rw [hx]
  · exact fun _ v h => by obtain ⟨x0, hx⟩ := uGlmin_shape v h; rw [hx]
  · exact fun _ v h => by obtain ⟨x0, hx⟩ := uDescrip_shape v h; rw [hx]
  · exact fun _ v h => by obtain ⟨x0, hx⟩ := uAuxFile_shape v h; rw [hx]
  · exact fun _ v h => by obtain ⟨x0, hx⟩ := uQformCode_shape v h; rw [hx]
  · exact fun _ v h => by obtain ⟨x0, hx⟩ := uSformCode_shape v h; rw [hx]
  · exact fun _ v h => by obtain ⟨x0, x1, x2, hx⟩ := uQuatern_shape v h; rw [hx]
  · exact fun _ v h => by obtain ⟨x0, x1, x2, hx⟩ := uQoffset_shape v h; rw [hx]
  · exact fun _ v h => by obtain ⟨x0, x1, x2, hx⟩ := uSform_shape v h; rw [hx]
  · exact fun _ v h => by obtain ⟨x0, hx⟩ := uIntentName_shape v h; rw [hx]
  · exact fun _ v h => by obtain ⟨x0, hx⟩ := uMagic_shape v h; rw [hx]

theorem presAll_pixdim : ∀ w ∈ niftiHeaderSteps, w.key ≠ "pixdim" →
    ∀ (v : HVal) (h : NiftiHeader), (w.exec v h).1.pixdim = h.pixdim := by
  simp only [niftiHeaderSteps, List.forall_mem_cons]
  refine ⟨?_, ?_, ?_, ?_, ?_, ?_, ?_, ?_, ?_, ?_, ?_, ?_, ?_, ?_, ?_, ?_, ?_, ?_, ?_, ?_, ?_, ?_, ?_, ?_, ?_, ?_, ?_, ?_, ?_, ?_, ?_, ?_, ?_, ?_, ?_, ?_, fun x hx => nomatch hx⟩
  · exact fun _ v h => by obtain ⟨x0, hx⟩ := uDataType_shape v h; rw [hx]
  · exact fun _ v h => by obtain ⟨x0, hx⟩ := uDbName_shape v h; rw [hx]
  · exact fun _ v h => by obtain ⟨x0, hx⟩ := uExtents_shape v h; rw [hx]
  · exact fun _ v h => by obtain ⟨x0, hx⟩ := uSessionError_shape v h; rw [hx]
  · exact fun _ v h => by obtain ⟨x0, hx⟩ := uRegular_shape v h; rw [hx]
  · exact fun _ v h => by obtain ⟨x0, hx⟩ := uDimInfo_shape v h; rw [hx]
  · exact fun _ v h => by obtain ⟨x0, hx⟩ := uDim_shape v h; rw [hx]
  · exact fun _ v h => by obtain ⟨x0, hx⟩ := uIntentP1_shape v h; rw [hx]
  · exact fun _ v h => by obtain ⟨x0, hx⟩ := uIntentP2_shape v h; rw [hx]
  · exact fun _ v h => by obtain ⟨x0, hx⟩ := uIntentP3_shape v h; rw [hx]
  · exact fun _ v h => by obtain ⟨x0, hx⟩ := uIntentCode_shape v h; rw [hx]
  · exact fun _ v h => by obtain ⟨x0, hx⟩ := uDatatype_shape v h; rw [hx]
  · exact fun _ v h => by obtain ⟨x0, hx⟩ := uBitpix_shape v h; rw [hx]
  · exact fun _ v h => by obtain ⟨x0, hx⟩ := uSliceStart_shape v h; rw [hx]
  · exact fun hk => absurd rfl hk
  · exact fun _ v h => by obtain ⟨x0, hx⟩ := uVoxOffset_shape v h; rw [hx]
  · exact fun _ v h => by obtain ⟨x0, hx⟩ := uSclSlope_shape v h; rw [hx]
  · exact fun _ v h => by obtain ⟨x0, hx⟩ := uSclInter_shape v h; rw [hx]
  · exact fun _ v h => by obtain ⟨x0, hx⟩ := uSliceEnd_shape v h; rw [hx]
  · exact fun _ v h => by obtain ⟨x0, hx⟩ := uSliceCode_shape v h; rw [hx]
  · exact fun _ v h => by obtain ⟨x0, hx⟩ := uXyztUnits_shape v h; rw [hx]
  · exact fun _ v h => by obtain ⟨x0, hx⟩ := uCalMax_shape v h; rw [hx]
  · exact fun _ v h => by obtain ⟨x0, hx⟩ := uCalMin_shape v h; rw [hx]
  · exact fun _ v h => by obtain ⟨x0, hx⟩ := uSliceDuration_shape v h; rw [hx]
  · exact fun _ v h => by obtain ⟨x0, hx⟩ := uToffset_shape v h; rw [hx]
  · exact fun _ v h => by obtain ⟨x0, hx⟩ := uGlmax_shape v h; rw [hx]
  · exact fun _ v h => by obtain ⟨x0, hx⟩ := uGlmin_shape v h; rw [hx]
  · exact fun _ v h => by obtain ⟨x0, hx⟩ := uDescrip_shape v h; rw [hx]
  · exact fun _ v h => by obtain ⟨x0, hx⟩ := uAuxFile_shape v h; rw [hx]
  · exact fun _ v h => by obtain ⟨x0, hx⟩ := uQformCode_shape v h; rw [hx]
  · exact fun _ v h => by obtain ⟨x0, hx⟩ := uSformCode_shape v h; rw [hx]
  · exact fun _ v h => by obtain ⟨x0, x1, x2, hx⟩ := uQuatern_shape v h; rw [hx]
  · exact fun _ v h => by obtain ⟨x0, x1, x2, hx⟩ := uQoffset_shape v h; rw [hx]
  · exact fun _ v h => by obtain ⟨x0, x1, x2, hx⟩ := uSform_shape v h; rw [hx]
  · exact fun _ v h => by obtain ⟨x0, hx⟩ := uIntentName_shape v h; rw [hx]
  · exact fun _ v h => by obtain ⟨x0, hx⟩ := uMagic_shape v h; rw [hx]

theorem presAll_vox_offset : ∀ w ∈ niftiHeaderSteps, w.key ≠ "vox_offset" →
    ∀ (v : HVal) (h : NiftiHeader), (w.exec v h).1.vox_offset = h.vox_offset := by
  simp only [niftiHeaderSteps, List.forall_mem_cons]
  refine ⟨?_, ?_, ?_, ?_, ?_, ?_, ?_, ?_, ?_, ?_, ?_, ?_, ?_, ?_, ?_, ?_, ?_, ?_, ?_, ?_, ?_, ?_, ?_, ?_, ?_, ?_, ?_, ?_, ?_, ?_, ?_, ?_, ?_, ?_, ?_, ?_, fun x hx => nomatch hx⟩
  · exact fun _ v h => by obtain ⟨x0, hx⟩ := uDataType_shape v h; rw [hx]
  · exact fun _ v h => by obtain ⟨x0, hx⟩ := uDbName_shape v h; rw [hx]
  · exact fun _ v h => by obtain ⟨x0, hx⟩ := uExtents_shape v h; rw [hx]
  · exact fun _ v h => by obtain ⟨x0, hx⟩ := uSessionError_shape v h; rw [hx]
  · exact fun _ v h => by obtain ⟨x0, hx⟩ := uRegular_shape v h; rw [hx]
  · exact fun _ v h => by obtain ⟨x0, hx⟩ := uDimInfo_shape v h; rw [hx]
  · exact fun _ v h => by obtain ⟨x0, hx⟩ := uDim_shape v h; rw [hx]
  · exact fun _ v h => by obtain ⟨x0, hx⟩ := uIntentP1_shape v h; rw [hx]
  · exact fun _ v h => by obtain ⟨x0, hx⟩ := uIntentP2_shape v h; rw [hx]
  · exact fun _ v h => by obtain ⟨x0, hx⟩ := uIntentP3_shape v h; rw [hx]
  · exact fun _ v h => by obtain ⟨x0, hx⟩ := uIntentCode_shape v h; rw [hx]
  · exact fun _ v h => by obtain ⟨x0, hx⟩ := uDatatype_shape v h; rw [hx]
  · exact fun _ v h => by obtain ⟨x0, hx⟩ := uBitpix_shape v h; rw [hx]
  · exact fun _ v h => by obtain ⟨x0, hx⟩ := uSliceStart_shape v h; rw [hx]
  · exact fun _ v h => by obtain ⟨x0, hx⟩ := uPixdim_shape v h; rw [hx]
  · exact fun hk => absurd rfl hk
  · exact fun _ v h => by obtain ⟨x0, hx⟩ := uSclSlope_shape v h; rw [hx]
  · exact fun _ v h => by obtain ⟨x0, hx⟩ := uSclInter_shape v h; rw [hx]
  · exact fun _ v h => by obtain ⟨x0, hx⟩ := uSliceEnd_shape v h; rw [hx]
  · exact fun _ v h => by obtain ⟨x0, hx⟩ := uSliceCode_shape v h; rw [hx]
  · exact fun _ v h => by obtain ⟨x0, hx⟩ := uXyztUnits_shape v h; rw [hx]
  · exact fun _ v h => by obtain ⟨x0, hx⟩ := uCalMax_shape v h; rw [hx]
  · exact fun _ v h => by obtain ⟨x0, hx⟩ := uCalMin_shape v h; rw [hx]
  · exact fun _ v h => by obtain ⟨x0, hx⟩ := uSliceDuration_shape v h; rw [hx]
  · exact fun _ v h => by obtain ⟨x0, hx⟩ := uToffset_shape v h; rw [hx]
  · exact fun _ v h => by obtain ⟨x0, hx⟩ := uGlmax_shape v h; rw [hx]
  · exact fun _ v h => by obtain ⟨x0, hx⟩ := uGlmin_shape v h; rw [hx]
  · exact fun _ v h => by obtain ⟨x0, hx⟩ := uDescrip_shape v h; rw [hx]
  · exact fun _ v h => by obtain ⟨x0, hx⟩ := uAuxFile_shape v h; rw [hx]
  · exact fun _ v h => by obtain ⟨x0, hx⟩ := uQformCode_shape v h; rw [hx]
  · exact fun _ v h => by obtain ⟨x0, hx⟩ := uSformCode_shape v h; rw [hx]
  · exact fun _ v h => by obtain ⟨x0, x1, x2, hx⟩ := uQuatern_shape v h; rw [hx]
  · exact fun _ v h => by obtain ⟨x0, x1, x2, hx⟩ := uQoffset_shape v h; rw [hx]
  · exact fun _ v h => by obtain ⟨x0, x1, x2, hx⟩ := uSform_shape v h; rw [hx]
  · exact fun _ v h => by obtain ⟨x0, hx⟩ := uIntentName_shape v h; rw [hx]
  · exact fun _ v h => by obtain ⟨x0, hx⟩ := uMagic_shape v h; rw [hx]

theorem presAll_scl_slope : ∀ w ∈ niftiHeaderSteps, w.key ≠ "scl_slope" →
    ∀ (v : HVal) (h : NiftiHeader), (w.exec v h).1.scl_slope = h.scl_slope := by
  simp only [niftiHeaderSteps, List.forall_mem_cons]
  refine ⟨?_, ?_, ?_, ?_, ?_, ?_, ?_, ?_, ?_, ?_, ?_, ?_, ?_, ?_, ?_, ?_, ?_, ?_, ?_, ?_, ?_, ?_, ?_, ?_, ?_, ?_, ?_, ?_, ?_, ?_, ?_, ?_, ?_, ?_, ?_, ?_, fun x hx => nomatch hx⟩
  · exact fun _ v h => by obtain ⟨x0, hx⟩ := uDataType_shape v h; rw [hx]
  · exact fun _ v h => by obtain ⟨x0, hx⟩ := uDbName_shape v h; rw [hx]
  · exact fun _ v h => by obtain ⟨x0, hx⟩ := uExtents_shape v h; rw [hx]
  · exact fun _ v h => by obtain ⟨x0, hx⟩ := uSessionError_shape v h; rw [hx]
  · exact fun _ v h => by obtain ⟨x0, hx⟩ := uRegular_shape v h; rw [hx]
  · exact fun _ v h => by obtain ⟨x0, hx⟩ := uDimInfo_shape v h; rw [hx]
  · exact fun _ v h => by obtain ⟨x0, hx⟩ := uDim_shape v h; rw [hx]
  · exact fun _ v h => by obtain ⟨x0, hx⟩ := uIntentP1_shape v h; rw [hx]
  · exact fun _ v h => by obtain ⟨x0, hx⟩ := uIntentP2_shape v h; rw [hx]
  · exact fun _ v h => by obtain ⟨x0, hx⟩ := uIntentP3_shape v h; rw [hx]
  · exact fun _ v h => by obtain ⟨x0, hx⟩ := uIntentCode_shape v h; rw [hx]
  · exact fun _ v h => by obtain ⟨x0, hx⟩ := uDatatype_shape v h; rw [hx]
  · exact fun _ v h => by obtain ⟨x0, hx⟩ := uBitpix_shape v h; rw [hx]
  · exact fun _ v h => by obtain ⟨x0, hx⟩ := uSliceStart_shape v h; rw [hx]
  · exact fun _ v h => by obtain ⟨x0, hx⟩ := uPixdim_shape v h; rw [hx]
  · exact fun _ v h => by obtain ⟨x0, hx⟩ := uVoxOffset_shape v h; rw [hx]
  · exact fun hk => absurd rfl hk
  · exact fun _ v h => by obtain ⟨x0, hx⟩ := uSclInter_shape v h; rw [hx]
  · exact fun _ v h => by obtain ⟨x0, hx⟩ := uSliceEnd_shape v h; rw [hx]
  · exact fun _ v h => by obtain ⟨x0, hx⟩ := uSliceCode_shape v h; rw [hx]
  · exact fun _ v h => by obtain ⟨x0, hx⟩ := uXyztUnits_shape v h; rw [hx]
  · exact fun _ v h => by obtain ⟨x0, hx⟩ := uCalMax_shape v h; rw [hx]
  · exact fun _ v h => by obtain ⟨x0, hx⟩ := uCalMin_shape v h; rw [hx]
  · exact fun _ v h => by obtain ⟨x0, hx⟩ := uSliceDuration_shape v h; rw [hx]
  · exact fun _ v h => by obtain ⟨x0, hx⟩ := uToffset_shape v h; rw [hx]
  · exact fun _ v h => by obtain ⟨x0, hx⟩ := uGlmax_shape v h; rw [hx]
  · exact fun _ v h => by obtain ⟨x0, hx⟩ := uGlmin_shape v h; rw [hx]
  · exact fun _ v h => by obtain ⟨x0, hx⟩ := uDescrip_shape v h; rw [hx]
  · exact fun _ v h => by obtain ⟨x0, hx⟩ := uAuxFile_shape v h; rw [hx]
  · exact fun _ v h => by obtain ⟨x0, hx⟩ := uQformCode_shape v h; rw [hx]
  · exact fun _ v h => by obtain ⟨x0, hx⟩ := uSformCode_shape v h; rw [hx]
  · exact fun _ v h => by obtain ⟨x0, x1, x2, hx⟩ := uQuatern_shape v h; rw [hx]
  · exact fun _ v h => by obtain ⟨x0, x1, x2, hx⟩ := uQoffset_shape v h; rw [hx]
  · exact fun _ v h => by obtain ⟨x0, x1, x2, hx⟩ := uSform_shape v h; rw [hx]
  · exact fun _ v h => by obtain ⟨x0, hx⟩ := uIntentName_shape v h; rw [hx]
  · exact fun _ v h => by obtain ⟨x0, hx⟩ := uMagic_shape v h; rw [hx]

theorem presAll_scl_inter : ∀ w ∈ niftiHeaderSteps, w.key ≠ "scl_inter" →
    ∀ (v : HVal) (h : NiftiHeader), (w.exec v h).1.scl_inter = h.scl_inter := by
  simp only [niftiHeaderSteps, List.forall_mem_cons]
  refine ⟨?_, ?_, ?_, ?_, ?_, ?_, ?_, ?_, ?_, ?_, ?_, ?_, ?_, ?_, ?_, ?_, ?_, ?_, ?_, ?_, ?_, ?_, ?_, ?_, ?_, ?_, ?_, ?_, ?_, ?_, ?_, ?_, ?_, ?_, ?_, ?_, fun x hx => nomatch hx⟩
  · exact fun _ v h => by obtain ⟨x0, hx⟩ := uDataType_shape v h; rw [hx]
  · exact fun _ v h => by obtain ⟨x0, hx⟩ := uDbName_shape v h; rw [hx]
  · exact fun _ v h => by obtain ⟨x0, hx⟩ := uExtents_shape v h; rw [hx]
  · exact fun _ v h => by obtain ⟨x0, hx⟩ := uSessionError_shape v h; rw [hx]
  · exact fun _ v h => by obtain ⟨x0, hx⟩ := uRegular_shape v h; rw [hx]
  · exact fun _ v h => by obtain ⟨x0, hx⟩ := uDimInfo_shape v h; rw [hx]
  · exact fun _ v h => by obtain ⟨x0, hx⟩ := uDim_shape v h; rw [hx]
  · exact fun _ v h => by obtain ⟨x0, hx⟩ := uIntentP1_shape v h; rw [hx]
  · exact fun _ v h => by obtain ⟨x0, hx⟩ := uIntentP2_shape v h; rw [hx]
  · exact fun _ v h => by obtain ⟨x0, hx⟩ := uIntentP3_shape v h; rw [hx]
  · exact fun _ v h => by obtain ⟨x0, hx⟩ := uIntentCode_shape v h; rw [hx]
  · exact fun _ v h => by obtain ⟨x0, hx⟩ := uDatatype_shape v h; rw [hx]
  · exact fun _ v h => by obtain ⟨x0, hx⟩ := uBitpix_shape v h; rw [hx]
  · exact fun _ v h => by obtain ⟨x0, hx⟩ := uSliceStart_shape v h; rw [hx]
  · exact fun _ v h => by obtain ⟨x0, hx⟩ := uPixdim_shape v h; rw [hx]
  · exact fun _ v h => by obtain ⟨x0, hx⟩ := uVoxOffset_shape v h; rw [hx]
  · exact fun _ v h => by obtain ⟨x0, hx⟩ := uSclSlope_shape v h; rw [hx]
  · exact fun hk => absurd rfl hk
  · exact fun _ v h => by obtain ⟨x0, hx⟩ := uSliceEnd_shape v h; rw [hx]
  · exact fun _ v h => by obtain ⟨x0, hx⟩ := uSliceCode_shape v h; rw [hx]
  · exact fun _ v h => by obtain ⟨x0, hx⟩ := uXyztUnits_shape v h; rw [hx]
  · exact fun _ v h => by obtain ⟨x0, hx⟩ := uCalMax_shape v h; rw [hx]
  · exact fun _ v h => by obtain ⟨x0, hx⟩ := uCalMin_shape v h; rw [hx]
  · exact fun _ v h => by obtain ⟨x0, hx⟩ := uSliceDuration_shape v h; rw [hx]
  · exact fun _ v h => by obtain ⟨x0, hx⟩ := uToffset_shape v h; rw [hx]
  · exact fun _ v h => by obtain ⟨x0, hx⟩ := uGlmax_shape v h; rw [hx]
  · exact fun _ v h => by obtain ⟨x0, hx⟩ := uGlmin_shape v h; rw [hx]
  · exact fun _ v h => by obtain ⟨x0, hx⟩ := uDescrip_shape v h; rw [hx]
  · exact fun _ v h => by obtain ⟨x0, hx⟩ := uAuxFile_shape v h; rw [hx]
  · exact fun _ v h => by obtain ⟨x0, hx⟩ := uQformCode_shape v h; rw [hx]
  · exact fun _ v h => by obtain ⟨x0, hx⟩ := uSformCode_shape v h; rw [hx]
  · exact fun _ v h => by obtain ⟨x0, x1, x2, hx⟩ := uQuatern_shape v h; rw [hx]
  · exact fun _ v h => by obtain ⟨x0, x1, x2, hx⟩ := uQoffset_shape v h; rw [hx]
  · exact fun _ v h => by obtain ⟨x0, x1, x2, hx⟩ := uSform_shape v h; rw [hx]
  · exact fun _ v h => by obtain ⟨x0, hx⟩ := uIntentName_shape v h; rw [hx]
  · exact fun _ v h => by obtain ⟨x0, hx⟩ := uMagic_shape v h; rw [hx]

theorem presAll_slice_end : ∀ w ∈ niftiHeaderSteps, w.key ≠ "slice_end" →
    ∀ (v : HVal) (h : NiftiHeader), (w.exec v h).1.slice_end = h.slice_end := by
  simp only [niftiHeaderSteps, List.forall_mem_cons]
  refine ⟨?_, ?_, ?_, ?_, ?_, ?_, ?_, ?_, ?_, ?_, ?_, ?_, ?_, ?_, ?_, ?_, ?_, ?_, ?_, ?_, ?_, ?_, ?_, ?_, ?_, ?_, ?_, ?_, ?_, ?_, ?_, ?_, ?_, ?_, ?_, ?_, fun x hx => nomatch hx⟩
  · exact fun _ v h => by obtain ⟨x0, hx⟩ := uDataType_shape v h; rw [hx]
  · exact fun _ v h => by obtain ⟨x0, hx⟩ := uDbName_shape v h; rw [hx]
  · exact fun _ v h => by obtain ⟨x0, hx⟩ := uExtents_shape v h; rw [hx]
  · exact fun _ v h => by obtain ⟨x0, hx⟩ := uSessionError_shape v h; rw [hx]
  · exact fun _ v h => by obtain ⟨x0, hx⟩ := uRegular_shape v h; rw [hx]
  · exact fun _ v h => by obtain ⟨x0, hx⟩ := uDimInfo_shape v h; rw [hx]
  · exact fun _ v h => by obtain ⟨x0, hx⟩ := uDim_shape v h; rw [hx]
  · exact fun _ v h => by obtain ⟨x0, hx⟩ := uIntentP1_shape v h; rw [hx]
  · exact fun _ v h => by obtain ⟨x0, hx⟩ := uIntentP2_shape v h; rw [hx]
  · exact fun _ v h => by obtain ⟨x0, hx⟩ := uIntentP3_shape v h; rw [hx]
  · exact fun _ v h => by obtain ⟨x0, hx⟩ := uIntentCode_shape v h; rw [hx]
  · exact fun _ v h => by obtain ⟨x0, hx⟩ := uDatatype_shape v h; rw [hx]
  · exact fun _ v h => by obtain ⟨x0, hx⟩ := uBitpix_shape v h; rw [hx]
  · exact fun _ v h => by obtain ⟨x0, hx⟩ := uSliceStart_shape v h; rw [hx]
  · exact fun _ v h => by obtain ⟨x0, hx⟩ := uPixdim_shape v h; rw [hx]
  · exact fun _ v h => by obtain ⟨x0, hx⟩ := uVoxOffset_shape v h; rw [hx]
  · exact fun _ v h => by obtain ⟨x0, hx⟩ := uSclSlope_shape v h; rw [hx]
  · exact fun _ v h => by obtain ⟨x0, hx⟩ := uSclInter_shape v h; rw [hx]
  · exact fun hk => absurd rfl hk
  · exact fun _ v h => by obtain ⟨x0, hx⟩ := uSliceCode_shape v h; rw [hx]
  · exact fun _ v h => by obtain ⟨x0, hx⟩ := uXyztUnits_shape v h; rw [hx]
  · exact fun _ v h => by obtain ⟨x0, hx⟩ := uCalMax_shape v h; rw [hx]
  · exact fun _ v h => by obtain ⟨x0, hx⟩ := uCalMin_shape v h; rw [hx]
  · exact fun _ v h => by obtain ⟨x0, hx⟩ := uSliceDuration_shape v h; rw [hx]
  · exact fun _ v h => by obtain ⟨x0, hx⟩ := uToffset_shape v h; rw [hx]
  · exact fun _ v h => by obtain ⟨x0, hx⟩ := uGlmax_shape v h; rw [hx]
  · exact fun _ v h => by obtain ⟨x0, hx⟩ := uGlmin_shape v h; rw [hx]
  · exact fun _ v h => by obtain ⟨x0, hx⟩ := uDescrip_shape v h; rw [hx]
  · exact fun _ v h => by obtain ⟨x0, hx⟩ := uAuxFile_shape v h; rw [hx]
  · exact fun _ v h => by obtain ⟨x0, hx⟩ := uQformCode_shape v h; rw [hx]
  · exact fun _ v h => by obtain ⟨x0, hx⟩ := uSformCode_shape v h; rw [hx]
  · exact fun _ v h => by obtain ⟨x0, x1, x2, hx⟩ := uQuatern_shape v h; rw [hx]
  · exact fun _ v h => by obtain ⟨x0, x1, x2, hx⟩ := uQoffset_shape v h; rw [hx]
  · exact fun _ v h => by obtain ⟨x0, x1, x2, hx⟩ := uSform_shape v h; rw [hx]
  · exact fun _ v h => by obtain ⟨x0, hx⟩ := uIntentName_shape v h; rw [hx]
  · exact fun _ v h => by obtain ⟨x0, hx⟩ := uMagic_shape v h; rw [hx]

theorem presAll_slice_code : ∀ w ∈ niftiHeaderSteps, w.key ≠ "slice_code" →
    ∀ (v : HVal) (h : NiftiHeader), (w.exec v h).1.slice_code = h.slice_code := by
  simp only [niftiHeaderSteps, List.forall_mem_cons]
  refine ⟨?_, ?_, ?_, ?_, ?_, ?_, ?_, ?_, ?_, ?_, ?_, ?_, ?_, ?_, ?_, ?_, ?_, ?_, ?_, ?_, ?_, ?_, ?_, ?_, ?_, ?_, ?_, ?_, ?_, ?_, ?_, ?_, ?_, ?_, ?_, ?_, fun x hx => nomatch hx⟩
  · exact fun _ v h => by obtain ⟨x0, hx⟩ := uDataType_shape v h; rw [hx]
  · exact fun _ v h => by obtain ⟨x0, hx⟩ := uDbName_shape v h; rw [hx]
  · exact fun _ v h => by obtain ⟨x0, hx⟩ := uExtents_shape v h; rw [hx]
  · exact fun _ v h => by obtain ⟨x0, hx⟩ := uSessionError_shape v h; rw [hx]
  · exact fun _ v h => by obtain ⟨x0, hx⟩ := uRegular_shape v h; rw [hx]
  · exact fun _ v h => by obtain ⟨x0, hx⟩ := uDimInfo_shape v h; rw [hx]
  · exact fun _ v h => by obtain ⟨x0, hx⟩ := uDim_shape v h; rw [hx]
  · exact fun _ v h => by obtain ⟨x0, hx⟩ := uIntentP1_shape v h; rw [hx]
  · exact fun _ v h => by obtain ⟨x0, hx⟩ := uIntentP2_shape v h; rw [hx]
  · exact fun _ v h => by obtain ⟨x0, hx⟩ := uIntentP3_shape v h; rw [hx]
  · exact fun _ v h => by obtain ⟨x0, hx⟩ := uIntentCode_shape v h; rw [hx]
  · exact fun _ v h => by obtain ⟨x0, hx⟩ := uDatatype_shape v h; rw [hx]
  · exact fun _ v h => by obtain ⟨x0, hx⟩ := uBitpix_shape v h; rw [hx]
  · exact fun _ v h => by obtain ⟨x0, hx⟩ := uSliceStart_shape v h; rw [hx]
  · exact fun _ v h => by obtain ⟨x0, hx⟩ := uPixdim_shape v h; rw [hx]
  · exact fun _ v h => by obtain ⟨x0, hx⟩ := uVoxOffset_shape v h; rw [hx]
  · exact fun _ v h => by obtain ⟨x0, hx⟩ := uSclSlope_shape v h; rw [hx]
  · exact fun _ v h => by obtain ⟨x0, hx⟩ := uSclInter_shape v h; rw [hx]
  · exact fun _ v h => by obtain ⟨x0, hx⟩ := uSliceEnd_shape v h; rw [hx]
  · exact fun hk => absurd rfl hk
  · exact fun _ v h => by obtain ⟨x0, hx⟩ := uXyztUnits_shape v h; rw [hx]
  · exact fun _ v h => by obtain ⟨x0, hx⟩ := uCalMax_shape v h; rw [hx]
  · exact fun _ v h => by obtain ⟨x0, hx⟩ := uCalMin_shape v h; rw [hx]
  · exact fun _ v h => by obtain ⟨x0, hx⟩ := uSliceDuration_shape v h; rw [hx]
  · exact fun _ v h => by obtain ⟨x0, hx⟩ := uToffset_shape v h; rw [hx]
  · exact fun _ v h => by obtain ⟨x0, hx⟩ := uGlmax_shape v h; rw [hx]
  · exact fun _ v h => by obtain ⟨x0, hx⟩ := uGlmin_shape v h; rw [hx]
  · exact fun _ v h => by obtain ⟨x0, hx⟩ := uDescrip_shape v h; rw [hx]
  · exact fun _ v h => by obtain ⟨x0, hx⟩ := uAuxFile_shape v h; rw [hx]
  · exact fun _ v h => by obtain ⟨x0, hx⟩ := uQformCode_shape v h; rw [hx]
  · exact fun _ v h => by obtain ⟨x0, hx⟩ := uSformCode_shape v h; rw [hx]
  · exact fun _ v h => by obtain ⟨x0, x1, x2, hx⟩ := uQuatern_shape v h; rw [hx]
  · exact fun _ v h => by obtain ⟨x0, x1, x2, hx⟩ := uQoffset_shape v h; rw [hx]
  · exact fun _ v h => by obtain ⟨x0, x1, x2, hx⟩ := uSform_shape v h; rw [hx]
  · exact fun _ v h => by obtain ⟨x0, hx⟩ := uIntentName_shape v h; rw [hx]
  · exact fun _ v h => by obtain ⟨x0, hx⟩ := uMagic_shape v h; rw [hx]

theorem presAll_xyzt_units : ∀ w ∈ niftiHeaderSteps, w.key ≠ "xyzt_units" →
    ∀ (v : HVal) (h : NiftiHeader), (w.exec v h).1.xyzt_units = h.xyzt_units := by
  simp only [niftiHeaderSteps, List.forall_mem_cons]
  refine ⟨?_, ?_, ?_, ?_, ?_, ?_, ?_, ?_, ?_, ?_, ?_, ?_, ?_, ?_, ?_, ?_, ?_, ?_, ?_, ?_, ?_, ?_, ?_, ?_, ?_, ?_, ?_, ?_, ?_, ?_, ?_, ?_, ?_, ?_, ?_, ?_, fun x hx => nomatch hx⟩
  · exact fun _ v h => by obtain ⟨x0, hx⟩ := uDataType_shape v h; rw [hx]
  · exact fun _ v h => by obtain ⟨x0, hx⟩ := uDbName_shape v h; rw [hx]
  · exact fun _ v h => by obtain ⟨x0, hx⟩ := uExtents_shape v h; rw [hx]
  · exact fun _ v h => by obtain ⟨x0, hx⟩ := uSessionError_shape v h; rw [hx]
  · exact fun _ v h => by obtain ⟨x0, hx⟩ := uRegular_shape v h; rw [hx]
  · exact fun _ v h => by obtain ⟨x0, hx⟩ := uDimInfo_shape v h; rw [hx]
  · exact fun _ v h => by obtain ⟨x0, hx⟩ := uDim_shape v h; rw [hx]
  · exact fun _ v h => by obtain ⟨x0, hx⟩ := uIntentP1_shape v h; rw [hx]
  · exact fun _ v h => by obtain ⟨x0, hx⟩ := uIntentP2_shape v h; rw [hx]
  · exact fun _ v h => by obtain ⟨x0, hx⟩ := uIntentP3_shape v h; rw [hx]
  · exact fun _ v h => by obtain ⟨x0, hx⟩ := uIntentCode_shape v h; rw [hx]
  · exact fun _ v h => by obtain ⟨x0, hx⟩ := uDatatype_shape v h; rw [hx]
  · exact fun _ v h => by obtain ⟨x0, hx⟩ := uBitpix_shape v h; rw [hx]
  · exact fun _ v h => by obtain ⟨x0, hx⟩ := uSliceStart_shape v h; rw [hx]
  · exact fun _ v h => by obtain ⟨x0, hx⟩ := uPixdim_shape v h; rw [hx]
  · exact fun _ v h => by obtain ⟨x0, hx⟩ := uVoxOffset_shape v h; rw [hx]
  · exact fun _ v h => by obtain ⟨x0, hx⟩ := uSclSlope_shape v h; rw [hx]
  · exact fun _ v h => by obtain ⟨x0, hx⟩ := uSclInter_shape v h; rw [hx]
  · exact fun _ v h => by obtain ⟨x0, hx⟩ := uSliceEnd_shape v h; rw [hx]
  · exact fun _ v h => by obtain ⟨x0, hx⟩ := uSliceCode_shape v h; rw [hx]
  · exact fun hk => absurd rfl hk
  · exact fun _ v h => by obtain ⟨x0, hx⟩ := uCalMax_shape v h; rw [hx]
  · exact fun _ v h => by obtain ⟨x0, hx⟩ := uCalMin_shape v h; rw [hx]
  · exact fun _ v h => by obtain ⟨x0, hx⟩ := uSliceDuration_shape v h; rw [hx]
  · exact fun _ v h => by obtain ⟨x0, hx⟩ := uToffset_shape v h; rw [hx]
  · exact fun _ v h => by obtain ⟨x0, hx⟩ := uGlmax_shape v h; rw [hx]
  · exact fun _ v h => by obtain ⟨x0, hx⟩ := uGlmin_shape v h; rw [hx]
  · exact fun _ v h => by obtain ⟨x0, hx⟩ := uDescrip_shape v h; rw [hx]
  · exact fun _ v h => by obtain ⟨x0, hx⟩ := uAuxFile_shape v h; rw [hx]
  · exact fun _ v h => by obtain ⟨x0, hx⟩ := uQformCode_shape v h; rw [hx]
  · exact fun _ v h => by obtain ⟨x0, hx⟩ := uSformCode_shape v h; rw [hx]
  · exact fun _ v h => by obtain ⟨x0, x1, x2, hx⟩ := uQuatern_shape v h; rw [hx]
  · exact fun _ v h => by obtain ⟨x0, x1, x2, hx⟩ := uQoffset_shape v h; rw [hx]
  · exact fun _ v h => by obtain ⟨x0, x1, x2, hx⟩ := uSform_shape v h; rw [hx]
  · exact fun _ v h => by obtain ⟨x0, hx⟩ := uIntentName_shape v h; rw [hx]
  · exact fun _ v h => by obtain ⟨x0, hx⟩ := uMagic_shape v h; rw [hx]

theorem presAll_cal_max : ∀ w ∈ niftiHeaderSteps, w.key ≠ "cal_max" →
    ∀ (v : HVal) (h : NiftiHeader), (w.exec v h).1.cal_max = h.cal_max := by
  simp only [niftiHeaderSteps, List.forall_mem_cons]
  refine ⟨?_, ?_, ?_, ?_, ?_, ?_, ?_, ?_, ?_, ?_, ?_, ?_, ?_, ?_, ?_, ?_, ?_, ?_, ?_, ?_, ?_, ?_, ?_, ?_, ?_, ?_, ?_, ?_, ?_, ?_, ?_, ?_, ?_, ?_, ?_, ?_, fun x hx => nomatch hx⟩
  · exact fun _ v h => by obtain ⟨x0, hx⟩ := uDataType_shape v h; rw [hx]
  · exact fun _ v h => by obtain ⟨x0, hx⟩ := uDbName_shape v h; rw [hx]
  · exact fun _ v h => by obtain ⟨x0, hx⟩ := uExtents_shape v h; rw [hx]
  · exact fun _ v h => by obtain ⟨x0, hx⟩ := uSessionError_shape v h; rw [hx]
  · exact fun _ v h => by obtain ⟨x0, hx⟩ := uRegular_shape v h; rw [hx]
  · exact fun _ v h => by obtain ⟨x0, hx⟩ := uDimInfo_shape v h; rw [hx]
  · exact fun _ v h => by obtain ⟨x0, hx⟩ := uDim_shape v h; rw [hx]
  · exact fun _ v h => by obtain ⟨x0, hx⟩ := uIntentP1_shape v h; rw [hx]
  · exact fun _ v h => by obtain ⟨x0, hx⟩ := uIntentP2_shape v h; rw [hx]
  · exact fun _ v h => by obtain ⟨x0, hx⟩ := uIntentP3_shape v h; rw [hx]
  · exact fun _ v h => by obtain ⟨x0, hx⟩ := uIntentCode_shape v h; rw [hx]
  · exact fun _ v h => by obtain ⟨x0, hx⟩ := uDatatype_shape v h; rw [hx]
  · exact fun _ v h => by obtain ⟨x0, hx⟩ := uBitpix_shape v h; rw [hx]
  · exact fun _ v h => by obtain ⟨x0, hx⟩ := uSliceStart_shape v h; rw [hx]
  · exact fun _ v h => by obtain ⟨x0, hx⟩ := uPixdim_shape v h; rw [hx]
  · exact fun _ v h => by obtain ⟨x0, hx⟩ := uVoxOffset_shape v h; rw [hx]
  · exact fun _ v h => by obtain ⟨x0, hx⟩ := uSclSlope_shape v h; rw [hx]
  · exact fun _ v h => by obtain ⟨x0, hx⟩ := uSclInter_shape v h; rw [hx]
  · exact fun _ v h => by obtain ⟨x0, hx⟩ := uSliceEnd_shape v h; rw [hx]
  · exact fun _ v h => by obtain ⟨x0, hx⟩ := uSliceCode_shape v h; rw [hx]
  · exact fun _ v h => by obtain ⟨x0, hx⟩ := uXyztUnits_shape v h; rw [hx]
  · exact fun hk => absurd rfl hk
  · exact fun _ v h => by obtain ⟨x0, hx⟩ := uCalMin_shape v h; rw [hx]
  · exact fun _ v h => by obtain ⟨x0, hx⟩ := uSliceDuration_shape v h; rw [hx]
  · exact fun _ v h => by obtain ⟨x0, hx⟩ := uToffset_shape v h; rw [hx]
  · exact fun _ v h => by obtain ⟨x0, hx⟩ := uGlmax_shape v h; rw [hx]
  · exact fun _ v h => by obtain ⟨x0, hx⟩ := uGlmin_shape v h; rw [hx]
  · exact fun _ v h => by obtain ⟨x0, hx⟩ := uDescrip_shape v h; rw [hx]
  · exact fun _ v h => by obtain ⟨x0, hx⟩ := uAuxFile_shape v h; rw [hx]
  · exact fun _ v h => by obtain ⟨x0, hx⟩ := uQformCode_shape v h; rw [hx]
  · exact fun _ v h => by obtain ⟨x0, hx⟩ := uSformCode_shape v h; rw [hx]
  · exact fun _ v h => by obtain ⟨x0, x1, x2, hx⟩ := uQuatern_shape v h; rw [hx]
  · exact fun _ v h => by obtain ⟨x0, x1, x2, hx⟩ := uQoffset_shape v h; rw [hx]
  · exact fun _ v h => by obtain ⟨x0, x1, x2, hx⟩ := uSform_shape v h; rw [hx]
  · exact fun _ v h => by obtain ⟨x0, hx⟩ := uIntentName_shape v h; rw [hx]
  · exact fun _ v h => by obtain ⟨x0, hx⟩ := uMagic_shape v h; rw [hx]

theorem presAll_cal_min : ∀ w ∈ niftiHeaderSteps, w.key ≠ "cal_min" →
    ∀ (v : HVal) (h : NiftiHeader), (w.exec v h).1.cal_min = h.cal_min := by
  simp only [niftiHeaderSteps, List.forall_mem_cons]
  refine ⟨?_, ?_, ?_, ?_, ?_, ?_, ?_, ?_, ?_, ?_, ?_, ?_, ?_, ?_, ?_, ?_, ?_, ?_, ?_, ?_, ?_, ?_, ?_, ?_, ?_, ?_, ?_, ?_, ?_, ?_, ?_, ?_, ?_, ?_, ?_, ?_, fun x hx => nomatch hx⟩
  · exact fun _ v h => by obtain ⟨x0, hx⟩ := uDataType_shape v h; rw [hx]
  · exact fun _ v h => by obtain ⟨x0, hx⟩ := uDbName_shape v h; rw [hx]
  · exact fun _ v h => by obtain ⟨x0, hx⟩ := uExtents_shape v h; rw [hx]
  · exact fun _ v h => by obtain ⟨x0, hx⟩ := uSessionError_shape v h; rw [hx]
  · exact fun _ v h => by obtain ⟨x0, hx⟩ := uRegular_shape v h; rw [hx]
  · exact fun _ v h => by obtain ⟨x0, hx⟩ := uDimInfo_shape v h; rw [hx]
  · exact fun _ v h => by obtain ⟨x0, hx⟩ := uDim_shape v h; rw [hx]
  · exact fun _ v h => by obtain ⟨x0, hx⟩ := uIntentP1_shape v h; rw [hx]
  · exact fun _ v h => by obtain ⟨x0, hx⟩ := uIntentP2_shape v h; rw [hx]
  · exact fun _ v h => by obtain ⟨x0, hx⟩ := uIntentP3_shape v h; rw [hx]
  · exact fun _ v h => by obtain ⟨x0, hx⟩ := uIntentCode_shape v h; rw [hx]
  · exact fun _ v h => by obtain ⟨x0, hx⟩ := uDatatype_shape v h; rw [hx]
  · exact fun _ v h => by obtain ⟨x0, hx⟩ := uBitpix_shape v h; rw [hx]
  · exact fun _ v h => by obtain ⟨x0, hx⟩ := uSliceStart_shape v h; rw [hx]
  · exact fun _ v h => by obtain ⟨x0, hx⟩ := uPixdim_shape v h; rw [hx]
  · exact fun _ v h => by obtain ⟨x0, hx⟩ := uVoxOffset_shape v h; rw [hx]
  · exact fun _ v h => by obtain ⟨x0, hx⟩ := uSclSlope_shape v h; rw [hx]
  · exact fun _ v h => by obtain ⟨x0, hx⟩ := uSclInter_shape v h; rw [hx]
  · exact fun _ v h => by obtain ⟨x0, hx⟩ := uSliceEnd_shape v h; rw [hx]
  · exact fun _ v h => by obtain ⟨x0, hx⟩ := uSliceCode_shape v h; rw [hx]
  · exact fun _ v h => by obtain ⟨x0, hx⟩ := uXyztUnits_shape v h; rw [hx]
  · exact fun _ v h => by obtain ⟨x0, hx⟩ := uCalMax_shape v h; rw [hx]
  · exact fun hk => absurd rfl hk
  · exact fun _ v h => by obtain ⟨x0, hx⟩ := uSliceDuration_shape v h; rw [hx]
  · exact fun _ v h => by obtain ⟨x0, hx⟩ := uToffset_shape v h; rw [hx]
  · exact fun _ v h => by obtain ⟨x0, hx⟩ := uGlmax_shape v h; rw [hx]
  · exact fun _ v h => by obtain ⟨x0, hx⟩ := uGlmin_shape v h; rw [hx]
  · exact fun _ v h => by obtain ⟨x0, hx⟩ := uDescrip_shape v h; rw [hx]
  · exact fun _ v h => by obtain ⟨x0, hx⟩ := uAuxFile_shape v h; rw [hx]
  · exact fun _ v h => by obtain ⟨x0, hx⟩ := uQformCode_shape v h; rw [hx]
  · exact fun _ v h => by obtain ⟨x0, hx⟩ := uSformCode_shape v h; rw [hx]
  · exact fun _ v h => by obtain ⟨x0, x1, x2, hx⟩ := uQuatern_shape v h; rw [hx]
  · exact fun _ v h => by obtain ⟨x0, x1, x2, hx⟩ := uQoffset_shape v h; rw [hx]
  · exact fun _ v h => by obtain ⟨x0, x1, x2, hx⟩ := uSform_shape v h; rw [hx]
  · exact fun _ v h => by obtain ⟨x0, hx⟩ := uIntentName_shape v h; rw [hx]
  · exact fun _ v h => by obtain ⟨x0, hx⟩ := uMagic_shape v h; rw [hx]

theorem presAll_slice_duration : ∀ w ∈ niftiHeaderSteps, w.key ≠ "slice_duration" →
    ∀ (v : HVal) (h : NiftiHeader), (w.exec v h).1.slice_duration = h.slice_duration := by
  simp only [niftiHeaderSteps, List.forall_mem_cons]
  refine ⟨?_, ?_, ?_, ?_, ?_, ?_, ?_, ?_, ?_, ?_, ?_, ?_, ?_, ?_, ?_, ?_, ?_, ?_, ?_, ?_, ?_, ?_, ?_, ?_, ?_, ?_, ?_, ?_, ?_, ?_, ?_, ?_, ?_, ?_, ?_, ?_, fun x hx => nomatch hx⟩
  · exact fun _ v h => by obtain ⟨x0, hx⟩ := uDataType_shape v h; rw [hx]
  · exact fun _ v h => by obtain ⟨x0, hx⟩ := uDbName_shape v h; rw [hx]
  · exact fun _ v h => by obtain ⟨x0, hx⟩ := uExtents_shape v h; rw [hx]
  · exact fun _ v h => by obtain ⟨x0, hx⟩ := uSessionError_shape v h; rw [hx]
  · exact fun _ v h => by obtain ⟨x0, hx⟩ := uRegular_shape v h; rw [hx]
  · exact fun _ v h => by obtain ⟨x0, hx⟩ := uDimInfo_shape v h; rw [hx]
  · exact fun _ v h => by obtain ⟨x0, hx⟩ := uDim_shape v h; rw [hx]
  · exact fun _ v h => by obtain ⟨x0, hx⟩ := uIntentP1_shape v h; rw [hx]
  · exact fun _ v h => by obtain ⟨x0, hx⟩ := uIntentP2_shape v h; rw [hx]
  · exact fun _ v h => by obtain ⟨x0, hx⟩ := uIntentP3_shape v h; rw [hx]
  · exact fun _ v h => by obtain ⟨x0, hx⟩ := uIntentCode_shape v h; rw [hx]
  · exact fun _ v h => by obtain ⟨x0, hx⟩ := uDatatype_shape v h; rw [hx]
  · exact fun _ v h => by obtain ⟨x0, hx⟩ := uBitpix_shape v h; rw [hx]
  · exact fun _ v h => by obtain ⟨x0, hx⟩ := uSliceStart_shape v h; rw [hx]
  · exact fun _ v h => by obtain ⟨x0, hx⟩ := uPixdim_shape v h; rw [hx]
  · exact fun _ v h => by obtain ⟨x0, hx⟩ := uVoxOffset_shape v h; rw [hx]
  · exact fun _ v h => by obtain ⟨x0, hx⟩ := uSclSlope_shape v h; rw [hx]
  · exact fun _ v h => by obtain ⟨x0, hx⟩ := uSclInter_shape v h; rw [hx]
  · exact fun _ v h => by obtain ⟨x0, hx⟩ := uSliceEnd_shape v h; rw [hx]
  · exact fun _ v h => by obtain ⟨x0, hx⟩ := uSliceCode_shape v h; rw [hx]
  · exact fun _ v h => by obtain ⟨x0, hx⟩ := uXyztUnits_shape v h; rw [hx]
  · exact fun _ v h => by obtain ⟨x0, hx⟩ := uCalMax_shape v h; rw [hx]
  · exact fun _ v h => by obtain ⟨x0, hx⟩ := uCalMin_shape v h; rw [hx]
  · exact fun hk => absurd rfl hk
  · exact fun _ v h => by obtain ⟨x0, hx⟩ := uToffset_shape v h; rw [hx]
  · exact fun _ v h => by obtain ⟨x0, hx⟩ := uGlmax_shape v h; rw [hx]
  · exact fun _ v h => by obtain ⟨x0, hx⟩ := uGlmin_shape v h; rw [hx]
  · exact fun _ v h => by obtain ⟨x0, hx⟩ := uDescrip_shape v h; rw [hx]
  · exact fun _ v h => by obtain ⟨x0, hx⟩ := uAuxFile_shape v h; rw [hx]
  · exact fun _ v h => by obtain ⟨x0, hx⟩ := uQformCode_shape v h; rw [hx]
  · exact fun _ v h => by obtain ⟨x0, hx⟩ := uSformCode_shape v h; rw [hx]
  · exact fun _ v h => by obtain ⟨x0, x1, x2, hx⟩ := uQuatern_shape v h; rw [hx]
  · exact fun _ v h => by obtain ⟨x0, x1, x2, hx⟩ := uQoffset_shape v h; rw [hx]
  · exact fun _ v h => by obtain ⟨x0, x1, x2, hx⟩ := uSform_shape v h; rw [hx]
  · exact fun _ v h => by obtain ⟨x0, hx⟩ := uIntentName_shape v h; rw [hx]
  · exact fun _ v h => by obtain ⟨x0, hx⟩ := uMagic_shape v h; rw [hx]

theorem presAll_toffset : ∀ w ∈ niftiHeaderSteps, w.key ≠ "toffset" →
    ∀ (v : HVal) (h : NiftiHeader), (w.exec v h).1.toffset = h.toffset := by
  simp only [niftiHeaderSteps, List.forall_mem_cons]
  refine ⟨?_, ?_, ?_, ?_, ?_, ?_, ?_, ?_, ?_, ?_, ?_, ?_, ?_, ?_, ?_, ?_, ?_, ?_, ?_, ?_, ?_, ?_, ?_, ?_, ?_, ?_, ?_, ?_, ?_, ?_, ?_, ?_, ?_, ?_, ?_, ?_, fun x hx => nomatch hx⟩
  · exact fun _ v h => by obtain ⟨x0, hx⟩ := uDataType_shape v h; rw [hx]
  · exact fun _ v h => by obtain ⟨x0, hx⟩ := uDbName_shape v h; rw [hx]
  · exact fun _ v h => by obtain ⟨x0, hx⟩ := uExtents_shape v h; rw [hx]
  · exact fun _ v h => by obtain ⟨x0, hx⟩ := uSessionError_shape v h; rw [hx]
  · exact fun _ v h => by obtain ⟨x0, hx⟩ := uRegular_shape v h; rw [hx]
  · exact fun _ v h => by obtain ⟨x0, hx⟩ := uDimInfo_shape v h; rw [hx]
  · exact fun _ v h => by obtain ⟨x0, hx⟩ := uDim_shape v h; rw [hx]
  · exact fun _ v h => by obtain ⟨x0, hx⟩ := uIntentP1_shape v h; rw [hx]
  · exact fun _ v h => by obtain ⟨x0, hx⟩ := uIntentP2_shape v h; rw [hx]
  · exact fun _ v h => by obtain ⟨x0, hx⟩ := uIntentP3_shape v h; rw [hx]
  · exact fun _ v h => by obtain ⟨x0, hx⟩ := uIntentCode_shape v h; rw [hx]
  · exact fun _ v h => by obtain ⟨x0, hx⟩ := uDatatype_shape v h; rw [hx]
  · exact fun _ v h => by obtain ⟨x0, hx⟩ := uBitpix_shape v h; rw [hx]
  · exact fun _ v h => by obtain ⟨x0, hx⟩ := uSliceStart_shape v h; rw [hx]
  · exact fun _ v h => by obtain ⟨x0, hx⟩ := uPixdim_shape v h; rw [hx]
  · exact fun _ v h => by obtain ⟨x0, hx⟩ := uVoxOffset_shape v h; rw [hx]
  · exact fun _ v h => by obtain ⟨x0, hx⟩ := uSclSlope_shape v h; rw [hx]
  · exact fun _ v h => by obtain ⟨x0, hx⟩ := uSclInter_shape v h; rw [hx]
  · exact fun _ v h => by obtain ⟨x0, hx⟩ := uSliceEnd_shape v h; rw [hx]
  · exact fun _ v h => by obtain ⟨x0, hx⟩ := uSliceCode_shape v h; rw [hx]
  · exact fun _ v h => by obtain ⟨x0, hx⟩ := uXyztUnits_shape v h; rw [hx]
  · exact fun _ v h => by obtain ⟨x0, hx⟩ := uCalMax_shape v h; rw [hx]
  · exact fun _ v h => by obtain ⟨x0, hx⟩ := uCalMin_shape v h; rw [hx]
  · exact fun _ v h => by obtain ⟨x0, hx⟩ := uSliceDuration_shape v h; rw [hx]
  · exact fun hk => absurd rfl hk
  · exact fun _ v h => by obtain ⟨x0, hx⟩ := uGlmax_shape v h; rw [hx]
  · exact fun _ v h => by obtain ⟨x0, hx⟩ := uGlmin_shape v h; rw [hx]
  · exact fun _ v h => by obtain ⟨x0, hx⟩ := uDescrip_shape v h; rw [hx]
  · exact fun _ v h => by obtain ⟨x0, hx⟩ := uAuxFile_shape v h; rw [hx]
  · exact fun _ v h => by obtain ⟨x0, hx⟩ := uQformCode_shape v h; rw [hx]
  · exact fun _ v h => by obtain ⟨x0, hx⟩ := uSformCode_shape v h; rw [hx]
  · exact fun _ v h => by obtain ⟨x0, x1, x2, hx⟩ := uQuatern_shape v h; rw [hx]
  · exact fun _ v h => by obtain ⟨x0, x1, x2, hx⟩ := uQoffset_shape v h; rw [hx]
  · exact fun _ v h => by obtain ⟨x0, x1, x2, hx⟩ := uSform_shape v h; rw [hx]
  · exact fun _ v h => by obtain ⟨x0, hx⟩ := uIntentName_shape v h; rw [hx]
  · exact fun _ v h => by obtain ⟨x0, hx⟩ := uMagic_shape v h; rw [hx]

theorem presAll_glmax : ∀ w ∈ niftiHeaderSteps, w.key ≠ "glmax" →
    ∀ (v : HVal) (h : NiftiHeader), (w.exec v h).1.glmax = h.glmax := by
  simp only [niftiHeaderSteps, List.forall_mem_cons]
  refine ⟨?_, ?_, ?_, ?_, ?_, ?_, ?_, ?_, ?_, ?_, ?_, ?_, ?_, ?_, ?_, ?_, ?_, ?_, ?_, ?_, ?_, ?_, ?_, ?_, ?_, ?_, ?_, ?_, ?_, ?_, ?_, ?_, ?_, ?_, ?_, ?_, fun x hx => nomatch hx⟩
  · exact fun _ v h => by obtain ⟨x0, hx⟩ := uDataType_shape v h; rw [hx]
  · exact fun _ v h => by obtain ⟨x0, hx⟩ := uDbName_shape v h; rw [hx]
  · exact fun _ v h => by obtain ⟨x0, hx⟩ := uExtents_shape v h; rw [hx]
  · exact fun _ v h => by obtain ⟨x0, hx⟩ := uSessionError_shape v h; rw [hx]
  · exact fun _ v h => by obtain ⟨x0, hx⟩ := uRegular_shape v h; rw [hx]
  · exact fun _ v h => by obtain ⟨x0, hx⟩ := uDimInfo_shape v h; rw [hx]
  · exact fun _ v h => by obtain ⟨x0, hx⟩ := uDim_shape v h; rw [hx]
  · exact fun _ v h => by obtain ⟨x0, hx⟩ := uIntentP1_shape v h; rw [hx]
  · exact fun _ v h => by obtain ⟨x0, hx⟩ := uIntentP2_shape v h; rw [hx]
  · exact fun _ v h => by obtain ⟨x0, hx⟩ := uIntentP3_shape v h; rw [hx]
  · exact fun _ v h => by obtain ⟨x0, hx⟩ := uIntentCode_shape v h; rw [hx]
  · exact fun _ v h => by obtain ⟨x0, hx⟩ := uDatatype_shape v h; rw [hx]
  · exact fun _ v h => by obtain ⟨x0, hx⟩ := uBitpix_shape v h; rw [hx]
  · exact fun _ v h => by obtain ⟨x0, hx⟩ := uSliceStart_shape v h; rw [hx]
  · exact fun _ v h => by obtain ⟨x0, hx⟩ := uPixdim_shape v h; rw [hx]
  · exact fun _ v h => by obtain ⟨x0, hx⟩ := uVoxOffset_shape v h; rw [hx]
  · exact fun _ v h => by obtain ⟨x0, hx⟩ := uSclSlope_shape v h; rw [hx]
  · exact fun _ v h => by obtain ⟨x0, hx⟩ := uSclInter_shape v h; rw [hx]
  · exact fun _ v h => by obtain ⟨x0, hx⟩ := uSliceEnd_shape v h; rw [hx]
  · exact fun _ v h => by obtain ⟨x0, hx⟩ := uSliceCode_shape v h; rw [hx]
  · exact fun _ v h => by obtain ⟨x0, hx⟩ := uXyztUnits_shape v h; rw [hx]
  · exact fun _ v h => by obtain ⟨x0, hx⟩ := uCalMax_shape v h; rw [hx]
  · exact fun _ v h => by obtain ⟨x0, hx⟩ := uCalMin_shape v h; rw [hx]
  · exact fun _ v h => by obtain ⟨x0, hx⟩ := uSliceDuration_shape v h; rw [hx]
  · exact fun _ v h => by obtain ⟨x0, hx⟩ := uToffset_shape v h; rw [hx]
  · exact fun hk => absurd rfl hk
  · exact fun _ v h => by obtain ⟨x0, hx⟩ := uGlmin_shape v h; rw [hx]
  · exact fun _ v h => by obtain ⟨x0, hx⟩ := uDescrip_shape v h; rw [hx]
  · exact fun _ v h => by obtain ⟨x0, hx⟩ := uAuxFile_shape v h; rw [hx]
  · exact fun _ v h => by obtain ⟨x0, hx⟩ := uQformCode_shape v h; rw [hx]
  · exact fun _ v h => by obtain ⟨x0, hx⟩ := uSformCode_shape v h; rw [hx]
  · exact fun _ v h => by obtain ⟨x0, x1, x2, hx⟩ := uQuatern_shape v h; rw [hx]
  · exact fun _ v h => by obtain ⟨x0, x1, x2, hx⟩ := uQoffset_shape v h; rw [hx]
  · exact fun _ v h => by obtain ⟨x0, x1, x2, hx⟩ := uSform_shape v h; rw [hx]
  · exact fun _ v h => by obtain ⟨x0, hx⟩ := uIntentName_shape v h; rw [hx]
  · exact fun _ v h => by obtain ⟨x0, hx⟩ := uMagic_shape v h; rw [hx]

theorem presAll_glmin : ∀ w ∈ niftiHeaderSteps, w.key ≠ "glmin" →
    ∀ (v : HVal) (h : NiftiHeader), (w.exec v h).1.glmin = h.glmin := by
  simp only [niftiHeaderSteps, List.forall_mem_cons]
  refine ⟨?_, ?_, ?_, ?_, ?_, ?_, ?_, ?_, ?_, ?_, ?_, ?_, ?_, ?_, ?_, ?_, ?_, ?_, ?_, ?_, ?_, ?_, ?_, ?_, ?_, ?_, ?_, ?_, ?_, ?_, ?_, ?_, ?_, ?_, ?_, ?_, fun x hx => nomatch hx⟩
  · exact fun _ v h => by obtain ⟨x0, hx⟩ := uDataType_shape v h; rw [hx]
  · exact fun _ v h => by obtain ⟨x0, hx⟩ := uDbName_shape v h; rw [hx]
  · exact fun _ v h => by obtain ⟨x0, hx⟩ := uExtents_shape v h; rw [hx]
  · exact fun _ v h => by obtain ⟨x0, hx⟩ := uSessionError_shape v h; rw [hx]
  · exact fun _ v h => by obtain ⟨x0, hx⟩ := uRegular_shape v h; rw [hx]
  · exact fun _ v h => by obtain ⟨x0, hx⟩ := uDimInfo_shape v h; rw [hx]
  · exact fun _ v h => by obtain ⟨x0, hx⟩ := uDim_shape v h; rw [hx]
  · exact fun _ v h => by obtain ⟨x0, hx⟩ := uIntentP1_shape v h; rw [hx]
  · exact fun _ v h => by obtain ⟨x0, hx⟩ := uIntentP2_shape v h; rw [hx]
  · exact fun _ v h => by obtain ⟨x0, hx⟩ := uIntentP3_shape v h; rw [hx]
  · exact fun _ v h => by obtain ⟨x0, hx⟩ := uIntentCode_shape v h; rw [hx]
  · exact fun _ v h => by obtain ⟨x0, hx⟩ := uDatatype_shape v h; rw [hx]
  · exact fun _ v h => by obtain ⟨x0, hx⟩ := uBitpix_shape v h; rw [hx]
  · exact fun _ v h => by obtain ⟨x0, hx⟩ := uSliceStart_shape v h; rw [hx]
  · exact fun _ v h => by obtain ⟨x0, hx⟩ := uPixdim_shape v h; rw [hx]
  · exact fun _ v h => by obtain ⟨x0, hx⟩ := uVoxOffset_shape v h; rw [hx]
  · exact fun _ v h => by obtain ⟨x0, hx⟩ := uSclSlope_shape v h; rw [hx]
  · exact fun _ v h => by obtain ⟨x0, hx⟩ := uSclInter_shape v h; rw [hx]
  · exact fun _ v h => by obtain ⟨x0, hx⟩ := uSliceEnd_shape v h; rw [hx]
  · exact fun _ v h => by obtain ⟨x0, hx⟩ := uSliceCode_shape v h; rw [hx]
  · exact fun _ v h => by obtain ⟨x0, hx⟩ := uXyztUnits_shape v h; rw [hx]
  · exact fun _ v h => by obtain ⟨x0, hx⟩ := uCalMax_shape v h; rw [hx]
  · exact fun _ v h => by obtain ⟨x0, hx⟩ := uCalMin_shape v h; rw [hx]
  · exact fun _ v h => by obtain ⟨x0, hx⟩ := uSliceDuration_shape v h; rw [hx]
  · exact fun _ v h => by obtain ⟨x0, hx⟩ := uToffset_shape v h; rw [hx]
  · exact fun _ v h => by obtain ⟨x0, hx⟩ := uGlmax_shape v h; rw [hx]
  · exact fun hk => absurd rfl hk
  · exact fun _ v h => by obtain ⟨x0, hx⟩ := uDescrip_shape v h; rw [hx]
  · exact fun _ v h => by obtain ⟨x0, hx⟩ := uAuxFile_shape v h; rw [hx]
  · exact fun _ v h => by obtain ⟨x0, hx⟩ := uQformCode_shape v h; rw [hx]
  · exact fun _ v h => by obtain ⟨x0, hx⟩ := uSformCode_shape v h; rw [hx]
  · exact fun _ v h => by obtain ⟨x0, x1, x2, hx⟩ := uQuatern_shape v h; rw [hx]
  · exact fun _ v h => by obtain ⟨x0, x1, x2, hx⟩ := uQoffset_shape v h; rw [hx]
  · exact fun _ v h => by obtain ⟨x0, x1, x2, hx⟩ := uSform_shape v h; rw [hx]
  · exact fun _ v h => by obtain ⟨x0, hx⟩ := uIntentName_shape v h; rw [hx]
  · exact fun _ v h => by obtain ⟨x0, hx⟩ := uMagic_shape v h; rw [hx]

theorem presAll_descrip : ∀ w ∈ niftiHeaderSteps, w.key ≠ "descrip" →
    ∀ (v : HVal) (h : NiftiHeader), (w.exec v h).1.descrip = h.descrip := by
  simp only [niftiHeaderSteps, List.forall_mem_cons]
  refine ⟨?_, ?_, ?_, ?_, ?_, ?_, ?_, ?_, ?_, ?_, ?_, ?_, ?_, ?_, ?_, ?_, ?_, ?_, ?_, ?_, ?_, ?_, ?_, ?_, ?_, ?_, ?_, ?_, ?_, ?_, ?_, ?_, ?_, ?_, ?_, ?_, fun x hx => nomatch hx⟩
  · exact fun _ v h => by obtain ⟨x0, hx⟩ := uDataType_shape v h; rw [hx]
  · exact fun _ v h => by obtain ⟨x0, hx⟩ := uDbName_shape v h; rw [hx]
  · exact fun _ v h => by obtain ⟨x0, hx⟩ := uExtents_shape v h; rw [hx]
  · exact fun _ v h => by obtain ⟨x0, hx⟩ := uSessionError_shape v h; rw [hx]
  · exact fun _ v h => by obtain ⟨x0, hx⟩ := uRegular_shape v h; rw [hx]
  · exact fun _ v h => by obtain ⟨x0, hx⟩ := uDimInfo_shape v h; rw [hx]
  · exact fun _ v h => by obtain ⟨x0, hx⟩ := uDim_shape v h; rw [hx]
  · exact fun _ v h => by obtain ⟨x0, hx⟩ := uIntentP1_shape v h; rw [hx]
  · exact fun _ v h => by obtain ⟨x0, hx⟩ := uIntentP2_shape v h; rw [hx]
  · exact fun _ v h => by obtain ⟨x0, hx⟩ := uIntentP3_shape v h; rw [hx]
  · exact fun _ v h => by obtain ⟨x0, hx⟩ := uIntentCode_shape v h; rw [hx]
  · exact fun _ v h => by obtain ⟨x0, hx⟩ := uDatatype_shape v h; rw [hx]
  · exact fun _ v h => by obtain ⟨x0, hx⟩ := uBitpix_shape v h; rw [hx]
  · exact fun _ v h => by obtain ⟨x0, hx⟩ := uSliceStart_shape v h; rw [hx]
  · exact fun _ v h => by obtain ⟨x0, hx⟩ := uPixdim_shape v h; rw [hx]
  · exact fun _ v h => by obtain ⟨x0, hx⟩ := uVoxOffset_shape v h; rw [hx]
  · exact fun _ v h => by obtain ⟨x0, hx⟩ := uSclSlope_shape v h; rw [hx]
  · exact fun _ v h => by obtain ⟨x0, hx⟩ := uSclInter_shape v h; rw [hx]
  · exact fun _ v h => by obtain ⟨x0, hx⟩ := uSliceEnd_shape v h; rw [hx]
  · exact fun _ v h => by obtain ⟨x0, hx⟩ := uSliceCode_shape v h; rw [hx]
  · exact fun _ v h => by obtain ⟨x0, hx⟩ := uXyztUnits_shape v h; rw [hx]
  · exact fun _ v h => by obtain ⟨x0, hx⟩ := uCalMax_shape v h; rw [hx]
  · exact fun _ v h => by obtain ⟨x0, hx⟩ := uCalMin_shape v h; rw [hx]
  · exact fun _ v h => by obtain ⟨x0, hx⟩ := uSliceDuration_shape v h; rw [hx]
  · exact fun _ v h => by obtain ⟨x0, hx⟩ := uToffset_shape v h; rw [hx]
  · exact fun _ v h => by obtain ⟨x0, hx⟩ := uGlmax_shape v h; rw [hx]
  · exact fun _ v h => by obtain ⟨x0, hx⟩ := uGlmin_shape v h; rw [hx]
  · exact fun hk => absurd rfl hk
  · exact fun _ v h => by obtain ⟨x0, hx⟩ := uAuxFile_shape v h; rw [hx]
  · exact fun _ v h => by obtain ⟨x0, hx⟩ := uQformCode_shape v h; rw [hx]
  · exact fun _ v h => by obtain ⟨x0, hx⟩ := uSformCode_shape v h; rw [hx]
  · exact fun _ v h => by obtain ⟨x0, x1, x2, hx⟩ := uQuatern_shape v h; rw [hx]
  · exact fun _ v h => by obtain ⟨x0, x1, x2, hx⟩ := uQoffset_shape v h; rw [hx]
  · exact fun _ v h => by obtain ⟨x0, x1, x2, hx⟩ := uSform_shape v h; rw [hx]
  · exact fun _ v h => by obtain ⟨x0, hx⟩ := uIntentName_shape v h; rw [hx]
  · exact fun _ v h => by obtain ⟨x0, hx⟩ := uMagic_shape v h; rw [hx]

theorem presAll_aux_file : ∀ w ∈ niftiHeaderSteps, w.key ≠ "aux_file" →
    ∀ (v : HVal) (h : NiftiHeader), (w.exec v h).1.aux_file = h.aux_file := by
  simp only [niftiHeaderSteps, List.forall_mem_cons]
  refine ⟨?_, ?_, ?_, ?_, ?_, ?_, ?_, ?_, ?_, ?_, ?_, ?_, ?_, ?_, ?_, ?_, ?_, ?_, ?_, ?_, ?_, ?_, ?_, ?_, ?_, ?_, ?_, ?_, ?_, ?_, ?_, ?_, ?_, ?_, ?_, ?_, fun x hx => nomatch hx⟩
  · exact fun _ v h => by obtain ⟨x0, hx⟩ := uDataType_shape v h; rw [hx]
  · exact fun _ v h => by obtain ⟨x0, hx⟩ := uDbName_shape v h; rw [hx]
  · exact fun _ v h => by obtain ⟨x0, hx⟩ := uExtents_shape v h; rw [hx]
  · exact fun _ v h => by obtain ⟨x0, hx⟩ := uSessionError_shape v h; rw [hx]
  · exact fun _ v h => by obtain ⟨x0, hx⟩ := uRegular_shape v h; rw [hx]
  · exact fun _ v h => by obtain ⟨x0, hx⟩ := uDimInfo_shape v h; rw [hx]
  · exact fun _ v h => by obtain ⟨x0, hx⟩ := uDim_shape v h; rw [hx]
  · exact fun _ v h => by obtain ⟨x0, hx⟩ := uIntentP1_shape v h; rw [hx]
  · exact fun _ v h => by obtain ⟨x0, hx⟩ := uIntentP2_shape v h; rw [hx]
  · exact fun _ v h => by obtain ⟨x0, hx⟩ := uIntentP3_shape v h; rw [hx]
  · exact fun _ v h => by obtain ⟨x0, hx⟩ := uIntentCode_shape v h; rw [hx]
  · exact fun _ v h => by obtain ⟨x0, hx⟩ := uDatatype_shape v h; rw [hx]
  · exact fun _ v h => by obtain ⟨x0, hx⟩ := uBitpix_shape v h; rw [hx]
  · exact fun _ v h => by obtain ⟨x0, hx⟩ := uSliceStart_shape v h; rw [hx]
  · exact fun _ v h => by obtain ⟨x0, hx⟩ := uPixdim_shape v h; rw [hx]
  · exact fun _ v h => by obtain ⟨x0, hx⟩ := uVoxOffset_shape v h; rw [hx]
  · exact fun _ v h => by obtain ⟨x0, hx⟩ := uSclSlope_shape v h; rw [hx]
  · exact fun _ v h => by obtain ⟨x0, hx⟩ := uSclInter_shape v h; rw [hx]
  · exact fun _ v h => by obtain ⟨x0, hx⟩ := uSliceEnd_shape v h; rw [hx]
  · exact fun _ v h => by obtain ⟨x0, hx⟩ := uSliceCode_shape v h; rw [hx]
  · exact fun _ v h => by obtain ⟨x0, hx⟩ := uXyztUnits_shape v h; rw [hx]
  · exact fun _ v h => by obtain ⟨x0, hx⟩ := uCalMax_shape v h; rw [hx]
  · exact fun _ v h => by obtain ⟨x0, hx⟩ := uCalMin_shape v h; rw [hx]
  · exact fun _ v h => by obtain ⟨x0, hx⟩ := uSliceDuration_shape v h; rw [hx]
  · exact fun _ v h => by obtain ⟨x0, hx⟩ := uToffset_shape v h; rw [hx]
  · exact fun _ v h => by obtain ⟨x0, hx⟩ := uGlmax_shape v h; rw [hx]
  · exact fun _ v h => by obtain ⟨x0, hx⟩ := uGlmin_shape v h; rw [hx]
  · exact fun _ v h => by obtain ⟨x0, hx⟩ := uDescrip_shape v h; rw [hx]
  · exact fun hk => absurd rfl hk
  · exact fun _ v h => by obtain ⟨x0, hx⟩ := uQformCode_shape v h; rw [hx]
  · exact fun _ v h => by obtain ⟨x0, hx⟩ := uSformCode_shape v h; rw [hx]
  · exact fun _ v h => by obtain ⟨x0, x1, x2, hx⟩ := uQuatern_shape v h; rw [hx]
  · exact fun _ v h => by obtain ⟨x0, x1, x2, hx⟩ := uQoffset_shape v h; rw [hx]
  · exact fun _ v h => by obtain ⟨x0, x1, x2, hx⟩ := uSform_shape v h; rw [hx]
  · exact fun _ v h => by obtain ⟨x0, hx⟩ := uIntentName_shape v h; rw [hx]
  · exact fun _ v h => by obtain ⟨x0, hx⟩ := uMagic_shape v h; rw [hx]

theorem presAll_qform_code : ∀ w ∈ niftiHeaderSteps, w.key ≠ "qform_code" →
    ∀ (v : HVal) (h : NiftiHeader), (w.exec v h).1.qform_code = h.qform_code := by
  simp only [niftiHeaderSteps, List.forall_mem_cons]
  refine ⟨?_, ?_, ?_, ?_, ?_, ?_, ?_, ?_, ?_, ?_, ?_, ?_, ?_, ?_, ?_, ?_, ?_, ?_, ?_, ?_, ?_, ?_, ?_, ?_, ?_, ?_, ?_, ?_, ?_, ?_, ?_, ?_, ?_, ?_, ?_, ?_, fun x hx => nomatch hx⟩
  · exact fun _ v h => by obtain ⟨x0, hx⟩ := uDataType_shape v h; rw [hx]
  · exact fun _ v h => by obtain ⟨x0, hx⟩ := uDbName_shape v h; rw [hx]
  · exact fun _ v h => by obtain ⟨x0, hx⟩ := uExtents_shape v h; rw [hx]
  · exact fun _ v h => by obtain ⟨x0, hx⟩ := uSessionError_shape v h; rw [hx]
  · exact fun _ v h => by obtain ⟨x0, hx⟩ := uRegular_shape v h; rw [hx]
  · exact fun _ v h => by obtain ⟨x0, hx⟩ := uDimInfo_shape v h; rw [hx]
  · exact fun _ v h => by obtain ⟨x0, hx⟩ := uDim_shape v h; rw [hx]
  · exact fun _ v h => by obtain ⟨x0, hx⟩ := uIntentP1_shape v h; rw [hx]
  · exact fun _ v h => by obtain ⟨x0, hx⟩ := uIntentP2_shape v h; rw [hx]
  · exact fun _ v h => by obtain ⟨x0, hx⟩ := uIntentP3_shape v h; rw [hx]
  · exact fun _ v h => by obtain ⟨x0, hx⟩ := uIntentCode_shape v h; rw [hx]
  · exact fun _ v h => by obtain ⟨x0, hx⟩ := uDatatype_shape v h; rw [hx]
  · exact fun _ v h => by obtain ⟨x0, hx⟩ := uBitpix_shape v h; rw [hx]
  · exact fun _ v h => by obtain ⟨x0, hx⟩ := uSliceStart_shape v h; rw [hx]
  · exact fun _ v h => by obtain ⟨x0, hx⟩ := uPixdim_shape v h; rw [hx]
  · exact fun _ v h => by obtain ⟨x0, hx⟩ := uVoxOffset_shape v h; rw [hx]
  · exact fun _ v h => by obtain ⟨x0, hx⟩ := uSclSlope_shape v h; rw [hx]
  · exact fun _ v h => by obtain ⟨x0, hx⟩ := uSclInter_shape v h; rw [hx]
  · exact fun _ v h => by obtain ⟨x0, hx⟩ := uSliceEnd_shape v h; rw [hx]
  · exact fun _ v h => by obtain ⟨x0, hx⟩ := uSliceCode_shape v h; rw [hx]
  · exact fun _ v h => by obtain ⟨x0, hx⟩ := uXyztUnits_shape v h; rw [hx]
  · exact fun _ v h => by obtain ⟨x0, hx⟩ := uCalMax_shape v h; rw [hx]
  · exact fun _ v h => by obtain ⟨x0, hx⟩ := uCalMin_shape v h; rw [hx]
  · exact fun _ v h => by obtain ⟨x0, hx⟩ := uSliceDuration_shape v h; rw [hx]
  · exact fun _ v h => by obtain ⟨x0, hx⟩ := uToffset_shape v h; rw [hx]
  · exact fun _ v h => by obtain ⟨x0, hx⟩ := uGlmax_shape v h; rw [hx]
  · exact fun _ v h => by obtain ⟨x0, hx⟩ := uGlmin_shape v h; rw [hx]
  · exact fun _ v h => by obtain ⟨x0, hx⟩ := uDescrip_shape v h; rw [hx]
  · exact fun _ v h => by obtain ⟨x0, hx⟩ := uAuxFile_shape v h; rw [hx]
  · exact fun hk => absurd rfl hk
  · exact fun _ v h => by obtain ⟨x0, hx⟩ := uSformCode_shape v h; rw [hx]
  · exact fun _ v h => by obtain ⟨x0, x1, x2, hx⟩ := uQuatern_shape v h; rw [hx]
  · exact fun _ v h => by obtain ⟨x0, x1, x2, hx⟩ := uQoffset_shape v h; rw [hx]
  · exact fun _ v h => by obtain ⟨x0, x1, x2, hx⟩ := uSform_shape v h; rw [hx]
  · exact fun _ v h => by obtain ⟨x0, hx⟩ := uIntentName_shape v h; rw [hx]
  · exact fun _ v h => by obtain ⟨x0, hx⟩ := uMagic_shape v h; rw [hx]

theorem presAll_sform_code : ∀ w ∈ niftiHeaderSteps, w.key ≠ "sform_code" →
    ∀ (v : HVal) (h : NiftiHeader), (w.exec v h).1.sform_code = h.sform_code := by
  simp only [niftiHeaderSteps, List.forall_mem_cons]
  refine ⟨?_, ?_, ?_, ?_, ?_, ?_, ?_, ?_, ?_, ?_, ?_, ?_, ?_, ?_, ?_, ?_, ?_, ?_, ?_, ?_, ?_, ?_, ?_, ?_, ?_, ?_, ?_, ?_, ?_, ?_, ?_, ?_, ?_, ?_, ?_, ?_, fun x hx => nomatch hx⟩
  · exact fun _ v h => by obtain ⟨x0, hx⟩ := uDataType_shape v h; rw [hx]
  · exact fun _ v h => by obtain ⟨x0, hx⟩ := uDbName_shape v h; rw [hx]
  · exact fun _ v h => by obtain ⟨x0, hx⟩ := uExtents_shape v h; rw [hx]
  · exact fun _ v h => by obtain ⟨x0, hx⟩ := uSessionError_shape v h; rw [hx]
  · exact fun _ v h => by obtain ⟨x0, hx⟩ := uRegular_shape v h; rw [hx]
  · exact fun _ v h => by obtain ⟨x0, hx⟩ := uDimInfo_shape v h; rw [hx]
  · exact fun _ v h => by obtain ⟨x0, hx⟩ := uDim_shape v h; rw [hx]
  · exact fun _ v h => by obtain ⟨x0, hx⟩ := uIntentP1_shape v h; rw [hx]
  · exact fun _ v h => by obtain ⟨x0, hx⟩ := uIntentP2_shape v h; rw [hx]
  · exact fun _ v h => by obtain ⟨x0, hx⟩ := uIntentP3_shape v h; rw [hx]
  · exact fun _ v h => by obtain ⟨x0, hx⟩ := uIntentCode_shape v h; rw [hx]
  · exact fun _ v h => by obtain ⟨x0, hx⟩ := uDatatype_shape v h; rw [hx]
  · exact fun _ v h => by obtain ⟨x0, hx⟩ := uBitpix_shape v h; rw [hx]
  · exact fun _ v h => by obtain ⟨x0, hx⟩ := uSliceStart_shape v h; rw [hx]
  · exact fun _ v h => by obtain ⟨x0, hx⟩ := uPixdim_shape v h; rw [hx]
  · exact fun _ v h => by obtain ⟨x0, hx⟩ := uVoxOffset_shape v h; rw [hx]
  · exact fun _ v h => by obtain ⟨x0, hx⟩ := uSclSlope_shape v h; rw [hx]
  · exact fun _ v h => by obtain ⟨x0, hx⟩ := uSclInter_shape v h; rw [hx]
  · exact fun _ v h => by obtain ⟨x0, hx⟩ := uSliceEnd_shape v h; rw [hx]
  · exact fun _ v h => by obtain ⟨x0, hx⟩ := uSliceCode_shape v h; rw [hx]
  · exact fun _ v h => by obtain ⟨x0, hx⟩ := uXyztUnits_shape v h; rw [hx]
  · exact fun _ v h => by obtain ⟨x0, hx⟩ := uCalMax_shape v h; rw [hx]
  · exact fun _ v h => by obtain ⟨x0, hx⟩ := uCalMin_shape v h; rw [hx]
  · exact fun _ v h => by obtain ⟨x0, hx⟩ := uSliceDuration_shape v h; rw [hx]
  · exact fun _ v h => by obtain ⟨x0, hx⟩ := uToffset_shape v h; rw [hx]
  · exact fun _ v h => by obtain ⟨x0, hx⟩ := uGlmax_shape v h; rw [hx]
  · exact fun _ v h => by obtain ⟨x0, hx⟩ := uGlmin_shape v h; rw [hx]
  · exact fun _ v h => by obtain ⟨x0, hx⟩ := uDescrip_shape v h; rw [hx]
  · exact fun _ v h => by obtain ⟨x0, hx⟩ := uAuxFile_shape v h; rw [hx]
  · exact fun _ v h => by obtain ⟨x0, hx⟩ := uQformCode_shape v h; rw [hx]
  · exact fun hk => absurd rfl hk
  · exact fun _ v h => by obtain ⟨x0, x1, x2, hx⟩ := uQuatern_shape v h; rw [hx]
  · exact fun _ v h => by obtain ⟨x0, x1, x2, hx⟩ := uQoffset_shape v h; rw [hx]
  · exact fun _ v h => by obtain ⟨x0, x1, x2, hx⟩ := uSform_shape v h; rw [hx]
  · exact fun _ v h => by obtain ⟨x0, hx⟩ := uIntentName_shape v h; rw [hx]
  · exact fun _ v h => by obtain ⟨x0, hx⟩ := uMagic_shape v h; rw [hx]

theorem presAll_quatern_b : ∀ w ∈ niftiHeaderSteps, w.key ≠ "quatern" →
    ∀ (v : HVal) (h : NiftiHeader), (w.exec v h).1.quatern_b = h.quatern_b := by
  simp only [niftiHeaderSteps, List.forall_mem_cons]
  refine ⟨?_, ?_, ?_, ?_, ?_, ?_, ?_, ?_, ?_, ?_, ?_, ?_, ?_, ?_, ?_, ?_, ?_, ?_, ?_, ?_, ?_, ?_, ?_, ?_, ?_, ?_, ?_, ?_, ?_, ?_, ?_, ?_, ?_, ?_, ?_, ?_, fun x hx => nomatch hx⟩
  · exact fun _ v h => by obtain ⟨x0, hx⟩ := uDataType_shape v h; rw [hx]
  · exact fun _ v h => by obtain ⟨x0, hx⟩ := uDbName_shape v h; rw [hx]
  · exact fun _ v h => by obtain ⟨x0, hx⟩ := uExtents_shape v h; rw [hx]
  · exact fun _ v h => by obtain ⟨x0, hx⟩ := uSessionError_shape v h; rw [hx]
  · exact fun _ v h => by obtain ⟨x0, hx⟩ := uRegular_shape v h; rw [hx]
  · exact fun _ v h => by obtain ⟨x0, hx⟩ := uDimInfo_shape v h; rw [hx]
  · exact fun _ v h => by obtain ⟨x0, hx⟩ := uDim_shape v h; rw [hx]
  · exact fun _ v h => by obtain ⟨x0, hx⟩ := uIntentP1_shape v h; rw [hx]
  · exact fun _ v h => by obtain ⟨x0, hx⟩ := uIntentP2_shape v h; rw [hx]
  · exact fun _ v h => by obtain ⟨x0, hx⟩ := uIntentP3_shape v h; rw [hx]
  · exact fun _ v h => by obtain ⟨x0, hx⟩ := uIntentCode_shape v h; rw [hx]
  · exact fun _ v h => by obtain ⟨x0, hx⟩ := uDatatype_shape v h; rw [hx]
  · exact fun _ v h => by obtain ⟨x0, hx⟩ := uBitpix_shape v h; rw [hx]
  · exact fun _ v h => by obtain ⟨x0, hx⟩ := uSliceStart_shape v h; rw [hx]
  · exact fun _ v h => by obtain ⟨x0, hx⟩ := uPixdim_shape v h; rw [hx]
  · exact fun _ v h => by obtain ⟨x0, hx⟩ := uVoxOffset_shape v h; rw [hx]
  · exact fun _ v h => by obtain ⟨x0, hx⟩ := uSclSlope_shape v h; rw [hx]
  · exact fun _ v h => by obtain ⟨x0, hx⟩ := uSclInter_shape v h; rw [hx]
  · exact fun _ v h => by obtain ⟨x0, hx⟩ := uSliceEnd_shape v h; rw [hx]
  · exact fun _ v h => by obtain ⟨x0, hx⟩ := uSliceCode_shape v h; rw [hx]
  · exact fun _ v h => by obtain ⟨x0, hx⟩ := uXyztUnits_shape v h; rw [hx]
  · exact fun _ v h => by obtain ⟨x0, hx⟩ := uCalMax_shape v h; rw [hx]
  · exact fun _ v h => by obtain ⟨x0, hx⟩ := uCalMin_shape v h; rw [hx]
  · exact fun _ v h => by obtain ⟨x0, hx⟩ := uSliceDuration_shape v h; rw [hx]
  · exact fun _ v h => by obtain ⟨x0, hx⟩ := uToffset_shape v h; rw [hx]
  · exact fun _ v h => by obtain ⟨x0, hx⟩ := uGlmax_shape v h; rw [hx]
  · exact fun _ v h => by obtain ⟨x0, hx⟩ := uGlmin_shape v h; rw [hx]
  · exact fun _ v h => by obtain ⟨x0, hx⟩ := uDescrip_shape v h; rw [hx]
  · exact fun _ v h => by obtain ⟨x0, hx⟩ := uAuxFile_shape v h; rw [hx]
  · exact fun _ v h => by obtain ⟨x0, hx⟩ := uQformCode_shape v h; rw [hx]
  · exact fun _ v h => by obtain ⟨x0, hx⟩ := uSformCode_shape v h; rw [hx]
  · exact fun hk => absurd rfl hk
  · exact fun _ v h => by obtain ⟨x0, x1, x2, hx⟩ := uQoffset_shape v h; rw [hx]
  · exact fun _ v h => by obtain ⟨x0, x1, x2, hx⟩ := uSform_shape v h; rw [hx]
  · exact fun _ v h => by obtain ⟨x0, hx⟩ := uIntentName_shape v h; rw [hx]
  · exact fun _ v h => by obtain ⟨x0, hx⟩ := uMagic_shape v h; rw [hx]

theorem presAll_quatern_c : ∀ w ∈ niftiHeaderSteps, w.key ≠ "quatern" →
    ∀ (v : HVal) (h : NiftiHeader), (w.exec v h).1.quatern_c = h.quatern_c := by
  simp only [niftiHeaderSteps, List.forall_mem_cons]
  refine ⟨?_, ?_, ?_, ?_, ?_, ?_, ?_, ?_, ?_, ?_, ?_, ?_, ?_, ?_, ?_, ?_, ?_, ?_, ?_, ?_, ?_, ?_, ?_, ?_, ?_, ?_, ?_, ?_, ?_, ?_, ?_, ?_, ?_, ?_, ?_, ?_, fun x hx => nomatch hx⟩
  · exact fun _ v h => by obtain ⟨x0, hx⟩ := uDataType_shape v h; rw [hx]
  · exact fun _ v h => by obtain ⟨x0, hx⟩ := uDbName_shape v h; rw [hx]
  · exact fun _ v h => by obtain ⟨x0, hx⟩ := uExtents_shape v h; rw [hx]
  · exact fun _ v h => by obtain ⟨x0, hx⟩ := uSessionError_shape v h; rw [hx]
  · exact fun _ v h => by obtain ⟨x0, hx⟩ := uRegular_shape v h; rw [hx]
  · exact fun _ v h => by obtain ⟨x0, hx⟩ := uDimInfo_shape v h; rw [hx]
  · exact fun _ v h => by obtain ⟨x0, hx⟩ := uDim_shape v h; rw [hx]
  · exact fun _ v h => by obtain ⟨x0, hx⟩ := uIntentP1_shape v h; rw [hx]
  · exact fun _ v h => by obtain ⟨x0, hx⟩ := uIntentP2_shape v h; rw [hx]
  · exact fun _ v h => by obtain ⟨x0, hx⟩ := uIntentP3_shape v h; rw [hx]
  · exact fun _ v h => by obtain ⟨x0, hx⟩ := uIntentCode_shape v h; rw [hx]
  · exact fun _ v h => by obtain ⟨x0, hx⟩ := uDatatype_shape v h; rw [hx]
  · exact fun _ v h => by obtain ⟨x0, hx⟩ := uBitpix_shape v h; rw [hx]
  · exact fun _ v h => by obtain ⟨x0, hx⟩ := uSliceStart_shape v h; rw [hx]
  · exact fun _ v h => by obtain ⟨x0, hx⟩ := uPixdim_shape v h; rw [hx]
  · exact fun _ v h => by obtain ⟨x0, hx⟩ := uVoxOffset_shape v h; rw [hx]
  · exact fun _ v h => by obtain ⟨x0, hx⟩ := uSclSlope_shape v h; rw [hx]
  · exact fun _ v h => by obtain ⟨x0, hx⟩ := uSclInter_shape v h; rw [hx]
  · exact fun _ v h => by obtain ⟨x0, hx⟩ := uSliceEnd_shape v h; rw [hx]
  · exact fun _ v h => by obtain ⟨x0, hx⟩ := uSliceCode_shape v h; rw [hx]
  · exact fun _ v h => by obtain ⟨x0, hx⟩ := uXyztUnits_shape v h; rw [hx]
  · exact fun _ v h => by obtain ⟨x0, hx⟩ := uCalMax_shape v h; rw [hx]
  · exact fun _ v h => by obtain ⟨x0, hx⟩ := uCalMin_shape v h; rw [hx]
  · exact fun _ v h => by obtain ⟨x0, hx⟩ := uSliceDuration_shape v h; rw [hx]
  · exact fun _ v h => by obtain ⟨x0, hx⟩ := uToffset_shape v h; rw [hx]
  · exact fun _ v h => by obtain ⟨x0, hx⟩ := uGlmax_shape v h; rw [hx]
  · exact fun _ v h => by obtain ⟨x0, hx⟩ := uGlmin_shape v h; rw [hx]
  · exact fun _ v h => by obtain ⟨x0, hx⟩ := uDescrip_shape v h; rw [hx]
  · exact fun _ v h => by obtain ⟨x0, hx⟩ := uAuxFile_shape v h; rw [hx]
  · exact fun _ v h => by obtain ⟨x0, hx⟩ := uQformCode_shape v h; rw [hx]
  · exact fun _ v h => by obtain ⟨x0, hx⟩ := uSformCode_shape v h; rw [hx]
  · exact fun hk => absurd rfl hk
  · exact fun _ v h => by obtain ⟨x0, x1, x2, hx⟩ := uQoffset_shape v h; rw [hx]
  · exact fun _ v h => by obtain ⟨x0, x1, x2, hx⟩ := uSform_shape v h; rw [hx]
  · exact fun _ v h => by obtain ⟨x0, hx⟩ := uIntentName_shape v h; rw [hx]
  · exact fun _ v h => by obtain ⟨x0, hx⟩ := uMagic_shape v h; rw [hx]

theorem presAll_quatern_d : ∀ w ∈ niftiHeaderSteps, w.key ≠ "quatern" →
    ∀ (v : HVal) (h : NiftiHeader), (w.exec v h).1.quatern_d = h.quatern_d := by
  simp only [niftiHeaderSteps, List.forall_mem_cons]
  refine ⟨?_, ?_, ?_, ?_, ?_, ?_, ?_, ?_, ?_, ?_, ?_, ?_, ?_, ?_, ?_, ?_, ?_, ?_, ?_, ?_, ?_, ?_, ?_, ?_, ?_, ?_, ?_, ?_, ?_, ?_, ?_, ?_, ?_, ?_, ?_, ?_, fun x hx => nomatch hx⟩
  · exact fun _ v h => by obtain ⟨x0, hx⟩ := uDataType_shape v h; rw [hx]
  · exact fun _ v h => by obtain ⟨x0, hx⟩ := uDbName_shape v h; rw [hx]
  · exact fun _ v h => by obtain ⟨x0, hx⟩ := uExtents_shape v h; rw [hx]
  · exact fun _ v h => by obtain ⟨x0, hx⟩ := uSessionError_shape v h; rw [hx]
  · exact fun _ v h => by obtain ⟨x0, hx⟩ := uRegular_shape v h; rw [hx]
  · exact fun _ v h => by obtain ⟨x0, hx⟩ := uDimInfo_shape v h; rw [hx]
  · exact fun _ v h => by obtain ⟨x0, hx⟩ := uDim_shape v h; rw [hx]
  · exact fun _ v h => by obtain ⟨x0, hx⟩ := uIntentP1_shape v h; rw [hx]
  · exact fun _ v h => by obtain ⟨x0, hx⟩ := uIntentP2_shape v h; rw [hx]
  · exact fun _ v h => by obtain ⟨x0, hx⟩ := uIntentP3_shape v h; rw [hx]
  · exact fun _ v h => by obtain ⟨x0, hx⟩ := uIntentCode_shape v h; rw [hx]
  · exact fun _ v h => by obtain ⟨x0, hx⟩ := uDatatype_shape v h; rw [hx]
  · exact fun _ v h => by obtain ⟨x0, hx⟩ := uBitpix_shape v h; rw [hx]
  · exact fun _ v h => by obtain ⟨x0, hx⟩ := uSliceStart_shape v h; rw [hx]
  · exact fun _ v h => by obtain ⟨x0, hx⟩ := uPixdim_shape v h; rw [hx]
  · exact fun _ v h => by obtain ⟨x0, hx⟩ := uVoxOffset_shape v h; rw [hx]
  · exact fun _ v h => by obtain ⟨x0, hx⟩ := uSclSlope_shape v h; rw [hx]
  · exact fun _ v h => by obtain ⟨x0, hx⟩ := uSclInter_shape v h; rw [hx]
  · exact fun _ v h => by obtain ⟨x0, hx⟩ := uSliceEnd_shape v h; rw [hx]
  · exact fun _ v h => by obtain ⟨x0, hx⟩ := uSliceCode_shape v h; rw [hx]
  · exact fun _ v h => by obtain ⟨x0, hx⟩ := uXyztUnits_shape v h; rw [hx]
  · exact fun _ v h => by obtain ⟨x0, hx⟩ := uCalMax_shape v h; rw [hx]
  · exact fun _ v h => by obtain ⟨x0, hx⟩ := uCalMin_shape v h; rw [hx]
  · exact fun _ v h => by obtain ⟨x0, hx⟩ := uSliceDuration_shape v h; rw [hx]
  · exact fun _ v h => by obtain ⟨x0, hx⟩ := uToffset_shape v h; rw [hx]
  · exact fun _ v h => by obtain ⟨x0, hx⟩ := uGlmax_shape v h; rw [hx]
  · exact fun _ v h => by obtain ⟨x0, hx⟩ := uGlmin_shape v h; rw [hx]
  · exact fun _ v h => by obtain ⟨x0, hx⟩ := uDescrip_shape v h; rw [hx]
  · exact fun _ v h => by obtain ⟨x0, hx⟩ := uAuxFile_shape v h; rw [hx]
  · exact fun _ v h => by obtain ⟨x0, hx⟩ := uQformCode_shape v h; rw [hx]
  · exact fun _ v h => by obtain ⟨x0, hx⟩ := uSformCode_shape v h; rw [hx]
  · exact fun hk => absurd rfl hk
  · exact fun _ v h => by obtain ⟨x0, x1, x2, hx⟩ := uQoffset_shape v h; rw [hx]
  · exact fun _ v h => by obtain ⟨x0, x1, x2, hx⟩ := uSform_shape v h; rw [hx]
  · exact fun _ v h => by obtain ⟨x0, hx⟩ := uIntentName_shape v h; rw [hx]
  · exact fun _ v h => by obtain ⟨x0, hx⟩ := uMagic_shape v h; rw [hx]

theorem presAll_qoffset_x : ∀ w ∈ niftiHeaderSteps, w.key ≠ "qoffset" →
    ∀ (v : HVal) (h : NiftiHeader), (w.exec v h).1.qoffset_x = h.qoffset_x := by
  simp only [niftiHeaderSteps, List.forall_mem_cons]
  refine ⟨?_, ?_, ?_, ?_, ?_, ?_, ?_, ?_, ?_, ?_, ?_, ?_, ?_, ?_, ?_, ?_, ?_, ?_, ?_, ?_, ?_, ?_, ?_, ?_, ?_, ?_, ?_, ?_, ?_, ?_, ?_, ?_, ?_, ?_, ?_, ?_, fun x hx => nomatch hx⟩
  · exact fun _ v h => by obtain ⟨x0, hx⟩ := uDataType_shape v h; rw [hx]
  · exact fun _ v h => by obtain ⟨x0, hx⟩ := uDbName_shape v h; rw [hx]
  · exact fun _ v h => by obtain ⟨x0, hx⟩ := uExtents_shape v h; rw [hx]
  · exact fun _ v h => by obtain ⟨x0, hx⟩ := uSessionError_shape v h; rw [hx]
  · exact fun _ v h => by obtain ⟨x0, hx⟩ := uRegular_shape v h; rw [hx]
  · exact fun _ v h => by obtain ⟨x0, hx⟩ := uDimInfo_shape v h; rw [hx]
  · exact fun _ v h => by obtain ⟨x0, hx⟩ := uDim_shape v h; rw [hx]
  · exact fun _ v h => by obtain ⟨x0, hx⟩ := uIntentP1_shape v h; rw [hx]
  · exact fun _ v h => by obtain ⟨x0, hx⟩ := uIntentP2_shape v h; rw [hx]
  · exact fun _ v h => by obtain ⟨x0, hx⟩ := uIntentP3_shape v h; rw [hx]
  · exact fun _ v h => by obtain ⟨x0, hx⟩ := uIntentCode_shape v h; rw [hx]
  · exact fun _ v h => by obtain ⟨x0, hx⟩ := uDatatype_shape v h; rw [hx]
  · exact fun _ v h => by obtain ⟨x0, hx⟩ := uBitpix_shape v h; rw [hx]
  · exact fun _ v h => by obtain ⟨x0, hx⟩ := uSliceStart_shape v h; rw [hx]
  · exact fun _ v h => by obtain ⟨x0, hx⟩ := uPixdim_shape v h; rw [hx]
  · exact fun _ v h => by obtain ⟨x0, hx⟩ := uVoxOffset_shape v h; rw [hx]
  · exact fun _ v h => by obtain ⟨x0, hx⟩ := uSclSlope_shape v h; rw [hx]
  · exact fun _ v h => by obtain ⟨x0, hx⟩ := uSclInter_shape v h; rw [hx]
  · exact fun _ v h => by obtain ⟨x0, hx⟩ := uSliceEnd_shape v h; rw [hx]
  · exact fun _ v h => by obtain ⟨x0, hx⟩ := uSliceCode_shape v h; rw [hx]
  · exact fun _ v h => by obtain ⟨x0, hx⟩ := uXyztUnits_shape v h; rw [hx]
  · exact fun _ v h => by obtain ⟨x0, hx⟩ := uCalMax_shape v h; rw [hx]
  · exact fun _ v h => by obtain ⟨x0, hx⟩ := uCalMin_shape v h; rw [hx]
  · exact fun _ v h => by obtain ⟨x0, hx⟩ := uSliceDuration_shape v h; rw [hx]
  · exact fun _ v h => by obtain ⟨x0, hx⟩ := uToffset_shape v h; rw [hx]
  · exact fun _ v h => by obtain ⟨x0, hx⟩ := uGlmax_shape v h; rw [hx]
  · exact fun _ v h => by obtain ⟨x0, hx⟩ := uGlmin_shape v h; rw [hx]
  · exact fun _ v h => by obtain ⟨x0, hx⟩ := uDescrip_shape v h; rw [hx]
  · exact fun _ v h => by obtain ⟨x0, hx⟩ := uAuxFile_shape v h; rw [hx]
  · exact fun _ v h => by obtain ⟨x0, hx⟩ := uQformCode_shape v h; rw [hx]
  · exact fun _ v h => by obtain ⟨x0, hx⟩ := uSformCode_shape v h; rw [hx]
  · exact fun _ v h => by obtain ⟨x0, x1, x2, hx⟩ := uQuatern_shape v h; rw [hx]
  · exact fun hk => absurd rfl hk
  · exact fun _ v h => by obtain ⟨x0, x1, x2, hx⟩ := uSform_shape v h; rw [hx]
  · exact fun _ v h => by obtain ⟨x0, hx⟩ := uIntentName_shape v h; rw [hx]
  · exact fun _ v h => by obtain ⟨x0, hx⟩ := uMagic_shape v h; rw [hx]

theorem presAll_qoffset_y : ∀ w ∈ niftiHeaderSteps, w.key ≠ "qoffset" →
    ∀ (v : HVal) (h : NiftiHeader), (w.exec v h).1.qoffset_y = h.qoffset_y := by
  simp only [niftiHeaderSteps, List.forall_mem_cons]
  refine ⟨?_, ?_, ?_, ?_, ?_, ?_, ?_, ?_, ?_, ?_, ?_, ?_, ?_, ?_, ?_, ?_, ?_, ?_, ?_, ?_, ?_, ?_, ?_, ?_, ?_, ?_, ?_, ?_, ?_, ?_, ?_, ?_, ?_, ?_, ?_, ?_, fun x hx => nomatch hx⟩
  · exact fun _ v h => by obtain ⟨x0, hx⟩ := uDataType_shape v h; rw [hx]
  · exact fun _ v h => by obtain ⟨x0, hx⟩ := uDbName_shape v h; rw [hx]
  · exact fun _ v h => by obtain ⟨x0, hx⟩ := uExtents_shape v h; rw [hx]
  · exact fun _ v h => by obtain ⟨x0, hx⟩ := uSessionError_shape v h; rw [hx]
  · exact fun _ v h => by obtain ⟨x0, hx⟩ := uRegular_shape v h; rw [hx]
  · exact fun _ v h => by obtain ⟨x0, hx⟩ := uDimInfo_shape v h; rw [hx]
  · exact fun _ v h => by obtain ⟨x0, hx⟩ := uDim_shape v h; rw [hx]
  · exact fun _ v h => by obtain ⟨x0, hx⟩ := uIntentP1_shape v h; rw [hx]
  · exact fun _ v h => by obtain ⟨x0, hx⟩ := uIntentP2_shape v h; rw [hx]
  · exact fun _ v h => by obtain ⟨x0, hx⟩ := uIntentP3_shape v h; rw [hx]
  · exact fun _ v h => by obtain ⟨x0, hx⟩ := uIntentCode_shape v h; rw [hx]
  · exact fun _ v h => by obtain ⟨x0, hx⟩ := uDatatype_shape v h; rw [hx]
  · exact fun _ v h => by obtain ⟨x0, hx⟩ := uBitpix_shape v h; rw [hx]
  · exact fun _ v h => by obtain ⟨x0, hx⟩ := uSliceStart_shape v h; rw [hx]
  · exact fun _ v h => by obtain ⟨x0, hx⟩ := uPixdim_shape v h; rw [hx]
  · exact fun _ v h => by obtain ⟨x0, hx⟩ := uVoxOffset_shape v h; rw [hx]
  · exact fun _ v h => by obtain ⟨x0, hx⟩ := uSclSlope_shape v h; rw [hx]
  · exact fun _ v h => by obtain ⟨x0, hx⟩ := uSclInter_shape v h; rw [hx]
  · exact fun _ v h => by obtain ⟨x0, hx⟩ := uSliceEnd_shape v h; rw [hx]
  · exact fun _ v h => by obtain ⟨x0, hx⟩ := uSliceCode_shape v h; rw [hx]
  · exact fun _ v h => by obtain ⟨x0, hx⟩ := uXyztUnits_shape v h; rw [hx]
  · exact fun _ v h => by obtain ⟨x0, hx⟩ := uCalMax_shape v h; rw [hx]
  · exact fun _ v h => by obtain ⟨x0, hx⟩ := uCalMin_shape v h; rw [hx]
  · exact fun _ v h => by obtain ⟨x0, hx⟩ := uSliceDuration_shape v h; rw [hx]
  · exact fun _ v h => by obtain ⟨x0, hx⟩ := uToffset_shape v h; rw [hx]
  · exact fun _ v h => by obtain ⟨x0, hx⟩ := uGlmax_shape v h; rw [hx]
  · exact fun _ v h => by obtain ⟨x0, hx⟩ := uGlmin_shape v h; rw [hx]
  · exact fun _ v h => by obtain ⟨x0, hx⟩ := uDescrip_shape v h; rw [hx]
  · exact fun _ v h => by obtain ⟨x0, hx⟩ := uAuxFile_shape v h; rw [hx]
  · exact fun _ v h => by obtain ⟨x0, hx⟩ := uQformCode_shape v h; rw [hx]
  · exact fun _ v h => by obtain ⟨x0, hx⟩ := uSformCode_shape v h; rw [hx]
  · exact fun _ v h => by obtain ⟨x0, x1, x2, hx⟩ := uQuatern_shape v h; rw [hx]
  · exact fun hk => absurd rfl hk
  · exact fun _ v h => by obtain ⟨x0, x1, x2, hx⟩ := uSform_shape v h; rw [hx]
  · exact fun _ v h => by obtain ⟨x0, hx⟩ := uIntentName_shape v h; rw [hx]
  · exact fun _ v h => by obtain ⟨x0, hx⟩ := uMagic_shape v h; rw [hx]

theorem presAll_qoffset_z : ∀ w ∈ niftiHeaderSteps, w.key ≠ "qoffset" →
    ∀ (v : HVal) (h : NiftiHeader), (w.exec v h).1.qoffset_z = h.qoffset_z := by
  simp only [niftiHeaderSteps, List.forall_mem_cons]
  refine ⟨?_, ?_, ?_, ?_, ?_, ?_, ?_, ?_, ?_, ?_, ?_, ?_, ?_, ?_, ?_, ?_, ?_, ?_, ?_, ?_, ?_, ?_, ?_, ?_, ?_, ?_, ?_, ?_, ?_, ?_, ?_, ?_, ?_, ?_, ?_, ?_, fun x hx => nomatch hx⟩
  · exact fun _ v h => by obtain ⟨x0, hx⟩ := uDataType_shape v h; rw [hx]
  · exact fun _ v h => by obtain ⟨x0, hx⟩ := uDbName_shape v h; rw [hx]
  · exact fun _ v h => by obtain ⟨x0, hx⟩ := uExtents_shape v h; rw [hx]
  · exact fun _ v h => by obtain ⟨x0, hx⟩ := uSessionError_shape v h; rw [hx]
  · exact fun _ v h => by obtain ⟨x0, hx⟩ := uRegular_shape v h; rw [hx]
  · exact fun _ v h => by obtain ⟨x0, hx⟩ := uDimInfo_shape v h; rw [hx]
  · exact fun _ v h => by obtain ⟨x0, hx⟩ := uDim_shape v h; rw [hx]
  · exact fun _ v h => by obtain ⟨x0, hx⟩ := uIntentP1_shape v h; rw [hx]
  · exact fun _ v h => by obtain ⟨x0, hx⟩ := uIntentP2_shape v h; rw [hx]
  · exact fun _ v h => by obtain ⟨x0, hx⟩ := uIntentP3_shape v h; rw [hx]
  · exact fun _ v h => by obtain ⟨x0, hx⟩ := uIntentCode_shape v h; rw [hx]
  · exact fun _ v h => by obtain ⟨x0, hx⟩ := uDatatype_shape v h; rw [hx]
  · exact fun _ v h => by obtain ⟨x0, hx⟩ := uBitpix_shape v h; rw [hx]
  · exact fun _ v h => by obtain ⟨x0, hx⟩ := uSliceStart_shape v h; rw [hx]
  · exact fun _ v h => by obtain ⟨x0, hx⟩ := uPixdim_shape v h; rw [hx]
  · exact fun _ v h => by obtain ⟨x0, hx⟩ := uVoxOffset_shape v h; rw [hx]
  · exact fun _ v h => by obtain ⟨x0, hx⟩ := uSclSlope_shape v h; rw [hx]
  · exact fun _ v h => by obtain ⟨x0, hx⟩ := uSclInter_shape v h; rw [hx]
  · exact fun _ v h => by obtain ⟨x0, hx⟩ := uSliceEnd_shape v h; rw [hx]
  · exact fun _ v h => by obtain ⟨x0, hx⟩ := uSliceCode_shape v h; rw [hx]
  · exact fun _ v h => by obtain ⟨x0, hx⟩ := uXyztUnits_shape v h; rw [hx]
  · exact fun _ v h => by obtain ⟨x0, hx⟩ := uCalMax_shape v h; rw [hx]
  · exact fun _ v h => by obtain ⟨x0, hx⟩ := uCalMin_shape v h; rw [hx]
  · exact fun _ v h => by obtain ⟨x0, hx⟩ := uSliceDuration_shape v h; rw [hx]
  · exact fun _ v h => by obtain ⟨x0, hx⟩ := uToffset_shape v h; rw [hx]
  · exact fun _ v h => by obtain ⟨x0, hx⟩ := uGlmax_shape v h; rw [hx]
  · exact fun _ v h => by obtain ⟨x0, hx⟩ := uGlmin_shape v h; rw [hx]
  · exact fun _ v h => by obtain ⟨x0, hx⟩ := uDescrip_shape v h; rw [hx]
  · exact fun _ v h => by obtain ⟨x0, hx⟩ := uAuxFile_shape v h; rw [hx]
  · exact fun _ v h => by obtain ⟨x0, hx⟩ := uQformCode_shape v h; rw [hx]
  · exact fun _ v h => by obtain ⟨x0, hx⟩ := uSformCode_shape v h; rw [hx]
  · exact fun _ v h => by obtain ⟨x0, x1, x2, hx⟩ := uQuatern_shape v h; rw [hx]
  · exact fun hk => absurd rfl hk
  · exact fun _ v h => by obtain ⟨x0, x1, x2, hx⟩ := uSform_shape v h; rw [hx]
  · exact fun _ v h => by obtain ⟨x0, hx⟩ := uIntentName_shape v h; rw [hx]
  · exact fun _ v h => by obtain ⟨x0, hx⟩ := uMagic_shape v h; rw [hx]

theorem presAll_srow_x : ∀ w ∈ niftiHeaderSteps, w.key ≠ "sform" →
    ∀ (v : HVal) (h : NiftiHeader), (w.exec v h).1.srow_x = h.srow_x := by
  simp only [niftiHeaderSteps, List.forall_mem_cons]
  refine ⟨?_, ?_, ?_, ?_, ?_, ?_, ?_, ?_, ?_, ?_, ?_, ?_, ?_, ?_, ?_, ?_, ?_, ?_, ?_, ?_, ?_, ?_, ?_, ?_, ?_, ?_, ?_, ?_, ?_, ?_, ?_, ?_, ?_, ?_, ?_, ?_, fun x hx => nomatch hx⟩
  · exact fun _ v h => by obtain ⟨x0, hx⟩ := uDataType_shape v h; rw [hx]
  · exact fun _ v h => by obtain ⟨x0, hx⟩ := uDbName_shape v h; rw [hx]
  · exact fun _ v h => by obtain ⟨x0, hx⟩ := uExtents_shape v h; rw [hx]
  · exact fun _ v h => by obtain ⟨x0, hx⟩ := uSessionError_shape v h; rw [hx]
  · exact fun _ v h => by obtain ⟨x0, hx⟩ := uRegular_shape v h; rw [hx]
  · exact fun _ v h => by obtain ⟨x0, hx⟩ := uDimInfo_shape v h; rw [hx]
  · exact fun _ v h => by obtain ⟨x0, hx⟩ := uDim_shape v h; rw [hx]
  · exact fun _ v h => by obtain ⟨x0, hx⟩ := uIntentP1_shape v h; rw [hx]
  · exact fun _ v h => by obtain ⟨x0, hx⟩ := uIntentP2_shape v h; rw [hx]
  · exact fun _ v h => by obtain ⟨x0, hx⟩ := uIntentP3_shape v h; rw [hx]
  · exact fun _ v h => by obtain ⟨x0, hx⟩ := uIntentCode_shape v h; rw [hx]
  · exact fun _ v h => by obtain ⟨x0, hx⟩ := uDatatype_shape v h; rw [hx]
  · exact fun _ v h => by obtain ⟨x0, hx⟩ := uBitpix_shape v h; rw [hx]
  · exact fun _ v h => by obtain ⟨x0, hx⟩ := uSliceStart_shape v h; rw [hx]
  · exact fun _ v h => by obtain ⟨x0, hx⟩ := uPixdim_shape v h; rw [hx]
  · exact fun _ v h => by obtain ⟨x0, hx⟩ := uVoxOffset_shape v h; rw [hx]
  · exact fun _ v h => by obtain ⟨x0, hx⟩ := uSclSlope_shape v h; rw [hx]
  · exact fun _ v h => by obtain ⟨x0, hx⟩ := uSclInter_shape v h; rw [hx]
  · exact fun _ v h => by obtain ⟨x0, hx⟩ := uSliceEnd_shape v h; rw [hx]
  · exact fun _ v h => by obtain ⟨x0, hx⟩ := uSliceCode_shape v h; rw [hx]
  · exact fun _ v h => by obtain ⟨x0, hx⟩ := uXyztUnits_shape v h; rw [hx]
  · exact fun _ v h => by obtain ⟨x0, hx⟩ := uCalMax_shape v h; rw [hx]
  · exact fun _ v h => by obtain ⟨x0, hx⟩ := uCalMin_shape v h; rw [hx]
  · exact fun _ v h => by obtain ⟨x0, hx⟩ := uSliceDuration_shape v h; rw [hx]
  · exact fun _ v h => by obtain ⟨x0, hx⟩ := uToffset_shape v h; rw [hx]
  · exact fun _ v h => by obtain ⟨x0, hx⟩ := uGlmax_shape v h; rw [hx]
  · exact fun _ v h => by obtain ⟨x0, hx⟩ := uGlmin_shape v h; rw [hx]
  · exact fun _ v h => by obtain ⟨x0, hx⟩ := uDescrip_shape v h; rw [hx]
  · exact fun _ v h => by obtain ⟨x0, hx⟩ := uAuxFile_shape v h; rw [hx]
  · exact fun _ v h => by obtain ⟨x0, hx⟩ := uQformCode_shape v h; rw [hx]
  · exact fun _ v h => by obtain ⟨x0, hx⟩ := uSformCode_shape v h; rw [hx]
  · exact fun _ v h => by obtain ⟨x0, x1, x2, hx⟩ := uQuatern_shape v h; rw [hx]
  · exact fun _ v h => by obtain ⟨x0, x1, x2, hx⟩ := uQoffset_shape v h; rw [hx]
  · exact fun hk => absurd rfl hk
  · exact fun _ v h => by obtain ⟨x0, hx⟩ := uIntentName_shape v h; rw [hx]
  · exact fun _ v h => by obtain ⟨x0, hx⟩ := uMagic_shape v h; rw [hx]

theorem presAll_srow_y : ∀ w ∈ niftiHeaderSteps, w.key ≠ "sform" →
    ∀ (v : HVal) (h : NiftiHeader), (w.exec v h).1.srow_y = h.srow_y := by
  simp only [niftiHeaderSteps, List.forall_mem_cons]
  refine ⟨?_, ?_, ?_, ?_, ?_, ?_, ?_, ?_, ?_, ?_, ?_, ?_, ?_, ?_, ?_, ?_, ?_, ?_, ?_, ?_, ?_, ?_, ?_, ?_, ?_, ?_, ?_, ?_, ?_, ?_, ?_, ?_, ?_, ?_, ?_, ?_, fun x hx => nomatch hx⟩
  · exact fun _ v h => by obtain ⟨x0, hx⟩ := uDataType_shape v h; rw [hx]
  · exact fun _ v h => by obtain ⟨x0, hx⟩ := uDbName_shape v h; rw [hx]
  · exact fun _ v h => by obtain ⟨x0, hx⟩ := uExtents_shape v h; rw [hx]
  · exact fun _ v h => by obtain ⟨x0, hx⟩ := uSessionError_shape v h; rw [hx]
  · exact fun _ v h => by obtain ⟨x0, hx⟩ := uRegular_shape v h; rw [hx]
  · exact fun _ v h => by obtain ⟨x0, hx⟩ := uDimInfo_shape v h; rw [hx]
  · exact fun _ v h => by obtain ⟨x0, hx⟩ := uDim_shape v h; rw [hx]
  · exact fun _ v h => by obtain ⟨x0, hx⟩ := uIntentP1_shape v h; rw [hx]
  · exact fun _ v h => by obtain ⟨x0, hx⟩ := uIntentP2_shape v h; rw [hx]
  · exact fun _ v h => by obtain ⟨x0, hx⟩ := uIntentP3_shape v h; rw [hx]
  · exact fun _ v h => by obtain ⟨x0, hx⟩ := uIntentCode_shape v h; rw [hx]
  · exact fun _ v h => by obtain ⟨x0, hx⟩ := uDatatype_shape v h; rw [hx]
  · exact fun _ v h => by obtain ⟨x0, hx⟩ := uBitpix_shape v h; rw [hx]
  · exact fun _ v h => by obtain ⟨x0, hx⟩ := uSliceStart_shape v h; rw [hx]
  · exact fun _ v h => by obtain ⟨x0, hx⟩ := uPixdim_shape v h; rw [hx]
  · exact fun _ v h => by obtain ⟨x0, hx⟩ := uVoxOffset_shape v h; rw [hx]
  · exact fun _ v h => by obtain ⟨x0, hx⟩ := uSclSlope_shape v h; rw [hx]
  · exact fun _ v h => by obtain ⟨x0, hx⟩ := uSclInter_shape v h; rw [hx]
  · exact fun _ v h => by obtain ⟨x0, hx⟩ := uSliceEnd_shape v h; rw [hx]
  · exact fun _ v h => by obtain ⟨x0, hx⟩ := uSliceCode_shape v h; rw [hx]
  · exact fun _ v h => by obtain ⟨x0, hx⟩ := uXyztUnits_shape v h; rw [hx]
  · exact fun _ v h => by obtain ⟨x0, hx⟩ := uCalMax_shape v h; rw [hx]
  · exact fun _ v h => by obtain ⟨x0, hx⟩ := uCalMin_shape v h; rw [hx]
  · exact fun _ v h => by obtain ⟨x0, hx⟩ := uSliceDuration_shape v h; rw [hx]
  · exact fun _ v h => by obtain ⟨x0, hx⟩ := uToffset_shape v h; rw [hx]
  · exact fun _ v h => by obtain ⟨x0, hx⟩ := uGlmax_shape v h; rw [hx]
  · exact fun _ v h => by obtain ⟨x0, hx⟩ := uGlmin_shape v h; rw [hx]
  · exact fun _ v h => by obtain ⟨x0, hx⟩ := uDescrip_shape v h; rw [hx]
  · exact fun _ v h => by obtain ⟨x0, hx⟩ := uAuxFile_shape v h; rw [hx]
  · exact fun _ v h => by obtain ⟨x0, hx⟩ := uQformCode_shape v h; rw [hx]
  · exact fun _ v h => by obtain ⟨x0, hx⟩ := uSformCode_shape v h; rw [hx]
  · exact fun _ v h => by obtain ⟨x0, x1, x2, hx⟩ := uQuatern_shape v h; rw [hx]
  · exact fun _ v h => by obtain ⟨x0, x1, x2, hx⟩ := uQoffset_shape v h; rw [hx]
  · exact fun hk => absurd rfl hk
  · exact fun _ v h => by obtain ⟨x0, hx⟩ := uIntentName_shape v h; rw [hx]
  · exact fun _ v h => by obtain ⟨x0, hx⟩ := uMagic_shape v h; rw [hx]

theorem presAll_srow_z : ∀ w ∈ niftiHeaderSteps, w.key ≠ "sform" →
    ∀ (v : HVal) (h : NiftiHeader), (w.exec v h).1.srow_z = h.srow_z := by
  simp only [niftiHeaderSteps, List.forall_mem_cons]
  refine ⟨?_, ?_, ?_, ?_, ?_, ?_, ?_, ?_, ?_, ?_, ?_, ?_, ?_, ?_, ?_, ?_, ?_, ?_, ?_, ?_, ?_, ?_, ?_, ?_, ?_, ?_, ?_, ?_, ?_, ?_, ?_, ?_, ?_, ?_, ?_, ?_, fun x hx => nomatch hx⟩
  · exact fun _ v h => by obtain ⟨x0, hx⟩ := uDataType_shape v h; rw [hx]
  · exact fun _ v h => by obtain ⟨x0, hx⟩ := uDbName_shape v h; rw [hx]
  · exact fun _ v h => by obtain ⟨x0, hx⟩ := uExtents_shape v h; rw [hx]
  · exact fun _ v h => by obtain ⟨x0, hx⟩ := uSessionError_shape v h; rw [hx]
  · exact fun _ v h => by obtain ⟨x0, hx⟩ := uRegular_shape v h; rw [hx]
  · exact fun _ v h => by obtain ⟨x0, hx⟩ := uDimInfo_shape v h; rw [hx]
  · exact fun _ v h => by obtain ⟨x0, hx⟩ := uDim_shape v h; rw [hx]
  · exact fun _ v h => by obtain ⟨x0, hx⟩ := uIntentP1_shape v h; rw [hx]
  · exact fun _ v h => by obtain ⟨x0, hx⟩ := uIntentP2_shape v h; rw [hx]
  · exact fun _ v h => by obtain ⟨x0, hx⟩ := uIntentP3_shape v h; rw [hx]
  · exact fun _ v h => by obtain ⟨x0, hx⟩ := uIntentCode_shape v h; rw [hx]
  · exact fun _ v h => by obtain ⟨x0, hx⟩ := uDatatype_shape v h; rw [hx]
  · exact fun _ v h => by obtain ⟨x0, hx⟩ := uBitpix_shape v h; rw [hx]
  · exact fun _ v h => by obtain ⟨x0, hx⟩ := uSliceStart_shape v h; rw [hx]
  · exact fun _ v h => by obtain ⟨x0, hx⟩ := uPixdim_shape v h; rw [hx]
  · exact fun _ v h => by obtain ⟨x0, hx⟩ := uVoxOffset_shape v h; rw [hx]
  · exact fun _ v h => by obtain ⟨x0, hx⟩ := uSclSlope_shape v h; rw [hx]
  · exact fun _ v h => by obtain ⟨x0, hx⟩ := uSclInter_shape v h; rw [hx]
  · exact fun _ v h => by obtain ⟨x0, hx⟩ := uSliceEnd_shape v h; rw [hx]
  · exact fun _ v h => by obtain ⟨x0, hx⟩ := uSliceCode_shape v h; rw [hx]
  · exact fun _ v h => by obtain ⟨x0, hx⟩ := uXyztUnits_shape v h; rw [hx]
  · exact fun _ v h => by obtain ⟨x0, hx⟩ := uCalMax_shape v h; rw [hx]
  · exact fun _ v h => by obtain ⟨x0, hx⟩ := uCalMin_shape v h; rw [hx]
  · exact fun _ v h => by obtain ⟨x0, hx⟩ := uSliceDuration_shape v h; rw [hx]
  · exact fun _ v h => by obtain ⟨x0, hx⟩ := uToffset_shape v h; rw [hx]
  · exact fun _ v h => by obtain ⟨x0, hx⟩ := uGlmax_shape v h; rw [hx]
  · exact fun _ v h => by obtain ⟨x0, hx⟩ := uGlmin_shape v h; rw [hx]
  · exact fun _ v h => by obtain ⟨x0, hx⟩ := uDescrip_shape v h; rw [hx]
  · exact fun _ v h => by obtain ⟨x0, hx⟩ := uAuxFile_shape v h; rw [hx]
  · exact fun _ v h => by obtain ⟨x0, hx⟩ := uQformCode_shape v h; rw [hx]
  · exact fun _ v h => by obtain ⟨x0, hx⟩ := uSformCode_shape v h; rw [hx]
  · exact fun _ v h => by obtain ⟨x0, x1, x2, hx⟩ := uQuatern_shape v h; rw [hx]
  · exact fun _ v h => by obtain ⟨x0, x1, x2, hx⟩ := uQoffset_shape v h; rw [hx]
  · exact fun hk => absurd rfl hk
  · exact fun _ v h => by obtain ⟨x0, hx⟩ := uIntentName_shape v h; rw [hx]
  · exact fun _ v h => by obtain ⟨x0, hx⟩ := uMagic_shape v h; rw [hx]

theorem presAll_intent_name : ∀ w ∈ niftiHeaderSteps, w.key ≠ "intent_name" →
    ∀ (v : HVal) (h : NiftiHeader), (w.exec v h).1.intent_name = h.intent_name := by
  simp only [niftiHeaderSteps, List.forall_mem_cons]
  refine ⟨?_, ?_, ?_, ?_, ?_, ?_, ?_, ?_, ?_, ?_, ?_, ?_, ?_, ?_, ?_, ?_, ?_, ?_, ?_, ?_, ?_, ?_, ?_, ?_, ?_, ?_, ?_, ?_, ?_, ?_, ?_, ?_, ?_, ?_, ?_, ?_, fun x hx => nomatch hx⟩
  · exact fun _ v h => by obtain ⟨x0, hx⟩ := uDataType_shape v h; rw [hx]
  · exact fun _ v h => by obtain ⟨x0, hx⟩ := uDbName_shape v h; rw [hx]
  · exact fun _ v h => by obtain ⟨x0, hx⟩ := uExtents_shape v h; rw [hx]
  · exact fun _ v h => by obtain ⟨x0, hx⟩ := uSessionError_shape v h; rw [hx]
  · exact fun _ v h => by obtain ⟨x0, hx⟩ := uRegular_shape v h; rw [hx]
  · exact fun _ v h => by obtain ⟨x0, hx⟩ := uDimInfo_shape v h; rw [hx]
  · exact fun _ v h => by obtain ⟨x0, hx⟩ := uDim_shape v h; rw [hx]
  · exact fun _ v h => by obtain ⟨x0, hx⟩ := uIntentP1_shape v h; rw [hx]
  · exact fun _ v h => by obtain ⟨x0, hx⟩ := uIntentP2_shape v h; rw [hx]
  · exact fun _ v h => by obtain ⟨x0, hx⟩ := uIntentP3_shape v h; rw [hx]
  · exact fun _ v h => by obtain ⟨x0, hx⟩ := uIntentCode_shape v h; rw [hx]
  · exact fun _ v h => by obtain ⟨x0, hx⟩ := uDatatype_shape v h; rw [hx]
  · exact fun _ v h => by obtain ⟨x0, hx⟩ := uBitpix_shape v h; rw [hx]
  · exact fun _ v h => by obtain ⟨x0, hx⟩ := uSliceStart_shape v h; rw [hx]
  · exact fun _ v h => by obtain ⟨x0, hx⟩ := uPixdim_shape v h; rw [hx]
  · exact fun _ v h => by obtain ⟨x0, hx⟩ := uVoxOffset_shape v h; rw [hx]
  · exact fun _ v h => by obtain ⟨x0, hx⟩ := uSclSlope_shape v h; rw [hx]
  · exact fun _ v h => by obtain ⟨x0, hx⟩ := uSclInter_shape v h; rw [hx]
  · exact fun _ v h => by obtain ⟨x0, hx⟩ := uSliceEnd_shape v h; rw [hx]
  · exact fun _ v h => by obtain ⟨x0, hx⟩ := uSliceCode_shape v h; rw [hx]
  · exact fun _ v h => by obtain ⟨x0, hx⟩ := uXyztUnits_shape v h; rw [hx]
  · exact fun _ v h => by obtain ⟨x0, hx⟩ := uCalMax_shape v h; rw [hx]
  · exact fun _ v h => by obtain ⟨x0, hx⟩ := uCalMin_shape v h; rw [hx]
  · exact fun _ v h => by obtain ⟨x0, hx⟩ := uSliceDuration_shape v h; rw [hx]
  · exact fun _ v h => by obtain ⟨x0, hx⟩ := uToffset_shape v h; rw [hx]
  · exact fun _ v h => by obtain ⟨x0, hx⟩ := uGlmax_shape v h; rw [hx]
  · exact fun _ v h => by obtain ⟨x0, hx⟩ := uGlmin_shape v h; rw [hx]
  · exact fun _ v h => by obtain ⟨x0, hx⟩ := uDescrip_shape v h; rw [hx]
  · exact fun _ v h => by obtain ⟨x0, hx⟩ := uAuxFile_shape v h; rw [hx]
  · exact fun _ v h => by obtain ⟨x0, hx⟩ := uQformCode_shape v h; rw [hx]
  · exact fun _ v h => by obtain ⟨x0, hx⟩ := uSformCode_shape v h; rw [hx]
  · exact fun _ v h => by obtain ⟨x0, x1, x2, hx⟩ := uQuatern_shape v h; rw [hx]
  · exact fun _ v h => by obtain ⟨x0, x1, x2, hx⟩ := uQoffset_shape v h; rw [hx]
  · exact fun _ v h => by obtain ⟨x0, x1, x2, hx⟩ := uSform_shape v h; rw [hx]
  · exact fun hk => absurd rfl hk
  · exact fun _ v h => by obtain ⟨x0, hx⟩ := uMagic_shape v h; rw [hx]

theorem presAll_magic : ∀ w ∈ niftiHeaderSteps, w.key ≠ "magic" →
    ∀ (v : HVal) (h : NiftiHeader), (w.exec v h).1.magic = h.magic := by
  simp only [niftiHeaderSteps, List.forall_mem_cons]
  refine ⟨?_, ?_, ?_, ?_, ?_, ?_, ?_, ?_, ?_, ?_, ?_, ?_, ?_, ?_, ?_, ?_, ?_, ?_, ?_, ?_, ?_, ?_, ?_, ?_, ?_, ?_, ?_, ?_, ?_, ?_, ?_, ?_, ?_, ?_, ?_, ?_, fun x hx => nomatch hx⟩
  · exact fun _ v h => by obtain ⟨x0, hx⟩ := uDataType_shape v h; rw [hx]
  · exact fun _ v h => by obtain ⟨x0, hx⟩ := uDbName_shape v h; rw [hx]
  · exact fun _ v h => by obtain ⟨x0, hx⟩ := uExtents_shape v h; rw [hx]
  · exact fun _ v h => by obtain ⟨x0, hx⟩ := uSessionError_shape v h; rw [hx]
  · exact fun _ v h => by obtain ⟨x0, hx⟩ := uRegular_shape v h; rw [hx]
  · exact fun _ v h => by obtain ⟨x0, hx⟩ := uDimInfo_shape v h; rw [hx]
  · exact fun _ v h => by obtain ⟨x0, hx⟩ := uDim_shape v h; rw [hx]
  · exact fun _ v h => by obtain ⟨x0, hx⟩ := uIntentP1_shape v h; rw [hx]
  · exact fun _ v h => by obtain ⟨x0, hx⟩ := uIntentP2_shape v h; rw [hx]
  · exact fun _ v h => by obtain ⟨x0, hx⟩ := uIntentP3_shape v h; rw [hx]
  · exact fun _ v h => by obtain ⟨x0, hx⟩ := uIntentCode_shape v h; rw [hx]
  · exact fun _ v h => by obtain ⟨x0, hx⟩ := uDatatype_shape v h; rw [hx]
  · exact fun _ v h => by obtain ⟨x0, hx⟩ := uBitpix_shape v h; rw [hx]
  · exact fun _ v h => by obtain ⟨x0, hx⟩ := uSliceStart_shape v h; rw [hx]
  · exact fun _ v h => by obtain ⟨x0, hx⟩ := uPixdim_shape v h; rw [hx]
  · exact fun _ v h => by obtain ⟨x0, hx⟩ := uVoxOffset_shape v h; rw [hx]
  · exact fun _ v h => by obtain ⟨x0, hx⟩ := uSclSlope_shape v h; rw [hx]
  · exact fun _ v h => by obtain ⟨x0, hx⟩ := uSclInter_shape v h; rw [hx]
  · exact fun _ v h => by obtain ⟨x0, hx⟩ := uSliceEnd_shape v h; rw [hx]
  · exact fun _ v h => by obtain ⟨x0, hx⟩ := uSliceCode_shape v h; rw [hx]
  · exact fun _ v h => by obtain ⟨x0, hx⟩ := uXyztUnits_shape v h; rw [hx]
  · exact fun _ v h => by obtain ⟨x0, hx⟩ := uCalMax_shape v h; rw [hx]
  · exact fun _ v h => by obtain ⟨x0, hx⟩ := uCalMin_shape v h; rw [hx]
  · exact fun _ v h => by obtain ⟨x0, hx⟩ := uSliceDuration_shape v h; rw [hx]
  · exact fun _ v h => by obtain ⟨x0, hx⟩ := uToffset_shape v h; rw [hx]
  · exact fun _ v h => by obtain ⟨x0, hx⟩ := uGlmax_shape v h; rw [hx]
  · exact fun _ v h => by obtain ⟨x0, hx⟩ := uGlmin_shape v h; rw [hx]
  · exact fun _ v h => by obtain ⟨x0, hx⟩ := uDescrip_shape v h; rw [hx]
  · exact fun _ v h => by obtain ⟨x0, hx⟩ := uAuxFile_shape v h; rw [hx]
  · exact fun _ v h => by obtain ⟨x0, hx⟩ := uQformCode_shape v h; rw [hx]
  · exact fun _ v h => by obtain ⟨x0, hx⟩ := uSformCode_shape v h; rw [hx]
  · exact fun _ v h => by obtain ⟨x0, x1, x2, hx⟩ := uQuatern_shape v h; rw [hx]
  · exact fun _ v h => by obtain ⟨x0, x1, x2, hx⟩ := uQoffset_shape v h; rw [hx]
  · exact fun _ v h => by obtain ⟨x0, x1, x2, hx⟩ := uSform_shape v h; rw [hx]
  · exact fun _ v h => by obtain ⟨x0, hx⟩ := uIntentName_shape v h; rw [hx]
  · exact fun hk => absurd rfl hk

/-!
Claim C10 — totality gap of `splitFilename`.
-/

/-- C10: `splitFilename` is not total on strings ending in `gz`: on the
one-component input `"gz"` the Python subscript `parts[-2]` is out of
bounds, so the call raises `IndexError` instead of returning a pair, while
every input with at least two dot components returns normally. -/
theorem C10_splitFilename_totality :
    splitFilename "gz" = .error .indexError ∧
    ∀ f : String, 2 ≤ (pySplitDot f).length → ∃ r, splitFilename f = .ok r := by
  refine ⟨by decide, fun f hf => ?_⟩
  simp only [splitFilename]
  split
  · split
    · next hlt => exact absurd hf (by omega)
    · split
      · exact ⟨_, rfl⟩
      · exact ⟨_, rfl⟩
  · split
    · exact ⟨_, rfl⟩
    · exact ⟨_, rfl⟩

/-- C10 witness: the two-component filename `"a.b"` returns normally. -/
theorem C10_splitFilename_totality_witness :
    2 ≤ (pySplitDot "a.b").length ∧ ∃ r, splitFilename "a.b" = .ok r :=
  ⟨by decide, C10_splitFilename_totality.2 "a.b" (by decide)⟩

/-- Associativity of string append (needed to normalise `base ++ "." ++ ext`). -/
theorem strAppendAssoc (a b c : String) : a ++ b ++ c = a ++ (b ++ c) := by
  rcases a with ⟨la⟩; rcases b with ⟨lb⟩; rcases c with ⟨lc⟩
  show String.mk (la ++ lb ++ lc) = String.mk (la ++ (lb ++ lc))
  rw [List.append_assoc]

/-!
Claim C3 — `save` filename resolution.
-/

/-- C3 counterexample: `"brain.hdr"` with no explicit filetype (the `save`
parameter defaults to `'NIFTI'`) produces a NIfTI pair
(`NIFTI_FTYPE_NIFTI1_2`), not the ANALYZE pair the claim states, because
`'NIFTI'.startswith('NIFTI')` holds. -/
theorem C3_counterexample :
    save "brain.hdr" "NIFTI" = .ok ("brain.hdr", "brain.img", NiftiFType.nifti1_2) ∧
    NiftiFType.nifti1_2 ≠ NiftiFType.analyze := by
  decide

/-- C3 amended: the resolution table of `save` for an explicit filename,
with the one correction that a `.hdr` name under the default filetype
`'NIFTI'` yields a NIfTI pair; an ANALYZE pair requires an explicit
non-NIFTI filetype such as `'ANALYZE'`.  The conditional clauses express
the table for every filename whose split yields the given effective
extension; the closing equalities instantiate the spec's literal cases. -/
theorem C3_save_resolution (f base ftype : String) (hft : ftype ∈ filetypes) :
    (splitFilename f = .ok (base, "nii") →
      save f ftype = .ok (base ++ ".nii", base ++ ".nii", .nifti1_1)) ∧
    (splitFilename f = .ok (base, "nii.gz") →
      save f ftype = .ok (base ++ ".nii.gz", base ++ ".nii.gz", .nifti1_1)) ∧
    (splitFilename f = .ok (base, "hdr") →
      save f ftype = .ok (base ++ ".hdr", base ++ ".img",
        if pyStartsWithNIFTI ftype then .nifti1_2 else .analyze)) ∧
    (splitFilename f = .ok (base, "hdr.gz") →
      save f ftype = .ok (base ++ ".hdr.gz", base ++ ".img.gz",
        if pyStartsWithNIFTI ftype then .nifti1_2 else .analyze)) ∧
    (splitFilename f = .ok (base, "") →
      save f ftype = .ok (base ++ ".nii", base ++ ".nii", .nifti1_1)) ∧
    save "brain.nii" "NIFTI" = .ok ("brain.nii", "brain.nii", .nifti1_1) ∧
    save "brain.nii.gz" "NIFTI" = .ok ("brain.nii.gz", "brain.nii.gz", .nifti1_1) ∧
    save "brain.hdr" "NIFTI" = .ok ("brain.hdr", "brain.img", .nifti1_2) ∧
    save "brain.hdr" "NIFTI_PAIR" = .ok ("brain.hdr", "brain.img", .nifti1_2) ∧
    save "brain.hdr" "ANALYZE" = .ok ("brain.hdr", "brain.img", .analyze) ∧
    save "brain.hdr.gz" "ANALYZE_GZ" = .ok ("brain.hdr.gz", "brain.img.gz", .analyze) ∧
    save "brain" "NIFTI" = .ok ("brain.nii", "brain.nii", .nifti1_1) := by
  refine ⟨fun hs => ?_, fun hs => ?_, fun hs => ?_, fun hs => ?_, fun hs => ?_,
    by decide, by decide, by decide, by decide, by decide, by decide, by decide⟩ <;>
    simp [save, hs, hft, strAppendAssoc]

/-- C3 witness: the amended table applied to `"brain.hdr"` with the
explicit `'ANALYZE'` filetype. -/
theorem C3_save_resolution_witness :
    save "brain.hdr" "ANALYZE" = .ok ("brain" ++ ".hdr", "brain" ++ ".img",
      if pyStartsWithNIFTI "ANALYZE" then NiftiFType.nifti1_2 else NiftiFType.analyze) :=
  (C3_save_resolution "brain.hdr" "brain" "ANALYZE" (by decide)).2.2.1 (by decide)

/-!
Claim C1 — `nhdr2dict` sform assembly.
-/

/-- A header whose three stored sform rows are pairwise distinct. -/
def c1Header : NiftiHeader :=
  { defaultNhdr with srow_x := [9, 8, 7, 6], srow_y := [1, 1, 1, 1], srow_z := [2, 2, 2, 2] }

/-- C1: the claim (and the spec) say `sform` row 2 comes from the stored
`srow_z`; line 140 of the source builds it from `srow_y` instead (the
`srow_z` pointer it obtained on line 136 is never used), so on a header
with `srow_z = [2,2,2,2]` the returned row 2 is the `srow_y` value
`[1,1,1,1]`.  Rows 0, 1 and 3 behave as claimed. -/
theorem C1_sform_row2_bug :
    dictGet (nhdr2dict c1Header) "sform" =
      some (.m [[9, 8, 7, 6], [1, 1, 1, 1], [1, 1, 1, 1], [0, 0, 0, 1]]) ∧
    c1Header.srow_z = [2, 2, 2, 2] ∧
    ([1, 1, 1, 1] : List Rat) ≠ [2, 2, 2, 2] := by
  decide

/-!
Claim C2 — the dictionary patch is not all-or-nothing.
-/

/-- C2 counterexample: the patch `{'extents': 42, 'regular': 'xx'}` raises
the `regular` validation error, yet the header passed in has already been
mutated: its `extents` field holds 42. -/
theorem C2_counterexample :
    (updateNiftiHeaderFromDict defaultNhdr [("extents", .i 42), ("regular", .s "xx")]).2 =
      some (.valueError "Nifti header property regular has to be a single character.") ∧
    (updateNiftiHeaderFromDict defaultNhdr [("extents", .i 42), ("regular", .s "xx")]).1 ≠
      defaultNhdr := by
  decide

/-- C2 amended: validation is per-field and interleaved with assignment,
not all-or-nothing: for any header and any over-long `regular` value, the
patch `{'extents': e, 'regular': v}` assigns `extents` first and only then
raises the `regular` validation error, leaving the partial write in the
header. -/
theorem C2_partial_write (h : NiftiHeader) (e : Int) (v : String) (hv : 1 < v.length) :
    updateNiftiHeaderFromDict h [("extents", .i e), ("regular", .s v)] =
      ({ h with extents := e },
       some (.valueError "Nifti header property regular has to be a single character.")) := by
  simp [updateNiftiHeaderFromDict, niftiHeaderSteps, runSteps, dictGet,
    uDataType, uDbName, uExtents, uSessionError, uRegular, hv]

/-- C2 witness: the amended statement at the counterexample input. -/
theorem C2_partial_write_witness :
    updateNiftiHeaderFromDict defaultNhdr [("extents", .i 7), ("regular", .s "ab")] =
      ({ defaultNhdr with extents := 7 },
       some (.valueError "Nifti header property regular has to be a single character.")) :=
  C2_partial_write defaultNhdr 7 "ab" (by decide)

/-!
Claim C9 — `regular` / `dim_info` length checks.
-/

/-- C9 counterexample: the claim says any present value whose length is
not 1 — including the empty string — is rejected; the code only rejects
lengths greater than 1, so the empty string is accepted and assigned
(the template header's `regular` was `"r"`). -/
theorem C9_counterexample :
    updateNiftiHeaderFromDict defaultNhdr [("regular", .s "")] =
      ({ defaultNhdr with regular := "" }, none) ∧
    defaultNhdr.regular = "r" := by
  decide

/-- C9 amended: a present `regular` or `dim_info` string is rejected with
a validation error exactly when it is longer than one character; values of
length 0 or 1 are accepted and assigned. -/
theorem C9_length_check (h : NiftiHeader) (v : String) :
    (v.length ≤ 1 →
      updateNiftiHeaderFromDict h [("regular", .s v)] = ({ h with regular := v }, none) ∧
      updateNiftiHeaderFromDict h [("dim_info", .s v)] = ({ h with dim_info := v }, none)) ∧
    (1 < v.length →
      updateNiftiHeaderFromDict h [("regular", .s v)] =
        (h, some (.valueError "Nifti header property regular has to be a single character.")) ∧
      updateNiftiHeaderFromDict h [("dim_info", .s v)] =
        (h, some (.valueError "Nifti header property dim_info has to be a single character."))) := by
  constructor
  · intro hle
    have hng : ¬ (v.length > 1) := by omega
    constructor <;>
      simp [updateNiftiHeaderFromDict, niftiHeaderSteps, runSteps, dictGet,
        uDataType, uDbName, uExtents, uSessionError, uRegular, uDimInfo, uDim,
        uIntentP1, uIntentP2, uIntentP3, uIntentCode, uDatatype, uBitpix, uSliceStart,
        uPixdim, uVoxOffset, uSclSlope, uSclInter, uSliceEnd, uSliceCode, uXyztUnits,
        uCalMax, uCalMin, uSliceDuration, uToffset, uGlmax, uGlmin, uDescrip, uAuxFile,
        uQformCode, uSformCode, uQuatern, uQoffset, uSform, uIntentName, uMagic, hng]
  · intro hgt
    constructor <;>
      simp [updateNiftiHeaderFromDict, niftiHeaderSteps, runSteps, dictGet,
        uDataType, uDbName, uExtents, uSessionError, uRegular, uDimInfo, hgt]

/-- C9 witness: the empty string is accepted and assigned. -/
theorem C9_length_check_witness :
    updateNiftiHeaderFromDict defaultNhdr [("regular", .s "")] =
      ({ defaultNhdr with regular := "" }, none) :=
  ((C9_length_check defaultNhdr "").1 (by decide)).1

/-!
Claim C8 — `descrip` / `magic` / `sform` validation.
-/

theorem mem_steps_left {L₁ L₂ : List StepSpec} {u w : StepSpec}
    (hsplit : niftiHeaderSteps = L₁ ++ u :: L₂) (hw : w ∈ L₁) : w ∈ niftiHeaderSteps := by
  rw [hsplit]; exact List.mem_append_left _ hw

theorem mem_steps_right {L₁ L₂ : List StepSpec} {u w : StepSpec}
    (hsplit : niftiHeaderSteps = L₁ ++ u :: L₂) (hw : w ∈ L₂) : w ∈ niftiHeaderSteps := by
  rw [hsplit]; exact List.mem_append_right _ (List.mem_cons_of_mem _ hw)

/-- If some key of the dictionary carries a value its own block always
rejects without modifying the header, then the whole update raises, and
any header component untouched by the blocks before that key survives
unchanged. -/
theorem update_err_at {α : Type} (π : NiftiHeader → α) (L₁ L₂ : List StepSpec)
    (u : StepSpec) (hsplit : niftiHeaderSteps = L₁ ++ u :: L₂)
    (d : HDict) (v : HVal) (hget : dictGet d u.key = some v)
    (herr : ∀ h', (u.exec v h').2 ≠ none)
    (hkeep : ∀ h', (u.exec v h').1 = h')
    (hpres : ∀ w ∈ L₁, ∀ v' h', π (w.exec v' h').1 = π h')
    (h : NiftiHeader) :
    (updateNiftiHeaderFromDict h d).2 ≠ none ∧
    π (updateNiftiHeaderFromDict h d).1 = π h := by
  have hpre : π (runSteps L₁ d h).1 = π h :=
    runSteps_fst_frame π L₁ d (fun w hw v' h' _ => hpres w hw v' h') h
  rw [updateNiftiHeaderFromDict, hsplit, runSteps_append]
  cases hr : (runSteps L₁ d h).2 with
  | some e => exact ⟨by simp, hpre⟩
  | none =>
    cases he : (u.exec v (runSteps L₁ d h).1).2 with
    | none => exact absurd he (herr _)
    | some e =>
      rw [runSteps_cons_err u L₂ d (runSteps L₁ d h).1 v e hget he]
      exact ⟨by simp, by rw [hkeep]; exact hpre⟩

/-- The blocks preceding the `descrip` block, and the ones after it. -/
def stepsBeforeDescrip : List StepSpec :=
  [uDataType, uDbName, uExtents, uSessionError, uRegular, uDimInfo, uDim,
   uIntentP1, uIntentP2, uIntentP3, uIntentCode, uDatatype, uBitpix,
   uSliceStart, uPixdim, uVoxOffset, uSclSlope, uSclInter, uSliceEnd,
   uSliceCode, uXyztUnits, uCalMax, uCalMin, uSliceDuration, uToffset,
   uGlmax, uGlmin]

def stepsAfterDescrip : List StepSpec :=
  [uAuxFile, uQformCode, uSformCode, uQuatern, uQoffset, uSform,
   uIntentName, uMagic]

theorem steps_split_descrip :
    niftiHeaderSteps = stepsBeforeDescrip ++ uDescrip :: stepsAfterDescrip := rfl

/-- The blocks preceding the `sform` block, and the ones after it. -/
def stepsBeforeSform : List StepSpec :=
  stepsBeforeDescrip ++ [uDescrip, uAuxFile, uQformCode, uSformCode, uQuatern, uQoffset]

def stepsAfterSform : List StepSpec := [uIntentName, uMagic]

theorem steps_split_sform :
    niftiHeaderSteps = stepsBeforeSform ++ uSform :: stepsAfterSform := rfl

/-- The blocks preceding the `magic` block (it is the last block). -/
def stepsBeforeMagic : List StepSpec :=
  stepsBeforeSform ++ [uSform, uIntentName]

theorem steps_split_magic :
    niftiHeaderSteps = stepsBeforeMagic ++ uMagic :: ([] : List StepSpec) := rfl

/-- C8 counterexample: in a patch that also carries a `dim` list shorter
than 8, the over-long `descrip` never gets checked — the `dim` block's
subscript raises `IndexError` first, which is not a validation
(`ValueError`) failure, so "raises a validation error" does not hold of
every patch with an over-long `descrip`. -/
theorem C8_counterexample :
    (updateNiftiHeaderFromDict defaultNhdr
      [("dim", .il []), ("descrip", .s (String.mk (List.replicate 80 'x')))]).2 =
      some PyError.indexError ∧
    ∀ msg, (some PyError.indexError : Option PyError) ≠ some (PyError.valueError msg) := by
  refine ⟨by decide, fun msg h => ?_⟩
  simp at h

/-- C8 amended: a single-key patch with an over-long `descrip`, an invalid
`magic`, or a non-4x4 `sform` raises exactly the corresponding validation
error and leaves the header unchanged.  In a larger patch the update still
raises and still never assigns the offending field, but the raised error
can be an earlier key's failure (e.g. `dim`'s index error, as in the
counterexample) rather than the offending key's validation error. -/
theorem C8_validation (h : NiftiHeader) (s m : String) (rows : List (List Rat))
    (hs : 80 ≤ s.length) (hm : m ≠ "ni1" ∧ m ≠ "n+1")
    (hr : ¬(rows.length = 4 ∧ ∀ r ∈ rows, r.length = 4)) :
    (updateNiftiHeaderFromDict h [("descrip", .s s)] =
      (h, some (.valueError "Nifti header property descrip must not be longer than 79 characters."))) ∧
    (updateNiftiHeaderFromDict h [("magic", .s m)] =
      (h, some (.valueError "Nifti header property magic must be ni1 or n+1."))) ∧
    (updateNiftiHeaderFromDict h [("sform", .m rows)] =
      (h, some (.valueError "Nifti header property sform must be 4x4 matrix."))) ∧
    (∀ d : HDict, dictGet d "descrip" = some (.s s) →
      (updateNiftiHeaderFromDict h d).2 ≠ none ∧
      (updateNiftiHeaderFromDict h d).1.descrip = h.descrip) ∧
    (∀ d : HDict, dictGet d "magic" = some (.s m) →
      (updateNiftiHeaderFromDict h d).2 ≠ none ∧
      (updateNiftiHeaderFromDict h d).1.magic = h.magic) ∧
    (∀ d : HDict, dictGet d "sform" = some (.m rows) →
      (updateNiftiHeaderFromDict h d).2 ≠ none ∧
      (updateNiftiHeaderFromDict h d).1.srow_x = h.srow_x ∧
      (updateNiftiHeaderFromDict h d).1.srow_y = h.srow_y ∧
      (updateNiftiHeaderFromDict h d).1.srow_z = h.srow_z) := by
  have hgt : s.length > 79 := by omega
  refine ⟨?_, ?_, ?_, ?_, ?_, ?_⟩
  · simp [updateNiftiHeaderFromDict, niftiHeaderSteps, runSteps, dictGet,
      uDataType, uDbName, uExtents, uSessionError, uRegular, uDimInfo, uDim,
      uIntentP1, uIntentP2, uIntentP3, uIntentCode, uDatatype, uBitpix, uSliceStart,
      uPixdim, uVoxOffset, uSclSlope, uSclInter, uSliceEnd, uSliceCode, uXyztUnits,
      uCalMax, uCalMin, uSliceDuration, uToffset, uGlmax, uGlmin, uDescrip, hgt]
  · simp [updateNiftiHeaderFromDict, niftiHeaderSteps, runSteps, dictGet,
      uDataType, uDbName, uExtents, uSessionError, uRegular, uDimInfo, uDim,
      uIntentP1, uIntentP2, uIntentP3, uIntentCode, uDatatype, uBitpix, uSliceStart,
      uPixdim, uVoxOffset, uSclSlope, uSclInter, uSliceEnd, uSliceCode, uXyztUnits,
      uCalMax, uCalMin, uSliceDuration, uToffset, uGlmax, uGlmin, uDescrip, uAuxFile,
      uQformCode, uSformCode, uQuatern, uQoffset, uSform, uIntentName, uMagic,
      hm.1, hm.2]
  · simp [updateNiftiHeaderFromDict, niftiHeaderSteps, runSteps, dictGet,
      uDataType, uDbName, uExtents, uSessionError, uRegular, uDimInfo, uDim,
      uIntentP1, uIntentP2, uIntentP3, uIntentCode, uDatatype, uBitpix, uSliceStart,
      uPixdim, uVoxOffset, uSclSlope, uSclInter, uSliceEnd, uSliceCode, uXyztUnits,
      uCalMax, uCalMin, uSliceDuration, uToffset, uGlmax, uGlmin, uDescrip, uAuxFile,
      uQformCode, uSformCode, uQuatern, uQoffset, uSform, hr]
  · intro d hd
    refine update_err_at (fun h => h.descrip) stepsBeforeDescrip stepsAfterDescrip
      uDescrip steps_split_descrip d (.s s) hd
      (fun h' => by simp [uDescrip, hgt])
      (fun h' => by simp [uDescrip, hgt])
      (fun w hw v' h' => presAll_descrip w (mem_steps_left steps_split_descrip hw)
        ((by decide : ∀ w ∈ stepsBeforeDescrip, w.key ≠ "descrip") w hw) v' h') h
  · intro d hd
    refine update_err_at (fun h => h.magic) stepsBeforeMagic [] uMagic
      steps_split_magic d (.s m) hd
      (fun h' => by simp [uMagic, hm.1, hm.2])
      (fun h' => by simp [uMagic, hm.1, hm.2])
      (fun w hw v' h' => presAll_magic w (mem_steps_left steps_split_magic hw)
        ((by decide : ∀ w ∈ stepsBeforeMagic, w.key ≠ "magic") w hw) v' h') h
  · intro d hd
    have := update_err_at (fun h => (h.srow_x, h.srow_y, h.srow_z)) stepsBeforeSform
      stepsAfterSform uSform steps_split_sform d (.m rows) hd
      (fun h' => by simp [uSform, hr])
      (fun h' => by simp [uSform, hr])
      (fun w hw v' h' => by
        have hk := (by decide : ∀ w ∈ stepsBeforeSform, w.key ≠ "sform") w hw
        have hmem := mem_steps_left steps_split_sform hw
        show ((w.exec v' h').1.srow_x, (w.exec v' h').1.srow_y, (w.exec v' h').1.srow_z) =
          (h'.srow_x, h'.srow_y, h'.srow_z)
        rw [presAll_srow_x w hmem hk v' h', presAll_srow_y w hmem hk v' h',
          presAll_srow_z w hmem hk v' h']) h
    obtain ⟨h1, h2⟩ := this
    exact ⟨h1, congrArg Prod.fst h2,
      congrArg Prod.fst (congrArg Prod.snd h2), congrArg Prod.snd (congrArg Prod.snd h2)⟩

/-- C8 witness: the three single-key validation failures at concrete
inputs. -/
theorem C8_validation_witness :
    updateNiftiHeaderFromDict defaultNhdr [("descrip", .s (String.mk (List.replicate 80 'x')))] =
      (defaultNhdr,
       some (.valueError "Nifti header property descrip must not be longer than 79 characters.")) ∧
    updateNiftiHeaderFromDict defaultNhdr [("magic", .s "bad")] =
      (defaultNhdr, some (.valueError "Nifti header property magic must be ni1 or n+1.")) ∧
    updateNiftiHeaderFromDict defaultNhdr [("sform", .m [[1, 0, 0], [0, 1, 0], [0, 0, 1]])] =
      (defaultNhdr, some (.valueError "Nifti header property sform must be 4x4 matrix.")) := by
  have h := C8_validation defaultNhdr (String.mk (List.replicate 80 'x')) "bad"
    [[1, 0, 0], [0, 1, 0], [0, 0, 1]] (by decide) (by decide) (by decide)
  exact ⟨h.1, h.2.1, h.2.2.1⟩

/-!
Claim C7 — `updateHeader` strips `datatype` and `dim`.
-/

/-- Python `del d[k]` guarded by `has_key` (lines 635-638): the entry with
the given key is removed. -/
def dictDel : HDict → String → HDict
  | [], _ => []
  | (k', v) :: rest, k => if k' = k then dictDel rest k else (k', v) :: dictDel rest k

theorem dictGet_dictDel (d : HDict) (k k' : String) :
    dictGet (dictDel d k) k' = if k' = k then none else dictGet d k' := by
  induction d with
  | nil => simp [dictDel, dictGet]
  | cons p rest ih =>
    rcases p with ⟨k₀, v⟩
    by_cases h0 : k₀ = k
    · subst h0
      by_cases h2 : k' = k₀
      · subst h2
        simp [dictDel, dictGet, ih]
      · have h2' : ¬k₀ = k' := fun he => h2 he.symm
        simp [dictDel, dictGet, h2, h2', ih]
    · by_cases h1 : k₀ = k'
      · have hk'k : ¬k' = k := fun he => h0 (h1.trans he)
        simp [dictDel, dictGet, h0, h1, hk'k]
      · simp [dictDel, dictGet, h0, h1, ih]

/-- The dictionary `updateHeader` actually applies: the caller's patch with
the `datatype` and `dim` keys removed (lines 633-638). -/
def strippedDict (hdrdict : HDict) : HDict :=
  dictDel (dictDel hdrdict "datatype") "dim"

/-- Embedding of `NiftiFile.updateHeader` (lines 613-661) at the header
level.  The struct the dictionary update mutates is a temporary produced
by `nifti_convert_nim2nhdr`; when `updateNiftiHeaderFromDict` raises, the
exception propagates and `self.__nimg` is never replaced, so the session
keeps its previous header.  On success the session's header is the updated
one (the `nifti_convert_nhdr2nim` round trip is the identity on the
fields modelled here). -/
def updateHeader (h : NiftiHeader) (hdrdict : HDict) : NiftiHeader × Option PyError :=
  match (updateNiftiHeaderFromDict h (strippedDict hdrdict)).2 with
  | none => ((updateNiftiHeaderFromDict h (strippedDict hdrdict)).1, none)
  | some e => (h, some e)

theorem updateHeader_ok (h : NiftiHeader) (p : HDict)
    (hsnd : (updateNiftiHeaderFromDict h (strippedDict p)).2 = none) :
    updateHeader h p = updateNiftiHeaderFromDict h (strippedDict p) := by
  simp only [updateHeader, hsnd]
  exact Prod.ext rfl hsnd.symm

theorem updateHeader_err (h : NiftiHeader) (p : HDict) (e : PyError)
    (hsnd : (updateNiftiHeaderFromDict h (strippedDict p)).2 = some e) :
    updateHeader h p = (h, some e) := by
  simp [updateHeader, hsnd]

theorem strippedDict_datatype (p : HDict) : dictGet (strippedDict p) "datatype" = none := by
  simp [strippedDict, dictGet_dictDel]

theorem strippedDict_dim (p : HDict) : dictGet (strippedDict p) "dim" = none := by
  simp [strippedDict, dictGet_dictDel]

/-- C7: `updateHeader` removes the `datatype` and `dim` keys from the
patch before forwarding to `updateNiftiHeaderFromDict`, so the header's
`datatype` and `dim` fields always survive unchanged (whether the update
succeeds or raises), and on success every other patched field is updated
exactly as the plain dictionary update would. -/
theorem C7_updateHeader_immutable (h : NiftiHeader) (p : HDict) :
    (updateHeader h p).1.datatype = h.datatype ∧
    (updateHeader h p).1.dim = h.dim ∧
    ((updateNiftiHeaderFromDict h (strippedDict p)).2 = none →
      updateHeader h p = updateNiftiHeaderFromDict h (strippedDict p)) := by
  have hframe_dt : (updateNiftiHeaderFromDict h (strippedDict p)).1.datatype = h.datatype := by
    refine runSteps_fst_frame (fun h => h.datatype) niftiHeaderSteps (strippedDict p)
      (fun u hu v h' hg => ?_) h
    by_cases hk : u.key = "datatype"
    · rw [hk, strippedDict_datatype] at hg; cases hg
    · exact presAll_datatype u hu hk v h'
  have hframe_dm : (updateNiftiHeaderFromDict h (strippedDict p)).1.dim = h.dim := by
    refine runSteps_fst_frame (fun h => h.dim) niftiHeaderSteps (strippedDict p)
      (fun u hu v h' hg => ?_) h
    by_cases hk : u.key = "dim"
    · rw [hk, strippedDict_dim] at hg; cases hg
    · exact presAll_dim u hu hk v h'
  cases hsnd : (updateNiftiHeaderFromDict h (strippedDict p)).2 with
  | none =>
    rw [updateHeader_ok h p hsnd]
    exact ⟨hframe_dt, hframe_dm, fun _ => rfl⟩
  | some e =>
    rw [updateHeader_err h p e hsnd]
    exact ⟨rfl, rfl, fun hc => nomatch hc⟩

/-- C7 witness: a patch carrying `descrip`, `datatype` and `dim`; the
stripped patch is applied and `datatype`/`dim` survive. -/
theorem C7_updateHeader_immutable_witness :
    updateHeader defaultNhdr
        [("descrip", .s "hello"), ("datatype", .i 99), ("dim", .il [9, 9, 9, 9, 9, 9, 9, 9])] =
      updateNiftiHeaderFromDict defaultNhdr
        (strippedDict
          [("descrip", .s "hello"), ("datatype", .i 99), ("dim", .il [9, 9, 9, 9, 9, 9, 9, 9])]) :=
  (C7_updateHeader_immutable defaultNhdr
    [("descrip", .s "hello"), ("datatype", .i 99), ("dim", .il [9, 9, 9, 9, 9, 9, 9, 9])]).2.2
    (by decide)

/-!
Claim C5 — dictionary round-trip.
-/

/-- The per-field validation rules of the spec (section 4.2 table) plus the
value typing each block expects, as an executable checker: every present
key must carry a value of the block's expected shape satisfying its
length/shape/enum rule.  This is the hypothesis of the round-trip claim
("all of whose keys satisfy their validation rules"). -/
def validPatch (d : HDict) : Bool :=
  (match dictGet d "data_type" with
   | none => true
   | some (.s s) => decide (s.length ≤ 9)
   | some _ => false) &&
  (match dictGet d "db_name" with
   | none => true
   | some (.s s) => decide (s.length ≤ 79)
   | some _ => false) &&
  (match dictGet d "extents" with
   | none => true
   | some (.i _) => true
   | some _ => false) &&
  (match dictGet d "session_error" with
   | none => true
   | some (.i _) => true
   | some _ => false) &&
  (match dictGet d "regular" with
   | none => true
   | some (.s s) => decide (s.length = 1)
   | some _ => false) &&
  (match dictGet d "dim_info" with
   | none => true
   | some (.s s) => decide (s.length = 1)
   | some _ => false) &&
  (match dictGet d "dim" with
   | none => true
   | some (.il l) => decide (l.length = 8)
   | some _ => false) &&
  (match dictGet d "intent_p1" with
   | none => true
   | some (.f _) => true
   | some _ => false) &&
  (match dictGet d "intent_p2" with
   | none => true
   | some (.f _) => true
   | some _ => false) &&
  (match dictGet d "intent_p3" with
   | none => true
   | some (.f _) => true
   | some _ => false) &&
  (match dictGet d "intent_code" with
   | none => true
   | some (.i _) => true
   | some _ => false) &&
  (match dictGet d "datatype" with
   | none => true
   | some (.i _) => true
   | some _ => false) &&
  (match dictGet d "bitpix" with
   | none => true
   | some (.i _) => true
   | some _ => false) &&
  (match dictGet d "slice_start" with
   | none => true
   | some (.i _) => true
   | some _ => false) &&
  (match dictGet d "pixdim" with
   | none => true
   | some (.fl l) => decide (l.length = 8)
   | some _ => false) &&
  (match dictGet d "vox_offset" with
   | none => true
   | some (.f _) => true
   | some _ => false) &&
  (match dictGet d "scl_slope" with
   | none => true
   | some (.f _) => true
   | some _ => false) &&
  (match dictGet d "scl_inter" with
   | none => true
   | some (.f _) => true
   | some _ => false) &&
  (match dictGet d "slice_end" with
   | none => true
   | some (.i _) => true
   | some _ => false) &&
  (match dictGet d "slice_code" with
   | none => true
   | some (.i _) => true
   | some _ => false) &&
  (match dictGet d "xyzt_units" with
   | none => true
   | some (.i _) => true
   | some _ => false) &&
  (match dictGet d "cal_max" with
   | none => true
   | some (.f _) => true
   | some _ => false) &&
  (match dictGet d "cal_min" with
   | none => true
   | some (.f _) => true
   | some _ => false) &&
  (match dictGet d "slice_duration" with
   | none => true
   | some (.f _) => true
   | some _ => false) &&
  (match dictGet d "toffset" with
   | none => true
   | some (.f _) => true
   | some _ => false) &&
  (match dictGet d "glmax" with
   | none => true
   | some (.i _) => true
   | some _ => false) &&
  (match dictGet d "glmin" with
   | none => true
   | some (.i _) => true
   | some _ => false) &&
  (match dictGet d "descrip" with
   | none => true
   | some (.s s) => decide (s.length ≤ 79)
   | some _ => false) &&
  (match dictGet d "aux_file" with
   | none => true
   | some (.s s) => decide (s.length ≤ 23)
   | some _ => false) &&
  (match dictGet d "qform_code" with
   | none => true
   | some (.i _) => true
   | some _ => false) &&
  (match dictGet d "sform_code" with
   | none => true
   | some (.i _) => true
   | some _ => false) &&
  (match dictGet d "quatern" with
   | none => true
   | some (.fl l) => decide (l.length = 3)
   | some _ => false) &&
  (match dictGet d "qoffset" with
   | none => true
   | some (.fl l) => decide (l.length = 3)
   | some _ => false) &&
  (match dictGet d "sform" with
   | none => true
   | some (.m rows) => decide (rows.length = 4) && rows.all fun r => decide (r.length = 4)
   | some _ => false) &&
  (match dictGet d "intent_name" with
   | none => true
   | some (.s s) => decide (s.length ≤ 15)
   | some _ => false) &&
  (match dictGet d "magic" with
   | none => true
   | some (.s s) => decide (s = "ni1" ∨ s = "n+1")
   | some _ => false)

theorem map_range_getD {α : Type} (z : α) (l : List α) :
    (List.range l.length).map (fun i => l.getD i z) = l := by
  apply List.ext_getElem
  · simp
  · intro i h1 h2
    simp only [List.getElem_map, List.getElem_range]
    rw [List.getD_eq_getElem l z h2]

theorem map_range_getD_len {α : Type} (z : α) (l : List α) (n : Nat) (hl : l.length = n) :
    (List.range n).map (fun i => l.getD i z) = l := by
  subst hl
  exact map_range_getD z l

theorem list_eq_of_length3 {α : Type} (z : α) (l : List α) (hl : l.length = 3) :
    [l.getD 0 z, l.getD 1 z, l.getD 2 z] = l := by
  rcases l with _ | ⟨a, _ | ⟨b, _ | ⟨c, _ | ⟨d, t⟩⟩⟩⟩ <;> simp_all [List.getD]

/-! Readback of each `nhdr2dict` entry. -/

theorem nhdr2dict_data_type (H : NiftiHeader) :
    dictGet (nhdr2dict H) "data_type" = some (.s H.data_type) := by
  simp [nhdr2dict, dictGet]

theorem nhdr2dict_db_name (H : NiftiHeader) :
    dictGet (nhdr2dict H) "db_name" = some (.s H.db_name) := by
  simp [nhdr2dict, dictGet]

theorem nhdr2dict_extents (H : NiftiHeader) :
    dictGet (nhdr2dict H) "extents" = some (.i H.extents) := by
  simp [nhdr2dict, dictGet]

theorem nhdr2dict_session_error (H : NiftiHeader) :
    dictGet (nhdr2dict H) "session_error" = some (.i H.session_error) := by
  simp [nhdr2dict, dictGet]

theorem nhdr2dict_regular (H : NiftiHeader) :
    dictGet (nhdr2dict H) "regular" = some (.s H.regular) := by
  simp [nhdr2dict, dictGet]

theorem nhdr2dict_dim_info (H : NiftiHeader) :
    dictGet (nhdr2dict H) "dim_info" = some (.s H.dim_info) := by
  simp [nhdr2dict, dictGet]

theorem nhdr2dict_dim (H : NiftiHeader) :
    dictGet (nhdr2dict H) "dim" = some (.il ((List.range 8).map fun i => H.dim.getD i 0)) := by
  simp [nhdr2dict, dictGet]

theorem nhdr2dict_intent_p1 (H : NiftiHeader) :
    dictGet (nhdr2dict H) "intent_p1" = some (.f H.intent_p1) := by
  simp [nhdr2dict, dictGet]

theorem nhdr2dict_intent_p2 (H : NiftiHeader) :
    dictGet (nhdr2dict H) "intent_p2" = some (.f H.intent_p2) := by
  simp [nhdr2dict, dictGet]

theorem nhdr2dict_intent_p3 (H : NiftiHeader) :
    dictGet (nhdr2dict H) "intent_p3" = some (.f H.intent_p3) := by
  simp [nhdr2dict, dictGet]

theorem nhdr2dict_intent_code (H : NiftiHeader) :
    dictGet (nhdr2dict H) "intent_code" = some (.i H.intent_code) := by
  simp [nhdr2dict, dictGet]

theorem nhdr2dict_datatype (H : NiftiHeader) :
    dictGet (nhdr2dict H) "datatype" = some (.i H.datatype) := by
  simp [nhdr2dict, dictGet]

theorem nhdr2dict_bitpix (H : NiftiHeader) :
    dictGet (nhdr2dict H) "bitpix" = some (.i H.bitpix) := by
  simp [nhdr2dict, dictGet]

theorem nhdr2dict_slice_start (H : NiftiHeader) :
    dictGet (nhdr2dict H) "slice_start" = some (.i H.slice_start) := by
  simp [nhdr2dict, dictGet]

theorem nhdr2dict_pixdim (H : NiftiHeader) :
    dictGet (nhdr2dict H) "pixdim" = some (.fl ((List.range 8).map fun i => H.pixdim.getD i 0)) := by
  simp [nhdr2dict, dictGet]

theorem nhdr2dict_vox_offset (H : NiftiHeader) :
    dictGet (nhdr2dict H) "vox_offset" = some (.f H.vox_offset) := by
  simp [nhdr2dict, dictGet]

theorem nhdr2dict_scl_slope (H : NiftiHeader) :
    dictGet (nhdr2dict H) "scl_slope" = some (.f H.scl_slope) := by
  simp [nhdr2dict, dictGet]

theorem nhdr2dict_scl_inter (H : NiftiHeader) :
    dictGet (nhdr2dict H) "scl_inter" = some (.f H.scl_inter) := by
  simp [nhdr2dict, dictGet]

theorem nhdr2dict_slice_end (H : NiftiHeader) :
    dictGet (nhdr2dict H) "slice_end" = some (.i H.slice_end) := by
  simp [nhdr2dict, dictGet]

theorem nhdr2dict_slice_code (H : NiftiHeader) :
    dictGet (nhdr2dict H) "slice_code" = some (.i H.slice_code) := by
  simp [nhdr2dict, dictGet]

theorem nhdr2dict_xyzt_units (H : NiftiHeader) :
    dictGet (nhdr2dict H) "xyzt_units" = some (.i H.xyzt_units) := by
  simp [nhdr2dict, dictGet]

theorem nhdr2dict_cal_max (H : NiftiHeader) :
    dictGet (nhdr2dict H) "cal_max" = some (.f H.cal_max) := by
  simp [nhdr2dict, dictGet]

theorem nhdr2dict_cal_min (H : NiftiHeader) :
    dictGet (nhdr2dict H) "cal_min" = some (.f H.cal_min) := by
  simp [nhdr2dict, dictGet]

theorem nhdr2dict_slice_duration (H : NiftiHeader) :
    dictGet (nhdr2dict H) "slice_duration" = some (.f H.slice_duration) := by
  simp [nhdr2dict, dictGet]

theorem nhdr2dict_toffset (H : NiftiHeader) :
    dictGet (nhdr2dict H) "toffset" = some (.f H.toffset) := by
  simp [nhdr2dict, dictGet]

theorem nhdr2dict_glmax (H : NiftiHeader) :
    dictGet (nhdr2dict H) "glmax" = some (.i H.glmax) := by
  simp [nhdr2dict, dictGet]

theorem nhdr2dict_glmin (H : NiftiHeader) :
    dictGet (nhdr2dict H) "glmin" = some (.i H.glmin) := by
  simp [nhdr2dict, dictGet]

theorem nhdr2dict_descrip (H : NiftiHeader) :
    dictGet (nhdr2dict H) "descrip" = some (.s H.descrip) := by
  simp [nhdr2dict, dictGet]

theorem nhdr2dict_aux_file (H : NiftiHeader) :
    dictGet (nhdr2dict H) "aux_file" = some (.s H.aux_file) := by
  simp [nhdr2dict, dictGet]

theorem nhdr2dict_qform_code (H : NiftiHeader) :
    dictGet (nhdr2dict H) "qform_code" = some (.i H.qform_code) := by
  simp [nhdr2dict, dictGet]

theorem nhdr2dict_sform_code (H : NiftiHeader) :
    dictGet (nhdr2dict H) "sform_code" = some (.i H.sform_code) := by
  simp [nhdr2dict, dictGet]

theorem nhdr2dict_quatern (H : NiftiHeader) :
    dictGet (nhdr2dict H) "quatern" = some (.fl [H.quatern_b, H.quatern_c, H.quatern_d]) := by
  simp [nhdr2dict, dictGet]

theorem nhdr2dict_qoffset (H : NiftiHeader) :
    dictGet (nhdr2dict H) "qoffset" = some (.fl [H.qoffset_x, H.qoffset_y, H.qoffset_z]) := by
  simp [nhdr2dict, dictGet]

theorem nhdr2dict_intent_name (H : NiftiHeader) :
    dictGet (nhdr2dict H) "intent_name" = some (.s H.intent_name) := by
  simp [nhdr2dict, dictGet]

theorem nhdr2dict_magic (H : NiftiHeader) :
    dictGet (nhdr2dict H) "magic" = some (.s H.magic) := by
  simp [nhdr2dict, dictGet]

def sbDataType : List StepSpec := []

def saDataType : List StepSpec := [uDbName, uExtents, uSessionError, uRegular, uDimInfo, uDim, uIntentP1, uIntentP2, uIntentP3, uIntentCode, uDatatype, uBitpix, uSliceStart, uPixdim, uVoxOffset, uSclSlope, uSclInter, uSliceEnd, uSliceCode, uXyztUnits, uCalMax, uCalMin, uSliceDuration, uToffset, uGlmax, uGlmin, uDescrip, uAuxFile, uQformCode, uSformCode, uQuatern, uQoffset, uSform, uIntentName, uMagic]

theorem ssDataType : niftiHeaderSteps = sbDataType ++ uDataType :: saDataType := rfl

def sbDbName : List StepSpec := [uDataType]

def saDbName : List StepSpec := [uExtents, uSessionError, uRegular, uDimInfo, uDim, uIntentP1, uIntentP2, uIntentP3, uIntentCode, uDatatype, uBitpix, uSliceStart, uPixdim, uVoxOffset, uSclSlope, uSclInter, uSliceEnd, uSliceCode, uXyztUnits, uCalMax, uCalMin, uSliceDuration, uToffset, uGlmax, uGlmin, uDescrip, uAuxFile, uQformCode, uSformCode, uQuatern, uQoffset, uSform, uIntentName, uMagic]

theorem ssDbName : niftiHeaderSteps = sbDbName ++ uDbName :: saDbName := rfl

def sbExtents : List StepSpec := [uDataType, uDbName]

def saExtents : List StepSpec := [uSessionError, uRegular, uDimInfo, uDim, uIntentP1, uIntentP2, uIntentP3, uIntentCode, uDatatype, uBitpix, uSliceStart, uPixdim, uVoxOffset, uSclSlope, uSclInter, uSliceEnd, uSliceCode, uXyztUnits, uCalMax, uCalMin, uSliceDuration, uToffset, uGlmax, uGlmin, uDescrip, uAuxFile, uQformCode, uSformCode, uQuatern, uQoffset, uSform, uIntentName, uMagic]

theorem ssExtents : niftiHeaderSteps = sbExtents ++ uExtents :: saExtents := rfl

def sbSessionError : List StepSpec := [uDataType, uDbName, uExtents]

def saSessionError : List StepSpec := [uRegular, uDimInfo, uDim, uIntentP1, uIntentP2, uIntentP3, uIntentCode, uDatatype, uBitpix, uSliceStart, uPixdim, uVoxOffset, uSclSlope, uSclInter, uSliceEnd, uSliceCode, uXyztUnits, uCalMax, uCalMin, uSliceDuration, uToffset, uGlmax, uGlmin, uDescrip, uAuxFile, uQformCode, uSformCode, uQuatern, uQoffset, uSform, uIntentName, uMagic]

theorem ssSessionError : niftiHeaderSteps = sbSessionError ++ uSessionError :: saSessionError := rfl

def sbRegular : List StepSpec := [uDataType, uDbName, uExtents, uSessionError]

def saRegular : List StepSpec := [uDimInfo, uDim, uIntentP1, uIntentP2, uIntentP3, uIntentCode, uDatatype, uBitpix, uSliceStart, uPixdim, uVoxOffset, uSclSlope, uSclInter, uSliceEnd, uSliceCode, uXyztUnits, uCalMax, uCalMin, uSliceDuration, uToffset, uGlmax, uGlmin, uDescrip, uAuxFile, uQformCode, uSformCode, uQuatern, uQoffset, uSform, uIntentName, uMagic]

theorem ssRegular : niftiHeaderSteps = sbRegular ++ uRegular :: saRegular := rfl

def sbDimInfo : List StepSpec := [uDataType, uDbName, uExtents, uSessionError, uRegular]

def saDimInfo : List StepSpec := [uDim, uIntentP1, uIntentP2, uIntentP3, uIntentCode, uDatatype, uBitpix, uSliceStart, uPixdim, uVoxOffset, uSclSlope, uSclInter, uSliceEnd, uSliceCode, uXyztUnits, uCalMax, uCalMin, uSliceDuration, uToffset, uGlmax, uGlmin, uDescrip, uAuxFile, uQformCode, uSformCode, uQuatern, uQoffset, uSform, uIntentName, uMagic]

theorem ssDimInfo : niftiHeaderSteps = sbDimInfo ++ uDimInfo :: saDimInfo := rfl

def sbDim : List StepSpec := [uDataType, uDbName, uExtents, uSessionError, uRegular, uDimInfo]

def saDim : List StepSpec := [uIntentP1, uIntentP2, uIntentP3, uIntentCode, uDatatype, uBitpix, uSliceStart, uPixdim, uVoxOffset, uSclSlope, uSclInter, uSliceEnd, uSliceCode, uXyztUnits, uCalMax, uCalMin, uSliceDuration, uToffset, uGlmax, uGlmin, uDescrip, uAuxFile, uQformCode, uSformCode, uQuatern, uQoffset, uSform, uIntentName, uMagic]

theorem ssDim : niftiHeaderSteps = sbDim ++ uDim :: saDim := rfl

def sbIntentP1 : List StepSpec := [uDataType, uDbName, uExtents, uSessionError, uRegular, uDimInfo, uDim]

def saIntentP1 : List StepSpec := [uIntentP2, uIntentP3, uIntentCode, uDatatype, uBitpix, uSliceStart, uPixdim, uVoxOffset, uSclSlope, uSclInter, uSliceEnd, uSliceCode, uXyztUnits, uCalMax, uCalMin, uSliceDuration, uToffset, uGlmax, uGlmin, uDescrip, uAuxFile, uQformCode, uSformCode, uQuatern, uQoffset, uSform, uIntentName, uMagic]

theorem ssIntentP1 : niftiHeaderSteps = sbIntentP1 ++ uIntentP1 :: saIntentP1 := rfl

def sbIntentP2 : List StepSpec := [uDataType, uDbName, uExtents, uSessionError, uRegular, uDimInfo, uDim, uIntentP1]

def saIntentP2 : List StepSpec := [uIntentP3, uIntentCode, uDatatype, uBitpix, uSliceStart, uPixdim, uVoxOffset, uSclSlope, uSclInter, uSliceEnd, uSliceCode, uXyztUnits, uCalMax, uCalMin, uSliceDuration, uToffset, uGlmax, uGlmin, uDescrip, uAuxFile, uQformCode, uSformCode, uQuatern, uQoffset, uSform, uIntentName, uMagic]

theorem ssIntentP2 : niftiHeaderSteps = sbIntentP2 ++ uIntentP2 :: saIntentP2 := rfl

def sbIntentP3 : List StepSpec := [uDataType, uDbName, uExtents, uSessionError, uRegular, uDimInfo, uDim, uIntentP1, uIntentP2]

def saIntentP3 : List StepSpec := [uIntentCode, uDatatype, uBitpix, uSliceStart, uPixdim, uVoxOffset, uSclSlope, uSclInter, uSliceEnd, uSliceCode, uXyztUnits, uCalMax, uCalMin, uSliceDuration, uToffset, uGlmax, uGlmin, uDescrip, uAuxFile, uQformCode, uSformCode, uQuatern, uQoffset, uSform, uIntentName, uMagic]

theorem ssIntentP3 : niftiHeaderSteps = sbIntentP3 ++ uIntentP3 :: saIntentP3 := rfl

def sbIntentCode : List StepSpec := [uDataType, uDbName, uExtents, uSessionError, uRegular, uDimInfo, uDim, uIntentP1, uIntentP2, uIntentP3]

def saIntentCode : List StepSpec := [uDatatype, uBitpix, uSliceStart, uPixdim, uVoxOffset, uSclSlope, uSclInter, uSliceEnd, uSliceCode, uXyztUnits, uCalMax, uCalMin, uSliceDuration, uToffset, uGlmax, uGlmin, uDescrip, uAuxFile, uQformCode, uSformCode, uQuatern, uQoffset, uSform, uIntentName, uMagic]

theorem ssIntentCode : niftiHeaderSteps = sbIntentCode ++ uIntentCode :: saIntentCode := rfl

def sbDatatype : List StepSpec := [uDataType, uDbName, uExtents, uSessionError, uRegular, uDimInfo, uDim, uIntentP1, uIntentP2, uIntentP3, uIntentCode]

def saDatatype : List StepSpec := [uBitpix, uSliceStart, uPixdim, uVoxOffset, uSclSlope, uSclInter, uSliceEnd, uSliceCode, uXyztUnits, uCalMax, uCalMin, uSliceDuration, uToffset, uGlmax, uGlmin, uDescrip, uAuxFile, uQformCode, uSformCode, uQuatern, uQoffset, uSform, uIntentName, uMagic]

theorem ssDatatype : niftiHeaderSteps = sbDatatype ++ uDatatype :: saDatatype := rfl

def sbBitpix : List StepSpec := [uDataType, uDbName, uExtents, uSessionError, uRegular, uDimInfo, uDim, uIntentP1, uIntentP2, uIntentP3, uIntentCode, uDatatype]

def saBitpix : List StepSpec := [uSliceStart, uPixdim, uVoxOffset, uSclSlope, uSclInter, uSliceEnd, uSliceCode, uXyztUnits, uCalMax, uCalMin, uSliceDuration, uToffset, uGlmax, uGlmin, uDescrip, uAuxFile, uQformCode, uSformCode, uQuatern, uQoffset, uSform, uIntentName, uMagic]

theorem ssBitpix : niftiHeaderSteps = sbBitpix ++ uBitpix :: saBitpix := rfl

def sbSliceStart : List StepSpec := [uDataType, uDbName, uExtents, uSessionError, uRegular, uDimInfo, uDim, uIntentP1, uIntentP2, uIntentP3, uIntentCode, uDatatype, uBitpix]

def saSliceStart : List StepSpec := [uPixdim, uVoxOffset, uSclSlope, uSclInter, uSliceEnd, uSliceCode, uXyztUnits, uCalMax, uCalMin, uSliceDuration, uToffset, uGlmax, uGlmin, uDescrip, uAuxFile, uQformCode, uSformCode, uQuatern, uQoffset, uSform, uIntentName, uMagic]

theorem ssSliceStart : niftiHeaderSteps = sbSliceStart ++ uSliceStart :: saSliceStart := rfl

def sbPixdim : List StepSpec := [uDataType, uDbName, uExtents, uSessionError, uRegular, uDimInfo, uDim, uIntentP1, uIntentP2, uIntentP3, uIntentCode, uDatatype, uBitpix, uSliceStart]

def saPixdim : List StepSpec := [uVoxOffset, uSclSlope, uSclInter, uSliceEnd, uSliceCode, uXyztUnits, uCalMax, uCalMin, uSliceDuration, uToffset, uGlmax, uGlmin, uDescrip, uAuxFile, uQformCode, uSformCode, uQuatern, uQoffset, uSform, uIntentName, uMagic]

theorem ssPixdim : niftiHeaderSteps = sbPixdim ++ uPixdim :: saPixdim := rfl

def sbVoxOffset : List StepSpec := [uDataType, uDbName, uExtents, uSessionError, uRegular, uDimInfo, uDim, uIntentP1, uIntentP2, uIntentP3, uIntentCode, uDatatype, uBitpix, uSliceStart, uPixdim]

def saVoxOffset : List StepSpec := [uSclSlope, uSclInter, uSliceEnd, uSliceCode, uXyztUnits, uCalMax, uCalMin, uSliceDuration, uToffset, uGlmax, uGlmin, uDescrip, uAuxFile, uQformCode, uSformCode, uQuatern, uQoffset, uSform, uIntentName, uMagic]

theorem ssVoxOffset : niftiHeaderSteps = sbVoxOffset ++ uVoxOffset :: saVoxOffset := rfl

def sbSclSlope : List StepSpec := [uDataType, uDbName, uExtents, uSessionError, uRegular, uDimInfo, uDim, uIntentP1, uIntentP2, uIntentP3, uIntentCode, uDatatype, uBitpix, uSliceStart, uPixdim, uVoxOffset]

def saSclSlope : List StepSpec := [uSclInter, uSliceEnd, uSliceCode, uXyztUnits, uCalMax, uCalMin, uSliceDuration, uToffset, uGlmax, uGlmin, uDescrip, uAuxFile, uQformCode, uSformCode, uQuatern, uQoffset, uSform, uIntentName, uMagic]

theorem ssSclSlope : niftiHeaderSteps = sbSclSlope ++ uSclSlope :: saSclSlope := rfl

def sbSclInter : List StepSpec := [uDataType, uDbName, uExtents, uSessionError, uRegular, uDimInfo, uDim, uIntentP1, uIntentP2, uIntentP3, uIntentCode, uDatatype, uBitpix, uSliceStart, uPixdim, uVoxOffset, uSclSlope]

def saSclInter : List StepSpec := [uSliceEnd, uSliceCode, uXyztUnits, uCalMax, uCalMin, uSliceDuration, uToffset, uGlmax, uGlmin, uDescrip, uAuxFile, uQformCode, uSformCode, uQuatern, uQoffset, uSform, uIntentName, uMagic]

theorem ssSclInter : niftiHeaderSteps = sbSclInter ++ uSclInter :: saSclInter := rfl

def sbSliceEnd : List StepSpec := [uDataType, uDbName, uExtents, uSessionError, uRegular, uDimInfo, uDim, uIntentP1, uIntentP2, uIntentP3, uIntentCode, uDatatype, uBitpix, uSliceStart, uPixdim, uVoxOffset, uSclSlope, uSclInter]

def saSliceEnd : List StepSpec := [uSliceCode, uXyztUnits, uCalMax, uCalMin, uSliceDuration, uToffset, uGlmax, uGlmin, uDescrip, uAuxFile, uQformCode, uSformCode, uQuatern, uQoffset, uSform, uIntentName, uMagic]

theorem ssSliceEnd : niftiHeaderSteps = sbSliceEnd ++ uSliceEnd :: saSliceEnd := rfl

def sbSliceCode : List StepSpec := [uDataType, uDbName, uExtents, uSessionError, uRegular, uDimInfo, uDim, uIntentP1, uIntentP2, uIntentP3, uIntentCode, uDatatype, uBitpix, uSliceStart, uPixdim, uVoxOffset, uSclSlope, uSclInter, uSliceEnd]

def saSliceCode : List StepSpec := [uXyztUnits, uCalMax, uCalMin, uSliceDuration, uToffset, uGlmax, uGlmin, uDescrip, uAuxFile, uQformCode, uSformCode, uQuatern, uQoffset, uSform, uIntentName, uMagic]

theorem ssSliceCode : niftiHeaderSteps = sbSliceCode ++ uSliceCode :: saSliceCode := rfl

def sbXyztUnits : List StepSpec := [uDataType, uDbName, uExtents, uSessionError, uRegular, uDimInfo, uDim, uIntentP1, uIntentP2, uIntentP3, uIntentCode, uDatatype, uBitpix, uSliceStart, uPixdim, uVoxOffset, uSclSlope, uSclInter, uSliceEnd, uSliceCode]

def saXyztUnits : List StepSpec := [uCalMax, uCalMin, uSliceDuration, uToffset, uGlmax, uGlmin, uDescrip, uAuxFile, uQformCode, uSformCode, uQuatern, uQoffset, uSform, uIntentName, uMagic]

theorem ssXyztUnits : niftiHeaderSteps = sbXyztUnits ++ uXyztUnits :: saXyztUnits := rfl

def sbCalMax : List StepSpec := [uDataType, uDbName, uExtents, uSessionError, uRegular, uDimInfo, uDim, uIntentP1, uIntentP2, uIntentP3, uIntentCode, uDatatype, uBitpix, uSliceStart, uPixdim, uVoxOffset, uSclSlope, uSclInter, uSliceEnd, uSliceCode, uXyztUnits]

def saCalMax : List StepSpec := [uCalMin, uSliceDuration, uToffset, uGlmax, uGlmin, uDescrip, uAuxFile, uQformCode, uSformCode, uQuatern, uQoffset, uSform, uIntentName, uMagic]

theorem ssCalMax : niftiHeaderSteps = sbCalMax ++ uCalMax :: saCalMax := rfl

def sbCalMin : List StepSpec := [uDataType, uDbName, uExtents, uSessionError, uRegular, uDimInfo, uDim, uIntentP1, uIntentP2, uIntentP3, uIntentCode, uDatatype, uBitpix, uSliceStart, uPixdim, uVoxOffset, uSclSlope, uSclInter, uSliceEnd, uSliceCode, uXyztUnits, uCalMax]

def saCalMin : List StepSpec := [uSliceDuration, uToffset, uGlmax, uGlmin, uDescrip, uAuxFile, uQformCode, uSformCode, uQuatern, uQoffset, uSform, uIntentName, uMagic]

theorem ssCalMin : niftiHeaderSteps = sbCalMin ++ uCalMin :: saCalMin := rfl

def sbSliceDuration : List StepSpec := [uDataType, uDbName, uExtents, uSessionError, uRegular, uDimInfo, uDim, uIntentP1, uIntentP2, uIntentP3, uIntentCode, uDatatype, uBitpix, uSliceStart, uPixdim, uVoxOffset, uSclSlope, uSclInter, uSliceEnd, uSliceCode, uXyztUnits, uCalMax, uCalMin]

def saSliceDuration : List StepSpec := [uToffset, uGlmax, uGlmin, uDescrip, uAuxFile, uQformCode, uSformCode, uQuatern, uQoffset, uSform, uIntentName, uMagic]

theorem ssSliceDuration : niftiHeaderSteps = sbSliceDuration ++ uSliceDuration :: saSliceDuration := rfl

def sbToffset : List StepSpec := [uDataType, uDbName, uExtents, uSessionError, uRegular, uDimInfo, uDim, uIntentP1, uIntentP2, uIntentP3, uIntentCode, uDatatype, uBitpix, uSliceStart, uPixdim, uVoxOffset, uSclSlope, uSclInter, uSliceEnd, uSliceCode, uXyztUnits, uCalMax, uCalMin, uSliceDuration]

def saToffset : List StepSpec := [uGlmax, uGlmin, uDescrip, uAuxFile, uQformCode, uSformCode, uQuatern, uQoffset, uSform, uIntentName, uMagic]

theorem ssToffset : niftiHeaderSteps = sbToffset ++ uToffset :: saToffset := rfl

def sbGlmax : List StepSpec := [uDataType, uDbName, uExtents, uSessionError, uRegular, uDimInfo, uDim, uIntentP1, uIntentP2, uIntentP3, uIntentCode, uDatatype, uBitpix, uSliceStart, uPixdim, uVoxOffset, uSclSlope, uSclInter, uSliceEnd, uSliceCode, uXyztUnits, uCalMax, uCalMin, uSliceDuration, uToffset]

def saGlmax : List StepSpec := [uGlmin, uDescrip, uAuxFile, uQformCode, uSformCode, uQuatern, uQoffset, uSform, uIntentName, uMagic]

theorem ssGlmax : niftiHeaderSteps = sbGlmax ++ uGlmax :: saGlmax := rfl

def sbGlmin : List StepSpec := [uDataType, uDbName, uExtents, uSessionError, uRegular, uDimInfo, uDim, uIntentP1, uIntentP2, uIntentP3, uIntentCode, uDatatype, uBitpix, uSliceStart, uPixdim, uVoxOffset, uSclSlope, uSclInter, uSliceEnd, uSliceCode, uXyztUnits, uCalMax, uCalMin, uSliceDuration, uToffset, uGlmax]

def saGlmin : List StepSpec := [uDescrip, uAuxFile, uQformCode, uSformCode, uQuatern, uQoffset, uSform, uIntentName, uMagic]

theorem ssGlmin : niftiHeaderSteps = sbGlmin ++ uGlmin :: saGlmin := rfl

def sbAuxFile : List StepSpec := [uDataType, uDbName, uExtents, uSessionError, uRegular, uDimInfo, uDim, uIntentP1, uIntentP2, uIntentP3, uIntentCode, uDatatype, uBitpix, uSliceStart, uPixdim, uVoxOffset, uSclSlope, uSclInter, uSliceEnd, uSliceCode, uXyztUnits, uCalMax, uCalMin, uSliceDuration, uToffset, uGlmax, uGlmin, uDescrip]

def saAuxFile : List StepSpec := [uQformCode, uSformCode, uQuatern, uQoffset, uSform, uIntentName, uMagic]

theorem ssAuxFile : niftiHeaderSteps = sbAuxFile ++ uAuxFile :: saAuxFile := rfl

def sbQformCode : List StepSpec := [uDataType, uDbName, uExtents, uSessionError, uRegular, uDimInfo, uDim, uIntentP1, uIntentP2, uIntentP3, uIntentCode, uDatatype, uBitpix, uSliceStart, uPixdim, uVoxOffset, uSclSlope, uSclInter, uSliceEnd, uSliceCode, uXyztUnits, uCalMax, uCalMin, uSliceDuration, uToffset, uGlmax, uGlmin, uDescrip, uAuxFile]

def saQformCode : List StepSpec := [uSformCode, uQuatern, uQoffset, uSform, uIntentName, uMagic]

theorem ssQformCode : niftiHeaderSteps = sbQformCode ++ uQformCode :: saQformCode := rfl

def sbSformCode : List StepSpec := [uDataType, uDbName, uExtents, uSessionError, uRegular, uDimInfo, uDim, uIntentP1, uIntentP2, uIntentP3, uIntentCode, uDatatype, uBitpix, uSliceStart, uPixdim, uVoxOffset, uSclSlope, uSclInter, uSliceEnd, uSliceCode, uXyztUnits, uCalMax, uCalMin, uSliceDuration, uToffset, uGlmax, uGlmin, uDescrip, uAuxFile, uQformCode]

def saSformCode : List StepSpec := [uQuatern, uQoffset, uSform, uIntentName, uMagic]

theorem ssSformCode : niftiHeaderSteps = sbSformCode ++ uSformCode :: saSformCode := rfl

def sbQuatern : List StepSpec := [uDataType, uDbName, uExtents, uSessionError, uRegular, uDimInfo, uDim, uIntentP1, uIntentP2, uIntentP3, uIntentCode, uDatatype, uBitpix, uSliceStart, uPixdim, uVoxOffset, uSclSlope, uSclInter, uSliceEnd, uSliceCode, uXyztUnits, uCalMax, uCalMin, uSliceDuration, uToffset, uGlmax, uGlmin, uDescrip, uAuxFile, uQformCode, uSformCode]

def saQuatern : List StepSpec := [uQoffset, uSform, uIntentName, uMagic]

theorem ssQuatern : niftiHeaderSteps = sbQuatern ++ uQuatern :: saQuatern := rfl

def sbQoffset : List StepSpec := [uDataType, uDbName, uExtents, uSessionError, uRegular, uDimInfo, uDim, uIntentP1, uIntentP2, uIntentP3, uIntentCode, uDatatype, uBitpix, uSliceStart, uPixdim, uVoxOffset, uSclSlope, uSclInter, uSliceEnd, uSliceCode, uXyztUnits, uCalMax, uCalMin, uSliceDuration, uToffset, uGlmax, uGlmin, uDescrip, uAuxFile, uQformCode, uSformCode, uQuatern]

def saQoffset : List StepSpec := [uSform, uIntentName, uMagic]

theorem ssQoffset : niftiHeaderSteps = sbQoffset ++ uQoffset :: saQoffset := rfl

def sbIntentName : List StepSpec := [uDataType, uDbName, uExtents, uSessionError, uRegular, uDimInfo, uDim, uIntentP1, uIntentP2, uIntentP3, uIntentCode, uDatatype, uBitpix, uSliceStart, uPixdim, uVoxOffset, uSclSlope, uSclInter, uSliceEnd, uSliceCode, uXyztUnits, uCalMax, uCalMin, uSliceDuration, uToffset, uGlmax, uGlmin, uDescrip, uAuxFile, uQformCode, uSformCode, uQuatern, uQoffset, uSform]

def saIntentName : List StepSpec := [uMagic]

theorem ssIntentName : niftiHeaderSteps = sbIntentName ++ uIntentName :: saIntentName := rfl

def sbDescrip : List StepSpec := stepsBeforeDescrip

def saDescrip : List StepSpec := stepsAfterDescrip

theorem ssDescrip : niftiHeaderSteps = sbDescrip ++ uDescrip :: saDescrip := rfl

def sbMagic : List StepSpec := stepsBeforeMagic

def saMagic : List StepSpec := []

theorem ssMagic : niftiHeaderSteps = sbMagic ++ uMagic :: saMagic := rfl
theorem validPatch_steps_ok (d : HDict) (hval : validPatch d = true) :
    ∀ u ∈ niftiHeaderSteps, ∀ v, dictGet d u.key = some v → ∀ h', (u.exec v h').2 = none := by
  simp only [validPatch, Bool.and_eq_true] at hval
  obtain ⟨⟨⟨⟨⟨⟨⟨⟨⟨⟨⟨⟨⟨⟨⟨⟨⟨⟨⟨⟨⟨⟨⟨⟨⟨⟨⟨⟨⟨⟨⟨⟨⟨⟨⟨c1, c2⟩, c3⟩, c4⟩, c5⟩, c6⟩, c7⟩, c8⟩, c9⟩, c10⟩, c11⟩, c12⟩, c13⟩, c14⟩, c15⟩, c16⟩, c17⟩, c18⟩, c19⟩, c20⟩, c21⟩, c22⟩, c23⟩, c24⟩, c25⟩, c26⟩, c27⟩, c28⟩, c29⟩, c30⟩, c31⟩, c32⟩, c33⟩, c34⟩, c35⟩, c36⟩ := hval
  simp only [niftiHeaderSteps, List.forall_mem_cons]
  refine ⟨?_, ?_, ?_, ?_, ?_, ?_, ?_, ?_, ?_, ?_, ?_, ?_, ?_, ?_, ?_, ?_, ?_, ?_, ?_, ?_, ?_, ?_, ?_, ?_, ?_, ?_, ?_, ?_, ?_, ?_, ?_, ?_, ?_, ?_, ?_, ?_, fun x hx => nomatch hx⟩
  · intro v hv h'
    have ck := c1
    have hv2 : dictGet d "data_type" = some v := hv
    rw [hv2] at ck
    cases v with
    | s sv =>
      have hlen := of_decide_eq_true (show decide (sv.length ≤ 9) = true from ck)
      have hng : ¬(sv.length > 9) := by omega
      simp [uDataType, hng]
    | i n => exact Bool.noConfusion (show false = true from ck)
    | f q => exact Bool.noConfusion (show false = true from ck)
    | il l => exact Bool.noConfusion (show false = true from ck)
    | fl l => exact Bool.noConfusion (show false = true from ck)
    | m rows => exact Bool.noConfusion (show false = true from ck)
  · intro v hv h'
    have ck := c2
    have hv2 : dictGet d "db_name" = some v := hv
    rw [hv2] at ck
    cases v with
    | s sv =>
      have hlen := of_decide_eq_true (show decide (sv.length ≤ 79) = true from ck)
      have hng : ¬(sv.length > 79) := by omega
      simp [uDbName, hng]
    | i n => exact Bool.noConfusion (show false = true from ck)
    | f q => exact Bool.noConfusion (show false = true from ck)
    | il l => exact Bool.noConfusion (show false = true from ck)
    | fl l => exact Bool.noConfusion (show false = true from ck)
    | m rows => exact Bool.noConfusion (show false = true from ck)
  · intro v hv h'
    have ck := c3
    have hv2 : dictGet d "extents" = some v := hv
    rw [hv2] at ck
    cases v with
    | i n =>
      simp [uExtents]
    | f q => exact Bool.noConfusion (show false = true from ck)
    | s sv => exact Bool.noConfusion (show false = true from ck)
    | il l => exact Bool.noConfusion (show false = true from ck)
    | fl l => exact Bool.noConfusion (show false = true from ck)
    | m rows => exact Bool.noConfusion (show false = true from ck)
  · intro v hv h'
    have ck := c4
    have hv2 : dictGet d "session_error" = some v := hv
    rw [hv2] at ck
    cases v with
    | i n =>
      simp [uSessionError]
    | f q => exact Bool.noConfusion (show false = true from ck)
    | s sv => exact Bool.noConfusion (show false = true from ck)
    | il l => exact Bool.noConfusion (show false = true from ck)
    | fl l => exact Bool.noConfusion (show false = true from ck)
    | m rows => exact Bool.noConfusion (show false = true from ck)
  · intro v hv h'
    have ck := c5
    have hv2 : dictGet d "regular" = some v := hv
    rw [hv2] at ck
    cases v with
    | s sv =>
      have hlen := of_decide_eq_true (show decide (sv.length = 1) = true from ck)
      have hng : ¬(sv.length > 1) := by omega
      simp [uRegular, hng]
    | i n => exact Bool.noConfusion (show false = true from ck)
    | f q => exact Bool.noConfusion (show false = true from ck)
    | il l => exact Bool.noConfusion (show false = true from ck)
    | fl l => exact Bool.noConfusion (show false = true from ck)
    | m rows => exact Bool.noConfusion (show false = true from ck)
  · intro v hv h'
    have ck := c6
    have hv2 : dictGet d "dim_info" = some v := hv
    rw [hv2] at ck
    cases v with
    | s sv =>
      have hlen := of_decide_eq_true (show decide (sv.length = 1) = true from ck)
      have hng : ¬(sv.length > 1) := by omega
      simp [uDimInfo, hng]
    | i n => exact Bool.noConfusion (show false = true from ck)
    | f q => exact Bool.noConfusion (show false = true from ck)
    | il l => exact Bool.noConfusion (show false = true from ck)
    | fl l => exact Bool.noConfusion (show false = true from ck)
    | m rows => exact Bool.noConfusion (show false = true from ck)
  · intro v hv h'
    have ck := c7
    have hv2 : dictGet d "dim" = some v := hv
    rw [hv2] at ck
    cases v with
    | il l =>
      have hlen := of_decide_eq_true (show decide (l.length = 8) = true from ck)
      have hng : ¬(l.length < 8) := by omega
      simp [uDim, hng]
    | i n => exact Bool.noConfusion (show false = true from ck)
    | f q => exact Bool.noConfusion (show false = true from ck)
    | s sv => exact Bool.noConfusion (show false = true from ck)
    | fl l => exact Bool.noConfusion (show false = true from ck)
    | m rows => exact Bool.noConfusion (show false = true from ck)
  · intro v hv h'
    have ck := c8
    have hv2 : dictGet d "intent_p1" = some v := hv
    rw [hv2] at ck
    cases v with
    | f q =>
      simp [uIntentP1]
    | i n => exact Bool.noConfusion (show false = true from ck)
    | s sv => exact Bool.noConfusion (show false = true from ck)
    | il l => exact Bool.noConfusion (show false = true from ck)
    | fl l => exact Bool.noConfusion (show false = true from ck)
    | m rows => exact Bool.noConfusion (show false = true from ck)
  · intro v hv h'
    have ck := c9
    have hv2 : dictGet d "intent_p2" = some v := hv
    rw [hv2] at ck
    cases v with
    | f q =>
      simp [uIntentP2]
    | i n => exact Bool.noConfusion (show false = true from ck)
    | s sv => exact Bool.noConfusion (show false = true from ck)
    | il l => exact Bool.noConfusion (show false = true from ck)
    | fl l => exact Bool.noConfusion (show false = true from ck)
    | m rows => exact Bool.noConfusion (show false = true from ck)
  · intro v hv h'
    have ck := c10
    have hv2 : dictGet d "intent_p3" = some v := hv
    rw [hv2] at ck
    cases v with
    | f q =>
      simp [uIntentP3]
    | i n => exact Bool.noConfusion (show false = true from ck)
    | s sv => exact Bool.noConfusion (show false = true from ck)
    | il l => exact Bool.noConfusion (show false = true from ck)
    | fl l => exact Bool.noConfusion (show false = true from ck)
    | m rows => exact Bool.noConfusion (show false = true from ck)
  · intro v hv h'
    have ck := c11
    have hv2 : dictGet d "intent_code" = some v := hv
    rw [hv2] at ck
    cases v with
    | i n =>
      simp [uIntentCode]
    | f q => exact Bool.noConfusion (show false = true from ck)
    | s sv => exact Bool.noConfusion (show false = true from ck)
    | il l => exact Bool.noConfusion (show false = true from ck)
    | fl l => exact Bool.noConfusion (show false = true from ck)
    | m rows => exact Bool.noConfusion (show false = true from ck)
  · intro v hv h'
    have ck := c12
    have hv2 : dictGet d "datatype" = some v := hv
    rw [hv2] at ck
    cases v with
    | i n =>
      simp [uDatatype]
    | f q => exact Bool.noConfusion (show false = true from ck)
    | s sv => exact Bool.noConfusion (show false = true from ck)
    | il l => exact Bool.noConfusion (show false = true from ck)
    | fl l => exact Bool.noConfusion (show false = true from ck)
    | m rows => exact Bool.noConfusion (show false = true from ck)
  · intro v hv h'
    have ck := c13
    have hv2 : dictGet d "bitpix" = some v := hv
    rw [hv2] at ck
    cases v with
    | i n =>
      simp [uBitpix]
    | f q => exact Bool.noConfusion (show false = true from ck)
    | s sv => exact Bool.noConfusion (show false = true from ck)
    | il l => exact Bool.noConfusion (show false = true from ck)
    | fl l => exact Bool.noConfusion (show false = true from ck)
    | m rows => exact Bool.noConfusion (show false = true from ck)
  · intro v hv h'
    have ck := c14
    have hv2 : dictGet d "slice_start" = some v := hv
    rw [hv2] at ck
    cases v with
    | i n =>
      simp [uSliceStart]
    | f q => exact Bool.noConfusion (show false = true from ck)
    | s sv => exact Bool.noConfusion (show false = true from ck)
    | il l => exact Bool.noConfusion (show false = true from ck)
    | fl l => exact Bool.noConfusion (show false = true from ck)
    | m rows => exact Bool.noConfusion (show false = true from ck)
  · intro v hv h'
    have ck := c15
    have hv2 : dictGet d "pixdim" = some v := hv
    rw [hv2] at ck
    cases v with
    | fl l =>
      have hlen := of_decide_eq_true (show decide (l.length = 8) = true from ck)
      have hng : ¬(l.length < 8) := by omega
      simp [uPixdim, hng]
    | i n => exact Bool.noConfusion (show false = true from ck)
    | f q => exact Bool.noConfusion (show false = true from ck)
    | s sv => exact Bool.noConfusion (show false = true from ck)
    | il l => exact Bool.noConfusion (show false = true from ck)
    | m rows => exact Bool.noConfusion (show false = true from ck)
  · intro v hv h'
    have ck := c16
    have hv2 : dictGet d "vox_offset" = some v := hv
    rw [hv2] at ck
    cases v with
    | f q =>
      simp [uVoxOffset]
    | i n => exact Bool.noConfusion (show false = true from ck)
    | s sv => exact Bool.noConfusion (show false = true from ck)
    | il l => exact Bool.noConfusion (show false = true from ck)
    | fl l => exact Bool.noConfusion (show false = true from ck)
    | m rows => exact Bool.noConfusion (show false = true from ck)
  · intro v hv h'
    have ck := c17
    have hv2 : dictGet d "scl_slope" = some v := hv
    rw [hv2] at ck
    cases v with
    | f q =>
      simp [uSclSlope]
    | i n => exact Bool.noConfusion (show false = true from ck)
    | s sv => exact Bool.noConfusion (show false = true from ck)
    | il l => exact Bool.noConfusion (show false = true from ck)
    | fl l => exact Bool.noConfusion (show false = true from ck)
    | m rows => exact Bool.noConfusion (show false = true from ck)
  · intro v hv h'
    have ck := c18
    have hv2 : dictGet d "scl_inter" = some v := hv
    rw [hv2] at ck
    cases v with
    | f q =>
      simp [uSclInter]
    | i n => exact Bool.noConfusion (show false = true from ck)
    | s sv => exact Bool.noConfusion (show false = true from ck)
    | il l => exact Bool.noConfusion (show false = true from ck)
    | fl l => exact Bool.noConfusion (show false = true from ck)
    | m rows => exact Bool.noConfusion (show false = true from ck)
  · intro v hv h'
    have ck := c19
    have hv2 : dictGet d "slice_end" = some v := hv
    rw [hv2] at ck
    cases v with
    | i n =>
      simp [uSliceEnd]
    | f q => exact Bool.noConfusion (show false = true from ck)
    | s sv => exact Bool.noConfusion (show false = true from ck)
    | il l => exact Bool.noConfusion (show false = true from ck)
    | fl l => exact Bool.noConfusion (show false = true from ck)
    | m rows => exact Bool.noConfusion (show false = true from ck)
  · intro v hv h'
    have ck := c20
    have hv2 : dictGet d "slice_code" = some v := hv
    rw [hv2] at ck
    cases v with
    | i n =>
      simp [uSliceCode]
    | f q => exact Bool.noConfusion (show false = true from ck)
    | s sv => exact Bool.noConfusion (show false = true from ck)
    | il l => exact Bool.noConfusion (show false = true from ck)
    | fl l => exact Bool.noConfusion (show false = true from ck)
    | m rows => exact Bool.noConfusion (show false = true from ck)
  · intro v hv h'
    have ck := c21
    have hv2 : dictGet d "xyzt_units" = some v := hv
    rw [hv2] at ck
    cases v with
    | i n =>
      simp [uXyztUnits]
    | f q => exact Bool.noConfusion (show false = true from ck)
    | s sv => exact Bool.noConfusion (show false = true from ck)
    | il l => exact Bool.noConfusion (show false = true from ck)
    | fl l => exact Bool.noConfusion (show false = true from ck)
    | m rows => exact Bool.noConfusion (show false = true from ck)
  · intro v hv h'
    have ck := c22
    have hv2 : dictGet d "cal_max" = some v := hv
    rw [hv2] at ck
    cases v with
    | f q =>
      simp [uCalMax]
    | i n => exact Bool.noConfusion (show false = true from ck)
    | s sv => exact Bool.noConfusion (show false = true from ck)
    | il l => exact Bool.noConfusion (show false = true from ck)
    | fl l => exact Bool.noConfusion (show false = true from ck)
    | m rows => exact Bool.noConfusion (show false = true from ck)
  · intro v hv h'
    have ck := c23
    have hv2 : dictGet d "cal_min" = some v := hv
    rw [hv2] at ck
    cases v with
    | f q =>
      simp [uCalMin]
    | i n => exact Bool.noConfusion (show false = true from ck)
    | s sv => exact Bool.noConfusion (show false = true from ck)
    | il l => exact Bool.noConfusion (show false = true from ck)
    | fl l => exact Bool.noConfusion (show false = true from ck)
    | m rows => exact Bool.noConfusion (show false = true from ck)
  · intro v hv h'
    have ck := c24
    have hv2 : dictGet d "slice_duration" = some v := hv
    rw [hv2] at ck
    cases v with
    | f q =>
      simp [uSliceDuration]
    | i n => exact Bool.noConfusion (show false = true from ck)
    | s sv => exact Bool.noConfusion (show false = true from ck)
    | il l => exact Bool.noConfusion (show false = true from ck)
    | fl l => exact Bool.noConfusion (show false = true from ck)
    | m rows => exact Bool.noConfusion (show false = true from ck)
  · intro v hv h'
    have ck := c25
    have hv2 : dictGet d "toffset" = some v := hv
    rw [hv2] at ck
    cases v with
    | f q =>
      simp [uToffset]
    | i n => exact Bool.noConfusion (show false = true from ck)
    | s sv => exact Bool.noConfusion (show false = true from ck)
    | il l => exact Bool.noConfusion (show false = true from ck)
    | fl l => exact Bool.noConfusion (show false = true from ck)
    | m rows => exact Bool.noConfusion (show false = true from ck)
  · intro v hv h'
    have ck := c26
    have hv2 : dictGet d "glmax" = some v := hv
    rw [hv2] at ck
    cases v with
    | i n =>
      simp [uGlmax]
    | f q => exact Bool.noConfusion (show false = true from ck)
    | s sv => exact Bool.noConfusion (show false = true from ck)
    | il l => exact Bool.noConfusion (show false = true from ck)
    | fl l => exact Bool.noConfusion (show false = true from ck)
    | m rows => exact Bool.noConfusion (show false = true from ck)
  · intro v hv h'
    have ck := c27
    have hv2 : dictGet d "glmin" = some v := hv
    rw [hv2] at ck
    cases v with
    | i n =>
      simp [uGlmin]
    | f q => exact Bool.noConfusion (show false = true from ck)
    | s sv => exact Bool.noConfusion (show false = true from ck)
    | il l => exact Bool.noConfusion (show false = true from ck)
    | fl l => exact Bool.noConfusion (show false = true from ck)
    | m rows => exact Bool.noConfusion (show false = true from ck)
  · intro v hv h'
    have ck := c28
    have hv2 : dictGet d "descrip" = some v := hv
    rw [hv2] at ck
    cases v with
    | s sv =>
      have hlen := of_decide_eq_true (show decide (sv.length ≤ 79) = true from ck)
      have hng : ¬(sv.length > 79) := by omega
      simp [uDescrip, hng]
    | i n => exact Bool.noConfusion (show false = true from ck)
    | f q => exact Bool.noConfusion (show false = true from ck)
    | il l => exact Bool.noConfusion (show false = true from ck)
    | fl l => exact Bool.noConfusion (show false = true from ck)
    | m rows => exact Bool.noConfusion (show false = true from ck)
  · intro v hv h'
    have ck := c29
    have hv2 : dictGet d "aux_file" = some v := hv
    rw [hv2] at ck
    cases v with
    | s sv =>
      have hlen := of_decide_eq_true (show decide (sv.length ≤ 23) = true from ck)
      have hng : ¬(sv.length > 23) := by omega
      simp [uAuxFile, hng]
    | i n => exact Bool.noConfusion (show false = true from ck)
    | f q => exact Bool.noConfusion (show false = true from ck)
    | il l => exact Bool.noConfusion (show false = true from ck)
    | fl l => exact Bool.noConfusion (show false = true from ck)
    | m rows => exact Bool.noConfusion (show false = true from ck)
  · intro v hv h'
    have ck := c30
    have hv2 : dictGet d "qform_code" = some v := hv
    rw [hv2] at ck
    cases v with
    | i n =>
      simp [uQformCode]
    | f q => exact Bool.noConfusion (show false = true from ck)
    | s sv => exact Bool.noConfusion (show false = true from ck)
    | il l => exact Bool.noConfusion (show false = true from ck)
    | fl l => exact Bool.noConfusion (show false = true from ck)
    | m rows => exact Bool.noConfusion (show false = true from ck)
  · intro v hv h'
    have ck := c31
    have hv2 : dictGet d "sform_code" = some v := hv
    rw [hv2] at ck
    cases v with
    | i n =>
      simp [uSformCode]
    | f q => exact Bool.noConfusion (show false = true from ck)
    | s sv => exact Bool.noConfusion (show false = true from ck)
    | il l => exact Bool.noConfusion (show false = true from ck)
    | fl l => exact Bool.noConfusion (show false = true from ck)
    | m rows => exact Bool.noConfusion (show false = true from ck)
  · intro v hv h'
    have ck := c32
    have hv2 : dictGet d "quatern" = some v := hv
    rw [hv2] at ck
    cases v with
    | fl l =>
      have hlen := of_decide_eq_true (show decide (l.length = 3) = true from ck)
      simp [uQuatern, hlen]
    | i n => exact Bool.noConfusion (show false = true from ck)
    | f q => exact Bool.noConfusion (show false = true from ck)
    | s sv => exact Bool.noConfusion (show false = true from ck)
    | il l => exact Bool.noConfusion (show false = true from ck)
    | m rows => exact Bool.noConfusion (show false = true from ck)
  · intro v hv h'
    have ck := c33
    have hv2 : dictGet d "qoffset" = some v := hv
    rw [hv2] at ck
    cases v with
    | fl l =>
      have hlen := of_decide_eq_true (show decide (l.length = 3) = true from ck)
      simp [uQoffset, hlen]
    | i n => exact Bool.noConfusion (show false = true from ck)
    | f q => exact Bool.noConfusion (show false = true from ck)
    | s sv => exact Bool.noConfusion (show false = true from ck)
    | il l => exact Bool.noConfusion (show false = true from ck)
    | m rows => exact Bool.noConfusion (show false = true from ck)
  · intro v hv h'
    have ck := c34
    have hv2 : dictGet d "sform" = some v := hv
    rw [hv2] at ck
    cases v with
    | m rows =>
      have hc : (decide (rows.length = 4) && (rows.all fun r => decide (r.length = 4))) = true := ck
      rw [Bool.and_eq_true] at hc
      have hcond : rows.length = 4 ∧ (rows.all fun r => decide (r.length = 4)) = true :=
        ⟨of_decide_eq_true hc.1, hc.2⟩
      simp only [uSform]
      rw [if_pos hcond]
    | i n => exact Bool.noConfusion (show false = true from ck)
    | f q => exact Bool.noConfusion (show false = true from ck)
    | s sv => exact Bool.noConfusion (show false = true from ck)
    | il l => exact Bool.noConfusion (show false = true from ck)
    | fl l => exact Bool.noConfusion (show false = true from ck)
  · intro v hv h'
    have ck := c35
    have hv2 : dictGet d "intent_name" = some v := hv
    rw [hv2] at ck
    cases v with
    | s sv =>
      have hlen := of_decide_eq_true (show decide (sv.length ≤ 15) = true from ck)
      have hng : ¬(sv.length > 15) := by omega
      simp [uIntentName, hng]
    | i n => exact Bool.noConfusion (show false = true from ck)
    | f q => exact Bool.noConfusion (show false = true from ck)
    | il l => exact Bool.noConfusion (show false = true from ck)
    | fl l => exact Bool.noConfusion (show false = true from ck)
    | m rows => exact Bool.noConfusion (show false = true from ck)
  · intro v hv h'
    have ck := c36
    have hv2 : dictGet d "magic" = some v := hv
    rw [hv2] at ck
    cases v with
    | s sv =>
      have hm := of_decide_eq_true (show decide (sv = "ni1" ∨ sv = "n+1") = true from ck)
      rcases hm with rfl | rfl <;> simp [uMagic]
    | i n => exact Bool.noConfusion (show false = true from ck)
    | f q => exact Bool.noConfusion (show false = true from ck)
    | il l => exact Bool.noConfusion (show false = true from ck)
    | fl l => exact Bool.noConfusion (show false = true from ck)
    | m rows => exact Bool.noConfusion (show false = true from ck)

/-- C5 amended: for a patch every present key of which satisfies its
validation rule (spec section 4.2 table) and carries a value of the
expected shape, the update succeeds and `nhdr2dict` of the updated header
maps every patched key back to exactly the supplied value — for every key
except `sform` (whose read-back duplicates the patched row 1 into row 2,
see C1 and the counterexample) and `sizeof_hdr` (which the update
ignores). -/
theorem C5_roundtrip (h : NiftiHeader) (d : HDict) (hval : validPatch d = true) :
    (updateNiftiHeaderFromDict h d).2 = none ∧
    (∀ v, dictGet d "data_type" = some v →
      dictGet (nhdr2dict (updateNiftiHeaderFromDict h d).1) "data_type" = some v) ∧
    (∀ v, dictGet d "db_name" = some v →
      dictGet (nhdr2dict (updateNiftiHeaderFromDict h d).1) "db_name" = some v) ∧
    (∀ v, dictGet d "extents" = some v →
      dictGet (nhdr2dict (updateNiftiHeaderFromDict h d).1) "extents" = some v) ∧
    (∀ v, dictGet d "session_error" = some v →
      dictGet (nhdr2dict (updateNiftiHeaderFromDict h d).1) "session_error" = some v) ∧
    (∀ v, dictGet d "regular" = some v →
      dictGet (nhdr2dict (updateNiftiHeaderFromDict h d).1) "regular" = some v) ∧
    (∀ v, dictGet d "dim_info" = some v →
      dictGet (nhdr2dict (updateNiftiHeaderFromDict h d).1) "dim_info" = some v) ∧
    (∀ v, dictGet d "dim" = some v →
      dictGet (nhdr2dict (updateNiftiHeaderFromDict h d).1) "dim" = some v) ∧
    (∀ v, dictGet d "intent_p1" = some v →
      dictGet (nhdr2dict (updateNiftiHeaderFromDict h d).1) "intent_p1" = some v) ∧
    (∀ v, dictGet d "intent_p2" = some v →
      dictGet (nhdr2dict (updateNiftiHeaderFromDict h d).1) "intent_p2" = some v) ∧
    (∀ v, dictGet d "intent_p3" = some v →
      dictGet (nhdr2dict (updateNiftiHeaderFromDict h d).1) "intent_p3" = some v) ∧
    (∀ v, dictGet d "intent_code" = some v →
      dictGet (nhdr2dict (updateNiftiHeaderFromDict h d).1) "intent_code" = some v) ∧
    (∀ v, dictGet d "datatype" = some v →
      dictGet (nhdr2dict (updateNiftiHeaderFromDict h d).1) "datatype" = some v) ∧
    (∀ v, dictGet d "bitpix" = some v →
      dictGet (nhdr2dict (updateNiftiHeaderFromDict h d).1) "bitpix" = some v) ∧
    (∀ v, dictGet d "slice_start" = some v →
      dictGet (nhdr2dict (updateNiftiHeaderFromDict h d).1) "slice_start" = some v) ∧
    (∀ v, dictGet d "pixdim" = some v →
      dictGet (nhdr2dict (updateNiftiHeaderFromDict h d).1) "pixdim" = some v) ∧
    (∀ v, dictGet d "vox_offset" = some v →
      dictGet (nhdr2dict (updateNiftiHeaderFromDict h d).1) "vox_offset" = some v) ∧
    (∀ v, dictGet d "scl_slope" = some v →
      dictGet (nhdr2dict (updateNiftiHeaderFromDict h d).1) "scl_slope" = some v) ∧
    (∀ v, dictGet d "scl_inter" = some v →
      dictGet (nhdr2dict (updateNiftiHeaderFromDict h d).1) "scl_inter" = some v) ∧
    (∀ v, dictGet d "slice_end" = some v →
      dictGet (nhdr2dict (updateNiftiHeaderFromDict h d).1) "slice_end" = some v) ∧
    (∀ v, dictGet d "slice_code" = some v →
      dictGet (nhdr2dict (updateNiftiHeaderFromDict h d).1) "slice_code" = some v) ∧
    (∀ v, dictGet d "xyzt_units" = some v →
      dictGet (nhdr2dict (updateNiftiHeaderFromDict h d).1) "xyzt_units" = some v) ∧
    (∀ v, dictGet d "cal_max" = some v →
      dictGet (nhdr2dict (updateNiftiHeaderFromDict h d).1) "cal_max" = some v) ∧
    (∀ v, dictGet d "cal_min" = some v →
      dictGet (nhdr2dict (updateNiftiHeaderFromDict h d).1) "cal_min" = some v) ∧
    (∀ v, dictGet d "slice_duration" = some v →
      dictGet (nhdr2dict (updateNiftiHeaderFromDict h d).1) "slice_duration" = some v) ∧
    (∀ v, dictGet d "toffset" = some v →
      dictGet (nhdr2dict (updateNiftiHeaderFromDict h d).1) "toffset" = some v) ∧
    (∀ v, dictGet d "glmax" = some v →
      dictGet (nhdr2dict (updateNiftiHeaderFromDict h d).1) "glmax" = some v) ∧
    (∀ v, dictGet d "glmin" = some v →
      dictGet (nhdr2dict (updateNiftiHeaderFromDict h d).1) "glmin" = some v) ∧
    (∀ v, dictGet d "descrip" = some v →
      dictGet (nhdr2dict (updateNiftiHeaderFromDict h d).1) "descrip" = some v) ∧
    (∀ v, dictGet d "aux_file" = some v →
      dictGet (nhdr2dict (updateNiftiHeaderFromDict h d).1) "aux_file" = some v) ∧
    (∀ v, dictGet d "qform_code" = some v →
      dictGet (nhdr2dict (updateNiftiHeaderFromDict h d).1) "qform_code" = some v) ∧
    (∀ v, dictGet d "sform_code" = some v →
      dictGet (nhdr2dict (updateNiftiHeaderFromDict h d).1) "sform_code" = some v) ∧
    (∀ v, dictGet d "quatern" = some v →
      dictGet (nhdr2dict (updateNiftiHeaderFromDict h d).1) "quatern" = some v) ∧
    (∀ v, dictGet d "qoffset" = some v →
      dictGet (nhdr2dict (updateNiftiHeaderFromDict h d).1) "qoffset" = some v) ∧
    (∀ v, dictGet d "intent_name" = some v →
      dictGet (nhdr2dict (updateNiftiHeaderFromDict h d).1) "intent_name" = some v) ∧
    (∀ v, dictGet d "magic" = some v →
      dictGet (nhdr2dict (updateNiftiHeaderFromDict h d).1) "magic" = some v) := by
  have hok := runSteps_ok_of_valid niftiHeaderSteps d (validPatch_steps_ok d hval) h
  have hsnd : (updateNiftiHeaderFromDict h d).2 = none := by
    rw [updateNiftiHeaderFromDict, hok]
  have hfst : (updateNiftiHeaderFromDict h d).1 = applySteps niftiHeaderSteps d h := by
    rw [updateNiftiHeaderFromDict, hok]
  simp only [validPatch, Bool.and_eq_true] at hval
  obtain ⟨⟨⟨⟨⟨⟨⟨⟨⟨⟨⟨⟨⟨⟨⟨⟨⟨⟨⟨⟨⟨⟨⟨⟨⟨⟨⟨⟨⟨⟨⟨⟨⟨⟨⟨c1, c2⟩, c3⟩, c4⟩, c5⟩, c6⟩, c7⟩, c8⟩, c9⟩, c10⟩, c11⟩, c12⟩, c13⟩, c14⟩, c15⟩, c16⟩, c17⟩, c18⟩, c19⟩, c20⟩, c21⟩, c22⟩, c23⟩, c24⟩, c25⟩, c26⟩, c27⟩, c28⟩, c29⟩, c30⟩, c31⟩, c32⟩, c33⟩, c34⟩, c35⟩, c36⟩ := hval
  refine ⟨hsnd, ?_, ?_, ?_, ?_, ?_, ?_, ?_, ?_, ?_, ?_, ?_, ?_, ?_, ?_, ?_, ?_, ?_, ?_, ?_, ?_, ?_, ?_, ?_, ?_, ?_, ?_, ?_, ?_, ?_, ?_, ?_, ?_, ?_, ?_, ?_⟩
  · intro v hvv
    have ck := c1
    rw [hvv] at ck
    cases v with
    | s sv =>
      have hlen := of_decide_eq_true (show decide (sv.length ≤ 9) = true from ck)
      have hx : ∀ h', ((uDataType.exec (.s sv) h').1).data_type = sv := by
        intro h'
        have hng : ¬(sv.length > 9) := by omega
        simp [uDataType, hng]
      have hv_data_type : (applySteps niftiHeaderSteps d h).data_type = sv := by
        rw [ssDataType]
        exact applySteps_field (fun hh => hh.data_type) sbDataType saDataType uDataType d
          (.s sv) (sv) hvv hx
          (fun w hw v' h' _ => presAll_data_type w (mem_steps_right ssDataType hw)
            ((by decide : ∀ w ∈ saDataType, w.key ≠ "data_type") w hw) v' h') h
      rw [hfst, nhdr2dict_data_type, hv_data_type]
    | i n => exact Bool.noConfusion (show false = true from ck)
    | f q => exact Bool.noConfusion (show false = true from ck)
    | il l => exact Bool.noConfusion (show false = true from ck)
    | fl l => exact Bool.noConfusion (show false = true from ck)
    | m rows => exact Bool.noConfusion (show false = true from ck)
  · intro v hvv
    have ck := c2
    rw [hvv] at ck
    cases v with
    | s sv =>
      have hlen := of_decide_eq_true (show decide (sv.length ≤ 79) = true from ck)
      have hx : ∀ h', ((uDbName.exec (.s sv) h').1).db_name = sv := by
        intro h'
        have hng : ¬(sv.length > 79) := by omega
        simp [uDbName, hng]
      have hv_db_name : (applySteps niftiHeaderSteps d h).db_name = sv := by
        rw [ssDbName]
        exact applySteps_field (fun hh => hh.db_name) sbDbName saDbName uDbName d
          (.s sv) (sv) hvv hx
          (fun w hw v' h' _ => presAll_db_name w (mem_steps_right ssDbName hw)
            ((by decide : ∀ w ∈ saDbName, w.key ≠ "db_name") w hw) v' h') h
      rw [hfst, nhdr2dict_db_name, hv_db_name]
    | i n => exact Bool.noConfusion (show false = true from ck)
    | f q => exact Bool.noConfusion (show false = true from ck)
    | il l => exact Bool.noConfusion (show false = true from ck)
    | fl l => exact Bool.noConfusion (show false = true from ck)
    | m rows => exact Bool.noConfusion (show false = true from ck)
  · intro v hvv
    have ck := c3
    rw [hvv] at ck
    cases v with
    | i n =>
      have hx : ∀ h', ((uExtents.exec (.i n) h').1).extents = n := by
        intro h'; simp [uExtents]
      have hv_extents : (applySteps niftiHeaderSteps d h).extents = n := by
        rw [ssExtents]
        exact applySteps_field (fun hh => hh.extents) sbExtents saExtents uExtents d
          (.i n) (n) hvv hx
          (fun w hw v' h' _ => presAll_extents w (mem_steps_right ssExtents hw)
            ((by decide : ∀ w ∈ saExtents, w.key ≠ "extents") w hw) v' h') h
      rw [hfst, nhdr2dict_extents, hv_extents]
    | f q => exact Bool.noConfusion (show false = true from ck)
    | s sv => exact Bool.noConfusion (show false = true from ck)
    | il l => exact Bool.noConfusion (show false = true from ck)
    | fl l => exact Bool.noConfusion (show false = true from ck)
    | m rows => exact Bool.noConfusion (show false = true from ck)
  · intro v hvv
    have ck := c4
    rw [hvv] at ck
    cases v with
    | i n =>
      have hx : ∀ h', ((uSessionError.exec (.i n) h').1).session_error = n := by
        intro h'; simp [uSessionError]
      have hv_session_error : (applySteps niftiHeaderSteps d h).session_error = n := by
        rw [ssSessionError]
        exact applySteps_field (fun hh => hh.session_error) sbSessionError saSessionError uSessionError d
          (.i n) (n) hvv hx
          (fun w hw v' h' _ => presAll_session_error w (mem_steps_right ssSessionError hw)
            ((by decide : ∀ w ∈ saSessionError, w.key ≠ "session_error") w hw) v' h') h
      rw [hfst, nhdr2dict_session_error, hv_session_error]
    | f q => exact Bool.noConfusion (show false = true from ck)
    | s sv => exact Bool.noConfusion (show false = true from ck)
    | il l => exact Bool.noConfusion (show false = true from ck)
    | fl l => exact Bool.noConfusion (show false = true from ck)
    | m rows => exact Bool.noConfusion (show false = true from ck)
  · intro v hvv
    have ck := c5
    rw [hvv] at ck
    cases v with
    | s sv =>
      have hlen := of_decide_eq_true (show decide (sv.length = 1) = true from ck)
      have hx : ∀ h', ((uRegular.exec (.s sv) h').1).regular = sv := by
        intro h'
        have hng : ¬(sv.length > 1) := by omega
        simp [uRegular, hng]
      have hv_regular : (applySteps niftiHeaderSteps d h).regular = sv := by
        rw [ssRegular]
        exact applySteps_field (fun hh => hh.regular) sbRegular saRegular uRegular d
          (.s sv) (sv) hvv hx
          (fun w hw v' h' _ => presAll_regular w (mem_steps_right ssRegular hw)
            ((by decide : ∀ w ∈ saRegular, w.key ≠ "regular") w hw) v' h') h
      rw [hfst, nhdr2dict_regular, hv_regular]
    | i n => exact Bool.noConfusion (show false = true from ck)
    | f q => exact Bool.noConfusion (show false = true from ck)
    | il l => exact Bool.noConfusion (show false = true from ck)
    | fl l => exact Bool.noConfusion (show false = true from ck)
    | m rows => exact Bool.noConfusion (show false = true from ck)
  · intro v hvv
    have ck := c6
    rw [hvv] at ck
    cases v with
    | s sv =>
      have hlen := of_decide_eq_true (show decide (sv.length = 1) = true from ck)
      have hx : ∀ h', ((uDimInfo.exec (.s sv) h').1).dim_info = sv := by
        intro h'
        have hng : ¬(sv.length > 1) := by omega
        simp [uDimInfo, hng]
      have hv_dim_info : (applySteps niftiHeaderSteps d h).dim_info = sv := by
        rw [ssDimInfo]
        exact applySteps_field (fun hh => hh.dim_info) sbDimInfo saDimInfo uDimInfo d
          (.s sv) (sv) hvv hx
          (fun w hw v' h' _ => presAll_dim_info w (mem_steps_right ssDimInfo hw)
            ((by decide : ∀ w ∈ saDimInfo, w.key ≠ "dim_info") w hw) v' h') h
      rw [hfst, nhdr2dict_dim_info, hv_dim_info]
    | i n => exact Bool.noConfusion (show false = true from ck)
    | f q => exact Bool.noConfusion (show false = true from ck)
    | il l => exact Bool.noConfusion (show false = true from ck)
    | fl l => exact Bool.noConfusion (show false = true from ck)
    | m rows => exact Bool.noConfusion (show false = true from ck)
  · intro v hvv
    have ck := c7
    rw [hvv] at ck
    cases v with
    | il l =>
      have hlen := of_decide_eq_true (show decide (l.length = 8) = true from ck)
      have hx : ∀ h', ((uDim.exec (.il l) h').1).dim = (List.range 8).map (fun i => l.getD i 0) := by
        intro h'
        simp only [uDim]
        refine List.map_congr_left fun i hi => ?_
        have hi8 := List.mem_range.mp hi
        rw [if_pos (by omega)]
      have hv_dim : (applySteps niftiHeaderSteps d h).dim = (List.range 8).map (fun i => l.getD i 0) := by
        rw [ssDim]
        exact applySteps_field (fun hh => hh.dim) sbDim saDim uDim d
          (.il l) ((List.range 8).map (fun i => l.getD i 0)) hvv hx
          (fun w hw v' h' _ => presAll_dim w (mem_steps_right ssDim hw)
            ((by decide : ∀ w ∈ saDim, w.key ≠ "dim") w hw) v' h') h
      rw [hfst, nhdr2dict_dim, hv_dim,
        map_range_getD_len 0 ((List.range 8).map fun i => l.getD i 0) 8 (by simp),
        map_range_getD_len 0 l 8 hlen]
    | i n => exact Bool.noConfusion (show false = true from ck)
    | f q => exact Bool.noConfusion (show false = true from ck)
    | s sv => exact Bool.noConfusion (show false = true from ck)
    | fl l => exact Bool.noConfusion (show false = true from ck)
    | m rows => exact Bool.noConfusion (show false = true from ck)
  · intro v hvv
    have ck := c8
    rw [hvv] at ck
    cases v with
    | f q =>
      have hx : ∀ h', ((uIntentP1.exec (.f q) h').1).intent_p1 = q := by
        intro h'; simp [uIntentP1]
      have hv_intent_p1 : (applySteps niftiHeaderSteps d h).intent_p1 = q := by
        rw [ssIntentP1]
        exact applySteps_field (fun hh => hh.intent_p1) sbIntentP1 saIntentP1 uIntentP1 d
          (.f q) (q) hvv hx
          (fun w hw v' h' _ => presAll_intent_p1 w (mem_steps_right ssIntentP1 hw)
            ((by decide : ∀ w ∈ saIntentP1, w.key ≠ "intent_p1") w hw) v' h') h
      rw [hfst, nhdr2dict_intent_p1, hv_intent_p1]
    | i n => exact Bool.noConfusion (show false = true from ck)
    | s sv => exact Bool.noConfusion (show false = true from ck)
    | il l => exact Bool.noConfusion (show false = true from ck)
    | fl l => exact Bool.noConfusion (show false = true from ck)
    | m rows => exact Bool.noConfusion (show false = true from ck)
  · intro v hvv
    have ck := c9
    rw [hvv] at ck
    cases v with
    | f q =>
      have hx : ∀ h', ((uIntentP2.exec (.f q) h').1).intent_p2 = q := by
        intro h'; simp [uIntentP2]
      have hv_intent_p2 : (applySteps niftiHeaderSteps d h).intent_p2 = q := by
        rw [ssIntentP2]
        exact applySteps_field (fun hh => hh.intent_p2) sbIntentP2 saIntentP2 uIntentP2 d
          (.f q) (q) hvv hx
          (fun w hw v' h' _ => presAll_intent_p2 w (mem_steps_right ssIntentP2 hw)
            ((by decide : ∀ w ∈ saIntentP2, w.key ≠ "intent_p2") w hw) v' h') h
      rw [hfst, nhdr2dict_intent_p2, hv_intent_p2]
    | i n => exact Bool.noConfusion (show false = true from ck)
    | s sv => exact Bool.noConfusion (show false = true from ck)
    | il l => exact Bool.noConfusion (show false = true from ck)
    | fl l => exact Bool.noConfusion (show false = true from ck)
    | m rows => exact Bool.noConfusion (show false = true from ck)
  · intro v hvv
    have ck := c10
    rw [hvv] at ck
    cases v with
    | f q =>
      have hx : ∀ h', ((uIntentP3.exec (.f q) h').1).intent_p3 = q := by
        intro h'; simp [uIntentP3]
      have hv_intent_p3 : (applySteps niftiHeaderSteps d h).intent_p3 = q := by
        rw [ssIntentP3]
        exact applySteps_field (fun hh => hh.intent_p3) sbIntentP3 saIntentP3 uIntentP3 d
          (.f q) (q) hvv hx
          (fun w hw v' h' _ => presAll_intent_p3 w (mem_steps_right ssIntentP3 hw)
            ((by decide : ∀ w ∈ saIntentP3, w.key ≠ "intent_p3") w hw) v' h') h
      rw [hfst, nhdr2dict_intent_p3, hv_intent_p3]
    | i n => exact Bool.noConfusion (show false = true from ck)
    | s sv => exact Bool.noConfusion (show false = true from ck)
    | il l => exact Bool.noConfusion (show false = true from ck)
    | fl l => exact Bool.noConfusion (show false = true from ck)
    | m rows => exact Bool.noConfusion (show false = true from ck)
  · intro v hvv
    have ck := c11
    rw [hvv] at ck
    cases v with
    | i n =>
      have hx : ∀ h', ((uIntentCode.exec (.i n) h').1).intent_code = n := by
        intro h'; simp [uIntentCode]
      have hv_intent_code : (applySteps niftiHeaderSteps d h).intent_code = n := by
        rw [ssIntentCode]
        exact applySteps_field (fun hh => hh.intent_code) sbIntentCode saIntentCode uIntentCode d
          (.i n) (n) hvv hx
          (fun w hw v' h' _ => presAll_intent_code w (mem_steps_right ssIntentCode hw)
            ((by decide : ∀ w ∈ saIntentCode, w.key ≠ "intent_code") w hw) v' h') h
      rw [hfst, nhdr2dict_intent_code, hv_intent_code]
    | f q => exact Bool.noConfusion (show false = true from ck)
    | s sv => exact Bool.noConfusion (show false = true from ck)
    | il l => exact Bool.noConfusion (show false = true from ck)
    | fl l => exact Bool.noConfusion (show false = true from ck)
    | m rows => exact Bool.noConfusion (show false = true from ck)
  · intro v hvv
    have ck := c12
    rw [hvv] at ck
    cases v with
    | i n =>
      have hx : ∀ h', ((uDatatype.exec (.i n) h').1).datatype = n := by
        intro h'; simp [uDatatype]
      have hv_datatype : (applySteps niftiHeaderSteps d h).datatype = n := by
        rw [ssDatatype]
        exact applySteps_field (fun hh => hh.datatype) sbDatatype saDatatype uDatatype d
          (.i n) (n) hvv hx
          (fun w hw v' h' _ => presAll_datatype w (mem_steps_right ssDatatype hw)
            ((by decide : ∀ w ∈ saDatatype, w.key ≠ "datatype") w hw) v' h') h
      rw [hfst, nhdr2dict_datatype, hv_datatype]
    | f q => exact Bool.noConfusion (show false = true from ck)
    | s sv => exact Bool.noConfusion (show false = true from ck)
    | il l => exact Bool.noConfusion (show false = true from ck)
    | fl l => exact Bool.noConfusion (show false = true from ck)
    | m rows => exact Bool.noConfusion (show false = true from ck)
  · intro v hvv
    have ck := c13
    rw [hvv] at ck
    cases v with
    | i n =>
      have hx : ∀ h', ((uBitpix.exec (.i n) h').1).bitpix = n := by
        intro h'; simp [uBitpix]
      have hv_bitpix : (applySteps niftiHeaderSteps d h).bitpix = n := by
        rw [ssBitpix]
        exact applySteps_field (fun hh => hh.bitpix) sbBitpix saBitpix uBitpix d
          (.i n) (n) hvv hx
          (fun w hw v' h' _ => presAll_bitpix w (mem_steps_right ssBitpix hw)
            ((by decide : ∀ w ∈ saBitpix, w.key ≠ "bitpix") w hw) v' h') h
      rw [hfst, nhdr2dict_bitpix, hv_bitpix]
    | f q => exact Bool.noConfusion (show false = true from ck)
    | s sv => exact Bool.noConfusion (show false = true from ck)
    | il l => exact Bool.noConfusion (show false = true from ck)
    | fl l => exact Bool.noConfusion (show false = true from ck)
    | m rows => exact Bool.noConfusion (show false = true from ck)
  · intro v hvv
    have ck := c14
    rw [hvv] at ck
    cases v with
    | i n =>
      have hx : ∀ h', ((uSliceStart.exec (.i n) h').1).slice_start = n := by
        intro h'; simp [uSliceStart]
      have hv_slice_start : (applySteps niftiHeaderSteps d h).slice_start = n := by
        rw [ssSliceStart]
        exact applySteps_field (fun hh => hh.slice_start) sbSliceStart saSliceStart uSliceStart d
          (.i n) (n) hvv hx
          (fun w hw v' h' _ => presAll_slice_start w (mem_steps_right ssSliceStart hw)
            ((by decide : ∀ w ∈ saSliceStart, w.key ≠ "slice_start") w hw) v' h') h
      rw [hfst, nhdr2dict_slice_start, hv_slice_start]
    | f q => exact Bool.noConfusion (show false = true from ck)
    | s sv => exact Bool.noConfusion (show false = true from ck)
    | il l => exact Bool.noConfusion (show false = true from ck)
    | fl l => exact Bool.noConfusion (show false = true from ck)
    | m rows => exact Bool.noConfusion (show false = true from ck)
  · intro v hvv
    have ck := c15
    rw [hvv] at ck
    cases v with
    | fl l =>
      have hlen := of_decide_eq_true (show decide (l.length = 8) = true from ck)
      have hx : ∀ h', ((uPixdim.exec (.fl l) h').1).pixdim = (List.range 8).map (fun i => l.getD i 0) := by
        intro h'
        simp only [uPixdim]
        refine List.map_congr_left fun i hi => ?_
        have hi8 := List.mem_range.mp hi
        rw [if_pos (by omega)]
      have hv_pixdim : (applySteps niftiHeaderSteps d h).pixdim = (List.range 8).map (fun i => l.getD i 0) := by
        rw [ssPixdim]
        exact applySteps_field (fun hh => hh.pixdim) sbPixdim saPixdim uPixdim d
          (.fl l) ((List.range 8).map (fun i => l.getD i 0)) hvv hx
          (fun w hw v' h' _ => presAll_pixdim w (mem_steps_right ssPixdim hw)
            ((by decide : ∀ w ∈ saPixdim, w.key ≠ "pixdim") w hw) v' h') h
      rw [hfst, nhdr2dict_pixdim, hv_pixdim,
        map_range_getD_len 0 ((List.range 8).map fun i => l.getD i 0) 8 (by simp),
        map_range_getD_len 0 l 8 hlen]
    | i n => exact Bool.noConfusion (show false = true from ck)
    | f q => exact Bool.noConfusion (show false = true from ck)
    | s sv => exact Bool.noConfusion (show false = true from ck)
    | il l => exact Bool.noConfusion (show false = true from ck)
    | m rows => exact Bool.noConfusion (show false = true from ck)
  · intro v hvv
    have ck := c16
    rw [hvv] at ck
    cases v with
    | f q =>
      have hx : ∀ h', ((uVoxOffset.exec (.f q) h').1).vox_offset = q := by
        intro h'; simp [uVoxOffset]
      have hv_vox_offset : (applySteps niftiHeaderSteps d h).vox_offset = q := by
        rw [ssVoxOffset]
        exact applySteps_field (fun hh => hh.vox_offset) sbVoxOffset saVoxOffset uVoxOffset d
          (.f q) (q) hvv hx
          (fun w hw v' h' _ => presAll_vox_offset w (mem_steps_right ssVoxOffset hw)
            ((by decide : ∀ w ∈ saVoxOffset, w.key ≠ "vox_offset") w hw) v' h') h
      rw [hfst, nhdr2dict_vox_offset, hv_vox_offset]
    | i n => exact Bool.noConfusion (show false = true from ck)
    | s sv => exact Bool.noConfusion (show false = true from ck)
    | il l => exact Bool.noConfusion (show false = true from ck)
    | fl l => exact Bool.noConfusion (show false = true from ck)
    | m rows => exact Bool.noConfusion (show false = true from ck)
  · intro v hvv
    have ck := c17
    rw [hvv] at ck
    cases v with
    | f q =>
      have hx : ∀ h', ((uSclSlope.exec (.f q) h').1).scl_slope = q := by
        intro h'; simp [uSclSlope]
      have hv_scl_slope : (applySteps niftiHeaderSteps d h).scl_slope = q := by
        rw [ssSclSlope]
        exact applySteps_field (fun hh => hh.scl_slope) sbSclSlope saSclSlope uSclSlope d
          (.f q) (q) hvv hx
          (fun w hw v' h' _ => presAll_scl_slope w (mem_steps_right ssSclSlope hw)
            ((by decide : ∀ w ∈ saSclSlope, w.key ≠ "scl_slope") w hw) v' h') h
      rw [hfst, nhdr2dict_scl_slope, hv_scl_slope]
    | i n => exact Bool.noConfusion (show false = true from ck)
    | s sv => exact Bool.noConfusion (show false = true from ck)
    | il l => exact Bool.noConfusion (show false = true from ck)
    | fl l => exact Bool.noConfusion (show false = true from ck)
    | m rows => exact Bool.noConfusion (show false = true from ck)
  · intro v hvv
    have ck := c18
    rw [hvv] at ck
    cases v with
    | f q =>
      have hx : ∀ h', ((uSclInter.exec (.f q) h').1).scl_inter = q := by
        intro h'; simp [uSclInter]
      have hv_scl_inter : (applySteps niftiHeaderSteps d h).scl_inter = q := by
        rw [ssSclInter]
        exact applySteps_field (fun hh => hh.scl_inter) sbSclInter saSclInter uSclInter d
          (.f q) (q) hvv hx
          (fun w hw v' h' _ => presAll_scl_inter w (mem_steps_right ssSclInter hw)
            ((by decide : ∀ w ∈ saSclInter, w.key ≠ "scl_inter") w hw) v' h') h
      rw [hfst, nhdr2dict_scl_inter, hv_scl_inter]
    | i n => exact Bool.noConfusion (show false = true from ck)
    | s sv => exact Bool.noConfusion (show false = true from ck)
    | il l => exact Bool.noConfusion (show false = true from ck)
    | fl l => exact Bool.noConfusion (show false = true from ck)
    | m rows => exact Bool.noConfusion (show false = true from ck)
  · intro v hvv
    have ck := c19
    rw [hvv] at ck
    cases v with
    | i n =>
      have hx : ∀ h', ((uSliceEnd.exec (.i n) h').1).slice_end = n := by
        intro h'; simp [uSliceEnd]
      have hv_slice_end : (applySteps niftiHeaderSteps d h).slice_end = n := by
        rw [ssSliceEnd]
        exact applySteps_field (fun hh => hh.slice_end) sbSliceEnd saSliceEnd uSliceEnd d
          (.i n) (n) hvv hx
          (fun w hw v' h' _ => presAll_slice_end w (mem_steps_right ssSliceEnd hw)
            ((by decide : ∀ w ∈ saSliceEnd, w.key ≠ "slice_end") w hw) v' h') h
      rw [hfst, nhdr2dict_slice_end, hv_slice_end]
    | f q => exact Bool.noConfusion (show false = true from ck)
    | s sv => exact Bool.noConfusion (show false = true from ck)
    | il l => exact Bool.noConfusion (show false = true from ck)
    | fl l => exact Bool.noConfusion (show false = true from ck)
    | m rows => exact Bool.noConfusion (show false = true from ck)
  · intro v hvv
    have ck := c20
    rw [hvv] at ck
    cases v with
    | i n =>
      have hx : ∀ h', ((uSliceCode.exec (.i n) h').1).slice_code = n := by
        intro h'; simp [uSliceCode]
      have hv_slice_code : (applySteps niftiHeaderSteps d h).slice_code = n := by
        rw [ssSliceCode]
        exact applySteps_field (fun hh => hh.slice_code) sbSliceCode saSliceCode uSliceCode d
          (.i n) (n) hvv hx
          (fun w hw v' h' _ => presAll_slice_code w (mem_steps_right ssSliceCode hw)
            ((by decide : ∀ w ∈ saSliceCode, w.key ≠ "slice_code") w hw) v' h') h
      rw [hfst, nhdr2dict_slice_code, hv_slice_code]
    | f q => exact Bool.noConfusion (show false = true from ck)
    | s sv => exact Bool.noConfusion (show false = true from ck)
    | il l => exact Bool.noConfusion (show false = true from ck)
    | fl l => exact Bool.noConfusion (show false = true from ck)
    | m rows => exact Bool.noConfusion (show false = true from ck)
  · intro v hvv
    have ck := c21
    rw [hvv] at ck
    cases v with
    | i n =>
      have hx : ∀ h', ((uXyztUnits.exec (.i n) h').1).xyzt_units = n := by
        intro h'; simp [uXyztUnits]
      have hv_xyzt_units : (applySteps niftiHeaderSteps d h).xyzt_units = n := by
        rw [ssXyztUnits]
        exact applySteps_field (fun hh => hh.xyzt_units) sbXyztUnits saXyztUnits uXyztUnits d
          (.i n) (n) hvv hx
          (fun w hw v' h' _ => presAll_xyzt_units w (mem_steps_right ssXyztUnits hw)
            ((by decide : ∀ w ∈ saXyztUnits, w.key ≠ "xyzt_units") w hw) v' h') h
      rw [hfst, nhdr2dict_xyzt_units, hv_xyzt_units]
    | f q => exact Bool.noConfusion (show false = true from ck)
    | s sv => exact Bool.noConfusion (show false = true from ck)
    | il l => exact Bool.noConfusion (show false = true from ck)
    | fl l => exact Bool.noConfusion (show false = true from ck)
    | m rows => exact Bool.noConfusion (show false = true from ck)
  · intro v hvv
    have ck := c22
    rw [hvv] at ck
    cases v with
    | f q =>
      have hx : ∀ h', ((uCalMax.exec (.f q) h').1).cal_max = q := by
        intro h'; simp [uCalMax]
      have hv_cal_max : (applySteps niftiHeaderSteps d h).cal_max = q := by
        rw [ssCalMax]
        exact applySteps_field (fun hh => hh.cal_max) sbCalMax saCalMax uCalMax d
          (.f q) (q) hvv hx
          (fun w hw v' h' _ => presAll_cal_max w (mem_steps_right ssCalMax hw)
            ((by decide : ∀ w ∈ saCalMax, w.key ≠ "cal_max") w hw) v' h') h
      rw [hfst, nhdr2dict_cal_max, hv_cal_max]
    | i n => exact Bool.noConfusion (show false = true from ck)
    | s sv => exact Bool.noConfusion (show false = true from ck)
    | il l => exact Bool.noConfusion (show false = true from ck)
    | fl l => exact Bool.noConfusion (show false = true from ck)
    | m rows => exact Bool.noConfusion (show false = true from ck)
  · intro v hvv
    have ck := c23
    rw [hvv] at ck
    cases v with
    | f q =>
      have hx : ∀ h', ((uCalMin.exec (.f q) h').1).cal_min = q := by
        intro h'; simp [uCalMin]
      have hv_cal_min : (applySteps niftiHeaderSteps d h).cal_min = q := by
        rw [ssCalMin]
        exact applySteps_field (fun hh => hh.cal_min) sbCalMin saCalMin uCalMin d
          (.f q) (q) hvv hx
          (fun w hw v' h' _ => presAll_cal_min w (mem_steps_right ssCalMin hw)
            ((by decide : ∀ w ∈ saCalMin, w.key ≠ "cal_min") w hw) v' h') h
      rw [hfst, nhdr2dict_cal_min, hv_cal_min]
    | i n => exact Bool.noConfusion (show false = true from ck)
    | s sv => exact Bool.noConfusion (show false = true from ck)
    | il l => exact Bool.noConfusion (show false = true from ck)
    | fl l => exact Bool.noConfusion (show false = true from ck)
    | m rows => exact Bool.noConfusion (show false = true from ck)
  · intro v hvv
    have ck := c24
    rw [hvv] at ck
    cases v with
    | f q =>
      have hx : ∀ h', ((uSliceDuration.exec (.f q) h').1).slice_duration = q := by
        intro h'; simp [uSliceDuration]
      have hv_slice_duration : (applySteps niftiHeaderSteps d h).slice_duration = q := by
        rw [ssSliceDuration]
        exact applySteps_field (fun hh => hh.slice_duration) sbSliceDuration saSliceDuration uSliceDuration d
          (.f q) (q) hvv hx
          (fun w hw v' h' _ => presAll_slice_duration w (mem_steps_right ssSliceDuration hw)
            ((by decide : ∀ w ∈ saSliceDuration, w.key ≠ "slice_duration") w hw) v' h') h
      rw [hfst, nhdr2dict_slice_duration, hv_slice_duration]
    | i n => exact Bool.noConfusion (show false = true from ck)
    | s sv => exact Bool.noConfusion (show false = true from ck)
    | il l => exact Bool.noConfusion (show false = true from ck)
    | fl l => exact Bool.noConfusion (show false = true from ck)
    | m rows => exact Bool.noConfusion (show false = true from ck)
  · intro v hvv
    have ck := c25
    rw [hvv] at ck
    cases v with
    | f q =>
      have hx : ∀ h', ((uToffset.exec (.f q) h').1).toffset = q := by
        intro h'; simp [uToffset]
      have hv_toffset : (applySteps niftiHeaderSteps d h).toffset = q := by
        rw [ssToffset]
        exact applySteps_field (fun hh => hh.toffset) sbToffset saToffset uToffset d
          (.f q) (q) hvv hx
          (fun w hw v' h' _ => presAll_toffset w (mem_steps_right ssToffset hw)
            ((by decide : ∀ w ∈ saToffset, w.key ≠ "toffset") w hw) v' h') h
      rw [hfst, nhdr2dict_toffset, hv_toffset]
    | i n => exact Bool.noConfusion (show false = true from ck)
    | s sv => exact Bool.noConfusion (show false = true from ck)
    | il l => exact Bool.noConfusion (show false = true from ck)
    | fl l => exact Bool.noConfusion (show false = true from ck)
    | m rows => exact Bool.noConfusion (show false = true from ck)
  · intro v hvv
    have ck := c26
    rw [hvv] at ck
    cases v with
    | i n =>
      have hx : ∀ h', ((uGlmax.exec (.i n) h').1).glmax = n := by
        intro h'; simp [uGlmax]
      have hv_glmax : (applySteps niftiHeaderSteps d h).glmax = n := by
        rw [ssGlmax]
        exact applySteps_field (fun hh => hh.glmax) sbGlmax saGlmax uGlmax d
          (.i n) (n) hvv hx
          (fun w hw v' h' _ => presAll_glmax w (mem_steps_right ssGlmax hw)
            ((by decide : ∀ w ∈ saGlmax, w.key ≠ "glmax") w hw) v' h') h
      rw [hfst, nhdr2dict_glmax, hv_glmax]
    | f q => exact Bool.noConfusion (show false = true from ck)
    | s sv => exact Bool.noConfusion (show false = true from ck)
    | il l => exact Bool.noConfusion (show false = true from ck)
    | fl l => exact Bool.noConfusion (show false = true from ck)
    | m rows => exact Bool.noConfusion (show false = true from ck)
  · intro v hvv
    have ck := c27
    rw [hvv] at ck
    cases v with
    | i n =>
      have hx : ∀ h', ((uGlmin.exec (.i n) h').1).glmin = n := by
        intro h'; simp [uGlmin]
      have hv_glmin : (applySteps niftiHeaderSteps d h).glmin = n := by
        rw [ssGlmin]
        exact applySteps_field (fun hh => hh.glmin) sbGlmin saGlmin uGlmin d
          (.i n) (n) hvv hx
          (fun w hw v' h' _ => presAll_glmin w (mem_steps_right ssGlmin hw)
            ((by decide : ∀ w ∈ saGlmin, w.key ≠ "glmin") w hw) v' h') h
      rw [hfst, nhdr2dict_glmin, hv_glmin]
    | f q => exact Bool.noConfusion (show false = true from ck)
    | s sv => exact Bool.noConfusion (show false = true from ck)
    | il l => exact Bool.noConfusion (show false = true from ck)
    | fl l => exact Bool.noConfusion (show false = true from ck)
    | m rows => exact Bool.noConfusion (show false = true from ck)
  · intro v hvv
    have ck := c28
    rw [hvv] at ck
    cases v with
    | s sv =>
      have hlen := of_decide_eq_true (show decide (sv.length ≤ 79) = true from ck)
      have hx : ∀ h', ((uDescrip.exec (.s sv) h').1).descrip = sv := by
        intro h'
        have hng : ¬(sv.length > 79) := by omega
        simp [uDescrip, hng]
      have hv_descrip : (applySteps niftiHeaderSteps d h).descrip = sv := by
        rw [ssDescrip]
        exact applySteps_field (fun hh => hh.descrip) sbDescrip saDescrip uDescrip d
          (.s sv) (sv) hvv hx
          (fun w hw v' h' _ => presAll_descrip w (mem_steps_right ssDescrip hw)
            ((by decide : ∀ w ∈ saDescrip, w.key ≠ "descrip") w hw) v' h') h
      rw [hfst, nhdr2dict_descrip, hv_descrip]
    | i n => exact Bool.noConfusion (show false = true from ck)
    | f q => exact Bool.noConfusion (show false = true from ck)
    | il l => exact Bool.noConfusion (show false = true from ck)
    | fl l => exact Bool.noConfusion (show false = true from ck)
    | m rows => exact Bool.noConfusion (show false = true from ck)
  · intro v hvv
    have ck := c29
    rw [hvv] at ck
    cases v with
    | s sv =>
      have hlen := of_decide_eq_true (show decide (sv.length ≤ 23) = true from ck)
      have hx : ∀ h', ((uAuxFile.exec (.s sv) h').1).aux_file = sv := by
        intro h'
        have hng : ¬(sv.length > 23) := by omega
        simp [uAuxFile, hng]
      have hv_aux_file : (applySteps niftiHeaderSteps d h).aux_file = sv := by
        rw [ssAuxFile]
        exact applySteps_field (fun hh => hh.aux_file) sbAuxFile saAuxFile uAuxFile d
          (.s sv) (sv) hvv hx
          (fun w hw v' h' _ => presAll_aux_file w (mem_steps_right ssAuxFile hw)
            ((by decide : ∀ w ∈ saAuxFile, w.key ≠ "aux_file") w hw) v' h') h
      rw [hfst, nhdr2dict_aux_file, hv_aux_file]
    | i n => exact Bool.noConfusion (show false = true from ck)
    | f q => exact Bool.noConfusion (show false = true from ck)
    | il l => exact Bool.noConfusion (show false = true from ck)
    | fl l => exact Bool.noConfusion (show false = true from ck)
    | m rows => exact Bool.noConfusion (show false = true from ck)
  · intro v hvv
    have ck := c30
    rw [hvv] at ck
    cases v with
    | i n =>
      have hx : ∀ h', ((uQformCode.exec (.i n) h').1).qform_code = n := by
        intro h'; simp [uQformCode]
      have hv_qform_code : (applySteps niftiHeaderSteps d h).qform_code = n := by
        rw [ssQformCode]
        exact applySteps_field (fun hh => hh.qform_code) sbQformCode saQformCode uQformCode d
          (.i n) (n) hvv hx
          (fun w hw v' h' _ => presAll_qform_code w (mem_steps_right ssQformCode hw)
            ((by decide : ∀ w ∈ saQformCode, w.key ≠ "qform_code") w hw) v' h') h
      rw [hfst, nhdr2dict_qform_code, hv_qform_code]
    | f q => exact Bool.noConfusion (show false = true from ck)
    | s sv => exact Bool.noConfusion (show false = true from ck)
    | il l => exact Bool.noConfusion (show false = true from ck)
    | fl l => exact Bool.noConfusion (show false = true from ck)
    | m rows => exact Bool.noConfusion (show false = true from ck)
  · intro v hvv
    have ck := c31
    rw [hvv] at ck
    cases v with
    | i n =>
      have hx : ∀ h', ((uSformCode.exec (.i n) h').1).sform_code = n := by
        intro h'; simp [uSformCode]
      have hv_sform_code : (applySteps niftiHeaderSteps d h).sform_code = n := by
        rw [ssSformCode]
        exact applySteps_field (fun hh => hh.sform_code) sbSformCode saSformCode uSformCode d
          (.i n) (n) hvv hx
          (fun w hw v' h' _ => presAll_sform_code w (mem_steps_right ssSformCode hw)
            ((by decide : ∀ w ∈ saSformCode, w.key ≠ "sform_code") w hw) v' h') h
      rw [hfst, nhdr2dict_sform_code, hv_sform_code]
    | f q => exact Bool.noConfusion (show false = true from ck)
    | s sv => exact Bool.noConfusion (show false = true from ck)
    | il l => exact Bool.noConfusion (show false = true from ck)
    | fl l => exact Bool.noConfusion (show false = true from ck)
    | m rows => exact Bool.noConfusion (show false = true from ck)
  · intro v hvv
    have ck := c32
    rw [hvv] at ck
    cases v with
    | fl l =>
      have hlen := of_decide_eq_true (show decide (l.length = 3) = true from ck)
      have hx0 : ∀ h', ((uQuatern.exec (.fl l) h').1).quatern_b = l.getD 0 0 := by
        intro h'; simp [uQuatern, hlen]
      have hv_quatern_b : (applySteps niftiHeaderSteps d h).quatern_b = l.getD 0 0 := by
        rw [ssQuatern]
        exact applySteps_field (fun hh => hh.quatern_b) sbQuatern saQuatern uQuatern d
          (.fl l) (l.getD 0 0) hvv hx0
          (fun w hw v' h' _ => presAll_quatern_b w (mem_steps_right ssQuatern hw)
            ((by decide : ∀ w ∈ saQuatern, w.key ≠ "quatern") w hw) v' h') h
      have hx1 : ∀ h', ((uQuatern.exec (.fl l) h').1).quatern_c = l.getD 1 0 := by
        intro h'; simp [uQuatern, hlen]
      have hv_quatern_c : (applySteps niftiHeaderSteps d h).quatern_c = l.getD 1 0 := by
        rw [ssQuatern]
        exact applySteps_field (fun hh => hh.quatern_c) sbQuatern saQuatern uQuatern d
          (.fl l) (l.getD 1 0) hvv hx1
          (fun w hw v' h' _ => presAll_quatern_c w (mem_steps_right ssQuatern hw)
            ((by decide : ∀ w ∈ saQuatern, w.key ≠ "quatern") w hw) v' h') h
      have hx2 : ∀ h', ((uQuatern.exec (.fl l) h').1).quatern_d = l.getD 2 0 := by
        intro h'; simp [uQuatern, hlen]
      have hv_quatern_d : (applySteps niftiHeaderSteps d h).quatern_d = l.getD 2 0 := by
        rw [ssQuatern]
        exact applySteps_field (fun hh => hh.quatern_d) sbQuatern saQuatern uQuatern d
          (.fl l) (l.getD 2 0) hvv hx2
          (fun w hw v' h' _ => presAll_quatern_d w (mem_steps_right ssQuatern hw)
            ((by decide : ∀ w ∈ saQuatern, w.key ≠ "quatern") w hw) v' h') h
      rw [hfst, nhdr2dict_quatern, hv_quatern_b, hv_quatern_c, hv_quatern_d, list_eq_of_length3 0 l hlen]
    | i n => exact Bool.noConfusion (show false = true from ck)
    | f q => exact Bool.noConfusion (show false = true from ck)
    | s sv => exact Bool.noConfusion (show false = true from ck)
    | il l => exact Bool.noConfusion (show false = true from ck)
    | m rows => exact Bool.noConfusion (show false = true from ck)
  · intro v hvv
    have ck := c33
    rw [hvv] at ck
    cases v with
    | fl l =>
      have hlen := of_decide_eq_true (show decide (l.length = 3) = true from ck)
      have hx0 : ∀ h', ((uQoffset.exec (.fl l) h').1).qoffset_x = l.getD 0 0 := by
        intro h'; simp [uQoffset, hlen]
      have hv_qoffset_x : (applySteps niftiHeaderSteps d h).qoffset_x = l.getD 0 0 := by
        rw [ssQoffset]
        exact applySteps_field (fun hh => hh.qoffset_x) sbQoffset saQoffset uQoffset d
          (.fl l) (l.getD 0 0) hvv hx0
          (fun w hw v' h' _ => presAll_qoffset_x w (mem_steps_right ssQoffset hw)
            ((by decide : ∀ w ∈ saQoffset, w.key ≠ "qoffset") w hw) v' h') h
      have hx1 : ∀ h', ((uQoffset.exec (.fl l) h').1).qoffset_y = l.getD 1 0 := by
        intro h'; simp [uQoffset, hlen]
      have hv_qoffset_y : (applySteps niftiHeaderSteps d h).qoffset_y = l.getD 1 0 := by
        rw [ssQoffset]
        exact applySteps_field (fun hh => hh.qoffset_y) sbQoffset saQoffset uQoffset d
          (.fl l) (l.getD 1 0) hvv hx1
          (fun w hw v' h' _ => presAll_qoffset_y w (mem_steps_right ssQoffset hw)
            ((by decide : ∀ w ∈ saQoffset, w.key ≠ "qoffset") w hw) v' h') h
      have hx2 : ∀ h', ((uQoffset.exec (.fl l) h').1).qoffset_z = l.getD 2 0 := by
        intro h'; simp [uQoffset, hlen]
      have hv_qoffset_z : (applySteps niftiHeaderSteps d h).qoffset_z = l.getD 2 0 := by
        rw [ssQoffset]
        exact applySteps_field (fun hh => hh.qoffset_z) sbQoffset saQoffset uQoffset d
          (.fl l) (l.getD 2 0) hvv hx2
          (fun w hw v' h' _ => presAll_qoffset_z w (mem_steps_right ssQoffset hw)
            ((by decide : ∀ w ∈ saQoffset, w.key ≠ "qoffset") w hw) v' h') h
      rw [hfst, nhdr2dict_qoffset, hv_qoffset_x, hv_qoffset_y, hv_qoffset_z, list_eq_of_length3 0 l hlen]
    | i n => exact Bool.noConfusion (show false = true from ck)
    | f q => exact Bool.noConfusion (show false = true from ck)
    | s sv => exact Bool.noConfusion (show false = true from ck)
    | il l => exact Bool.noConfusion (show false = true from ck)
    | m rows => exact Bool.noConfusion (show false = true from ck)
  · intro v hvv
    have ck := c35
    rw [hvv] at ck
    cases v with
    | s sv =>
      have hlen := of_decide_eq_true (show decide (sv.length ≤ 15) = true from ck)
      have hx : ∀ h', ((uIntentName.exec (.s sv) h').1).intent_name = sv := by
        intro h'
        have hng : ¬(sv.length > 15) := by omega
        simp [uIntentName, hng]
      have hv_intent_name : (applySteps niftiHeaderSteps d h).intent_name = sv := by
        rw [ssIntentName]
        exact applySteps_field (fun hh => hh.intent_name) sbIntentName saIntentName uIntentName d
          (.s sv) (sv) hvv hx
          (fun w hw v' h' _ => presAll_intent_name w (mem_steps_right ssIntentName hw)
            ((by decide : ∀ w ∈ saIntentName, w.key ≠ "intent_name") w hw) v' h') h
      rw [hfst, nhdr2dict_intent_name, hv_intent_name]
    | i n => exact Bool.noConfusion (show false = true from ck)
    | f q => exact Bool.noConfusion (show false = true from ck)
    | il l => exact Bool.noConfusion (show false = true from ck)
    | fl l => exact Bool.noConfusion (show false = true from ck)
    | m rows => exact Bool.noConfusion (show false = true from ck)
  · intro v hvv
    have ck := c36
    rw [hvv] at ck
    cases v with
    | s sv =>
      have hm := of_decide_eq_true (show decide (sv = "ni1" ∨ sv = "n+1") = true from ck)
      have hx : ∀ h', ((uMagic.exec (.s sv) h').1).magic = sv := by
        intro h'; rcases hm with rfl | rfl <;> simp [uMagic]
      have hv_magic : (applySteps niftiHeaderSteps d h).magic = sv := by
        rw [ssMagic]
        exact applySteps_field (fun hh => hh.magic) sbMagic saMagic uMagic d
          (.s sv) (sv) hvv hx
          (fun w hw v' h' _ => presAll_magic w (mem_steps_right ssMagic hw)
            ((by decide : ∀ w ∈ saMagic, w.key ≠ "magic") w hw) v' h') h
      rw [hfst, nhdr2dict_magic, hv_magic]
    | i n => exact Bool.noConfusion (show false = true from ck)
    | f q => exact Bool.noConfusion (show false = true from ck)
    | il l => exact Bool.noConfusion (show false = true from ck)
    | fl l => exact Bool.noConfusion (show false = true from ck)
    | m rows => exact Bool.noConfusion (show false = true from ck)

/-- C5 witness: a valid two-key patch; the patched `descrip` reads back
unchanged. -/
theorem C5_roundtrip_witness :
    validPatch [("descrip", .s "hello"), ("dim", .il [3, 4, 5, 1, 1, 1, 1, 1])] = true ∧
    dictGet (nhdr2dict (updateNiftiHeaderFromDict defaultNhdr
        [("descrip", .s "hello"), ("dim", .il [3, 4, 5, 1, 1, 1, 1, 1])]).1) "descrip" =
      some (.s "hello") :=
  ⟨by decide,
   (C5_roundtrip defaultNhdr [("descrip", .s "hello"), ("dim", .il [3, 4, 5, 1, 1, 1, 1, 1])]
      (by decide)).2.2.2.2.2.2.2.2.2.2.2.2.2.2.2.2.2.2.2.2.2.2.2.2.2.2.2.2.1 (.s "hello") (by decide)⟩

/-- C5 counterexample: a table-valid `sform` patch (a genuine 4x4 matrix)
whose read-back differs from the supplied value — row 2 comes back as a
copy of row 1 because of the `nhdr2dict` defect (C1). -/
theorem C5_counterexample :
    validPatch [("sform", .m [[0, 0, 0, 0], [1, 1, 1, 1], [2, 2, 2, 2], [0, 0, 0, 1]])] = true ∧
    (updateNiftiHeaderFromDict defaultNhdr
      [("sform", .m [[0, 0, 0, 0], [1, 1, 1, 1], [2, 2, 2, 2], [0, 0, 0, 1]])]).2 = none ∧
    dictGet (nhdr2dict (updateNiftiHeaderFromDict defaultNhdr
        [("sform", .m [[0, 0, 0, 0], [1, 1, 1, 1], [2, 2, 2, 2], [0, 0, 0, 1]])]).1) "sform" =
      some (.m [[0, 0, 0, 0], [1, 1, 1, 1], [1, 1, 1, 1], [0, 0, 0, 1]]) ∧
    HVal.m [[0, 0, 0, 0], [1, 1, 1, 1], [1, 1, 1, 1], [0, 0, 0, 1]] ≠
      .m [[0, 0, 0, 0], [1, 1, 1, 1], [2, 2, 2, 2], [0, 0, 0, 1]] := by
  decide

/-!
Claim C6 — header construction from an array (`__newFromArray`).
-/

/-- The NumPy element dtypes appearing in `numpy2nifti_dtype_map`. -/
inductive NumpyDType where
  | uint8 | int8 | uint16 | int16 | uint32 | int32 | uint64 | int64
  | float32 | float64 | complex128
  deriving DecidableEq

/-- Embedding of `NiftiFile.numpydtype2niftidtype` via
`numpy2nifti_dtype_map` (lines 48-73).  The `clibs.NIFTI_TYPE_*` codes are
constants of the external library; modelled from the spec (section 6's
datatype code table references the NIfTI-1 standard values). -/
def numpydtype2niftidtype : NumpyDType → Int
  | .uint8 => 2
  | .int8 => 256
  | .uint16 => 512
  | .int16 => 4
  | .uint32 => 768
  | .int32 => 8
  | .uint64 => 1280
  | .int64 => 1024
  | .float32 => 16
  | .float64 => 64
  | .complex128 => 1792

/-- Python list subscript assignment `l[i] = x`: `IndexError` when out of
range (negative indices do not arise at the modelled call sites). -/
def pyListSet {α : Type} (l : List α) (i : Nat) (x : α) : Except PyError (List α) :=
  if i < l.length then .ok (l.set i x) else .error .indexError

/-- Python dict assignment `d[k] = v`. -/
def dictSet (d : HDict) (k : String) (v : HVal) : HDict :=
  match d with
  | [] => [(k, v)]
  | (k', v') :: rest => if k' = k then (k, v) :: rest else (k', v') :: dictSet rest k v

/-- Line 346: `for k, v in hdr.iteritems(): hdic[k] = v`. -/
def mergeDict (hdic : HDict) (hdr : HDict) : HDict :=
  hdr.foldl (fun acc p => dictSet acc p.1 p.2) hdic

/-- Lines 358-359: `for i, s in enumerate(data.shape):
hdic['dim'][len(data.shape)-i] = s`. -/
def assignDims : List Int → Nat → Nat → List Int → Except PyError (List Int)
  | l, _, _, [] => .ok l
  | l, n, i, s :: rest =>
    match pyListSet l (n - i) s with
    | .ok l₁ => assignDims l₁ n (i + 1) rest
    | .error e => .error e

/-- Embedding of the header construction in `NiftiFile.__newFromArray`
(lines 325-385): the dimension check, the template header and its
dictionary, the merge with the caller's dictionary, the array-derived
`datatype`/`dim`/`magic` overrides, and the final
`updateNiftiHeaderFromDict` call on the template struct.  `shape` is
`data.shape` in Python order; the subsequent `clibs` steps
(`nifti_convert_nhdr2nim`, memory allocation, data copy) are external.
`arrayHdic` is the merged dictionary after the `datatype` override
(lines 343-351); `newFromArray` below performs the remaining steps. -/
def arrayHdic (dt : NumpyDType) (hdr : HDict) : HDict :=
  dictSet (mergeDict (nhdr2dict defaultNhdr) hdr)
    "datatype" (.i (numpydtype2niftidtype dt))

/-- The dictionary as it stands after the `dim` list mutations and the
`magic` override, ready for the final `updateNiftiHeaderFromDict` call. -/
def arrayFinalDict (dt : NumpyDType) (hdr : HDict) (l₂ : List Int) : HDict :=
  dictSet (dictSet (arrayHdic dt hdr) "dim" (.il l₂)) "magic" (.s "n+1")

def newFromArray (shape : List Int) (dt : NumpyDType) (hdr : HDict) :
    Except PyError NiftiHeader :=
  if shape.length > 7 then
    .error (.valueError "NIfTI does not support data with more than 7 dimensions.")
  else
    match dictGet (arrayHdic dt hdr) "dim" with
    | some (.il l) =>
      match pyListSet l 0 (shape.length : Int) with
      | .error e => .error e
      | .ok l₁ =>
        match assignDims l₁ shape.length 0 shape with
        | .error e => .error e
        | .ok l₂ =>
          match (updateNiftiHeaderFromDict defaultNhdr (arrayFinalDict dt hdr l₂)).2 with
          | none => .ok (updateNiftiHeaderFromDict defaultNhdr (arrayFinalDict dt hdr l₂)).1
          | some e => .error e
    | some _ => .error .typeError
    | none => .error .typeError

theorem dictGet_dictSet_self (d : HDict) (k : String) (v : HVal) :
    dictGet (dictSet d k v) k = some v := by
  induction d with
  | nil => simp [dictSet, dictGet]
  | cons p rest ih =>
    rcases p with ⟨k', v'⟩
    by_cases h : k' = k
    · simp [dictSet, dictGet, h]
    · simp [dictSet, dictGet, h, ih]

theorem dictGet_dictSet_ne (d : HDict) (k : String) (v : HVal) (k' : String)
    (h : ¬k' = k) : dictGet (dictSet d k v) k' = dictGet d k' := by
  have hkk' : ¬k = k' := fun he => h he.symm
  induction d with
  | nil => simp [dictSet, dictGet, hkk']
  | cons p rest ih =>
    rcases p with ⟨k₀, v₀⟩
    by_cases h0 : k₀ = k
    · subst h0
      simp [dictSet, dictGet, hkk']
    · by_cases h1 : k₀ = k'
      · simp [dictSet, dictGet, h0, h1, h]
      · simp [dictSet, dictGet, h0, h1, ih]

theorem getD_set_ne {α : Type} (l : List α) (i q : Nat) (x z : α) (h : i ≠ q) :
    (l.set i x).getD q z = l.getD q z := by
  simp [List.getD_eq_getElem?_getD, List.getElem?_set_ne h]

theorem getD_set_self {α : Type} (l : List α) (i : Nat) (x z : α) (h : i < l.length) :
    (l.set i x).getD i z = x := by
  simp [List.getD_eq_getElem?_getD, List.getElem?_set_self, h]

theorem pyListSet_ok {α : Type} (l : List α) (i : Nat) (x : α) (l₁ : List α)
    (h : pyListSet l i x = .ok l₁) : i < l.length ∧ l₁ = l.set i x := by
  unfold pyListSet at h
  split at h
  · exact ⟨by assumption, (Except.ok.inj h).symm⟩
  · exact nomatch h

/-- What the shape-assignment loop does: it writes `rest.getD k` to index
`n - (i + k)` (the indices `n - i` down to `1`), leaves index `0` and all
indices above `n - i` alone, and preserves the length. -/
theorem assignDims_spec : ∀ (rest l : List Int) (i : Nat) (l' : List Int) (n : Nat),
    i + rest.length = n → assignDims l n i rest = .ok l' →
    l'.length = l.length ∧
    (∀ q : Nat, q = 0 ∨ n - i < q → l'.getD q 0 = l.getD q 0) ∧
    (∀ k : Nat, k < rest.length → l'.getD (n - (i + k)) 0 = rest.getD k 0) := by
  intro rest
  induction rest with
  | nil =>
    intro l i l' n hi hok
    have : l = l' := Except.ok.inj hok
    subst this
    exact ⟨rfl, fun q _ => rfl, fun k hk => absurd hk (by simp)⟩
  | cons s rest ih =>
    intro l i l' n hi hok
    unfold assignDims at hok
    cases hset : pyListSet l (n - i) s with
    | error e => rw [hset] at hok; exact nomatch hok
    | ok l₁ =>
      rw [hset] at hok
      obtain ⟨hbound, rfl⟩ := pyListSet_ok l (n - i) s l₁ hset
      have hi' : (i + 1) + rest.length = n := by
        simp only [List.length_cons] at hi
        omega
      obtain ⟨hlen, hframe, hwrites⟩ := ih (l.set (n - i) s) (i + 1) l' n hi' hok
      have hni : 1 ≤ n - i := by omega
      refine ⟨by rw [hlen]; simp, ?_, ?_⟩
      · intro q hq
        have hq' : q = 0 ∨ n - (i + 1) < q := by omega
        rw [hframe q hq', getD_set_ne]
        omega
      · intro k hk
        cases k with
        | zero =>
          have h1 : n - (i + 0) = n - i := by omega
          rw [h1, hframe (n - i) (by omega), getD_set_self l (n - i) s 0 hbound]
          rfl
        | succ k' =>
          have hk' : k' < rest.length := by
            simp only [List.length_cons] at hk
            omega
          have h1 : n - (i + (k' + 1)) = n - ((i + 1) + k') := by omega
          rw [h1, hwrites k' hk']
          rfl

/-- Small helper: entry `i` of `(List.range n).map f`. -/
theorem getD_map_range {α : Type} (f : Nat → α) (n i : Nat) (z : α) (h : i < n) :
    ((List.range n).map f).getD i z = f i := by
  rw [List.getD_eq_getElem _ z (by simp [h])]
  simp

/-- C6 counterexample: constructing from a 2x3 array (shape `[2,3]`,
int16 elements, empty patch) yields `dim = [2, 3, 2, 1, 1, 1, 1, 1]` —
`dim[1] = 3` and `dim[2] = 2` hold the axis extents in reverse order
(lines 356-359 reverse them deliberately), so reading the claim as
`dim[i+1] = shape[i]` fails at `i = 0`. -/
def c6Header : NiftiHeader :=
  { defaultNhdr with datatype := 4, dim := [2, 3, 2, 1, 1, 1, 1, 1], magic := "n+1" }

theorem C6_counterexample :
    newFromArray [2, 3] NumpyDType.int16 [] = .ok c6Header ∧
    ¬(∀ i : Nat, i < 2 →
        ([2, 3, 2, 1, 1, 1, 1, 1] : List Int).getD (i + 1) 0 = ([2, 3] : List Int).getD i 0) := by
  constructor
  · decide
  · decide

/-- C6 amended: for every shape of at most 7 dimensions and every patch
for which the construction succeeds, the resulting header's `datatype` is
the array's NIfTI code, `magic` is `n+1`, `dim[0]` is the number of
dimensions, and `dim[1..dim[0]]` holds the axis extents in *reverse*
order (`dim[i+1] = shape[len-1-i]`), whatever `datatype`/`dim`/`magic`
values the patch supplied. -/
theorem C6_newFromArray (shape : List Int) (dt : NumpyDType) (hdr : HDict) (H : NiftiHeader)
    (hok : newFromArray shape dt hdr = .ok H) :
    H.datatype = numpydtype2niftidtype dt ∧
    H.magic = "n+1" ∧
    H.dim.getD 0 0 = (shape.length : Int) ∧
    ∀ i : Nat, i < shape.length →
      H.dim.getD (i + 1) 0 = shape.getD (shape.length - 1 - i) 0 := by
  unfold newFromArray at hok
  by_cases h7 : shape.length > 7
  · rw [if_pos h7] at hok; exact nomatch hok
  rw [if_neg h7] at hok
  split at hok
  all_goals try exact Except.noConfusion hok
  rename_i l hdimget
  split at hok
  all_goals try exact Except.noConfusion hok
  rename_i l₁ hset
  split at hok
  all_goals try exact Except.noConfusion hok
  rename_i l₂ hassign
  split at hok
  all_goals try exact Except.noConfusion hok
  rename_i hsnd
  · have hH : (updateNiftiHeaderFromDict defaultNhdr (arrayFinalDict dt hdr l₂)).1 = H :=
      Except.ok.inj hok
    obtain ⟨hb0, rfl⟩ := pyListSet_ok l 0 _ l₁ hset
    obtain ⟨hlen2, hframe2, hwrites2⟩ :=
      assignDims_spec shape (l.set 0 (shape.length : Int)) 0 l₂ shape.length
        (by omega) hassign
    have hfst : (updateNiftiHeaderFromDict defaultNhdr (arrayFinalDict dt hdr l₂)).1 =
        applySteps niftiHeaderSteps (arrayFinalDict dt hdr l₂) defaultNhdr :=
      runSteps_ok_fst niftiHeaderSteps (arrayFinalDict dt hdr l₂) defaultNhdr hsnd
    have hdimfin : dictGet (arrayFinalDict dt hdr l₂) "dim" = some (.il l₂) := by
      rw [arrayFinalDict, dictGet_dictSet_ne _ _ _ _ (by decide), dictGet_dictSet_self]
    have hdtfin : dictGet (arrayFinalDict dt hdr l₂) "datatype" =
        some (.i (numpydtype2niftidtype dt)) := by
      rw [arrayFinalDict, dictGet_dictSet_ne _ _ _ _ (by decide),
        dictGet_dictSet_ne _ _ _ _ (by decide), arrayHdic, dictGet_dictSet_self]
    have hmagfin : dictGet (arrayFinalDict dt hdr l₂) "magic" = some (.s "n+1") :=
      dictGet_dictSet_self _ _ _
    have hlen8 : ¬(l₂.length < 8) := by
      obtain ⟨h', hx2⟩ := runSteps_ok_checks niftiHeaderSteps (arrayFinalDict dt hdr l₂)
        defaultNhdr hsnd uDim (by simp [niftiHeaderSteps]) (.il l₂)
        (show dictGet (arrayFinalDict dt hdr l₂) uDim.key = some (.il l₂) from hdimfin)
      intro hc
      simp [uDim, hc] at hx2
    have hdatatype : (applySteps niftiHeaderSteps (arrayFinalDict dt hdr l₂)
        defaultNhdr).datatype = numpydtype2niftidtype dt := by
      rw [ssDatatype]
      exact applySteps_field (fun hh => hh.datatype) sbDatatype saDatatype uDatatype
        (arrayFinalDict dt hdr l₂) (.i (numpydtype2niftidtype dt))
        (numpydtype2niftidtype dt) hdtfin (fun h' => by simp [uDatatype])
        (fun w hw v' h' _ => presAll_datatype w (mem_steps_right ssDatatype hw)
          ((by decide : ∀ w ∈ saDatatype, w.key ≠ "datatype") w hw) v' h') defaultNhdr
    have hmagicF : (applySteps niftiHeaderSteps (arrayFinalDict dt hdr l₂)
        defaultNhdr).magic = "n+1" := by
      rw [ssMagic]
      exact applySteps_field (fun hh => hh.magic) sbMagic saMagic uMagic
        (arrayFinalDict dt hdr l₂) (.s "n+1") "n+1" hmagfin
        (fun h' => by simp [uMagic])
        (fun w hw v' h' _ => presAll_magic w (mem_steps_right ssMagic hw)
          ((by decide : ∀ w ∈ saMagic, w.key ≠ "magic") w hw) v' h') defaultNhdr
    have hdimF : (applySteps niftiHeaderSteps (arrayFinalDict dt hdr l₂)
        defaultNhdr).dim = (List.range 8).map (fun i => l₂.getD i 0) := by
      rw [ssDim]
      refine applySteps_field (fun hh => hh.dim) sbDim saDim uDim
        (arrayFinalDict dt hdr l₂) (.il l₂)
        ((List.range 8).map (fun i => l₂.getD i 0)) hdimfin ?_
        (fun w hw v' h' _ => presAll_dim w (mem_steps_right ssDim hw)
          ((by decide : ∀ w ∈ saDim, w.key ≠ "dim") w hw) v' h') defaultNhdr
      intro h'
      simp only [uDim]
      refine List.map_congr_left fun i hi => ?_
      have hi8 := List.mem_range.mp hi
      rw [if_pos (by omega)]
    rw [← hH, hfst]
    refine ⟨hdatatype, hmagicF, ?_, ?_⟩
    · rw [hdimF, getD_map_range _ 8 0 0 (by omega)]
      rw [hframe2 0 (Or.inl rfl), getD_set_self l 0 _ 0 hb0]
    · intro i hi
      rw [hdimF, getD_map_range _ 8 (i + 1) 0 (by omega)]
      rw [show i + 1 = shape.length - (0 + (shape.length - 1 - i)) from by omega]
      exact hwrites2 (shape.length - 1 - i) (by omega)

/-- C6 witness: the amended statement at the concrete 2x3 int16 array. -/
theorem C6_newFromArray_witness :
    c6Header.datatype = numpydtype2niftidtype NumpyDType.int16 ∧
    c6Header.dim.getD (0 + 1) 0 = ([2, 3] : List Int).getD (2 - 1 - 0) 0 := by
  have h := C6_newFromArray [2, 3] NumpyDType.int16 [] c6Header (by decide)
  exact ⟨h.1, h.2.2.2 0 (by decide)⟩

/-! ### C4: qform recomputation on quaternion/offset/voxdim mutation

`setQuaternion`, `setQOffset`, `setVoxDims` and `setQFac` (lines 583-598
and 780-828) store their arguments and call `updateQFormFromQuaternion`
(lines 764-777), which rebuilds `qto_xyz` with
`clibs.nifti_quatern_to_mat44` and `qto_ijk` with
`clibs.nifti_mat44_inverse`.  The two clib functions are external C code
not present in `src/`; they are modelled here from the spec (section
"GeometryMath": `quaternionToAffine` with
`qa = sqrt(max(0, 1 - qb^2 - qc^2 - qd^2))`, the standard quaternion
rotation matrix with columns scaled by the voxel spacings, the third
column negated when `qfac` is negative, translation `(qx,qy,qz)` and
fixed bottom row `[0,0,0,1]`; and the 4x4 affine inverse).  Matrices are
lists of rows over the rationals; the square root is exact on the
perfect squares the claims evaluate it at. -/

/-- Rational square root, exact on perfect squares (stands in for the
floating-point `sqrt` of the clib). -/
def ratSqrt (x : ℚ) : ℚ := (Nat.sqrt x.num.toNat : ℚ) / (Nat.sqrt x.den : ℚ)

/-- Entry `(i, j)` of a row-list matrix. -/
def mget (m : List (List ℚ)) (i j : Nat) : ℚ := (m.getD i []).getD j 0

/-- Modelled from the spec: `quaternionToAffine` — rebuild the real part
`qa = sqrt(max(0, 1 - qb^2 - qc^2 - qd^2))`, form the quaternion rotation
matrix, scale its columns by `(dx, dy, dz)` with the third column negated
when `qfac` is negative, put the offsets in the last column and fix the
bottom row to `[0,0,0,1]`. -/
def nifti_quatern_to_mat44 (qb qc qd qx qy qz dx dy dz qfac : ℚ) :
    List (List ℚ) :=
  let a := ratSqrt (max 0 (1 - qb ^ 2 - qc ^ 2 - qd ^ 2))
  let b := qb
  let c := qc
  let d := qd
  let zd := if qfac < 0 then -dz else dz
  [[(a * a + b * b - c * c - d * d) * dx, (2 * b * c - 2 * a * d) * dy,
      (2 * b * d + 2 * a * c) * zd, qx],
   [(2 * b * c + 2 * a * d) * dx, (a * a + c * c - b * b - d * d) * dy,
      (2 * c * d - 2 * a * b) * zd, qy],
   [(2 * b * d - 2 * a * c) * dx, (2 * c * d + 2 * a * b) * dy,
      (a * a + d * d - b * b - c * c) * zd, qz],
   [0, 0, 0, 1]]

/-- Modelled from the spec: 4x4 inverse of an affine matrix — cofactor
inverse of the upper-left 3x3 block, the matching transformed offsets in
the last column, bottom row `[0,0,0,1]`; on a singular block every entry
is zero. -/
def nifti_mat44_inverse (m : List (List ℚ)) : List (List ℚ) :=
  let r11 := mget m 0 0
  let r12 := mget m 0 1
  let r13 := mget m 0 2
  let v1 := mget m 0 3
  let r21 := mget m 1 0
  let r22 := mget m 1 1
  let r23 := mget m 1 2
  let v2 := mget m 1 3
  let r31 := mget m 2 0
  let r32 := mget m 2 1
  let r33 := mget m 2 2
  let v3 := mget m 2 3
  let det := r11 * r22 * r33 - r11 * r32 * r23 - r21 * r12 * r33 +
    r21 * r32 * r13 + r31 * r12 * r23 - r31 * r22 * r13
  let deti := if det = 0 then 0 else 1 / det
  [[deti * (r22 * r33 - r32 * r23), deti * (-r12 * r33 + r32 * r13),
      deti * (r12 * r23 - r22 * r13),
      deti * (-r12 * r23 * v3 + r12 * v2 * r33 + r22 * r13 * v3 -
        r22 * v1 * r33 - r32 * r13 * v2 + r32 * v1 * r23)],
   [deti * (-r21 * r33 + r31 * r23), deti * (r11 * r33 - r31 * r13),
      deti * (-r11 * r23 + r21 * r13),
      deti * (r11 * r23 * v3 - r11 * v2 * r33 - r21 * r13 * v3 +
        r21 * v1 * r33 + r31 * r13 * v2 - r31 * v1 * r23)],
   [deti * (r21 * r32 - r31 * r22), deti * (-r11 * r32 + r31 * r12),
      deti * (r11 * r22 - r21 * r12),
      deti * (-r11 * r22 * v3 + r11 * v2 * r32 + r21 * r12 * v3 -
        r21 * v1 * r32 - r31 * r12 * v2 + r31 * v1 * r22)],
   [0, 0, 0, if det = 0 then 0 else 1]]

/-- The slice of the `nifti_image` struct that the quaternion setters
touch (lines 583-598, 764-828). -/
structure ImageSession where
  quatern_b : ℚ
  quatern_c : ℚ
  quatern_d : ℚ
  qoffset_x : ℚ
  qoffset_y : ℚ
  qoffset_z : ℚ
  dx : ℚ
  dy : ℚ
  dz : ℚ
  qfac : ℚ
  qto_xyz : List (List ℚ)
  qto_ijk : List (List ℚ)
deriving DecidableEq

/-- `updateQFormFromQuaternion` (lines 764-777).  Faithful to line 770:
the call passes `self.__nimg.quatern_b` for all three quaternion
arguments — `quatern_c` and `quatern_d` are never read. -/
def updateQFormFromQuaternion (s : ImageSession) : ImageSession :=
  let m := nifti_quatern_to_mat44 s.quatern_b s.quatern_b s.quatern_b
    s.qoffset_x s.qoffset_y s.qoffset_z s.dx s.dy s.dz s.qfac
  { s with qto_xyz := m, qto_ijk := nifti_mat44_inverse m }

/-- `setQuaternion` (lines 780-792). -/
def setQuaternion (s : ImageSession) (value : List ℚ) :
    Except PyError ImageSession :=
  if value.length ≠ 3 then .error (.valueError "Requires 3-tuple.")
  else
    .ok (updateQFormFromQuaternion
      { s with quatern_b := value.getD 0 0, quatern_c := value.getD 1 0,
               quatern_d := value.getD 2 0 })

/-- `setQOffset` (lines 801-813). -/
def setQOffset (s : ImageSession) (value : List ℚ) :
    Except PyError ImageSession :=
  if value.length ≠ 3 then .error (.valueError "Requires 3-tuple.")
  else
    .ok (updateQFormFromQuaternion
      { s with qoffset_x := value.getD 0 0, qoffset_y := value.getD 1 0,
               qoffset_z := value.getD 2 0 })

/-- `setVoxDims` (lines 583-598). -/
def setVoxDims (s : ImageSession) (value : List ℚ) :
    Except PyError ImageSession :=
  if value.length ≠ 3 then .error (.valueError "Requires 3-tuple.")
  else
    .ok (updateQFormFromQuaternion
      { s with dx := value.getD 0 0, dy := value.getD 1 0,
               dz := value.getD 2 0 })

/-- `setQFac` (lines 822-828). -/
def setQFac (s : ImageSession) (value : ℚ) : ImageSession :=
  updateQFormFromQuaternion { s with qfac := value }

/-- A plain session: zero quaternion and offsets, unit spacings,
`qfac = 1`, identity stored affines. -/
def c4Session : ImageSession :=
  { quatern_b := 0, quatern_c := 0, quatern_d := 0,
    qoffset_x := 0, qoffset_y := 0, qoffset_z := 0,
    dx := 1, dy := 1, dz := 1, qfac := 1,
    qto_xyz := [[1, 0, 0, 0], [0, 1, 0, 0], [0, 0, 1, 0], [0, 0, 0, 1]],
    qto_ijk := [[1, 0, 0, 0], [0, 1, 0, 0], [0, 0, 1, 0], [0, 0, 0, 1]] }

/-- The session after `setQuaternion((0, 1, 0))` on `c4Session`: the
components are stored, but the rebuilt affine used `(qb, qb, qb) =
(0, 0, 0)`, so the stored `qto_xyz` is the identity-scaled matrix. -/
def c4After : ImageSession :=
  { quatern_b := 0, quatern_c := 1, quatern_d := 0,
    qoffset_x := 0, qoffset_y := 0, qoffset_z := 0,
    dx := 1, dy := 1, dz := 1, qfac := 1,
    qto_xyz := [[1, 0, 0, 0], [0, 1, 0, 0], [0, 0, 1, 0], [0, 0, 0, 1]],
    qto_ijk := [[1, 0, 0, 0], [0, 1, 0, 0], [0, 0, 1, 0], [0, 0, 0, 1]] }

/-- C4: the claim fails on the code.  `setQuaternion((0, 1, 0))` stores
the quaternion components `(0, 1, 0)`, but the stored qform affine is
NOT the quaternion-to-affine construction applied to the session's
current components: line 770 of `updateQFormFromQuaternion` passes
`quatern_b` three times to `nifti_quatern_to_mat44`, so the affine is
rebuilt from `(0, 0, 0)` (the identity rotation) instead of `(0, 1, 0)`
(a half-turn, whose affine has `-1` at entry `(0, 0)`). -/
theorem C4_qform_quaternion_bug :
    setQuaternion c4Session [0, 1, 0] = .ok c4After ∧
    c4After.quatern_b = 0 ∧ c4After.quatern_c = 1 ∧ c4After.quatern_d = 0 ∧
    c4After.qto_xyz ≠ nifti_quatern_to_mat44 c4After.quatern_b
      c4After.quatern_c c4After.quatern_d c4After.qoffset_x c4After.qoffset_y
      c4After.qoffset_z c4After.dx c4After.dy c4After.dz c4After.qfac := by
  refine ⟨?_, rfl, rfl, rfl, ?_⟩
  · rw [setQuaternion, if_neg (by decide)]
    congr 1
    simp only [updateQFormFromQuaternion, nifti_quatern_to_mat44,
      nifti_mat44_inverse, mget, c4Session, c4After]
    norm_num [ratSqrt]
  · intro heq
    have h00 := congrArg (fun m => mget m 0 0) heq
    simp only [nifti_quatern_to_mat44, mget, c4After] at h00
    norm_num [ratSqrt] at h00
